import Mathlib

/-!
# Object tracker and object detection counter: embedding and properties

Shallow embedding of `object_tracker.h` and `object_detection_counter.h`.

Conventions of the embedding.

* C `float` values are rationals and float arithmetic is read as exact (`0.9f` is 9/10),
  except in `odc_get_entry_side`: its four differences are rounded to float32 by `f32_round`,
  because the `==` tests on the distances depend on the rounding. A float32 value is a
  rational `q` with `f32_round q = q`; the float32 value of a decimal `c` is `f32_round c`.
* C `int` values are mathematical integers: signed overflow is undefined in C and
  the embedding describes the executions in which it does not occur.
* The sizes `max_detections`, `confidence_count` and `max_tracks`, which the code uses as
  loop bounds and array sizes, are natural numbers; a row index `confidence_count - 2` is
  read with `confidence_count ≥ 2`.
* C arrays and tensors are functions from the index to the element, an assignment
  `a[i] = v` is `setAt a i v`. An index outside the array is outside the embedding.
* A loop `for (i = 0; i < n; i++) body` is `forLoop n body`; a search loop that leaves with
  `break` at the first hit is `List.find?` over `List.range n`.
* An `int` that the code only writes as 0 / 1 and only tests for being non-zero
  (`active`, `is_active`, the matched arrays) is a `Bool`.
* A pointer result that may be NULL, or an index with the sentinel -1, is an `Option`.
* The wall clock read by the counter is an input of the step.
-/

set_option linter.unusedVariables false
set_option maxRecDepth 100000

namespace Imaginet

/-! ## Shared helpers -/

/-- The loop `for (i = 0; i < n; i++) s = body i s`, run from the state `s`. -/
def forLoop {σ : Type} (n : Nat) (body : Nat → σ → σ) (s : σ) : σ :=
  match n with
  | 0 => s
  | k + 1 => body k (forLoop k body s)

/-- The array assignment `a[i] = v`. -/
def setAt {α : Type} (a : Nat → α) (i : Nat) (v : α) : Nat → α :=
  fun j => if j = i then v else a j

/-- The C conversion `(int)f` of a float: truncation toward zero. -/
def float_to_int (f : ℚ) : Int := Int.tdiv f.num (f.den : Int)

/-- The spacing of the float32 values around `a > 0`: 2^(e - 23) when 2^e ≤ a < 2^(e + 1),
and 2^(-149) for the subnormal values below 2^(-126). The search starts with the spacing
2^(-23) of [1, 2) and halves or doubles `a` and the spacing together; 300 steps of `fuel`
cover every exponent of the format. -/
def f32_spacing : Nat → ℚ → ℚ → ℚ
  | 0, _, u => u
  | fuel + 1, a, u =>
    if 2 ≤ a then f32_spacing fuel (a / 2) (u * 2)
    else if a < 1 ∧ 1 / 713623846352979940529142984724747568191373312 < u then
      f32_spacing fuel (a * 2) (u / 2)
    else u

/-- Rounding to the nearest integer, a tie going to the even one. -/
def round_half_even (m : ℚ) : Int :=
  if m - (⌊m⌋ : ℚ) < 1 / 2 then ⌊m⌋
  else if 1 / 2 < m - (⌊m⌋ : ℚ) then ⌊m⌋ + 1
  else if ⌊m⌋ % 2 = 0 then ⌊m⌋
  else ⌊m⌋ + 1

/-- The float32 result of an operation whose exact result is `q`: the nearest multiple of
the spacing around `q`, a tie going to the even mantissa (IEEE 754 round to nearest even,
the default mode). Results beyond the largest float32 value, which C turns into an
infinity, are outside the embedding. -/
def f32_round (q : ℚ) : ℚ :=
  (round_half_even (q / f32_spacing 300 |q| (1 / 8388608)) : ℚ)
    * f32_spacing 300 |q| (1 / 8388608)

/-! ## object_tracker.h, f32 -/

def TRACKS_ARRAY_SIZE : Nat := 50
def TRACKING_CONFIDENCE_DECAY : ℚ := 9 / 10
def NEW_TRACK_CONFIDENCE : ℚ := 1
def MAX_TRACK_ID : Int := 127

/-- The struct `ObjectTrack`. -/
structure ObjectTrack where
  x : ℚ
  y : ℚ
  w : ℚ
  h : ℚ
  confidence : ℚ
  class_id : Int
  track_id : Int
  age : Int
  hits : Int
  active : Bool
  tracking_confidence : ℚ
  deriving DecidableEq

/-- The struct `ObjectTrackerState`. -/
structure ObjectTrackerState where
  tracks : Nat → ObjectTrack
  next_track_id : Int
  tracker_initialized : Int

/-- One row `detection_data[d]`: x, y, w, h, confidence, class id (stored as a float). -/
structure Detection where
  x : ℚ
  y : ℚ
  w : ℚ
  h : ℚ
  confidence : ℚ
  class_id : ℚ
  deriving DecidableEq

/-- `object_tracker_init_f32`: the loop over the `TRACKS_ARRAY_SIZE` slots (its parameter
`max_tracks` is not used). The text of `object_tracker_init_i8` is the same. -/
def object_tracker_init_f32 (state : ObjectTrackerState) : ObjectTrackerState :=
  { tracks := forLoop TRACKS_ARRAY_SIZE
      (fun i tr => setAt tr i { tr i with active := false, track_id := -1, age := 0, hits := 0 })
      state.tracks
    next_track_id := 1
    tracker_initialized := 1 }

/-- `get_detection_value`: element (conf_idx, det_idx) of the row-major tensor. -/
def get_detection_value (detections : Nat → ℚ) (max_detections confidence_count : Nat)
    (conf_idx det_idx : Nat) : ℚ :=
  detections (conf_idx * max_detections + det_idx)

/-- `set_output_value`: writes element (conf_idx, det_idx) of the output tensor. -/
def set_output_value (output : Nat → ℚ) (max_detections output_conf_count : Nat)
    (conf_idx det_idx : Nat) (value : ℚ) : Nat → ℚ :=
  setAt output (conf_idx * max_detections + det_idx) value

/-- `calculate_iou` of two center-form boxes. -/
def calculate_iou (x1 y1 w1 h1 x2 y2 w2 h2 : ℚ) : ℚ :=
  let left1 := x1 - w1 * (1 / 2)
  let top1 := y1 - h1 * (1 / 2)
  let right1 := x1 + w1 * (1 / 2)
  let bottom1 := y1 + h1 * (1 / 2)
  let left2 := x2 - w2 * (1 / 2)
  let top2 := y2 - h2 * (1 / 2)
  let right2 := x2 + w2 * (1 / 2)
  let bottom2 := y2 + h2 * (1 / 2)
  let inter_left := max left1 left2
  let inter_top := max top1 top2
  let inter_right := min right1 right2
  let inter_bottom := min bottom1 bottom2
  if inter_right ≤ inter_left ∨ inter_bottom ≤ inter_top then 0
  else
    let inter_area := (inter_right - inter_left) * (inter_bottom - inter_top)
    let area1 := w1 * h1
    let area2 := w2 * h2
    let union_area := area1 + area2 - inter_area
    if union_area > 0 then inter_area / union_area else 0

/-- The inner loop of `extract_detections` over the class rows `j = 4 .. confidence_count - 1`
of column `i`: the pair (confidence, class_id), started at (0, -1). -/
def best_class (detections : Nat → ℚ) (max_detections confidence_count i : Nat) : ℚ × Int :=
  forLoop (confidence_count - 4)
    (fun k acc =>
      let j := k + 4
      let class_conf := get_detection_value detections max_detections confidence_count j i
      if class_conf > acc.1 then (class_conf, (j : Int) - 4) else acc)
    (0, -1)

/-- `extract_detections`: the filled rows of `detection_data` and `valid_detections`. -/
def extract_detections (detections : Nat → ℚ) (max_detections confidence_count : Nat)
    (detection_data : Nat → Detection) : (Nat → Detection) × Nat :=
  forLoop max_detections
    (fun i acc =>
      let bc := best_class detections max_detections confidence_count i
      if bc.1 > 0 ∨ bc.2 ≥ 0 then
        (setAt acc.1 acc.2
          { x := get_detection_value detections max_detections confidence_count 0 i
            y := get_detection_value detections max_detections confidence_count 1 i
            w := get_detection_value detections max_detections confidence_count 2 i
            h := get_detection_value detections max_detections confidence_count 3 i
            confidence := bc.1
            class_id := (bc.2 : ℚ) },
         acc.2 + 1)
      else acc)
    (detection_data, 0)

/-- The scan `for (t = 0; t < max_tracks; t++)` of `perform_tracking_association` for one
detection: the pair (best_iou, best_track), `none` standing for `best_track = -1`. -/
def find_best_track (tracks : Nat → ObjectTrack) (track_matched : Nat → Bool) (D : Detection)
    (max_tracks : Nat) (tracking_threshold : ℚ) : ℚ × Option Nat :=
  forLoop max_tracks
    (fun t acc =>
      if !(tracks t).active || track_matched t then acc
      else if (tracks t).class_id ≠ float_to_int D.class_id then acc
      else
        let iou := calculate_iou D.x D.y D.w D.h
          (tracks t).x (tracks t).y (tracks t).w (tracks t).h
        if iou > acc.1 ∧ iou > tracking_threshold then (iou, some t) else acc)
    (0, none)

/-- The tracker state together with the two matching arrays of a step. -/
structure Association where
  state : ObjectTrackerState
  detection_matched : Nat → Bool
  track_matched : Nat → Bool

/-- The body of the detection loop of `perform_tracking_association` for detection `d`. -/
def associate_detection (detection_data : Nat → Detection) (max_tracks : Nat)
    (tracking_threshold : ℚ) (d : Nat) (a : Association) : Association :=
  if a.detection_matched d then a
  else
    match find_best_track a.state.tracks a.track_matched (detection_data d) max_tracks
        tracking_threshold with
    | (_, none) => a
    | (best_iou, some best_track) =>
      { state :=
          { a.state with
            tracks := setAt a.state.tracks best_track
              { a.state.tracks best_track with
                x := (detection_data d).x
                y := (detection_data d).y
                w := (detection_data d).w
                h := (detection_data d).h
                confidence := (detection_data d).confidence
                age := 0
                hits := (a.state.tracks best_track).hits + 1
                tracking_confidence := best_iou } }
        detection_matched := setAt a.detection_matched d true
        track_matched := setAt a.track_matched best_track true }

/-- `perform_tracking_association`: the matching arrays are cleared, then the detections are
matched greedily in index order. -/
def perform_tracking_association (state : ObjectTrackerState) (detection_data : Nat → Detection)
    (valid_detections max_tracks : Nat) (tracking_threshold : ℚ)
    (detection_matched track_matched : Nat → Bool) : Association :=
  forLoop valid_detections (associate_detection detection_data max_tracks tracking_threshold)
    { state := state
      detection_matched := forLoop valid_detections (fun i m => setAt m i false) detection_matched
      track_matched := forLoop max_tracks (fun i m => setAt m i false) track_matched }

/-- The slot search of `create_new_tracks`: the first `t < max_tracks` whose slot is not
active, `none` standing for `empty_slot = -1`. -/
def find_empty_slot (tracks : Nat → ObjectTrack) (max_tracks : Nat) : Option Nat :=
  (List.range max_tracks).find? (fun t => !(tracks t).active)

/-- The body of the loop of `create_new_tracks` for detection `d`. -/
def create_track (detection_data : Nat → Detection) (max_tracks : Nat)
    (detection_matched : Nat → Bool) (d : Nat) (state : ObjectTrackerState) :
    ObjectTrackerState :=
  if detection_matched d then state
  else
    match find_empty_slot state.tracks max_tracks with
    | none => state
    | some empty_slot =>
      let new_track_id := state.next_track_id
      let next := state.next_track_id + 1
      { state with
        next_track_id := if next > MAX_TRACK_ID then 1 else next
        tracks := setAt state.tracks empty_slot
          { x := (detection_data d).x
            y := (detection_data d).y
            w := (detection_data d).w
            h := (detection_data d).h
            confidence := (detection_data d).confidence
            class_id := float_to_int (detection_data d).class_id
            track_id := new_track_id
            age := 0
            hits := 1
            active := true
            tracking_confidence := NEW_TRACK_CONFIDENCE } }

/-- `create_new_tracks`: every unmatched detection is installed in the first empty slot. -/
def create_new_tracks (state : ObjectTrackerState) (detection_data : Nat → Detection)
    (valid_detections max_tracks : Nat) (detection_matched : Nat → Bool) : ObjectTrackerState :=
  forLoop valid_detections (create_track detection_data max_tracks detection_matched) state

/-- The body of the loop of `update_track_lifecycle` for slot `t`. -/
def age_track (max_age : Int) (track_matched : Nat → Bool) (t : Nat)
    (state : ObjectTrackerState) : ObjectTrackerState :=
  if !(state.tracks t).active then state
  else if !track_matched t then
    let aged : ObjectTrack :=
      { state.tracks t with
        age := (state.tracks t).age + 1
        tracking_confidence := (state.tracks t).tracking_confidence * TRACKING_CONFIDENCE_DECAY }
    if aged.age > max_age then
      { state with
        tracks := setAt state.tracks t
          { x := 0, y := 0, w := 0, h := 0, confidence := 0, class_id := -1, track_id := -1,
            age := 0, hits := 0, active := false, tracking_confidence := 0 } }
    else { state with tracks := setAt state.tracks t aged }
  else state

/-- `update_track_lifecycle`: unmatched active tracks are aged and expired. -/
def update_track_lifecycle (state : ObjectTrackerState) (max_tracks : Nat) (max_age : Int)
    (track_matched : Nat → Bool) : ObjectTrackerState :=
  forLoop max_tracks (age_track max_age track_matched) state

/-- The common text of `generate_tracking_output` and `generate_tracking_output_i8`, body of
the loop `for (t = 0; t < max_tracks && output_count < max_detections; t++)`. The two
functions differ only in the cell type, in the way a float is stored in a cell (`enc`) and
in the value written for the track id (`enc_id`). The loop state is (output, output_count);
once `output_count` reaches `max_detections` the loop has ended and nothing more is written. -/
def emit_track {α : Type} (enc : ℚ → α) (enc_id : Int → α) (state : ObjectTrackerState)
    (max_detections confidence_count : Nat) (min_hits : Int) (t : Nat)
    (acc : (Nat → α) × Nat) : (Nat → α) × Nat :=
  if ¬ acc.2 < max_detections then acc
  else if !(state.tracks t).active || (state.tracks t).hits < min_hits then acc
  else
    let o0 := setAt acc.1 (0 * max_detections + acc.2) (enc (state.tracks t).x)
    let o1 := setAt o0 (1 * max_detections + acc.2) (enc (state.tracks t).y)
    let o2 := setAt o1 (2 * max_detections + acc.2) (enc (state.tracks t).w)
    let o3 := setAt o2 (3 * max_detections + acc.2) (enc (state.tracks t).h)
    let o4 := forLoop (confidence_count - 4)
      (fun k o =>
        let j := k + 4
        let conf_value : ℚ :=
          if (j : Int) - 4 = (state.tracks t).class_id then (state.tracks t).confidence else 0
        setAt o (j * max_detections + acc.2) (enc conf_value))
      o3
    let o5 := setAt o4 (confidence_count * max_detections + acc.2)
      (enc_id (state.tracks t).track_id)
    let o6 := setAt o5 ((confidence_count + 1) * max_detections + acc.2)
      (enc (state.tracks t).tracking_confidence)
    (o6, acc.2 + 1)

/-- The common text of `generate_tracking_output` and `generate_tracking_output_i8`: the
buffer of `max_detections * (confidence_count + 2)` cells is filled with `fill`, then the
confirmed tracks are written in slot order. -/
def emit_tracks {α : Type} (enc : ℚ → α) (enc_id : Int → α) (fill : α)
    (state : ObjectTrackerState) (output : Nat → α) (max_detections confidence_count : Nat)
    (max_tracks : Nat) (min_hits : Int) : (Nat → α) × Nat :=
  forLoop max_tracks (emit_track enc enc_id state max_detections confidence_count min_hits)
    (forLoop (max_detections * (confidence_count + 2)) (fun i o => setAt o i fill) output, 0)

/-- `generate_tracking_output`: cells are floats, stored as they are, the fill is 0.0 and
the track id is written as `(float)track_id`. -/
def generate_tracking_output (state : ObjectTrackerState) (output : Nat → ℚ)
    (max_detections confidence_count max_tracks : Nat) (min_hits : Int) : Nat → ℚ :=
  (emit_tracks (fun v => v) (fun i => (i : ℚ)) 0 state output max_detections confidence_count
    max_tracks min_hits).1

/-- The content of the local array `detection_data` before `extract_detections` fills it
(it is not initialised in C and no row is read before it is written): zero rows. -/
def unwritten_rows : Nat → Detection :=
  fun _ => { x := 0, y := 0, w := 0, h := 0, confidence := 0, class_id := 0 }

/-- `object_tracker_f32`: one tracker step, giving the new state and the output tensor. The
local arrays start with arbitrary content, here zero rows and cleared flags. -/
def object_tracker_f32 (detections : Nat → ℚ) (state : ObjectTrackerState) (output : Nat → ℚ)
    (max_detections confidence_count : Nat) (tracking_threshold : ℚ) (max_tracks : Nat)
    (max_age min_hits : Int) : ObjectTrackerState × (Nat → ℚ) :=
  let ex := extract_detections detections max_detections confidence_count unwritten_rows
  let a := perform_tracking_association state ex.1 ex.2 max_tracks tracking_threshold
    (fun _ => false) (fun _ => false)
  let s3 := create_new_tracks a.state ex.1 ex.2 max_tracks a.detection_matched
  let s4 := update_track_lifecycle s3 max_tracks max_age a.track_matched
  (s4, generate_tracking_output s4 output max_detections confidence_count max_tracks min_hits)

/-! ## object_tracker.h, i8 -/

/-- The conversion of an integer to `int8_t`. A float whose truncation is outside
[-128, 127] has no defined conversion in C; the embedding takes the two's complement wrap. -/
def wrap_int8 (n : Int) : Int := (n + 128) % 256 - 128

/-- `get_detection_value_i8`: the byte of element (conf_idx, det_idx), decoded. -/
def get_detection_value_i8 (detections : Nat → Int) (max_detections confidence_count : Nat)
    (conf_idx det_idx : Nat) : ℚ :=
  ((detections (conf_idx * max_detections + det_idx) : ℚ) + 128) / 255

/-- `float_to_int8`: the byte that encodes a float. -/
def float_to_int8 (value : ℚ) : Int :=
  let int8_val := wrap_int8 (float_to_int (value * 255 - 128))
  if int8_val > 127 then 127
  else if int8_val < -128 then -128
  else int8_val

/-- `generate_tracking_output_i8`: cells are bytes, a float is stored by `float_to_int8`, the
fill is -128 and the track id is stored as `float_to_int8 (track_id / 127)`. -/
def generate_tracking_output_i8 (state : ObjectTrackerState) (output : Nat → Int)
    (max_detections confidence_count max_tracks : Nat) (min_hits : Int) : Nat → Int :=
  (emit_tracks float_to_int8 (fun i => float_to_int8 ((i : ℚ) / (MAX_TRACK_ID : ℚ))) (-128)
    state output max_detections confidence_count max_tracks min_hits).1

/-! ## object_detection_counter.h

The wall clock is an input of a step: `current_time` is what `time` returns and
`local_time` is the `tm_hour` of what `localtime` returns, `none` when it returns no
result. -/

def MAX_TRACKED_OBJECTS : Nat := 200
def POSITION_HISTORY_SIZE : Nat := 10
def CLEANUP_INTERVAL_FRAMES : Int := 10
def TRACKER_EXPIRY_FRAMES : Int := 30

/-- The enum `CrossingType`. -/
inductive CrossingType where
  | CROSSING_NONE
  | CROSSING_IN
  | CROSSING_OUT
  deriving DecidableEq

/-- The enum `RegionState`. -/
inductive RegionState where
  | REGION_STATE_OUTSIDE
  | REGION_STATE_INSIDE
  | REGION_STATE_ENTERED_FROM_LEFT
  | REGION_STATE_ENTERED_FROM_RIGHT
  | REGION_STATE_ENTERED_FROM_TOP
  | REGION_STATE_ENTERED_FROM_BOTTOM
  deriving DecidableEq

open CrossingType RegionState

/-- The integer value of an enumerator of `RegionState`. -/
def RegionState.toInt : RegionState → Int
  | REGION_STATE_OUTSIDE => 0
  | REGION_STATE_INSIDE => 1
  | REGION_STATE_ENTERED_FROM_LEFT => 2
  | REGION_STATE_ENTERED_FROM_RIGHT => 3
  | REGION_STATE_ENTERED_FROM_TOP => 4
  | REGION_STATE_ENTERED_FROM_BOTTOM => 5

def DIRECTION_FROM_TOP_LEFT : Int := 0
def DIRECTION_FROM_TOP_RIGHT : Int := 1
def DIRECTION_FROM_BOTTOM_LEFT : Int := 2
def DIRECTION_FROM_BOTTOM_RIGHT : Int := 3

/-- The struct `ObjectTracker` of the counter (a counter-tracker). -/
structure ObjectTracker where
  x_history : Nat → ℚ
  y_history : Nat → ℚ
  history_count : Int
  track_id : Int
  last_seen_frame : Int
  is_active : Bool
  region_state : RegionState

/-- The struct `CountingRegion`; `in_direction` keeps the integer it was cast from. -/
structure CountingRegion where
  x1 : ℚ
  y1 : ℚ
  x2 : ℚ
  y2 : ℚ
  min_x : ℚ
  max_x : ℚ
  min_y : ℚ
  max_y : ℚ
  in_direction : Int

/-- The struct `ObjectDetectionCounterState`. -/
structure ObjectDetectionCounterState where
  tracked_objects : Nat → ObjectTracker
  global_frame_counter : Int
  global_in_count : Int
  global_out_count : Int
  tracking_initialized : Int
  last_reset_hour : Int
  last_reset_check : Int

/-- A counter-tracker after `memset(tracker, 0, sizeof(ObjectTracker))`. -/
def zeroed_tracker : ObjectTracker :=
  { x_history := fun _ => 0
    y_history := fun _ => 0
    history_count := 0
    track_id := 0
    last_seen_frame := 0
    is_active := false
    region_state := REGION_STATE_OUTSIDE }

/-- `object_detection_counter_init_f32` (the text of `object_detection_counter_init_i8` is
the same). -/
def object_detection_counter_init_f32 (state : ObjectDetectionCounterState) :
    ObjectDetectionCounterState :=
  { tracked_objects :=
      forLoop MAX_TRACKED_OBJECTS (fun i o => setAt o i zeroed_tracker) state.tracked_objects
    global_frame_counter := 0
    global_in_count := 0
    global_out_count := 0
    tracking_initialized := 1
    last_reset_hour := -1
    last_reset_check := 0 }

/-- `odc_get_detection_value`. -/
def odc_get_detection_value (tracked_detections : Nat → ℚ) (max_detections confidence_count : Nat)
    (conf_idx det_idx : Nat) : ℚ :=
  tracked_detections (conf_idx * max_detections + det_idx)

/-- `odc_init_region`. -/
def odc_init_region (x1 y1 x2 y2 : ℚ) (in_direction : Int) : CountingRegion :=
  { x1 := x1
    y1 := y1
    x2 := x2
    y2 := y2
    min_x := min x1 x2
    max_x := max x1 x2
    min_y := min y1 y2
    max_y := max y1 y2
    in_direction := in_direction }

/-- `odc_find_tracker`: the first active slot that carries `track_id`, `none` for NULL. -/
def odc_find_tracker (state : ObjectDetectionCounterState) (track_id : Int) : Option Nat :=
  (List.range MAX_TRACKED_OBJECTS).find?
    (fun i => (state.tracked_objects i).is_active && (state.tracked_objects i).track_id == track_id)

/-- `odc_get_tracker`: the slot of the tracker of `track_id`, created in the first inactive
slot when there is none; `none` for NULL when the table is full. -/
def odc_get_tracker (state : ObjectDetectionCounterState) (track_id : Int) :
    ObjectDetectionCounterState × Option Nat :=
  match odc_find_tracker state track_id with
  | some existing => (state, some existing)
  | none =>
    match (List.range MAX_TRACKED_OBJECTS).find? (fun i => !(state.tracked_objects i).is_active) with
    | some i =>
      ({ state with
          tracked_objects := setAt state.tracked_objects i
            { zeroed_tracker with track_id := track_id, is_active := true } },
        some i)
    | none => (state, none)

/-- `odc_add_position`. -/
def odc_add_position (state : ObjectDetectionCounterState) (tracker : ObjectTracker) (x y : ℚ) :
    ObjectTracker :=
  let pushed : ObjectTracker :=
    if tracker.history_count < (POSITION_HISTORY_SIZE : Int) then
      { tracker with
        x_history := setAt tracker.x_history tracker.history_count.toNat x
        y_history := setAt tracker.y_history tracker.history_count.toNat y
        history_count := tracker.history_count + 1 }
    else
      let shifted := forLoop (POSITION_HISTORY_SIZE - 1)
        (fun i (hist : (Nat → ℚ) × (Nat → ℚ)) =>
          (setAt hist.1 i (hist.1 (i + 1)), setAt hist.2 i (hist.2 (i + 1))))
        (tracker.x_history, tracker.y_history)
      { tracker with
        x_history := setAt shifted.1 (POSITION_HISTORY_SIZE - 1) x
        y_history := setAt shifted.2 (POSITION_HISTORY_SIZE - 1) y }
  { pushed with last_seen_frame := state.global_frame_counter }

/-- `odc_point_in_rectangle`. -/
def odc_point_in_rectangle (x y : ℚ) (region : CountingRegion) : Bool :=
  decide (x ≥ region.min_x ∧ x ≤ region.max_x ∧ y ≥ region.min_y ∧ y ≤ region.max_y)

/-- `odc_get_entry_side`: each distance is `fabsf` of a float32 subtraction, so the
difference is rounded to float32 before the absolute value is taken; `fminf` and `==` are
exact on float32 values. -/
def odc_get_entry_side (x y : ℚ) (region : CountingRegion) : RegionState :=
  let dist_left := |f32_round (x - region.min_x)|
  let dist_right := |f32_round (x - region.max_x)|
  let dist_top := |f32_round (y - region.min_y)|
  let dist_bottom := |f32_round (y - region.max_y)|
  let min_dist := min (min dist_left dist_right) (min dist_top dist_bottom)
  if min_dist = dist_left then REGION_STATE_ENTERED_FROM_LEFT
  else if min_dist = dist_right then REGION_STATE_ENTERED_FROM_RIGHT
  else if min_dist = dist_top then REGION_STATE_ENTERED_FROM_TOP
  else REGION_STATE_ENTERED_FROM_BOTTOM

/-- `odc_is_valid_traversal`. -/
def odc_is_valid_traversal (entry_side exit_side : RegionState) : Bool :=
  (entry_side == REGION_STATE_ENTERED_FROM_LEFT && exit_side == REGION_STATE_ENTERED_FROM_RIGHT) ||
  (entry_side == REGION_STATE_ENTERED_FROM_RIGHT && exit_side == REGION_STATE_ENTERED_FROM_LEFT) ||
  (entry_side == REGION_STATE_ENTERED_FROM_TOP && exit_side == REGION_STATE_ENTERED_FROM_BOTTOM) ||
  (entry_side == REGION_STATE_ENTERED_FROM_BOTTOM && exit_side == REGION_STATE_ENTERED_FROM_TOP)

/-- `odc_is_in_direction`, the `switch` with its `default` branch. -/
def odc_is_in_direction (entry_side : RegionState) (in_direction : Int) : Bool :=
  if in_direction = DIRECTION_FROM_TOP_LEFT then
    entry_side == REGION_STATE_ENTERED_FROM_TOP || entry_side == REGION_STATE_ENTERED_FROM_LEFT
  else if in_direction = DIRECTION_FROM_TOP_RIGHT then
    entry_side == REGION_STATE_ENTERED_FROM_TOP || entry_side == REGION_STATE_ENTERED_FROM_RIGHT
  else if in_direction = DIRECTION_FROM_BOTTOM_LEFT then
    entry_side == REGION_STATE_ENTERED_FROM_BOTTOM || entry_side == REGION_STATE_ENTERED_FROM_LEFT
  else if in_direction = DIRECTION_FROM_BOTTOM_RIGHT then
    entry_side == REGION_STATE_ENTERED_FROM_BOTTOM || entry_side == REGION_STATE_ENTERED_FROM_RIGHT
  else false

/-- `odc_detect_crossing`: the crossing it returns and the tracker it leaves. -/
def odc_detect_crossing (tracker : ObjectTracker) (region : CountingRegion) :
    CrossingType × ObjectTracker :=
  if tracker.history_count < 2 then (CROSSING_NONE, tracker)
  else
    let prev_x := tracker.x_history (tracker.history_count - 2).toNat
    let prev_y := tracker.y_history (tracker.history_count - 2).toNat
    let curr_x := tracker.x_history (tracker.history_count - 1).toNat
    let curr_y := tracker.y_history (tracker.history_count - 1).toNat
    let prev_in_box := odc_point_in_rectangle prev_x prev_y region
    let curr_in_box := odc_point_in_rectangle curr_x curr_y region
    if prev_in_box && !curr_in_box then
      if tracker.region_state.toInt ≥ REGION_STATE_ENTERED_FROM_LEFT.toInt then
        let exit_side := odc_get_entry_side curr_x curr_y region
        let entry_side := tracker.region_state
        if odc_is_valid_traversal entry_side exit_side then
          let counts_as_in := odc_is_in_direction entry_side region.in_direction
          (if counts_as_in then CROSSING_IN else CROSSING_OUT,
           { tracker with region_state := REGION_STATE_OUTSIDE })
        else (CROSSING_NONE, { tracker with region_state := REGION_STATE_OUTSIDE })
      else (CROSSING_NONE, { tracker with region_state := REGION_STATE_OUTSIDE })
    else if !prev_in_box && curr_in_box then
      (CROSSING_NONE, { tracker with region_state := odc_get_entry_side prev_x prev_y region })
    else (CROSSING_NONE, tracker)

/-- `odc_cleanup_trackers`. -/
def odc_cleanup_trackers (state : ObjectDetectionCounterState) : ObjectDetectionCounterState :=
  { state with
    tracked_objects := forLoop MAX_TRACKED_OBJECTS
      (fun i o =>
        if (o i).is_active ∧
            state.global_frame_counter - (o i).last_seen_frame > TRACKER_EXPIRY_FRAMES
        then setAt o i { o i with is_active := false }
        else o)
      state.tracked_objects }

/-- The text that `odc_check_daily_reset` and `odc_check_daily_reset_i8` share, after the
test of `reset_hour` in which they differ. -/
def odc_daily_reset (state : ObjectDetectionCounterState) (reset_hour : Int) (current_time : Int)
    (local_time : Option Int) : ObjectDetectionCounterState :=
  if current_time - state.last_reset_check < 60 then state
  else
    let checked := { state with last_reset_check := current_time }
    match local_time with
    | none => checked
    | some current_hour =>
      let cleared :=
        if current_hour = reset_hour ∧ checked.last_reset_hour ≠ reset_hour then
          { checked with
            global_in_count := 0
            global_out_count := 0
            tracked_objects := forLoop MAX_TRACKED_OBJECTS
              (fun i o => setAt o i { o i with is_active := false }) checked.tracked_objects }
        else checked
      { cleared with last_reset_hour := current_hour }

/-- `odc_check_daily_reset` (f32): disabled by `reset_hour == -1`. -/
def odc_check_daily_reset (state : ObjectDetectionCounterState) (reset_hour : Int)
    (current_time : Int) (local_time : Option Int) : ObjectDetectionCounterState :=
  if reset_hour = -1 then state
  else odc_daily_reset state reset_hour current_time local_time

/-- `odc_check_daily_reset_i8`: disabled by `reset_hour < 0 || reset_hour > 23`. -/
def odc_check_daily_reset_i8 (state : ObjectDetectionCounterState) (reset_hour : Int)
    (current_time : Int) (local_time : Option Int) : ObjectDetectionCounterState :=
  if reset_hour < 0 ∨ reset_hour > 23 then state
  else odc_daily_reset state reset_hour current_time local_time

/-- The body of the detection loop of `object_detection_counter_f32` and of
`object_detection_counter_i8` once column `i` has been read: `center_x`, `center_y`, `width`,
`height` are its rows 0..3 and `track_id` is the id decoded from row
`confidence_count - 2` (evaluated only when the column is not empty). -/
def odc_count_detection (region : CountingRegion) (center_x center_y width height : ℚ)
    (track_id : Int) (state : ObjectDetectionCounterState) : ObjectDetectionCounterState :=
  if width ≤ 0 ∨ height ≤ 0 then state
  else if track_id ≤ 0 then state
  else
    match odc_get_tracker state track_id with
    | (_, none) => state
    | (found, some k) =>
      let added := odc_add_position found (found.tracked_objects k) center_x center_y
      let crossed := odc_detect_crossing added region
      let stored := { found with tracked_objects := setAt found.tracked_objects k crossed.2 }
      if crossed.1 = CROSSING_IN then
        { stored with global_in_count := stored.global_in_count + 1 }
      else if crossed.1 = CROSSING_OUT then
        { stored with global_out_count := stored.global_out_count + 1 }
      else stored

/-- The values a counter step writes and the state it leaves. -/
structure CounterOutput where
  state : ObjectDetectionCounterState
  in_count : Int
  out_count : Int
  total_count : Int

/-- The end of a counter step: the periodic cleanup and the three outputs. -/
def odc_finish (state : ObjectDetectionCounterState) : CounterOutput :=
  let swept :=
    if Int.tmod state.global_frame_counter CLEANUP_INTERVAL_FRAMES = 0 then
      odc_cleanup_trackers state
    else state
  { state := swept
    in_count := swept.global_in_count
    out_count := swept.global_out_count
    total_count := swept.global_in_count + swept.global_out_count }

/-- `object_detection_counter_f32`: one counter step. -/
def object_detection_counter_f32 (tracked_detections : Nat → ℚ)
    (state : ObjectDetectionCounterState) (max_detections confidence_count : Nat)
    (region_x1 region_y1 region_x2 region_y2 : ℚ) (in_direction reset_hour : Int)
    (current_time : Int) (local_time : Option Int) : CounterOutput :=
  let s1 := odc_check_daily_reset state reset_hour current_time local_time
  let region := odc_init_region region_x1 region_y1 region_x2 region_y2 in_direction
  let s2 := { s1 with global_frame_counter := s1.global_frame_counter + 1 }
  let s3 := forLoop max_detections
    (fun i s =>
      odc_count_detection region
        (odc_get_detection_value tracked_detections max_detections confidence_count 0 i)
        (odc_get_detection_value tracked_detections max_detections confidence_count 1 i)
        (odc_get_detection_value tracked_detections max_detections confidence_count 2 i)
        (odc_get_detection_value tracked_detections max_detections confidence_count 3 i)
        (float_to_int (odc_get_detection_value tracked_detections max_detections
          confidence_count (confidence_count - 2) i))
        s)
    s2
  odc_finish s3

/-- `odc_i8_to_float`. -/
def odc_i8_to_float (value : Int) : ℚ := ((value : ℚ) + 128) / 255

/-- `odc_get_detection_value_i8`. -/
def odc_get_detection_value_i8 (tracked_detections : Nat → Int)
    (max_detections confidence_count : Nat) (conf_idx det_idx : Nat) : ℚ :=
  odc_i8_to_float (tracked_detections (conf_idx * max_detections + det_idx))

/-- `object_detection_counter_i8`: one counter step on the quantized tensor. -/
def object_detection_counter_i8 (tracked_detections : Nat → Int)
    (state : ObjectDetectionCounterState) (max_detections confidence_count : Nat)
    (region_x1 region_y1 region_x2 region_y2 : ℚ) (in_direction reset_hour : Int)
    (current_time : Int) (local_time : Option Int) : CounterOutput :=
  let s1 := odc_check_daily_reset_i8 state reset_hour current_time local_time
  let region := odc_init_region region_x1 region_y1 region_x2 region_y2 in_direction
  let s2 := { s1 with global_frame_counter := s1.global_frame_counter + 1 }
  let s3 := forLoop max_detections
    (fun i s =>
      odc_count_detection region
        (odc_get_detection_value_i8 tracked_detections max_detections confidence_count 0 i)
        (odc_get_detection_value_i8 tracked_detections max_detections confidence_count 1 i)
        (odc_get_detection_value_i8 tracked_detections max_detections confidence_count 2 i)
        (odc_get_detection_value_i8 tracked_detections max_detections confidence_count 3 i)
        (float_to_int (odc_get_detection_value_i8 tracked_detections max_detections
          confidence_count (confidence_count - 2) i * 127))
        s)
    s2
  odc_finish s3

/-! ## The track id through the 8-bit channel -/

/-- The path of a track id from the i8 tracker to the i8 counter: `generate_tracking_output_i8`
stores `float_to_int8 (track_id / MAX_TRACK_ID_I8)` and `object_detection_counter_i8` reads
the byte back as `(int)(odc_i8_to_float (byte) * 127.0f)`. -/
def track_id_through_i8 (track_id : Int) : Int :=
  float_to_int (odc_i8_to_float (float_to_int8 ((track_id : ℚ) / (MAX_TRACK_ID : ℚ))) * 127)

/-- Column `j` of the output holds the track `T`: the layout written by one emission. -/
def column_holds {α : Type} (enc : ℚ → α) (enc_id : Int → α) (md cc : Nat) (o : Nat → α)
    (j : Nat) (T : ObjectTrack) : Prop :=
  o (0 * md + j) = enc T.x ∧ o (1 * md + j) = enc T.y ∧
  o (2 * md + j) = enc T.w ∧ o (3 * md + j) = enc T.h ∧
  (∀ r, 4 ≤ r → r < cc →
    o (r * md + j) = enc (if (r : Int) - 4 = T.class_id then T.confidence else 0)) ∧
  o (cc * md + j) = enc_id T.track_id ∧
  o ((cc + 1) * md + j) = enc T.tracking_confidence

/-- The slots below `n` whose track is emitted, in slot order: the active ones with
`hits ≥ min_hits`. -/
def emitted_slots (s : ObjectTrackerState) (n : Nat) (min_hits : Int) : List Nat :=
  (List.range n).filter (fun t => (s.tracks t).active && decide (min_hits ≤ (s.tracks t).hits))

/-- A track that satisfies the invariants of an active track, or is not active. -/
def track_ok (max_age : Int) (T : ObjectTrack) : Prop :=
  T.active = true →
    1 ≤ T.track_id ∧ T.track_id ≤ 127 ∧ 0 ≤ T.class_id ∧ 1 ≤ T.hits ∧ 0 ≤ T.age ∧
      T.age ≤ max_age

/-- The state after a sequence of steps of `object_tracker_f32` with fixed parameters, started
from the state left by `object_tracker_init_f32` on the buffer `s0`. -/
def tracker_run (s0 : ObjectTrackerState) (frames : List (Nat → ℚ)) (md cc : Nat) (thr : ℚ)
    (mt : Nat) (max_age min_hits : Int) : ObjectTrackerState :=
  frames.foldl
    (fun s detections =>
      (object_tracker_f32 detections s (fun _ => 0) md cc thr mt max_age min_hits).1)
    (object_tracker_init_f32 s0)

/-- What the association phase may do to a track: the flag `active`, the track id and the
class stay, the hits do not decrease and the age stays or becomes 0. -/
def track_kept (T T2 : ObjectTrack) : Prop :=
  T2.active = T.active ∧ T2.track_id = T.track_id ∧ T2.class_id = T.class_id ∧
    T.hits ≤ T2.hits ∧ (T2.age = T.age ∨ T2.age = 0)

/-- The invariant of the tracker state: the allocator is in 1..127 and every slot of the
table is inactive or satisfies the invariants of an active track. -/
def tracker_ok (max_age : Int) (s : ObjectTrackerState) : Prop :=
  1 ≤ s.next_track_id ∧ s.next_track_id ≤ 127 ∧
    ∀ t, t < TRACKS_ARRAY_SIZE → track_ok max_age (s.tracks t)

/-- The number of track ids handed out by the spawn phase over the first `valid` detections:
the unmatched detections that find an empty slot at their turn. -/
def ids_handed_out (s : ObjectTrackerState) (data : Nat → Detection) (valid mt : Nat)
    (dm : Nat → Bool) : Nat :=
  ((List.range valid).filter (fun d =>
    !dm d && (find_empty_slot (create_new_tracks s data d mt dm).tracks mt).isSome)).length

/-- The number of track ids handed out by one step of `object_tracker_f32`. -/
def step_ids_handed_out (detections : Nat → ℚ) (s : ObjectTrackerState) (md cc : Nat) (thr : ℚ)
    (mt : Nat) : Nat :=
  ids_handed_out
    (perform_tracking_association s (extract_detections detections md cc unwritten_rows).1
      (extract_detections detections md cc unwritten_rows).2 mt thr (fun _ => false)
      (fun _ => false)).state
    (extract_detections detections md cc unwritten_rows).1
    (extract_detections detections md cc unwritten_rows).2 mt
    (perform_tracking_association s (extract_detections detections md cc unwritten_rows).1
      (extract_detections detections md cc unwritten_rows).2 mt thr (fun _ => false)
      (fun _ => false)).detection_matched

/-- The number of track ids handed out by a sequence of steps from the state `s`. -/
def ids_handed_out_from (s : ObjectTrackerState) (md cc : Nat) (thr : ℚ) (mt : Nat)
    (max_age min_hits : Int) : List (Nat → ℚ) → Nat
  | [] => 0
  | detections :: rest =>
    step_ids_handed_out detections s md cc thr mt +
      ids_handed_out_from
        (object_tracker_f32 detections s (fun _ => 0) md cc thr mt max_age min_hits).1
        md cc thr mt max_age min_hits rest

/-- The number of track ids handed out since `object_tracker_init_f32` by the steps of
`tracker_run`. -/
def tracker_run_ids (s0 : ObjectTrackerState) (frames : List (Nat → ℚ)) (md cc : Nat) (thr : ℚ)
    (mt : Nat) (max_age min_hits : Int) : Nat :=
  ids_handed_out_from (object_tracker_init_f32 s0) md cc thr mt max_age min_hits frames

/-- The invariant of the id allocator while `n ≤ 127` ids have been handed out: the
allocator holds the next fresh id, every active track holds one of the ids 1..n and no two
active tracks hold the same id. -/
def ids_ok (n : Nat) (s : ObjectTrackerState) : Prop :=
  n ≤ 127 ∧ s.next_track_id = (if n = 127 then 1 else (n : Int) + 1) ∧
  (∀ t, t < TRACKS_ARRAY_SIZE → (s.tracks t).active = true →
    1 ≤ (s.tracks t).track_id ∧ (s.tracks t).track_id ≤ (n : Int)) ∧
  ∀ t t2, t < TRACKS_ARRAY_SIZE → t2 < TRACKS_ARRAY_SIZE → (s.tracks t).active = true →
    (s.tracks t2).active = true → (s.tracks t).track_id = (s.tracks t2).track_id → t = t2

/-- The tensor whose first cells are the elements of `l` and whose other cells are 0. -/
def tensor_of_list (l : List ℚ) : Nat → ℚ := fun i => l.getD i 0

/-- A track slot with every field zero. -/
def zero_track : ObjectTrack :=
  { x := 0, y := 0, w := 0, h := 0, confidence := 0, class_id := 0, track_id := 0, age := 0,
    hits := 0, active := false, tracking_confidence := 0 }

/-- A tracker state with every field zero (a zero-filled buffer). -/
def zero_tracker_state : ObjectTrackerState :=
  { tracks := fun _ => zero_track, next_track_id := 0, tracker_initialized := 0 }

/-- A frame of 2 columns and 5 rows (one class): a detection at (0.5, 0.5) in column 0 and
a detection at (0.2, 0.2) in column 1, both 0.1 wide and high with confidence 0.9. -/
def churn_frame_a : Nat → ℚ :=
  tensor_of_list [1/2, 1/5, 1/2, 1/5, 1/10, 1/10, 1/10, 1/10, 9/10, 9/10]

/-- The frame `churn_frame_a` with the detection of column 1 moved to (0.8, 0.8). -/
def churn_frame_b : Nat → ℚ :=
  tensor_of_list [1/2, 4/5, 1/2, 4/5, 1/10, 1/10, 1/10, 1/10, 9/10, 9/10]

/-- 127 frames, alternately `churn_frame_a` and `churn_frame_b`. -/
def churn_frames : List (Nat → ℚ) :=
  (List.range 127).map (fun i => if i % 2 = 0 then churn_frame_a else churn_frame_b)

/-- Seed scenario 1, frame 1 (4 columns, 6 rows): one detection at (0.5, 0.5), 0.1 wide and
high, class 0 with confidence 0.9. -/
def seed1_frame1 : Nat → ℚ :=
  tensor_of_list [1/2, 0, 0, 0, 1/2, 0, 0, 0, 1/10, 0, 0, 0, 1/10, 0, 0, 0, 9/10, 0, 0, 0,
    0, 0, 0, 0]

/-- Seed scenario 1, frame 2: the detection of frame 1 moved to x = 0.52. -/
def seed1_frame2 : Nat → ℚ :=
  tensor_of_list [13/25, 0, 0, 0, 1/2, 0, 0, 0, 1/10, 0, 0, 0, 1/10, 0, 0, 0, 9/10, 0, 0, 0,
    0, 0, 0, 0]

/-- Seed scenario 2, frame 2: the detection of `seed1_frame1` with class 1 instead of 0. -/
def seed2_frame2 : Nat → ℚ :=
  tensor_of_list [1/2, 0, 0, 0, 1/2, 0, 0, 0, 1/10, 0, 0, 0, 1/10, 0, 0, 0, 0, 0, 0, 0,
    9/10, 0, 0, 0]

/-- Seed scenario 1, the first step from the initial state: max_detections = 4,
confidence_count = 6, threshold 0.3, max_tracks = 50, max_age = 5, min_hits = 1. -/
def seed1_step1 : ObjectTrackerState × (Nat → ℚ) :=
  object_tracker_f32 seed1_frame1 (object_tracker_init_f32 zero_tracker_state) (fun _ => 0)
    4 6 (3 / 10) 50 5 1

/-- Seed scenario 1, the second step. -/
def seed1_step2 : ObjectTrackerState × (Nat → ℚ) :=
  object_tracker_f32 seed1_frame2 seed1_step1.1 (fun _ => 0) 4 6 (3 / 10) 50 5 1

/-- Seed scenario 2, the second step: the class-1 detection after the class-0 detection. -/
def seed2_step2 : ObjectTrackerState × (Nat → ℚ) :=
  object_tracker_f32 seed2_frame2 seed1_step1.1 (fun _ => 0) 4 6 (3 / 10) 50 5 1

/-- The first two frames of `churn_frames`. -/
def churn_frames_2 : List (Nat → ℚ) := [churn_frame_a, churn_frame_b]

/-- The frame reports one track only: column `i0` holds a box of positive width and height
at (x, y) with track id `id`, and every other column is skipped by the counter (its width or
height is not positive, or its track id is not positive). -/
def reports_only (det : Nat → ℚ) (md cc i0 : Nat) (id : Int) (x y : ℚ) : Prop :=
  i0 < md ∧
  odc_get_detection_value det md cc 0 i0 = x ∧
  odc_get_detection_value det md cc 1 i0 = y ∧
  0 < odc_get_detection_value det md cc 2 i0 ∧
  0 < odc_get_detection_value det md cc 3 i0 ∧
  float_to_int (odc_get_detection_value det md cc (cc - 2) i0) = id ∧
  ∀ i, i < md → i ≠ i0 →
    odc_get_detection_value det md cc 2 i ≤ 0 ∨
    odc_get_detection_value det md cc 3 i ≤ 0 ∨
    float_to_int (odc_get_detection_value det md cc (cc - 2) i) ≤ 0

/-- Slot `k` holds the counter-tracker of the track `id` (it is the first active slot with
that id), with 1..10 recorded points of which the last is (px, py), and region state `e`. -/
def live_tracker (s : ObjectDetectionCounterState) (id : Int) (k : Nat) (px py : ℚ)
    (e : RegionState) : Prop :=
  odc_find_tracker s id = some k ∧
  1 ≤ (s.tracked_objects k).history_count ∧ (s.tracked_objects k).history_count ≤ 10 ∧
  (s.tracked_objects k).x_history ((s.tracked_objects k).history_count - 1).toNat = px ∧
  (s.tracked_objects k).y_history ((s.tracked_objects k).history_count - 1).toNat = py ∧
  (s.tracked_objects k).region_state = e

/-- A counter state with every field zero (a zero-filled buffer). -/
def zero_counter_state : ObjectDetectionCounterState :=
  { tracked_objects := fun _ => zeroed_tracker
    global_frame_counter := 0
    global_in_count := 0
    global_out_count := 0
    tracking_initialized := 0
    last_reset_hour := 0
    last_reset_check := 0 }

/-- A tracker output of 4 columns and 8 rows (confidence_count = 8, the track id in row 6)
that holds one track in column 0: a box of 0.1 by 0.1 at (px, py), class 0 with confidence
0.9, track id 1 and tracking confidence 1. -/
def counter_frame (px py : ℚ) : Nat → ℚ :=
  tensor_of_list [px, 0, 0, 0, py, 0, 0, 0, 1/10, 0, 0, 0, 1/10, 0, 0, 0, 9/10, 0, 0, 0,
    0, 0, 0, 0, 1, 0, 0, 0, 1, 0, 0, 0]

/-- One step of the seed scenarios 3 to 5: region (0.4, 0.3, 0.6, 0.7), in_direction
TOP_LEFT, reset disabled, the track reported at (px, py). -/
def seed_counter_step (s : ObjectDetectionCounterState) (px py : ℚ) : CounterOutput :=
  object_detection_counter_f32 (counter_frame px py) s 4 8 (2/5) (3/10) (3/5) (7/10)
    DIRECTION_FROM_TOP_LEFT (-1) 0 none

/-- The tensor `counter_frame px py` as the code receives it: every cell is the float32
value of the decimal. -/
def counter_frame_f32 (px py : ℚ) : Nat → ℚ := fun p => f32_round (counter_frame px py p)

/-- The region (0.4, 0.3, 0.6, 0.7) of the seed scenarios as the code receives it: the
corners are the float32 values of the decimals. -/
def seed_region_f32 : CountingRegion :=
  odc_init_region (f32_round (2/5)) (f32_round (3/10)) (f32_round (3/5)) (f32_round (7/10))
    DIRECTION_FROM_TOP_LEFT

/-- One step of the seed scenarios 3 to 5 on the float32 values of the decimals: region
(0.4f, 0.3f, 0.6f, 0.7f), in_direction TOP_LEFT, reset disabled, the track reported at
the float32 values of (px, py). -/
def seed_counter_step_f32 (s : ObjectDetectionCounterState) (px py : ℚ) : CounterOutput :=
  object_detection_counter_f32 (counter_frame_f32 px py) s 4 8 (f32_round (2/5))
    (f32_round (3/10)) (f32_round (3/5)) (f32_round (7/10)) DIRECTION_FROM_TOP_LEFT (-1) 0 none

/-- The counts after three steps of `seed_counter_step_f32` from the state left by
`object_detection_counter_init_f32`, the track reported at p0, p1, p2. -/
def seed_run_f32 (p0x p0y p1x p1y p2x p2y : ℚ) : CounterOutput :=
  seed_counter_step_f32 (seed_counter_step_f32 (seed_counter_step_f32
    (object_detection_counter_init_f32 zero_counter_state) p0x p0y).state p1x p1y).state
    p2x p2y

/-- `TRACKS_ARRAY_SIZE_I8`. -/
def TRACKS_ARRAY_SIZE_I8 : Nat := 50

/-- `object_tracker_init_i8`; `ObjectTrackerState_i8` has the fields of `ObjectTrackerState`.
As in `object_tracker_init_f32`, the parameter `max_tracks` is not read. -/
def object_tracker_init_i8 (state : ObjectTrackerState) : ObjectTrackerState :=
  { tracks := forLoop TRACKS_ARRAY_SIZE_I8
      (fun i tr => setAt tr i { tr i with active := false, track_id := -1, age := 0, hits := 0 })
      state.tracks
    next_track_id := 1
    tracker_initialized := 1 }

/-- `object_detection_counter_init_i8`; `ObjectDetectionCounterState_i8` has the fields of
`ObjectDetectionCounterState`. -/
def object_detection_counter_init_i8 (state : ObjectDetectionCounterState) :
    ObjectDetectionCounterState :=
  { tracked_objects :=
      forLoop MAX_TRACKED_OBJECTS (fun i o => setAt o i zeroed_tracker) state.tracked_objects
    global_frame_counter := 0
    global_in_count := 0
    global_out_count := 0
    tracking_initialized := 1
    last_reset_hour := -1
    last_reset_check := 0 }

/-- A tracker buffer that has been in use: every slot holds an active track of class 2 with
track id 7, age 3 and 4 hits, on the box (0.5, 0.5, 0.1, 0.1). -/
def used_tracker_state : ObjectTrackerState :=
  { tracks := fun _ =>
      { x := 1/2, y := 1/2, w := 1/10, h := 1/10, confidence := 9/10, class_id := 2,
        track_id := 7, age := 3, hits := 4, active := true, tracking_confidence := 2/3 }
    next_track_id := 8
    tracker_initialized := 1 }

/-- The slot that `update_track_lifecycle` leaves when a track expires. -/
def expired_track : ObjectTrack :=
  { x := 0, y := 0, w := 0, h := 0, confidence := 0, class_id := -1, track_id := -1,
    age := 0, hits := 0, active := false, tracking_confidence := 0 }

/-- The counter state of seed scenario 6 before the check of 02:59: the initial state with
4 IN and 2 OUT counted and the tracker of track 1 active in slot 0. -/
def seed6_state : ObjectDetectionCounterState :=
  { object_detection_counter_init_f32 zero_counter_state with
    global_in_count := 4
    global_out_count := 2
    tracked_objects := fun i =>
      if i = 0 then { zeroed_tracker with track_id := 1, is_active := true } else zeroed_tracker }

/-- Seed scenario 6 after the check of 02:59 (10740 s after midnight, local hour 2) with
reset_hour = 3. -/
def seed6_at_0259 : ObjectDetectionCounterState :=
  odc_check_daily_reset seed6_state 3 10740 (some 2)

/-- The arguments of one invocation of the counter other than the state and `reset_hour`;
`α` is the cell type of the tensor (ℚ for f32, the integers for i8). The clock readings of
the invocation are part of it. -/
structure CounterCall (α : Type) where
  tracked_detections : Nat → α
  max_detections : Nat
  confidence_count : Nat
  region_x1 : ℚ
  region_y1 : ℚ
  region_x2 : ℚ
  region_y2 : ℚ
  in_direction : Int
  current_time : Int
  local_time : Option Int

/-- The state after a sequence of invocations of `object_detection_counter_f32` with
reset_hour = -1. -/
def counter_run (s : ObjectDetectionCounterState) (calls : List (CounterCall ℚ)) :
    ObjectDetectionCounterState :=
  calls.foldl
    (fun st c =>
      (object_detection_counter_f32 c.tracked_detections st c.max_detections c.confidence_count
        c.region_x1 c.region_y1 c.region_x2 c.region_y2 c.in_direction (-1) c.current_time
        c.local_time).state)
    s

/-- The state after a sequence of invocations of `object_detection_counter_i8` with
reset_hour = -1. -/
def counter_run_i8 (s : ObjectDetectionCounterState) (calls : List (CounterCall Int)) :
    ObjectDetectionCounterState :=
  calls.foldl
    (fun st c =>
      (object_detection_counter_i8 c.tracked_detections st c.max_detections c.confidence_count
        c.region_x1 c.region_y1 c.region_x2 c.region_y2 c.in_direction (-1) c.current_time
        c.local_time).state)
    s

/-- A tracker output of 1 column and 7 rows (confidence_count = 7, the track id in row 5)
that holds a box of 0.1 by 0.1 at (px, 0.5) with track id 128. -/
def wide_id_frame (px : ℚ) : Nat → ℚ := tensor_of_list [px, 1/2, 1/10, 1/10, 9/10, 128, 1]

/-- One f32 counter step on `wide_id_frame px`: region (0.4, 0.3, 0.6, 0.7), in_direction
TOP_LEFT, reset disabled. -/
def wide_id_step (s : ObjectDetectionCounterState) (px : ℚ) : CounterOutput :=
  object_detection_counter_f32 (wide_id_frame px) s 1 7 (2/5) (3/10) (3/5) (7/10)
    DIRECTION_FROM_TOP_LEFT (-1) 0 none

/-- The side opposite to an entry side: LEFT and RIGHT, TOP and BOTTOM; the two values that
are not sides have none. -/
def opposite_side : RegionState → Option RegionState
  | REGION_STATE_ENTERED_FROM_LEFT => some REGION_STATE_ENTERED_FROM_RIGHT
  | REGION_STATE_ENTERED_FROM_RIGHT => some REGION_STATE_ENTERED_FROM_LEFT
  | REGION_STATE_ENTERED_FROM_TOP => some REGION_STATE_ENTERED_FROM_BOTTOM
  | REGION_STATE_ENTERED_FROM_BOTTOM => some REGION_STATE_ENTERED_FROM_TOP
  | _ => none

/-- The direction table: the entry sides that count as IN for each value of `in_direction`
(TOP_LEFT = 0, TOP_RIGHT = 1, BOTTOM_LEFT = 2, BOTTOM_RIGHT = 3), none for another value. -/
def direction_sides (in_direction : Int) : List RegionState :=
  if in_direction = 0 then [REGION_STATE_ENTERED_FROM_TOP, REGION_STATE_ENTERED_FROM_LEFT]
  else if in_direction = 1 then [REGION_STATE_ENTERED_FROM_TOP, REGION_STATE_ENTERED_FROM_RIGHT]
  else if in_direction = 2 then
    [REGION_STATE_ENTERED_FROM_BOTTOM, REGION_STATE_ENTERED_FROM_LEFT]
  else if in_direction = 3 then
    [REGION_STATE_ENTERED_FROM_BOTTOM, REGION_STATE_ENTERED_FROM_RIGHT]
  else []

/-- A counter-tracker of track 1 that entered the region of the seed scenarios from the left
and whose last two points are (0.5, 0.5), inside, and (0.7, 0.5), outside. -/
def leaving_tracker : ObjectTracker :=
  { x_history := tensor_of_list [1/2, 7/10]
    y_history := tensor_of_list [1/2, 1/2]
    history_count := 2
    track_id := 1
    last_seen_frame := 2
    is_active := true
    region_state := REGION_STATE_ENTERED_FROM_LEFT }

/-- The inner loop of `extract_detections_i8` over the class rows of column `i`: the text of
`best_class` with the cells read by `get_detection_value_i8`. -/
def best_class_i8 (detections : Nat → Int) (max_detections confidence_count i : Nat) : ℚ × Int :=
  forLoop (confidence_count - 4)
    (fun k acc =>
      let j := k + 4
      let class_conf := get_detection_value_i8 detections max_detections confidence_count j i
      if class_conf > acc.1 then (class_conf, (j : Int) - 4) else acc)
    (0, -1)

/-- `extract_detections_i8`: the filled rows of `detection_data` and `valid_detections`. -/
def extract_detections_i8 (detections : Nat → Int) (max_detections confidence_count : Nat)
    (detection_data : Nat → Detection) : (Nat → Detection) × Nat :=
  forLoop max_detections
    (fun i acc =>
      let bc := best_class_i8 detections max_detections confidence_count i
      if bc.1 > 0 ∨ bc.2 ≥ 0 then
        (setAt acc.1 acc.2
          { x := get_detection_value_i8 detections max_detections confidence_count 0 i
            y := get_detection_value_i8 detections max_detections confidence_count 1 i
            w := get_detection_value_i8 detections max_detections confidence_count 2 i
            h := get_detection_value_i8 detections max_detections confidence_count 3 i
            confidence := bc.1
            class_id := (bc.2 : ℚ) },
         acc.2 + 1)
      else acc)
    (detection_data, 0)

/-- The i8 tensor decoded cell by cell, every byte `b` to `(b + 128) / 255`. -/
def decoded_tensor (detections : Nat → Int) : Nat → ℚ :=
  fun p => ((detections p : ℚ) + 128) / 255

/-- The columns below `n` that have a class row (rows 4 .. confidence_count - 1) with a
value above 0, in index order. -/
def emitted_columns (detections : Nat → ℚ) (max_detections confidence_count n : Nat) :
    List Nat :=
  (List.range n).filter (fun i =>
    (List.range (confidence_count - 4)).any (fun k =>
      decide (get_detection_value detections max_detections confidence_count (k + 4) i > 0)))

/-- Track `t` can be matched to the detection `D` by the scan of `perform_tracking_association`:
it is below `max_tracks`, active, not matched earlier in this frame and of the class of `D`. -/
def track_eligible (tracks : Nat → ObjectTrack) (track_matched : Nat → Bool) (D : Detection)
    (max_tracks t : Nat) : Prop :=
  t < max_tracks ∧ (tracks t).active = true ∧ track_matched t = false ∧
    (tracks t).class_id = float_to_int D.class_id

/-- The IoU of the detection `D` with the box of track `t`. -/
def track_iou (tracks : Nat → ObjectTrack) (D : Detection) (t : Nat) : ℚ :=
  calculate_iou D.x D.y D.w D.h (tracks t).x (tracks t).y (tracks t).w (tracks t).h

/-- The matching state of `perform_tracking_association` when the detection loop reaches
detection `d`: the arrays cleared, then the iterations 0 .. d - 1. -/
def association_before (state : ObjectTrackerState) (detection_data : Nat → Detection)
    (valid_detections max_tracks : Nat) (tracking_threshold : ℚ)
    (detection_matched track_matched : Nat → Bool) (d : Nat) : Association :=
  forLoop d (associate_detection detection_data max_tracks tracking_threshold)
    { state := state
      detection_matched := forLoop valid_detections (fun i m => setAt m i false) detection_matched
      track_matched := forLoop max_tracks (fun i m => setAt m i false) track_matched }

/-- The track that iteration `d` of the detection loop matches to detection `d`, `none` when
it matches none. -/
def matched_track (state : ObjectTrackerState) (detection_data : Nat → Detection)
    (valid_detections max_tracks : Nat) (tracking_threshold : ℚ)
    (detection_matched track_matched : Nat → Bool) (d : Nat) : Option Nat :=
  if (association_before state detection_data valid_detections max_tracks tracking_threshold
      detection_matched track_matched d).detection_matched d then none
  else
    (find_best_track
      (association_before state detection_data valid_detections max_tracks tracking_threshold
        detection_matched track_matched d).state.tracks
      (association_before state detection_data valid_detections max_tracks tracking_threshold
        detection_matched track_matched d).track_matched
      (detection_data d) max_tracks tracking_threshold).2

/-- The state after a sequence of steps of `object_tracker_f32` with fixed parameters, started
from the state `s`. -/
def tracker_run_from (s : ObjectTrackerState) (frames : List (Nat → ℚ)) (md cc : Nat) (thr : ℚ)
    (mt : Nat) (max_age min_hits : Int) : ObjectTrackerState :=
  frames.foldl
    (fun s detections =>
      (object_tracker_f32 detections s (fun _ => 0) md cc thr mt max_age min_hits).1)
    s

/-- The track of slot `t` is matched to no detection in the step of `object_tracker_f32` on
`detections` from the state `s`. -/
def unmatched_in_step (detections : Nat → ℚ) (s : ObjectTrackerState) (md cc : Nat) (thr : ℚ)
    (mt t : Nat) : Bool :=
  !(perform_tracking_association s (extract_detections detections md cc unwritten_rows).1
    (extract_detections detections md cc unwritten_rows).2 mt thr (fun _ => false)
    (fun _ => false)).track_matched t

/-- The track of slot `t` is matched in none of the steps of the run over `frames` from `s`. -/
def never_matched (md cc : Nat) (thr : ℚ) (mt : Nat) (max_age min_hits : Int) (t : Nat) :
    ObjectTrackerState → List (Nat → ℚ) → Bool
  | _, [] => true
  | s, detections :: rest =>
    unmatched_in_step detections s md cc thr mt t &&
      never_matched md cc thr mt max_age min_hits t
        (object_tracker_f32 detections s (fun _ => 0) md cc thr mt max_age min_hits).1 rest

/-- A track after `k` frames without a match: `k` more frames of age and the tracking
confidence multiplied `k` times by 0.9. -/
def aged_track (T : ObjectTrack) (k : Nat) : ObjectTrack :=
  { T with age := T.age + (k : Int)
           tracking_confidence := T.tracking_confidence * TRACKING_CONFIDENCE_DECAY ^ k }

/-- A frame without detection: every cell is 0. -/
def empty_frame : Nat → ℚ := fun _ => 0

/-- `object_tracker_i8`: one tracker step on the quantized tensor, giving the new state and
the output tensor of bytes. The functions `perform_tracking_association_i8`,
`create_new_tracks_i8` and `update_track_lifecycle_i8` have the text of the f32 ones, on
`ObjectTrackerState_i8` whose fields are those of `ObjectTrackerState`. -/
def object_tracker_i8 (detections : Nat → Int) (state : ObjectTrackerState) (output : Nat → Int)
    (max_detections confidence_count : Nat) (tracking_threshold : ℚ) (max_tracks : Nat)
    (max_age min_hits : Int) : ObjectTrackerState × (Nat → Int) :=
  let ex := extract_detections_i8 detections max_detections confidence_count unwritten_rows
  let a := perform_tracking_association state ex.1 ex.2 max_tracks tracking_threshold
    (fun _ => false) (fun _ => false)
  let s3 := create_new_tracks a.state ex.1 ex.2 max_tracks a.detection_matched
  let s4 := update_track_lifecycle s3 max_tracks max_age a.track_matched
  (s4, generate_tracking_output_i8 s4 output max_detections confidence_count max_tracks min_hits)

/-- The byte that encodes the cell `p` of an f32 tracker output holding `v`: the cells of
the track-id row (row `confidence_count`) are divided by 127 first. -/
def encoded_cell (max_detections confidence_count p : Nat) (v : ℚ) : Int :=
  if confidence_count * max_detections ≤ p ∧ p < (confidence_count + 1) * max_detections then
    float_to_int8 (v / 127)
  else float_to_int8 v

/-- The f32 tracker output encoded cell by cell. -/
def encoded_output (output : Nat → ℚ) (max_detections confidence_count : Nat) : Nat → Int :=
  fun p => encoded_cell max_detections confidence_count p (output p)

/-- A tracker output of bytes for seed scenario 1, frame 1, quantized: the box
(0.5, 0.5, 0.1, 0.1) is stored as the bytes 0, 0, -102, -102 and the class-0 confidence as
102; the empty cells hold -128. -/
def seed1_frame1_i8 : Nat → Int := fun p =>
  ([0, -128, -128, -128, 0, -128, -128, -128, -102, -128, -128, -128, -102, -128, -128, -128,
    102, -128, -128, -128, -128, -128, -128, -128] : List Int).getD p (-128)

/-! ## draw_line.h and display_object_tracker.h, the thick-line routines

The routines draw through `draw_unit_line` / `draw_line` (Bresenham) and `dot_set_pixel`;
the embedding returns what they hand to these: the list of segments, or the pixels of a
thick point. The C library function `sqrtf` is a parameter. A float division by 0 gives
no number (the conversion of the quotient to `int` that follows is undefined), so the
embedding of a routine that divides by 0 returns `none`. -/

/-- A float division, `none` when the divisor is 0. -/
def float_div (a b : ℚ) : Option ℚ := if b = 0 then none else some (a / b)

/-- `roundf`: the nearest integer, halves away from zero. -/
def roundf (q : ℚ) : ℚ := if 0 ≤ q then (⌊q + 1 / 2⌋ : ℚ) else -(⌊-q + 1 / 2⌋ : ℚ)

/-- The endpoints of a call of `draw_unit_line` or `draw_line`. -/
structure Segment where
  x1 : Int
  y1 : Int
  x2 : Int
  y2 : Int
  deriving DecidableEq

/-- What a thick-line routine draws: segments, or the pixels of a thick point. -/
inductive ThickLine where
  | segments (l : List Segment)
  | point (pixels : List (Int × Int))
  deriving DecidableEq

/-- `draw_unit_thick_line` of draw_line.h. -/
def draw_unit_thick_line (sqrtf : ℚ → ℚ) (x1 y1 x2 y2 thickness : Int) : Option ThickLine :=
  if thickness ≤ 1 then some (ThickLine.segments [{ x1 := x1, y1 := y1, x2 := x2, y2 := y2 }])
  else
    let dx := x2 - x1
    let dy := y2 - y1
    let length := sqrtf ((dx * dx + dy * dy : Int) : ℚ)
    match float_div (-(dy : ℚ)) length, float_div (dx : ℚ) length with
    | some perp_x, some perp_y =>
      let half_thickness := Int.tdiv thickness 2
      some (ThickLine.segments
        ((List.range (2 * half_thickness + 1).toNat).map (fun k =>
          let offset : Int := -half_thickness + (k : Int)
          { x1 := x1 + float_to_int (perp_x * (offset : ℚ))
            y1 := y1 + float_to_int (perp_y * (offset : ℚ))
            x2 := x2 + float_to_int (perp_x * (offset : ℚ))
            y2 := y2 + float_to_int (perp_y * (offset : ℚ)) })))
    | _, _ => none

/-- `draw_thick_line` of display_object_tracker.h. -/
def draw_thick_line (sqrtf : ℚ → ℚ) (x1 y1 x2 y2 thickness : Int) : Option ThickLine :=
  if thickness ≤ 1 then some (ThickLine.segments [{ x1 := x1, y1 := y1, x2 := x2, y2 := y2 }])
  else
    let dx := x2 - x1
    let dy := y2 - y1
    let length := sqrtf ((dx * dx + dy * dy : Int) : ℚ)
    if length < 1 / 1000 then
      let start_offset := Int.tdiv (-thickness) 2
      some (ThickLine.point
        ((List.range thickness.toNat).flatMap (fun i =>
          (List.range thickness.toNat).map (fun j =>
            (x1 + start_offset + (i : Int), y1 + start_offset + (j : Int))))))
    else
      match float_div (-(dy : ℚ)) length, float_div (dx : ℚ) length with
      | some perp_x, some perp_y =>
        let start_offset := Int.tdiv (-thickness) 2
        some (ThickLine.segments
          ((List.range thickness.toNat).map (fun i =>
            let offset : Int := start_offset + (i : Int)
            { x1 := x1 + float_to_int (roundf (perp_x * (offset : ℚ)))
              y1 := y1 + float_to_int (roundf (perp_y * (offset : ℚ)))
              x2 := x2 + float_to_int (roundf (perp_x * (offset : ℚ)))
              y2 := y2 + float_to_int (roundf (perp_y * (offset : ℚ))) })))
      | _, _ => none

/-- A stand-in for `sqrtf` that is exact on the perfect squares (0 in particular): the
integer square root of the truncated argument. -/
def sqrtf_floor (q : ℚ) : ℚ := (Nat.sqrt (float_to_int q).toNat : ℚ)

/-- The invariant of a counter-tracker with respect to a region: it holds 0..10 points, and
when its region state is not OUTSIDE it holds a point and its last point is in the region. -/
def slot_settled (region : CountingRegion) (T : ObjectTracker) : Prop :=
  0 ≤ T.history_count ∧ T.history_count ≤ 10 ∧
  (T.region_state ≠ REGION_STATE_OUTSIDE →
    1 ≤ T.history_count ∧
    odc_point_in_rectangle (T.x_history (T.history_count - 1).toNat)
      (T.y_history (T.history_count - 1).toNat) region = true)

/-- A change of region state that does not lead from a state other than OUTSIDE to another
state other than OUTSIDE: the state is kept, or it was OUTSIDE, or it becomes OUTSIDE. -/
def transition_ok (r r2 : RegionState) : Prop :=
  r2 = r ∨ r = REGION_STATE_OUTSIDE ∨ r2 = REGION_STATE_OUTSIDE

/-- Two counter-trackers with the same points and the same region state. -/
def same_track (T T2 : ObjectTracker) : Prop :=
  T2.x_history = T.x_history ∧ T2.y_history = T.y_history ∧
  T2.history_count = T.history_count ∧ T2.region_state = T.region_state

/-- The arguments of one invocation of the counter other than the state and the region:
the tensor (floats for the f32 variant, bytes for the i8 variant, chosen by `quantized`),
its shape, the reset hour and the clock readings of the invocation. -/
structure RegionCall where
  quantized : Bool
  tracked_detections : Nat → ℚ
  tracked_detections_i8 : Nat → Int
  max_detections : Nat
  confidence_count : Nat
  reset_hour : Int
  current_time : Int
  local_time : Option Int

/-- One counter step, f32 or i8, on the region (x1, y1, x2, y2) with `in_direction`. -/
def region_step (x1 y1 x2 y2 : ℚ) (in_direction : Int) (s : ObjectDetectionCounterState)
    (c : RegionCall) : ObjectDetectionCounterState :=
  if c.quantized then
    (object_detection_counter_i8 c.tracked_detections_i8 s c.max_detections c.confidence_count
      x1 y1 x2 y2 in_direction c.reset_hour c.current_time c.local_time).state
  else
    (object_detection_counter_f32 c.tracked_detections s c.max_detections c.confidence_count
      x1 y1 x2 y2 in_direction c.reset_hour c.current_time c.local_time).state

/-- The state after a sequence of counter steps on one region, started from the state left
by `object_detection_counter_init_f32` on the buffer `s0`. -/
def region_run (x1 y1 x2 y2 : ℚ) (in_direction : Int) (s0 : ObjectDetectionCounterState)
    (calls : List RegionCall) : ObjectDetectionCounterState :=
  calls.foldl (region_step x1 y1 x2 y2 in_direction) (object_detection_counter_init_f32 s0)

/-- The state of a counter step when its detection loop starts: the reset supervisor has
run and the frame counter is incremented. -/
def step_start (s : ObjectDetectionCounterState) (c : RegionCall) :
    ObjectDetectionCounterState :=
  if c.quantized then
    { odc_check_daily_reset_i8 s c.reset_hour c.current_time c.local_time with
      global_frame_counter :=
        (odc_check_daily_reset_i8 s c.reset_hour c.current_time c.local_time).global_frame_counter
          + 1 }
  else
    { odc_check_daily_reset s c.reset_hour c.current_time c.local_time with
      global_frame_counter :=
        (odc_check_daily_reset s c.reset_hour c.current_time c.local_time).global_frame_counter
          + 1 }

/-- The body of the detection loop of a counter step for column `i`. -/
def step_column (region : CountingRegion) (c : RegionCall) (i : Nat)
    (s : ObjectDetectionCounterState) : ObjectDetectionCounterState :=
  if c.quantized then
    odc_count_detection region
      (odc_get_detection_value_i8 c.tracked_detections_i8 c.max_detections c.confidence_count 0 i)
      (odc_get_detection_value_i8 c.tracked_detections_i8 c.max_detections c.confidence_count 1 i)
      (odc_get_detection_value_i8 c.tracked_detections_i8 c.max_detections c.confidence_count 2 i)
      (odc_get_detection_value_i8 c.tracked_detections_i8 c.max_detections c.confidence_count 3 i)
      (float_to_int (odc_get_detection_value_i8 c.tracked_detections_i8 c.max_detections
        c.confidence_count (c.confidence_count - 2) i * 127))
      s
  else
    odc_count_detection region
      (odc_get_detection_value c.tracked_detections c.max_detections c.confidence_count 0 i)
      (odc_get_detection_value c.tracked_detections c.max_detections c.confidence_count 1 i)
      (odc_get_detection_value c.tracked_detections c.max_detections c.confidence_count 2 i)
      (odc_get_detection_value c.tracked_detections c.max_detections c.confidence_count 3 i)
      (float_to_int (odc_get_detection_value c.tracked_detections c.max_detections
        c.confidence_count (c.confidence_count - 2) i))
      s

/-- The state of a counter step after the first `n` columns of its detection loop. -/
def step_columns (x1 y1 x2 y2 : ℚ) (in_direction : Int) (s : ObjectDetectionCounterState)
    (c : RegionCall) (n : Nat) : ObjectDetectionCounterState :=
  forLoop n (step_column (odc_init_region x1 y1 x2 y2 in_direction) c) (step_start s c)

/-- A call of the f32 counter of the seed scenarios (4 columns, 8 rows, reset disabled)
that reports track 1 at (px, py). -/
def seed_region_call (px py : ℚ) : RegionCall :=
  { quantized := false
    tracked_detections := counter_frame px py
    tracked_detections_i8 := fun _ => -128
    max_detections := 4
    confidence_count := 8
    reset_hour := -1
    current_time := 0
    local_time := none }

/-- The tracker that the processing of a column with track id `id` and center (x, y) hands
to `odc_detect_crossing` when `odc_get_tracker` returns slot `j`: the tracker of the slot
with the point pushed on it. -/
def pushed_tracker (s : ObjectDetectionCounterState) (id : Int) (j : Nat) (x y : ℚ) :
    ObjectTracker :=
  odc_add_position (odc_get_tracker s id).1 ((odc_get_tracker s id).1.tracked_objects j) x y

/-- A counter-tracker of track 1 with a full history: the points (0, 0.5), (0.1, 0.5), ...,
(0.9, 0.5). -/
def full_history_tracker : ObjectTracker :=
  { x_history := tensor_of_list [0, 1/10, 1/5, 3/10, 2/5, 1/2, 3/5, 7/10, 4/5, 9/10]
    y_history := fun _ => 1/2
    history_count := 10
    track_id := 1
    last_seen_frame := 10
    is_active := true
    region_state := REGION_STATE_OUTSIDE }

/-- The two cells that `consecutive_detection` keeps between calls, `*detect_count` and
`*last_detected_class`, both `int8_t`. -/
structure ConsecutiveState where
  detect_count : Int
  last_detected_class : Int

/-- The first loop of `consecutive_detection`: the pair (max_confidence_class,
max_confidence), started at (0, input[0]). -/
def max_confidence_scan (input : Nat → ℚ) (num_classes : Nat) : Int × ℚ :=
  forLoop (num_classes - 1)
    (fun k (acc : Int × ℚ) =>
      let i := k + 1
      if input i > acc.2 then ((i : Int), input i) else acc)
    (0, input 0)

/-- `consecutive_detection`: the output it writes and the two cells it leaves. The
increment of the `int8_t` cell `*detect_count` and the store of an `int` in the `int8_t`
cell `*last_detected_class` wrap modulo 2^8. -/
def consecutive_detection (input : Nat → ℚ) (output : Nat → ℚ) (confidence_threshold : ℚ)
    (state : ConsecutiveState) (min_consecutive_count : Int) (default_class_index : Int)
    (num_classes : Nat) : (Nat → ℚ) × ConsecutiveState :=
  let scan := max_confidence_scan input num_classes
  let max_confidence_class : Int :=
    if scan.2 < confidence_threshold then default_class_index else scan.1
  let detect_count : Int :=
    if max_confidence_class ≠ state.last_detected_class then 1
    else wrap_int8 (state.detect_count + 1)
  let out :=
    if detect_count ≥ min_consecutive_count ∧ max_confidence_class ≠ default_class_index then
      forLoop num_classes
        (fun i o => setAt o i (if (i : Int) = max_confidence_class then 1 else 0)) output
    else
      forLoop num_classes
        (fun i o => setAt o i (if (i : Int) = default_class_index then 1 else 0)) output
  (out, { detect_count := detect_count, last_detected_class := wrap_int8 max_confidence_class })

/-- The two cells after `n` calls of `consecutive_detection` with fixed parameters, call `k`
(from 0) reading the input `input_of k`. -/
def consecutive_calls (input_of : Nat → Nat → ℚ) (confidence_threshold : ℚ)
    (min_consecutive_count default_class_index : Int) (num_classes : Nat)
    (state : ConsecutiveState) : Nat → ConsecutiveState
  | 0 => state
  | n + 1 =>
    (consecutive_detection (input_of n) (fun _ => 0) confidence_threshold
      (consecutive_calls input_of confidence_threshold min_consecutive_count default_class_index
        num_classes state n)
      min_consecutive_count default_class_index num_classes).2

/-- The output of call number `n` (from 1) of a sequence of calls of `consecutive_detection`. -/
def consecutive_output (input_of : Nat → Nat → ℚ) (confidence_threshold : ℚ)
    (min_consecutive_count default_class_index : Int) (num_classes : Nat)
    (state : ConsecutiveState) (n : Nat) : Nat → ℚ :=
  (consecutive_detection (input_of (n - 1)) (fun _ => 0) confidence_threshold
    (consecutive_calls input_of confidence_threshold min_consecutive_count default_class_index
      num_classes state (n - 1))
    min_consecutive_count default_class_index num_classes).1

/-- An input of two classes with class 1 on top: confidences 0.1 and 0.9. -/
def class1_input : Nat → ℚ := tensor_of_list [1/10, 9/10]

/-- One invocation of the counter with its region: the corners, `in_direction` and the other
arguments. -/
structure AnyCall where
  x1 : ℚ
  y1 : ℚ
  x2 : ℚ
  y2 : ℚ
  in_direction : Int
  call : RegionCall

/-- The state after a sequence of counter steps (f32 or i8, any tensors, regions, reset
hours and clock readings), started from the state left by `object_detection_counter_init_f32`
on the buffer `s0`. -/
def counter_run_any (s0 : ObjectDetectionCounterState) (calls : List AnyCall) :
    ObjectDetectionCounterState :=
  calls.foldl (fun s a => region_step a.x1 a.y1 a.x2 a.y2 a.in_direction s a.call)
    (object_detection_counter_init_f32 s0)

/-- The invariant of the counter state with staleness bound `B`: the frame counter is not
negative; every slot of the table holds 0..10 points and a region state other than INSIDE;
an active slot holds a track id of at least 1, at least one point, and was seen at most `B`
frames ago; no two active slots hold the same track id. -/
def counter_ok (B : Int) (s : ObjectDetectionCounterState) : Prop :=
  0 ≤ s.global_frame_counter ∧
  (∀ k, k < MAX_TRACKED_OBJECTS →
    (s.tracked_objects k).region_state ≠ REGION_STATE_INSIDE ∧
    0 ≤ (s.tracked_objects k).history_count ∧ (s.tracked_objects k).history_count ≤ 10 ∧
    ((s.tracked_objects k).is_active = true →
      1 ≤ (s.tracked_objects k).track_id ∧ 1 ≤ (s.tracked_objects k).history_count ∧
      s.global_frame_counter - (s.tracked_objects k).last_seen_frame ≤ B)) ∧
  ∀ k k2, k < MAX_TRACKED_OBJECTS → k2 < MAX_TRACKED_OBJECTS →
    (s.tracked_objects k).is_active = true → (s.tracked_objects k2).is_active = true →
    (s.tracked_objects k).track_id = (s.tracked_objects k2).track_id → k = k2

/-- A call of the f32 counter (4 columns, 8 rows, reset disabled) on the region
(0.4, 0.3, 0.6, 0.7) that reports track 1 at (0.3, 0.5) when `report` holds and nothing
otherwise. -/
def stale_call (report : Bool) : AnyCall :=
  { x1 := 2/5, y1 := 3/10, x2 := 3/5, y2 := 7/10, in_direction := 0
    call :=
      { quantized := false
        tracked_detections := if report then counter_frame (3/10) (1/2) else empty_frame
        tracked_detections_i8 := fun _ => -128
        max_detections := 4
        confidence_count := 8
        reset_hour := -1
        current_time := 0
        local_time := none } }

/-- A run of `n` calls in which track 1 is reported in call 10 and in call 50 only. -/
def stale_calls (n : Nat) : List AnyCall :=
  (List.range n).map (fun i => stale_call (decide (i = 9 ∨ i = 49)))

/-- A fresh counter-tracker of track 1 whose first recorded position (0.5, 0.5) is inside
the region (0.4, 0.3, 0.6, 0.7). -/
def first_inside_tracker : ObjectTracker :=
  odc_add_position zero_counter_state
    { zeroed_tracker with track_id := 1, is_active := true } (1/2) (1/2)

/-! ## Lemmas on the helpers -/

/-- A loop of no iteration leaves the state as it is. -/
@[simp] theorem forLoop_zero {σ : Type} (body : Nat → σ → σ) (s : σ) :
    forLoop 0 body s = s := rfl

/-- A loop of `n + 1` iterations is the loop of `n` iterations followed by iteration `n`. -/
theorem forLoop_succ {σ : Type} (n : Nat) (body : Nat → σ → σ) (s : σ) :
    forLoop (n + 1) body s = body n (forLoop n body s) := rfl

/-- Reading the cell that was written gives the written value. -/
@[simp] theorem setAt_same {α : Type} (a : Nat → α) (i : Nat) (v : α) :
    setAt a i v i = v := by
  simp [setAt]

/-- Reading another cell than the written one gives its former value. -/
theorem setAt_ne {α : Type} (a : Nat → α) {i j : Nat} (v : α) (hij : j ≠ i) :
    setAt a i v j = a j := by
  simp [setAt, hij]

/-- Loop invariant rule: a property that holds before the loop and is kept by every
iteration holds after the loop. -/
theorem forLoop_inv {σ : Type} (P : Nat → σ → Prop) (n : Nat) (body : Nat → σ → σ) (s : σ)
    (h0 : P 0 s) (hstep : ∀ k, k < n → ∀ st, P k st → P (k + 1) (body k st)) :
    P n (forLoop n body s) := by
  induction n with
  | zero => exact h0
  | succ m ih =>
    rw [forLoop_succ]
    exact hstep m (Nat.lt_succ_self m) _
      (ih (fun k hk st hP => hstep k (Nat.lt_succ_of_lt hk) st hP))

/-- Truncation toward zero is the floor on values that are not negative. -/
theorem float_to_int_of_nonneg {q : ℚ} (hq : 0 ≤ q) : float_to_int q = ⌊q⌋ := by
  have hnum : 0 ≤ q.num := Rat.num_nonneg.mpr hq
  rw [Rat.floor_def]
  unfold float_to_int
  exact Int.tdiv_eq_ediv hnum (Int.ofNat_nonneg _)

/-- Truncation toward zero commutes with negation. -/
theorem float_to_int_neg (q : ℚ) : float_to_int (-q) = -float_to_int q := by
  unfold float_to_int
  rw [Rat.neg_num, Rat.neg_den, Int.neg_tdiv]

/-- Truncation toward zero is the ceiling on values that are not positive. -/
theorem float_to_int_of_nonpos {q : ℚ} (hq : q ≤ 0) : float_to_int q = ⌈q⌉ := by
  have h := float_to_int_of_nonneg (neg_nonneg.mpr hq)
  rw [float_to_int_neg] at h
  have h2 : ⌊-q⌋ = -⌈q⌉ := Int.floor_neg
  omega

/-- The conversion to `int8_t` is the identity on -128..127. -/
theorem wrap_int8_of_mem {n : Int} (h1 : -128 ≤ n) (h2 : n ≤ 127) : wrap_int8 n = n := by
  unfold wrap_int8
  omega

/-- Truncation toward zero stays within one unit of its argument and inside every integer
interval that contains the argument and zero. -/
theorem float_to_int_bounds (t : ℚ) (lo hi : Int) (hlo : (lo : ℚ) ≤ t) (hhi : t ≤ (hi : ℚ))
    (hlo0 : lo ≤ 0) (hhi0 : 0 ≤ hi) :
    lo ≤ float_to_int t ∧ float_to_int t ≤ hi ∧ |t - (float_to_int t : ℚ)| < 1 := by
  rcases le_total 0 t with h | h
  · rw [float_to_int_of_nonneg h]
    have h1 : (⌊t⌋ : ℚ) ≤ t := Int.floor_le t
    have h2 : t < (⌊t⌋ : ℚ) + 1 := Int.lt_floor_add_one t
    have h3 : (0 : Int) ≤ ⌊t⌋ := Int.floor_nonneg.mpr h
    have h4 : ⌊t⌋ ≤ hi := by
      have : (⌊t⌋ : ℚ) ≤ (hi : ℚ) := le_trans h1 hhi
      exact_mod_cast this
    refine ⟨le_trans hlo0 h3, h4, ?_⟩
    rw [abs_lt]
    constructor <;> linarith
  · rw [float_to_int_of_nonpos h]
    have h1 : t ≤ (⌈t⌉ : ℚ) := Int.le_ceil t
    have h2 : (⌈t⌉ : ℚ) < t + 1 := Int.ceil_lt_add_one t
    have h3 : ⌈t⌉ ≤ (0 : Int) := Int.ceil_le.mpr (by simpa using h)
    have h4 : lo ≤ ⌈t⌉ := by
      have : (lo : ℚ) ≤ (⌈t⌉ : ℚ) := le_trans hlo h1
      exact_mod_cast this
    refine ⟨h4, le_trans h3 hhi0, ?_⟩
    rw [abs_lt]
    constructor <;> linarith

/-! ## Claims on the quantization codec -/

/-- C6, evaluated on the code: track id 64 does not survive the 8-bit channel. The i8 tracker
stores it as byte 0 (the truncation of 64/127*255 - 128 = 64/127 toward zero) and the i8
counter reads that byte back as track id 63. -/
theorem track_id_64_through_i8 :
    float_to_int8 ((64 : ℚ) / (MAX_TRACK_ID : ℚ)) = 0 ∧
      float_to_int (odc_i8_to_float 0 * 127) = 63 ∧
      track_id_through_i8 64 = 63 := by
  decide!

/-- The ids of 1..127 that survive the 8-bit channel are 1..63 and 127; every id of 64..126
comes back as its predecessor. -/
theorem track_id_through_i8_eq (n : Int) (h1 : 1 ≤ n) (h2 : n ≤ 127) :
    track_id_through_i8 n = if n ≤ 63 ∨ n = 127 then n else n - 1 := by
  interval_cases n <;> decide!

/-- C7: for every v in [0, 1] the byte `float_to_int8 v` lies in [-128, 127] and decoding it
by `odc_i8_to_float` gives a value within 1/255 of v. -/
theorem float_to_int8_roundtrip_error (v : ℚ) (h0 : 0 ≤ v) (h1 : v ≤ 1) :
    -128 ≤ float_to_int8 v ∧ float_to_int8 v ≤ 127 ∧
      |v - odc_i8_to_float (float_to_int8 v)| ≤ 1 / 255 := by
  have hb := float_to_int_bounds (v * 255 - 128) (-128) 127
    (by push_cast; linarith) (by push_cast; linarith) (by decide) (by decide)
  obtain ⟨hlo, hhi, herr⟩ := hb
  have hval : float_to_int8 v = float_to_int (v * 255 - 128) := by
    unfold float_to_int8
    simp only [wrap_int8_of_mem hlo hhi]
    rw [if_neg (by omega), if_neg (by omega)]
  rw [hval]
  refine ⟨hlo, hhi, ?_⟩
  unfold odc_i8_to_float
  rw [abs_lt] at herr
  rw [abs_le]
  constructor <;> linarith [herr.1, herr.2]

/-- Witness of C7 at v = 1/2: the byte is 0 (it decodes to 128/255). -/
theorem float_to_int8_roundtrip_error_witness :
    float_to_int8 (1 / 2) = 0 ∧
      (-128 ≤ float_to_int8 (1 / 2) ∧ float_to_int8 (1 / 2) ≤ 127 ∧
        |(1 / 2 : ℚ) - odc_i8_to_float (float_to_int8 (1 / 2))| ≤ 1 / 255) :=
  ⟨by decide!, float_to_int8_roundtrip_error (1 / 2) (by norm_num) (by norm_num)⟩

/-! ## Claims on the counter outputs -/

/-- C10: in both numeric variants the three values written by a counter step satisfy
total_count = in_count + out_count, and in_count and out_count are the cumulative
global_in_count and global_out_count of the state the step leaves. -/
theorem counter_outputs_consistent (state : ObjectDetectionCounterState)
    (max_detections confidence_count : Nat) (x1 y1 x2 y2 : ℚ) (in_direction reset_hour : Int)
    (current_time : Int) (local_time : Option Int) :
    (∀ tracked_detections : Nat → ℚ,
      let r := object_detection_counter_f32 tracked_detections state max_detections
        confidence_count x1 y1 x2 y2 in_direction reset_hour current_time local_time
      r.total_count = r.in_count + r.out_count ∧
        r.in_count = r.state.global_in_count ∧ r.out_count = r.state.global_out_count) ∧
    (∀ tracked_detections : Nat → Int,
      let r := object_detection_counter_i8 tracked_detections state max_detections
        confidence_count x1 y1 x2 y2 in_direction reset_hour current_time local_time
      r.total_count = r.in_count + r.out_count ∧
        r.in_count = r.state.global_in_count ∧ r.out_count = r.state.global_out_count) := by
  constructor <;> intro _ <;> exact ⟨rfl, rfl, rfl⟩

/-- Two cells of a row-major tensor with `md` columns share an offset only when they
are the same cell. -/
theorem cell_offset_inj {md r j r2 j2 : Nat} (hj : j < md) (hj2 : j2 < md)
    (h : r * md + j = r2 * md + j2) : r = r2 ∧ j = j2 := by
  have hmod : j = j2 := by
    have h1 : (r * md + j) % md = j := by
      rw [Nat.add_comm, Nat.add_mul_mod_self_right, Nat.mod_eq_of_lt hj]
    have h2 : (r2 * md + j2) % md = j2 := by
      rw [Nat.add_comm, Nat.add_mul_mod_self_right, Nat.mod_eq_of_lt hj2]
    rw [← h1, ← h2, h]
  subst hmod
  have hpos : 0 < md := Nat.lt_of_le_of_lt (Nat.zero_le _) hj
  have h2 : r * md = r2 * md := Nat.add_right_cancel h
  exact ⟨Nat.eq_of_mul_eq_mul_right hpos h2, rfl⟩

/-- The class-row loop of an emission leaves every cell outside its rows as it was. -/
theorem class_rows_other {α : Type} (m md c : Nat) (f : Nat → α) (o : Nat → α) (p : Nat)
    (hp : ∀ k, k < m → p ≠ (k + 4) * md + c) :
    forLoop m (fun k o => setAt o ((k + 4) * md + c) (f k)) o p = o p := by
  induction m with
  | zero => rfl
  | succ n ih =>
    rw [forLoop_succ, setAt_ne _ _ (hp n (Nat.lt_succ_self n))]
    exact ih (fun k hk => hp k (Nat.lt_succ_of_lt hk))

/-- The class-row loop of an emission writes `f k` in row `k + 4` of column `c`. -/
theorem class_rows_written {α : Type} (m md c : Nat) (f : Nat → α) (o : Nat → α) (k : Nat)
    (hk : k < m) (hc : c < md) :
    forLoop m (fun k o => setAt o ((k + 4) * md + c) (f k)) o ((k + 4) * md + c) = f k := by
  induction m with
  | zero => exact absurd hk (Nat.not_lt_zero k)
  | succ n ih =>
    rw [forLoop_succ]
    rcases Nat.lt_succ_iff_lt_or_eq.mp hk with h | h
    · have hne : (k + 4) * md + c ≠ (n + 4) * md + c := by
        intro he
        have := (cell_offset_inj hc hc he).1
        omega
      rw [setAt_ne _ _ hne]
      exact ih h
    · subst h
      exact setAt_same _ _ _

/-- Once `max_detections` columns are written the emission loop writes nothing more. -/
theorem emit_track_stop {α : Type} (enc : ℚ → α) (enc_id : Int → α) (s : ObjectTrackerState)
    (md cc : Nat) (min_hits : Int) (t : Nat) (acc : (Nat → α) × Nat) (h : ¬ acc.2 < md) :
    emit_track enc enc_id s md cc min_hits t acc = acc := by
  unfold emit_track
  rw [if_pos h]

/-- The emission loop skips a slot that is inactive or has fewer than `min_hits` hits. -/
theorem emit_track_skip {α : Type} (enc : ℚ → α) (enc_id : Int → α) (s : ObjectTrackerState)
    (md cc : Nat) (min_hits : Int) (t : Nat) (acc : (Nat → α) × Nat)
    (h : ¬ ((s.tracks t).active = true ∧ min_hits ≤ (s.tracks t).hits)) :
    emit_track enc enc_id s md cc min_hits t acc = acc := by
  unfold emit_track
  split
  · rfl
  · rw [if_pos]
    simp only [Bool.or_eq_true, Bool.not_eq_true', decide_eq_true_eq]
    by_cases ha : (s.tracks t).active = true
    · right
      exact lt_of_not_ge (fun hh => h ⟨ha, hh⟩)
    · left
      simpa using ha

/-- One emission: the track of slot `t` is written in column `acc.2`, the other columns are
left as they were and the count of written columns grows by one. -/
theorem emit_track_write {α : Type} (enc : ℚ → α) (enc_id : Int → α) (s : ObjectTrackerState)
    (md cc : Nat) (min_hits : Int) (t : Nat) (acc : (Nat → α) × Nat) (hcc : 4 ≤ cc)
    (hc : acc.2 < md) (ha : (s.tracks t).active = true) (hh : min_hits ≤ (s.tracks t).hits) :
    (emit_track enc enc_id s md cc min_hits t acc).2 = acc.2 + 1 ∧
    column_holds enc enc_id md cc (emit_track enc enc_id s md cc min_hits t acc).1 acc.2
      (s.tracks t) ∧
    ∀ r j, j < md → j ≠ acc.2 →
      (emit_track enc enc_id s md cc min_hits t acc).1 (r * md + j) = acc.1 (r * md + j) := by
  have hne : ∀ {r j r2 : Nat}, j < md → (r ≠ r2 ∨ j ≠ acc.2) → r * md + j ≠ r2 * md + acc.2 := by
    intro r j r2 hj hor he
    have := cell_offset_inj hj hc he
    omega
  have hcond : ¬ ((!(s.tracks t).active || decide ((s.tracks t).hits < min_hits)) = true) := by
    simp only [ha, Bool.not_true, Bool.false_or, decide_eq_true_eq]
    omega
  unfold emit_track
  rw [if_neg (not_not.mpr hc), if_neg hcond]
  refine ⟨rfl, ⟨?_, ?_, ?_, ?_, ?_, ?_, ?_⟩, ?_⟩
  · show setAt _ _ _ _ = _
    rw [setAt_ne _ _ (hne hc (Or.inl (by omega))), setAt_ne _ _ (hne hc (Or.inl (by omega))),
      class_rows_other _ _ _ _ _ _ (fun k _ => hne hc (Or.inl (by omega))),
      setAt_ne _ _ (hne hc (Or.inl (by omega))), setAt_ne _ _ (hne hc (Or.inl (by omega))),
      setAt_ne _ _ (hne hc (Or.inl (by omega))), setAt_same]
  · show setAt _ _ _ _ = _
    rw [setAt_ne _ _ (hne hc (Or.inl (by omega))), setAt_ne _ _ (hne hc (Or.inl (by omega))),
      class_rows_other _ _ _ _ _ _ (fun k _ => hne hc (Or.inl (by omega))),
      setAt_ne _ _ (hne hc (Or.inl (by omega))), setAt_ne _ _ (hne hc (Or.inl (by omega))),
      setAt_same]
  · show setAt _ _ _ _ = _
    rw [setAt_ne _ _ (hne hc (Or.inl (by omega))), setAt_ne _ _ (hne hc (Or.inl (by omega))),
      class_rows_other _ _ _ _ _ _ (fun k _ => hne hc (Or.inl (by omega))),
      setAt_ne _ _ (hne hc (Or.inl (by omega))), setAt_same]
  · show setAt _ _ _ _ = _
    rw [setAt_ne _ _ (hne hc (Or.inl (by omega))), setAt_ne _ _ (hne hc (Or.inl (by omega))),
      class_rows_other _ _ _ _ _ _ (fun k _ => hne hc (Or.inl (by omega))),
      setAt_same]
  · intro r hr4 hrcc
    show setAt _ _ _ _ = _
    rw [setAt_ne _ _ (hne hc (Or.inl (by omega))), setAt_ne _ _ (hne hc (Or.inl (by omega)))]
    obtain ⟨k, rfl⟩ : ∃ k, r = k + 4 := ⟨r - 4, by omega⟩
    rw [class_rows_written _ _ _ _ _ k (by omega) hc]
  · show setAt _ _ _ _ = _
    rw [setAt_ne _ _ (hne hc (Or.inl (by omega))), setAt_same]
  · show setAt _ _ _ _ = _
    rw [setAt_same]
  · intro r j hj hjc
    show setAt _ _ _ _ = _
    rw [setAt_ne _ _ (hne hj (Or.inr hjc)), setAt_ne _ _ (hne hj (Or.inr hjc)),
      class_rows_other _ _ _ _ _ _ (fun k _ => hne hj (Or.inr hjc)),
      setAt_ne _ _ (hne hj (Or.inr hjc)), setAt_ne _ _ (hne hj (Or.inr hjc)),
      setAt_ne _ _ (hne hj (Or.inr hjc)), setAt_ne _ _ (hne hj (Or.inr hjc))]

/-- The emitted slots below `n + 1` are those below `n`, followed by `n` when it is emitted. -/
theorem emitted_slots_succ (s : ObjectTrackerState) (n : Nat) (min_hits : Int) :
    emitted_slots s (n + 1) min_hits =
      emitted_slots s n min_hits ++
        (if (s.tracks n).active = true ∧ min_hits ≤ (s.tracks n).hits then [n] else []) := by
  unfold emitted_slots
  rw [List.range_succ, List.filter_append]
  congr 1
  by_cases h : (s.tracks n).active = true ∧ min_hits ≤ (s.tracks n).hits
  · rw [if_pos h]
    simp [List.filter_cons, h.1, h.2]
  · rw [if_neg h]
    simp only [List.filter_cons, List.filter_nil]
    rw [if_neg]
    simpa using h

/-- The fill loop writes `fill` in the first `n` cells. -/
theorem fill_loop {α : Type} (n : Nat) (fill : α) (o : Nat → α) (p : Nat) (hp : p < n) :
    forLoop n (fun i o => setAt o i fill) o p = fill := by
  induction n with
  | zero => exact absurd hp (Nat.not_lt_zero p)
  | succ m ih =>
    rw [forLoop_succ]
    rcases Nat.lt_succ_iff_lt_or_eq.mp hp with h | h
    · rw [setAt_ne _ _ (by omega)]
      exact ih h
    · subst h
      exact setAt_same _ _ _

/-- The layout left by the emission loop after the slots below `mt`. -/
theorem emit_tracks_layout {α : Type} (enc : ℚ → α) (enc_id : Int → α) (fill : α)
    (s : ObjectTrackerState) (output : Nat → α) (md cc mt : Nat) (min_hits : Int)
    (hcc : 4 ≤ cc) :
    (emit_tracks enc enc_id fill s output md cc mt min_hits).2 =
      min (emitted_slots s mt min_hits).length md ∧
    (∀ j t, j < md → (emitted_slots s mt min_hits)[j]? = some t →
      column_holds enc enc_id md cc (emit_tracks enc enc_id fill s output md cc mt min_hits).1 j
        (s.tracks t)) ∧
    (∀ j, j < md → (emitted_slots s mt min_hits).length ≤ j → ∀ r, r < cc + 2 →
      (emit_tracks enc enc_id fill s output md cc mt min_hits).1 (r * md + j) = fill) := by
  unfold emit_tracks
  refine forLoop_inv
    (fun n (acc : (Nat → α) × Nat) =>
      acc.2 = min (emitted_slots s n min_hits).length md ∧
      (∀ j t, j < md → (emitted_slots s n min_hits)[j]? = some t →
        column_holds enc enc_id md cc acc.1 j (s.tracks t)) ∧
      (∀ j, j < md → (emitted_slots s n min_hits).length ≤ j → ∀ r, r < cc + 2 →
        acc.1 (r * md + j) = fill))
    mt _ _ ?_ ?_
  · refine ⟨by simp [emitted_slots], ?_, ?_⟩
    · intro j t _ h
      simp [emitted_slots] at h
    · intro j hj _ r hr
      apply fill_loop
      calc r * md + j < r * md + md := by omega
        _ = (r + 1) * md := by ring
        _ ≤ (cc + 2) * md := Nat.mul_le_mul_right md (by omega)
        _ = md * (cc + 2) := Nat.mul_comm _ _
  · intro n _ acc ⟨hcount, hcols, hfill⟩
    by_cases hel : (s.tracks n).active = true ∧ min_hits ≤ (s.tracks n).hits
    · by_cases hroom : acc.2 < md
      · obtain ⟨hw2, hwcol, hwother⟩ :=
          emit_track_write enc enc_id s md cc min_hits n acc hcc hroom hel.1 hel.2
        have hlen : acc.2 = (emitted_slots s n min_hits).length := by omega
        rw [emitted_slots_succ, if_pos hel]
        refine ⟨?_, ?_, ?_⟩
        · rw [hw2, List.length_append, List.length_singleton]
          omega
        · intro j t hj hjt
          by_cases hjl : j < (emitted_slots s n min_hits).length
          · rw [List.getElem?_append_left hjl] at hjt
            have hold := hcols j t hj hjt
            have hjne : j ≠ acc.2 := by omega
            unfold column_holds at hold ⊢
            simp only [hwother _ j hj hjne]
            exact hold
          · have hjeq : j = acc.2 := by
              have : j < (emitted_slots s n min_hits ++ [n]).length := by
                by_contra hcon
                rw [List.getElem?_eq_none (by omega)] at hjt
                exact absurd hjt (by simp)
              rw [List.length_append, List.length_singleton] at this
              omega
            rw [List.getElem?_append_right (by omega)] at hjt
            have htn : t = n := by
              rw [hjeq, hlen] at hjt
              simpa using hjt.symm
            rw [htn, hjeq]
            exact hwcol
        · intro j hj hjl r hr
          rw [List.length_append, List.length_singleton] at hjl
          rw [hwother r j hj (by omega)]
          exact hfill j hj (by omega) r hr
      · rw [emit_track_stop _ _ _ _ _ _ _ _ hroom, emitted_slots_succ, if_pos hel]
        have hfull : md ≤ (emitted_slots s n min_hits).length := by omega
        refine ⟨?_, ?_, ?_⟩
        · rw [List.length_append, List.length_singleton]
          omega
        · intro j t hj hjt
          rw [List.getElem?_append_left (by omega)] at hjt
          exact hcols j t hj hjt
        · intro j hj hjl r hr
          rw [List.length_append, List.length_singleton] at hjl
          omega
    · rw [emit_track_skip _ _ _ _ _ _ _ _ hel, emitted_slots_succ, if_neg hel,
        List.append_nil]
      exact ⟨hcount, hcols, hfill⟩

/-- A loop whose iterations all leave the state as it is leaves it as it is. -/
theorem forLoop_id {σ : Type} (n : Nat) (body : Nat → σ → σ) (s : σ)
    (h : ∀ k, k < n → body k s = s) : forLoop n body s = s := by
  induction n with
  | zero => rfl
  | succ m ih =>
    rw [forLoop_succ, ih (fun k hk => h k (Nat.lt_succ_of_lt hk))]
    exact h m (Nat.lt_succ_self m)

/-- A loop in which only iteration `k0` acts is that iteration. -/
theorem forLoop_single {σ : Type} (n : Nat) (body : Nat → σ → σ) (s : σ) (k0 : Nat)
    (hk0 : k0 < n) (h : ∀ k, k < n → k ≠ k0 → ∀ st, body k st = st) :
    forLoop n body s = body k0 s := by
  induction n with
  | zero => exact absurd hk0 (Nat.not_lt_zero k0)
  | succ m ih =>
    rw [forLoop_succ]
    rcases Nat.lt_succ_iff_lt_or_eq.mp hk0 with hlt | heq
    · rw [ih hlt (fun k hk => h k (Nat.lt_succ_of_lt hk))]
      exact h m (Nat.lt_succ_self m) (by omega) _
    · subst heq
      rw [forLoop_id k0 body s (fun k hk => h k (Nat.lt_succ_of_lt hk) (by omega) s)]

/-- The loop that clears a matching array leaves a cleared array cleared. -/
theorem clear_loop_false (n : Nat) :
    forLoop n (fun i (m : Nat → Bool) => setAt m i false) (fun _ => false) = fun _ => false := by
  induction n with
  | zero => rfl
  | succ m ih =>
    rw [forLoop_succ, ih]
    funext j
    simp [setAt]

/-- The scan of one detection, when `t0` is the only slot below `max_tracks` that is active:
the track of `t0` is selected when it is unmatched, of the class of the detection and its
IoU with the detection is above the threshold and above 0. -/
theorem find_best_track_only (tracks : Nat → ObjectTrack) (tm : Nat → Bool) (D : Detection)
    (mt : Nat) (thr : ℚ) (t0 : Nat) (ht0 : t0 < mt)
    (honly : ∀ t, t < mt → t ≠ t0 → (tracks t).active = false)
    (hact : (tracks t0).active = true) (hfree : tm t0 = false)
    (hclass : (tracks t0).class_id = float_to_int D.class_id)
    (hthr : calculate_iou D.x D.y D.w D.h (tracks t0).x (tracks t0).y (tracks t0).w (tracks t0).h
      > thr)
    (hpos : calculate_iou D.x D.y D.w D.h (tracks t0).x (tracks t0).y (tracks t0).w (tracks t0).h
      > 0) :
    find_best_track tracks tm D mt thr =
      (calculate_iou D.x D.y D.w D.h (tracks t0).x (tracks t0).y (tracks t0).w (tracks t0).h,
        some t0) := by
  unfold find_best_track
  rw [forLoop_single mt _ _ t0 ht0]
  · have h1 : ¬ ((!(tracks t0).active || tm t0) = true) := by simp [hact, hfree]
    have h2 : ¬ ((tracks t0).class_id ≠ float_to_int D.class_id) := not_not.mpr hclass
    dsimp only
    rw [if_neg h1, if_neg h2, if_pos ⟨hpos, hthr⟩]
  · intro k hk hne st
    simp [honly k hk hne]

/-- The spawn phase of a frame with one detection that was matched changes nothing. -/
theorem create_new_tracks_one_matched (s : ObjectTrackerState) (data : Nat → Detection)
    (mt : Nat) (dm : Nat → Bool) (h : dm 0 = true) : create_new_tracks s data 1 mt dm = s := by
  unfold create_new_tracks
  rw [forLoop_succ, forLoop_zero]
  unfold create_track
  rw [if_pos h]

/-- The lifecycle phase changes nothing when every slot below `max_tracks` is inactive or
was matched in this frame. -/
theorem update_track_lifecycle_id (s : ObjectTrackerState) (mt : Nat) (max_age : Int)
    (tm : Nat → Bool) (h : ∀ k, k < mt → (s.tracks k).active = false ∨ tm k = true) :
    update_track_lifecycle s mt max_age tm = s := by
  unfold update_track_lifecycle
  apply forLoop_id
  intro k hk
  unfold age_track
  rcases h k hk with h1 | h1
  · simp [h1]
  · simp [h1]

/-- C1: when the only active track below `max_tracks` sits in slot `t0`, the frame holds one
detection only, of the class of that track, and their IoU is above the threshold and above 0,
one step of `object_tracker_f32` leaves the track in slot `t0` with its track id and class,
gives it the box and confidence of the detection, age 0, one more hit and the IoU as
tracking confidence; no other slot changes and no track id is handed out. -/
theorem tracker_match_keeps_identity (detections : Nat → ℚ) (s : ObjectTrackerState)
    (output : Nat → ℚ) (md cc : Nat) (thr : ℚ) (mt : Nat) (max_age min_hits : Int)
    (data : Nat → Detection) (t0 : Nat) (ht0 : t0 < mt)
    (hact : (s.tracks t0).active = true)
    (honly : ∀ t, t < mt → t ≠ t0 → (s.tracks t).active = false)
    (hex : extract_detections detections md cc unwritten_rows = (data, 1))
    (hclass : (s.tracks t0).class_id = float_to_int (data 0).class_id)
    (hthr : calculate_iou (data 0).x (data 0).y (data 0).w (data 0).h
      (s.tracks t0).x (s.tracks t0).y (s.tracks t0).w (s.tracks t0).h > thr)
    (hpos : calculate_iou (data 0).x (data 0).y (data 0).w (data 0).h
      (s.tracks t0).x (s.tracks t0).y (s.tracks t0).w (s.tracks t0).h > 0) :
    ((object_tracker_f32 detections s output md cc thr mt max_age min_hits).1.tracks t0 =
      { x := (data 0).x
        y := (data 0).y
        w := (data 0).w
        h := (data 0).h
        confidence := (data 0).confidence
        class_id := (s.tracks t0).class_id
        track_id := (s.tracks t0).track_id
        age := 0
        hits := (s.tracks t0).hits + 1
        active := true
        tracking_confidence := calculate_iou (data 0).x (data 0).y (data 0).w (data 0).h
          (s.tracks t0).x (s.tracks t0).y (s.tracks t0).w (s.tracks t0).h }) ∧
    (∀ t, t ≠ t0 →
      (object_tracker_f32 detections s output md cc thr mt max_age min_hits).1.tracks t =
        s.tracks t) ∧
    (object_tracker_f32 detections s output md cc thr mt max_age min_hits).1.next_track_id =
      s.next_track_id := by
  have hassoc : perform_tracking_association s data 1 mt thr (fun _ => false) (fun _ => false) =
      { state :=
          { s with
            tracks := setAt s.tracks t0
              { s.tracks t0 with
                x := (data 0).x
                y := (data 0).y
                w := (data 0).w
                h := (data 0).h
                confidence := (data 0).confidence
                age := 0
                hits := (s.tracks t0).hits + 1
                tracking_confidence := calculate_iou (data 0).x (data 0).y (data 0).w (data 0).h
                  (s.tracks t0).x (s.tracks t0).y (s.tracks t0).w (s.tracks t0).h } }
        detection_matched := setAt (fun _ => false) 0 true
        track_matched := setAt (fun _ => false) t0 true } := by
    unfold perform_tracking_association
    rw [clear_loop_false, clear_loop_false, forLoop_succ, forLoop_zero]
    unfold associate_detection
    simp only [Bool.false_eq_true, if_false]
    rw [find_best_track_only s.tracks (fun _ => false) (data 0) mt thr t0 ht0 honly hact rfl
      hclass hthr hpos]
  have hstate : (object_tracker_f32 detections s output md cc thr mt max_age min_hits).1 =
      (perform_tracking_association s data 1 mt thr (fun _ => false) (fun _ => false)).state := by
    unfold object_tracker_f32
    simp only [hex]
    rw [hassoc, create_new_tracks_one_matched _ _ _ _ (setAt_same _ _ _)]
    apply update_track_lifecycle_id
    intro k hk
    by_cases hkt : k = t0
    · subst hkt
      right
      show setAt (fun _ => false) k true k = true
      exact setAt_same _ _ _
    · left
      show (setAt s.tracks t0 _ k).active = false
      rw [setAt_ne _ _ hkt]
      exact honly k hk hkt
  rw [hstate, hassoc]
  refine ⟨?_, ?_, rfl⟩
  · show setAt _ _ _ _ = _
    rw [setAt_same]
    simp [hact]
  · intro t ht
    show setAt _ _ _ _ = _
    rw [setAt_ne _ _ ht]

/-- The track selected by the scan of one detection is a slot below `max_tracks` that is
active, not yet matched in this frame and of the class of the detection. -/
theorem find_best_track_some (tracks : Nat → ObjectTrack) (tm : Nat → Bool) (D : Detection)
    (mt : Nat) (thr : ℚ) (t : Nat) (h : (find_best_track tracks tm D mt thr).2 = some t) :
    t < mt ∧ (tracks t).active = true ∧ tm t = false ∧
      (tracks t).class_id = float_to_int D.class_id := by
  unfold find_best_track at h
  revert h
  refine forLoop_inv
    (fun n (acc : ℚ × Option Nat) => acc.2 = some t →
      t < n ∧ (tracks t).active = true ∧ tm t = false ∧
        (tracks t).class_id = float_to_int D.class_id)
    mt _ _ ?_ ?_
  · intro h
    exact absurd h (by simp)
  · intro k _ acc ih h
    dsimp only at h
    have hweak : acc.2 = some t → t < k + 1 ∧ (tracks t).active = true ∧ tm t = false ∧
        (tracks t).class_id = float_to_int D.class_id := fun hh =>
      ⟨Nat.lt_succ_of_lt (ih hh).1, (ih hh).2⟩
    split at h
    · exact hweak h
    · rename_i h1
      split at h
      · exact hweak h
      · rename_i h2
        split at h
        · have hk : k = t := by simpa using h
          subst hk
          simp only [Bool.or_eq_true, Bool.not_eq_true', not_or, Bool.not_eq_false,
            Bool.not_eq_true] at h1
          exact ⟨Nat.lt_succ_self k, h1.1, h1.2, not_not.mp h2⟩
        · exact hweak h

/-- The scan of one detection selects nothing when every slot below `max_tracks` that is
active has a class other than the class of the detection. -/
theorem find_best_track_other_class (tracks : Nat → ObjectTrack) (tm : Nat → Bool)
    (D : Detection) (mt : Nat) (thr : ℚ)
    (h : ∀ t, t < mt → (tracks t).active = true → (tracks t).class_id ≠ float_to_int D.class_id) :
    find_best_track tracks tm D mt thr = (0, none) := by
  unfold find_best_track
  apply forLoop_id
  intro k hk
  dsimp only
  by_cases hc : (!(tracks k).active || tm k) = true
  · rw [if_pos hc]
  · have ha : (tracks k).active = true := by
      simp only [Bool.or_eq_true, Bool.not_eq_true', not_or, Bool.not_eq_false] at hc
      exact hc.1
    rw [if_neg hc, if_pos (h k hk ha)]

/-- C2: the scan of the association phase never selects a track whose class differs from the
class of the detection, whatever the IoU. Hence in a frame with one detection, when every
active track has another class, the association phase changes no track (box, confidence and
hits included) and leaves the detection unmatched, and the spawn phase installs the
detection in the first empty slot as a new track with the next track id. -/
theorem class_exclusion (s : ObjectTrackerState) (data : Nat → Detection) (mt : Nat) (thr : ℚ)
    (hother : ∀ t, t < mt → (s.tracks t).active = true →
      (s.tracks t).class_id ≠ float_to_int (data 0).class_id) :
    (∀ (tracks : Nat → ObjectTrack) (tm : Nat → Bool) (D : Detection) (t : Nat),
      (find_best_track tracks tm D mt thr).2 = some t →
        (tracks t).class_id = float_to_int D.class_id) ∧
    (perform_tracking_association s data 1 mt thr (fun _ => false) (fun _ => false)).state = s ∧
    (perform_tracking_association s data 1 mt thr (fun _ => false)
      (fun _ => false)).detection_matched 0 = false ∧
    ∀ e, find_empty_slot s.tracks mt = some e →
      (create_new_tracks
        (perform_tracking_association s data 1 mt thr (fun _ => false) (fun _ => false)).state
        data 1 mt
        (perform_tracking_association s data 1 mt thr (fun _ => false)
          (fun _ => false)).detection_matched).tracks e =
        { x := (data 0).x
          y := (data 0).y
          w := (data 0).w
          h := (data 0).h
          confidence := (data 0).confidence
          class_id := float_to_int (data 0).class_id
          track_id := s.next_track_id
          age := 0
          hits := 1
          active := true
          tracking_confidence := 1 } := by
  have hassoc : perform_tracking_association s data 1 mt thr (fun _ => false) (fun _ => false) =
      { state := s, detection_matched := fun _ => false, track_matched := fun _ => false } := by
    unfold perform_tracking_association
    rw [clear_loop_false, clear_loop_false, forLoop_succ, forLoop_zero]
    unfold associate_detection
    simp only [Bool.false_eq_true, if_false]
    rw [find_best_track_other_class s.tracks (fun _ => false) (data 0) mt thr hother]
  refine ⟨fun tracks tm D t h => (find_best_track_some tracks tm D mt thr t h).2.2.2, ?_, ?_, ?_⟩
  · rw [hassoc]
  · rw [hassoc]
  · intro e he
    rw [hassoc]
    unfold create_new_tracks
    rw [forLoop_succ, forLoop_zero]
    unfold create_track
    simp only [Bool.false_eq_true, if_false, he]
    show setAt _ _ _ _ = _
    rw [setAt_same]
    rfl

/-- The conversion `(int)(float)c` gives back the integer `c`. -/
theorem float_to_int_intCast (c : Int) : float_to_int (c : ℚ) = c := by
  unfold float_to_int
  rw [Rat.num_intCast, Rat.den_intCast]
  simp

/-- The class found by the class-row loop is not negative when the column is kept. -/
theorem best_class_nonneg (det : Nat → ℚ) (md cc i : Nat)
    (h : (best_class det md cc i).1 > 0 ∨ (best_class det md cc i).2 ≥ 0) :
    0 ≤ (best_class det md cc i).2 := by
  have hinv : 0 ≤ (best_class det md cc i).1 ∧
      ((best_class det md cc i).1 > 0 → 0 ≤ (best_class det md cc i).2) := by
    unfold best_class
    refine forLoop_inv (fun _ (acc : ℚ × Int) => 0 ≤ acc.1 ∧ (acc.1 > 0 → 0 ≤ acc.2))
      _ _ _ ⟨le_refl _, fun h => absurd h (lt_irrefl _)⟩ ?_
    intro k _ acc ⟨h1, h2⟩
    dsimp only
    split
    · rename_i hgt
      refine ⟨le_of_lt (lt_of_le_of_lt h1 hgt), fun _ => ?_⟩
      show (0 : Int) ≤ ((k + 4 : Nat) : Int) - 4
      omega
    · exact ⟨h1, h2⟩
  rcases h with h | h
  · exact hinv.2 h
  · exact h

/-- Every row filled by `extract_detections` carries a class that is not negative, and at
most `max_detections` rows are filled. -/
theorem extract_detections_class (det : Nat → ℚ) (md cc : Nat) (rows : Nat → Detection) :
    (extract_detections det md cc rows).2 ≤ md ∧
    ∀ d, d < (extract_detections det md cc rows).2 →
      0 ≤ float_to_int ((extract_detections det md cc rows).1 d).class_id := by
  unfold extract_detections
  refine forLoop_inv
    (fun n (acc : (Nat → Detection) × Nat) =>
      acc.2 ≤ n ∧ ∀ d, d < acc.2 → 0 ≤ float_to_int (acc.1 d).class_id)
    _ _ _ ⟨le_refl _, fun d hd => absurd hd (Nat.not_lt_zero d)⟩ ?_
  intro k _ acc ⟨h1, h2⟩
  dsimp only
  split
  · rename_i hkeep
    refine ⟨Nat.succ_le_succ h1, fun d hd => ?_⟩
    by_cases hdl : d = acc.2
    · rw [hdl]
      simp only [setAt_same, float_to_int_intCast]
      exact best_class_nonneg det md cc k hkeep
    · simp only [setAt_ne _ _ hdl]
      exact h2 d (by omega)
  · exact ⟨Nat.le_succ_of_le h1, h2⟩

/-- A track is kept by doing nothing. -/
theorem track_kept_refl (T : ObjectTrack) : track_kept T T :=
  ⟨rfl, rfl, rfl, le_refl _, Or.inl rfl⟩

/-- Keeping a track twice keeps it. -/
theorem track_kept_trans {T1 T2 T3 : ObjectTrack} (h12 : track_kept T1 T2)
    (h23 : track_kept T2 T3) : track_kept T1 T3 := by
  obtain ⟨a1, b1, c1, d1, e1⟩ := h12
  obtain ⟨a2, b2, c2, d2, e2⟩ := h23
  refine ⟨a2.trans a1, b2.trans b1, c2.trans c1, le_trans d1 d2, ?_⟩
  rcases e2 with e2 | e2
  · rcases e1 with e1 | e1
    · exact Or.inl (e2.trans e1)
    · exact Or.inr (e2.trans e1)
  · exact Or.inr e2

/-- One iteration of the association loop keeps every track in the sense of `track_kept`
and does not touch the id allocator. -/
theorem associate_detection_kept (data : Nat → Detection) (mt : Nat) (thr : ℚ) (d : Nat)
    (a : Association) :
    (associate_detection data mt thr d a).state.next_track_id = a.state.next_track_id ∧
    ∀ t, track_kept (a.state.tracks t) ((associate_detection data mt thr d a).state.tracks t) := by
  unfold associate_detection
  split
  · exact ⟨rfl, fun t => track_kept_refl _⟩
  · split
    · exact ⟨rfl, fun t => track_kept_refl _⟩
    · rename_i best_iou best_track _
      refine ⟨rfl, fun t => ?_⟩
      by_cases ht : t = best_track
      · subst ht
        simp only [setAt_same]
        exact ⟨rfl, rfl, rfl, by show _ ≤ _ + 1; omega, Or.inr rfl⟩
      · simp only [setAt_ne _ _ ht]
        exact track_kept_refl _

/-- The association phase keeps every track in the sense of `track_kept` and does not touch
the id allocator. -/
theorem perform_tracking_association_kept (s : ObjectTrackerState) (data : Nat → Detection)
    (valid mt : Nat) (thr : ℚ) (dm tm : Nat → Bool) :
    (perform_tracking_association s data valid mt thr dm tm).state.next_track_id =
      s.next_track_id ∧
    ∀ t, track_kept (s.tracks t)
      ((perform_tracking_association s data valid mt thr dm tm).state.tracks t) := by
  unfold perform_tracking_association
  refine forLoop_inv
    (fun _ (a : Association) =>
      a.state.next_track_id = s.next_track_id ∧ ∀ t, track_kept (s.tracks t) (a.state.tracks t))
    _ _ _ ⟨rfl, fun t => track_kept_refl _⟩ ?_
  intro k _ a ⟨h1, h2⟩
  obtain ⟨g1, g2⟩ := associate_detection_kept data mt thr k a
  exact ⟨g1.trans h1, fun t => track_kept_trans (h2 t) (g2 t)⟩

/-- After the lifecycle phase a slot below `max_tracks` holds what `age_track` makes of it
and the other slots and the id allocator are as before. -/
theorem update_track_lifecycle_tracks (s : ObjectTrackerState) (mt : Nat) (max_age : Int)
    (tm : Nat → Bool) :
    (update_track_lifecycle s mt max_age tm).next_track_id = s.next_track_id ∧
    ∀ t, (update_track_lifecycle s mt max_age tm).tracks t =
      if t < mt then (age_track max_age tm t s).tracks t else s.tracks t := by
  unfold update_track_lifecycle
  refine forLoop_inv
    (fun n (st : ObjectTrackerState) =>
      st.next_track_id = s.next_track_id ∧
      ∀ t, st.tracks t = if t < n then (age_track max_age tm t s).tracks t else s.tracks t)
    _ _ _ ⟨rfl, fun t => by simp⟩ ?_
  intro k _ st ⟨h1, h2⟩
  have hk : st.tracks k = s.tracks k := by
    rw [h2 k, if_neg (Nat.lt_irrefl k)]
  have hstep : (age_track max_age tm k st).next_track_id = st.next_track_id ∧
      (age_track max_age tm k st).tracks k = (age_track max_age tm k s).tracks k ∧
      ∀ t, t ≠ k → (age_track max_age tm k st).tracks t = st.tracks t := by
    unfold age_track
    rw [hk]
    split
    · exact ⟨rfl, hk, fun _ _ => rfl⟩
    · split
      · dsimp only
        split
        · exact ⟨rfl, by simp only [setAt_same], fun t ht => by simp only [setAt_ne _ _ ht]⟩
        · exact ⟨rfl, by simp only [setAt_same], fun t ht => by simp only [setAt_ne _ _ ht]⟩
      · exact ⟨rfl, hk, fun _ _ => rfl⟩
  refine ⟨hstep.1.trans h1, fun t => ?_⟩
  by_cases htk : t = k
  · subst htk
    rw [hstep.2.1, if_pos (Nat.lt_succ_self t)]
  · rw [hstep.2.2 t htk, h2 t]
    by_cases hlt : t < k
    · rw [if_pos hlt, if_pos (Nat.lt_succ_of_lt hlt)]
    · rw [if_neg hlt, if_neg (by omega)]

/-- The slot found by the search for an empty slot is below `max_tracks` and not active. -/
theorem find_empty_slot_some (tracks : Nat → ObjectTrack) (mt e : Nat)
    (h : find_empty_slot tracks mt = some e) : e < mt ∧ (tracks e).active = false := by
  unfold find_empty_slot at h
  have h1 := List.find?_some h
  have h2 := List.mem_of_find?_eq_some h
  exact ⟨List.mem_range.mp h2, by simpa using h1⟩

/-- What `age_track` makes of its slot: the track is left as it is, or the slot ends
inactive, or the track was active and is aged by one frame without exceeding `max_age`. -/
theorem age_track_cases (max_age : Int) (tm : Nat → Bool) (t : Nat) (s : ObjectTrackerState) :
    (age_track max_age tm t s).tracks t = s.tracks t ∨
    ((age_track max_age tm t s).tracks t).active = false ∨
    ((s.tracks t).active = true ∧ ((age_track max_age tm t s).tracks t).active = true ∧
      ((age_track max_age tm t s).tracks t).track_id = (s.tracks t).track_id ∧
      ((age_track max_age tm t s).tracks t).class_id = (s.tracks t).class_id ∧
      ((age_track max_age tm t s).tracks t).hits = (s.tracks t).hits ∧
      ((age_track max_age tm t s).tracks t).age = (s.tracks t).age + 1 ∧
      ((age_track max_age tm t s).tracks t).age ≤ max_age) := by
  unfold age_track
  split
  · exact Or.inl rfl
  · rename_i hact
    split
    · dsimp only
      split
      · right; left
        simp only [setAt_same]
      · rename_i hle
        right; right
        have ha : (s.tracks t).active = true := by simpa using hact
        simp only [setAt_same]
        exact ⟨ha, ha, trivial, trivial, trivial, trivial, not_lt.mp hle⟩
    · exact Or.inl rfl

/-- What one iteration of the spawn loop does: nothing, or it installs detection `d`, which
was not matched, in the first empty slot with the next track id and advances the allocator. -/
theorem create_track_cases (data : Nat → Detection) (mt : Nat) (dm : Nat → Bool) (d : Nat)
    (s : ObjectTrackerState) :
    (create_track data mt dm d s = s ∧
      (dm d = true ∨ find_empty_slot s.tracks mt = none)) ∨
    ∃ e, dm d = false ∧ find_empty_slot s.tracks mt = some e ∧
      (create_track data mt dm d s).next_track_id =
        (if s.next_track_id + 1 > MAX_TRACK_ID then 1 else s.next_track_id + 1) ∧
      (create_track data mt dm d s).tracks e =
        { x := (data d).x
          y := (data d).y
          w := (data d).w
          h := (data d).h
          confidence := (data d).confidence
          class_id := float_to_int (data d).class_id
          track_id := s.next_track_id
          age := 0
          hits := 1
          active := true
          tracking_confidence := NEW_TRACK_CONFIDENCE } ∧
      ∀ t, t ≠ e → (create_track data mt dm d s).tracks t = s.tracks t := by
  unfold create_track
  split
  · rename_i hm
    exact Or.inl ⟨rfl, Or.inl hm⟩
  · rename_i hm
    split
    · rename_i hnone
      exact Or.inl ⟨rfl, Or.inr hnone⟩
    · rename_i e he
      right
      refine ⟨e, by simpa using hm, he, rfl, by simp only [setAt_same], fun t ht => ?_⟩
      simp only [setAt_ne _ _ ht]

/-- A loop that rewrites slot `i` of an array from its own content in iteration `i`. -/
theorem forLoop_setAt_self {α : Type} (n : Nat) (g : Nat → α → α) (a : Nat → α) (t : Nat) :
    forLoop n (fun i b => setAt b i (g i (b i))) a t = if t < n then g t (a t) else a t := by
  induction n with
  | zero => simp
  | succ m ih =>
    rw [forLoop_succ]
    by_cases htm : t = m
    · subst htm
      rw [setAt_same, ih, if_neg (Nat.lt_irrefl t), if_pos (Nat.lt_succ_self t)]
    · rw [setAt_ne _ _ htm, ih]
      by_cases hlt : t < m
      · rw [if_pos hlt, if_pos (Nat.lt_succ_of_lt hlt)]
      · rw [if_neg hlt, if_neg (by omega)]

/-- After `object_tracker_init_f32` every slot of the table is inactive. -/
theorem object_tracker_init_f32_inactive (s0 : ObjectTrackerState) (t : Nat)
    (ht : t < TRACKS_ARRAY_SIZE) : ((object_tracker_init_f32 s0).tracks t).active = false := by
  have h := forLoop_setAt_self TRACKS_ARRAY_SIZE
    (fun _ (T : ObjectTrack) => { T with active := false, track_id := -1, age := 0, hits := 0 })
    s0.tracks t
  rw [if_pos ht] at h
  exact (congrArg ObjectTrack.active h).trans rfl

/-- The state left by `object_tracker_init_f32` satisfies the invariant of the tracker state. -/
theorem tracker_ok_init (max_age : Int) (s0 : ObjectTrackerState) :
    tracker_ok max_age (object_tracker_init_f32 s0) := by
  refine ⟨by show (1 : Int) ≤ 1; omega, by show (1 : Int) ≤ 127; omega, fun t ht hact => ?_⟩
  rw [object_tracker_init_f32_inactive s0 t ht] at hact
  exact absurd hact (by simp)

/-- A track kept by the association phase still satisfies the invariants of an active track. -/
theorem track_ok_of_kept {max_age : Int} {T T2 : ObjectTrack} (hage : 0 ≤ max_age)
    (hk : track_kept T T2) (h : track_ok max_age T) : track_ok max_age T2 := by
  intro hact
  obtain ⟨a, b, c, d, e⟩ := hk
  obtain ⟨h1, h2, h3, h4, h5, h6⟩ := h (a ▸ hact)
  refine ⟨b ▸ h1, b ▸ h2, c ▸ h3, le_trans h4 d, ?_, ?_⟩
  · rcases e with e | e <;> omega
  · rcases e with e | e <;> omega

/-- The spawn phase keeps the invariant of the tracker state when the rows it reads carry
classes that are not negative. -/
theorem create_new_tracks_ok (max_age : Int) (hage : 0 ≤ max_age) (s : ObjectTrackerState)
    (data : Nat → Detection) (valid mt : Nat) (dm : Nat → Bool) (hmt : mt ≤ TRACKS_ARRAY_SIZE)
    (hcls : ∀ d, d < valid → 0 ≤ float_to_int (data d).class_id) (h : tracker_ok max_age s) :
    tracker_ok max_age (create_new_tracks s data valid mt dm) := by
  unfold create_new_tracks
  refine forLoop_inv (fun _ st => tracker_ok max_age st) _ _ _ h ?_
  intro k hk st ⟨h1, h2, h3⟩
  rcases create_track_cases data mt dm k st with ⟨heq, _⟩ | ⟨e, _, he, hnext, hnew, hother⟩
  · rw [heq]
    exact ⟨h1, h2, h3⟩
  · refine ⟨?_, ?_, fun t ht => ?_⟩
    · rw [hnext]
      unfold MAX_TRACK_ID
      split <;> omega
    · rw [hnext]
      unfold MAX_TRACK_ID
      split <;> omega
    · by_cases hte : t = e
      · subst hte
        rw [hnew]
        intro _
        exact ⟨h1, h2, hcls k hk, le_refl _, le_refl _, hage⟩
      · rw [hother t hte]
        exact h3 t ht

/-- The lifecycle phase keeps the invariant of the tracker state. -/
theorem update_track_lifecycle_ok (max_age : Int) (s : ObjectTrackerState) (mt : Nat)
    (tm : Nat → Bool) (h : tracker_ok max_age s) :
    tracker_ok max_age (update_track_lifecycle s mt max_age tm) := by
  obtain ⟨h1, h2, h3⟩ := h
  obtain ⟨g1, g2⟩ := update_track_lifecycle_tracks s mt max_age tm
  refine ⟨g1 ▸ h1, g1 ▸ h2, fun t ht => ?_⟩
  rw [g2 t]
  split
  · rcases age_track_cases max_age tm t s with hc | hc | ⟨ha, _, hid, hcl, hhits, hage1, hage2⟩
    · rw [hc]
      exact h3 t ht
    · intro hact
      rw [hc] at hact
      exact absurd hact (by simp)
    · intro _
      obtain ⟨k1, k2, k3, k4, k5, _⟩ := h3 t ht ha
      rw [hid, hcl, hhits]
      refine ⟨k1, k2, k3, k4, ?_, hage2⟩
      rw [hage1]
      omega
  · exact h3 t ht

/-- One step of `object_tracker_f32` keeps the invariant of the tracker state. -/
theorem object_tracker_f32_ok (detections : Nat → ℚ) (s : ObjectTrackerState) (output : Nat → ℚ)
    (md cc : Nat) (thr : ℚ) (mt : Nat) (max_age min_hits : Int) (hmt : mt ≤ TRACKS_ARRAY_SIZE)
    (hage : 0 ≤ max_age) (h : tracker_ok max_age s) :
    tracker_ok max_age (object_tracker_f32 detections s output md cc thr mt max_age min_hits).1 := by
  unfold object_tracker_f32
  dsimp only
  apply update_track_lifecycle_ok
  apply create_new_tracks_ok max_age hage _ _ _ _ _ hmt
    (extract_detections_class detections md cc unwritten_rows).2
  obtain ⟨g1, g2⟩ := perform_tracking_association_kept s
    (extract_detections detections md cc unwritten_rows).1
    (extract_detections detections md cc unwritten_rows).2 mt thr (fun _ => false) (fun _ => false)
  exact ⟨g1 ▸ h.1, g1 ▸ h.2.1, fun t ht => track_ok_of_kept hage (g2 t) (h.2.2 t ht)⟩

/-- Every state of a run of the tracker satisfies the invariant of the tracker state. -/
theorem tracker_run_ok (s0 : ObjectTrackerState) (frames : List (Nat → ℚ)) (md cc : Nat)
    (thr : ℚ) (mt : Nat) (max_age min_hits : Int) (hmt : mt ≤ TRACKS_ARRAY_SIZE)
    (hage : 0 ≤ max_age) :
    tracker_ok max_age (tracker_run s0 frames md cc thr mt max_age min_hits) := by
  unfold tracker_run
  have hgen : ∀ (fs : List (Nat → ℚ)) (s : ObjectTrackerState), tracker_ok max_age s →
      tracker_ok max_age (fs.foldl
        (fun s detections =>
          (object_tracker_f32 detections s (fun _ => 0) md cc thr mt max_age min_hits).1) s) := by
    intro fs
    induction fs with
    | nil => exact fun s hs => hs
    | cons f rest ih =>
      intro s hs
      exact ih _ (object_tracker_f32_ok f s _ md cc thr mt max_age min_hits hmt hage hs)
  exact hgen frames _ (tracker_ok_init max_age s0)

/-- C8: from the state left by `object_tracker_init_f32`, after any sequence of steps of
`object_tracker_f32` with fixed parameters, `max_tracks ≤ 50` and `max_age ≥ 0`, every
active track has its track id in 1..127, a class id that is not negative, at least one hit
and an age in 0..max_age. -/
theorem active_track_invariant (s0 : ObjectTrackerState) (frames : List (Nat → ℚ))
    (md cc : Nat) (thr : ℚ) (mt : Nat) (max_age min_hits : Int) (hmt : mt ≤ 50)
    (hage : 0 ≤ max_age) (t : Nat) (ht : t < mt)
    (hact : ((tracker_run s0 frames md cc thr mt max_age min_hits).tracks t).active = true) :
    1 ≤ ((tracker_run s0 frames md cc thr mt max_age min_hits).tracks t).track_id ∧
    ((tracker_run s0 frames md cc thr mt max_age min_hits).tracks t).track_id ≤ 127 ∧
    0 ≤ ((tracker_run s0 frames md cc thr mt max_age min_hits).tracks t).class_id ∧
    1 ≤ ((tracker_run s0 frames md cc thr mt max_age min_hits).tracks t).hits ∧
    0 ≤ ((tracker_run s0 frames md cc thr mt max_age min_hits).tracks t).age ∧
    ((tracker_run s0 frames md cc thr mt max_age min_hits).tracks t).age ≤ max_age :=
  (tracker_run_ok s0 frames md cc thr mt max_age min_hits hmt hage).2.2 t
    (Nat.lt_of_lt_of_le ht hmt) hact

/-- The state left by `object_tracker_init_f32` satisfies the invariant of the id allocator with
no id handed out. -/
theorem ids_ok_init (s0 : ObjectTrackerState) : ids_ok 0 (object_tracker_init_f32 s0) := by
  refine ⟨by omega, rfl, fun t ht hact => ?_, fun t _ ht _ hact _ _ => ?_⟩
  · rw [object_tracker_init_f32_inactive s0 t ht] at hact
    exact absurd hact (by simp)
  · rw [object_tracker_init_f32_inactive s0 t ht] at hact
    exact absurd hact (by simp)

/-- A phase that leaves the allocator alone and under which every active track was active
with the same id before keeps the invariant of the id allocator. -/
theorem ids_ok_of_active_sub (n : Nat) (s s2 : ObjectTrackerState)
    (hnext : s2.next_track_id = s.next_track_id)
    (hsub : ∀ t, (s2.tracks t).active = true →
      (s.tracks t).active = true ∧ (s2.tracks t).track_id = (s.tracks t).track_id)
    (h : ids_ok n s) : ids_ok n s2 := by
  obtain ⟨h1, h2, h3, h4⟩ := h
  refine ⟨h1, hnext.trans h2, fun t ht hact => ?_, fun t t2 ht ht2 ha ha2 hid => ?_⟩
  · rw [(hsub t hact).2]
    exact h3 t ht (hsub t hact).1
  · apply h4 t t2 ht ht2 (hsub t ha).1 (hsub t2 ha2).1
    rw [← (hsub t ha).2, ← (hsub t2 ha2).2, hid]

/-- The ids handed out over `v + 1` detections are those over `v` detections, plus one when
detection `v` is unmatched and finds an empty slot. -/
theorem ids_handed_out_succ (s : ObjectTrackerState) (data : Nat → Detection) (v mt : Nat)
    (dm : Nat → Bool) :
    ids_handed_out s data (v + 1) mt dm =
      ids_handed_out s data v mt dm +
        (if dm v = false ∧ (find_empty_slot (create_new_tracks s data v mt dm).tracks mt).isSome
          then 1 else 0) := by
  unfold ids_handed_out
  rw [List.range_succ, List.filter_append, List.length_append]
  congr 1
  by_cases h : dm v = false ∧ (find_empty_slot (create_new_tracks s data v mt dm).tracks mt).isSome
  · rw [if_pos h]
    simp [List.filter_cons, h.1, h.2]
  · rw [if_neg h]
    simp only [List.filter_cons, List.filter_nil]
    rw [if_neg]
    · rfl
    · simpa using h

/-- The spawn phase keeps the invariant of the id allocator as long as the ids handed out
do not exceed 127. -/
theorem create_new_tracks_ids_ok (n : Nat) (s : ObjectTrackerState) (data : Nat → Detection)
    (valid mt : Nat) (dm : Nat → Bool) (hmt : mt ≤ TRACKS_ARRAY_SIZE) (h : ids_ok n s)
    (hbudget : n + ids_handed_out s data valid mt dm ≤ 127) :
    ids_ok (n + ids_handed_out s data valid mt dm) (create_new_tracks s data valid mt dm) := by
  induction valid with
  | zero => exact h
  | succ v ih =>
    rw [ids_handed_out_succ] at hbudget ⊢
    have ihv := ih (by omega)
    have hunf : create_new_tracks s data (v + 1) mt dm =
        create_track data mt dm v (create_new_tracks s data v mt dm) := rfl
    rw [hunf]
    rcases create_track_cases data mt dm v (create_new_tracks s data v mt dm) with
      ⟨heq, hwhy⟩ | ⟨e, hdm, he, hnext, hnew, hother⟩
    · rw [heq, if_neg, Nat.add_zero]
      · exact ihv
      · rintro ⟨hc1, hc2⟩
        rcases hwhy with hw | hw
        · rw [hw] at hc1
          exact absurd hc1 (by simp)
        · rw [hw] at hc2
          exact absurd hc2 (by simp)
    · have hcond : dm v = false ∧
          (find_empty_slot (create_new_tracks s data v mt dm).tracks mt).isSome := by
        rw [he]
        exact ⟨hdm, rfl⟩
      rw [if_pos hcond] at hbudget ⊢
      obtain ⟨k1, k2, k3, k4⟩ := ihv
      have hm : n + ids_handed_out s data v mt dm ≤ 126 := by omega
      have hnx : (create_new_tracks s data v mt dm).next_track_id =
          ((n + ids_handed_out s data v mt dm : Nat) : Int) + 1 := by
        rw [k2, if_neg (by omega)]
      have helt : e < TRACKS_ARRAY_SIZE := Nat.lt_of_lt_of_le (find_empty_slot_some _ _ _ he).1 hmt
      refine ⟨by omega, ?_, fun t ht hact => ?_, fun t t2 ht ht2 ha ha2 hid => ?_⟩
      · rw [hnext, hnx]
        unfold MAX_TRACK_ID
        split <;> split <;> omega
      · by_cases hte : t = e
        · subst hte
          rw [hnew]
          show 1 ≤ (create_new_tracks s data v mt dm).next_track_id ∧
            (create_new_tracks s data v mt dm).next_track_id ≤ _
          rw [hnx]
          omega
        · rw [hother t hte] at hact ⊢
          have := k3 t ht hact
          omega
      · by_cases hte : t = e
        · by_cases hte2 : t2 = e
          · rw [hte, hte2]
          · exfalso
            subst hte
            rw [hother t2 hte2] at ha2 hid
            rw [hnew] at hid
            have h1 : (create_new_tracks s data v mt dm).next_track_id =
                ((create_new_tracks s data v mt dm).tracks t2).track_id := hid
            have := k3 t2 ht2 ha2
            omega
        · by_cases hte2 : t2 = e
          · exfalso
            subst hte2
            rw [hother t hte] at ha hid
            rw [hnew] at hid
            have h1 : ((create_new_tracks s data v mt dm).tracks t).track_id =
                (create_new_tracks s data v mt dm).next_track_id := hid
            have := k3 t ht ha
            omega
          · rw [hother t hte] at ha hid
            rw [hother t2 hte2] at ha2 hid
            exact k4 t t2 ht ht2 ha ha2 hid

/-- One step of `object_tracker_f32` keeps the invariant of the id allocator as long
as the ids handed out do not exceed 127. -/
theorem object_tracker_f32_ids_ok (n : Nat) (detections : Nat → ℚ) (s : ObjectTrackerState)
    (output : Nat → ℚ) (md cc : Nat) (thr : ℚ) (mt : Nat) (max_age min_hits : Int)
    (hmt : mt ≤ TRACKS_ARRAY_SIZE) (h : ids_ok n s)
    (hbudget : n + step_ids_handed_out detections s md cc thr mt ≤ 127) :
    ids_ok (n + step_ids_handed_out detections s md cc thr mt)
      (object_tracker_f32 detections s output md cc thr mt max_age min_hits).1 := by
  unfold object_tracker_f32
  dsimp only
  obtain ⟨g1, g2⟩ := perform_tracking_association_kept s
    (extract_detections detections md cc unwritten_rows).1
    (extract_detections detections md cc unwritten_rows).2 mt thr (fun _ => false) (fun _ => false)
  have hassoc := ids_ok_of_active_sub n s _ g1
    (fun t hact => ⟨(g2 t).1 ▸ hact, (g2 t).2.1⟩) h
  have hspawn := create_new_tracks_ids_ok n _
    (extract_detections detections md cc unwritten_rows).1
    (extract_detections detections md cc unwritten_rows).2 mt _ hmt hassoc hbudget
  obtain ⟨l1, l2⟩ := update_track_lifecycle_tracks
    (create_new_tracks
      (perform_tracking_association s (extract_detections detections md cc unwritten_rows).1
        (extract_detections detections md cc unwritten_rows).2 mt thr (fun _ => false)
        (fun _ => false)).state
      (extract_detections detections md cc unwritten_rows).1
      (extract_detections detections md cc unwritten_rows).2 mt
      (perform_tracking_association s (extract_detections detections md cc unwritten_rows).1
        (extract_detections detections md cc unwritten_rows).2 mt thr (fun _ => false)
        (fun _ => false)).detection_matched)
    mt max_age
    (perform_tracking_association s (extract_detections detections md cc unwritten_rows).1
      (extract_detections detections md cc unwritten_rows).2 mt thr (fun _ => false)
      (fun _ => false)).track_matched
  refine ids_ok_of_active_sub _ _ _ l1 (fun t hact => ?_) hspawn
  rw [l2 t] at hact ⊢
  split at hact
  · rename_i hlt
    rw [if_pos hlt]
    rcases age_track_cases max_age _ t _ with hc | hc | ⟨ha, _, hid, _⟩
    · rw [hc] at hact ⊢
      exact ⟨hact, rfl⟩
    · rw [hc] at hact
      exact absurd hact (by simp)
    · exact ⟨ha, hid⟩
  · rename_i hlt
    rw [if_neg hlt]
    exact ⟨hact, rfl⟩

/-- A run of the tracker keeps the invariant of the id allocator as long as the ids handed out
do not exceed 127. -/
theorem ids_ok_run (md cc : Nat) (thr : ℚ) (mt : Nat) (max_age min_hits : Int)
    (hmt : mt ≤ TRACKS_ARRAY_SIZE) (fs : List (Nat → ℚ)) :
    ∀ (s : ObjectTrackerState) (n : Nat), ids_ok n s →
      n + ids_handed_out_from s md cc thr mt max_age min_hits fs ≤ 127 →
      ∃ n2, ids_ok n2 (fs.foldl
        (fun s detections =>
          (object_tracker_f32 detections s (fun _ => 0) md cc thr mt max_age min_hits).1) s) := by
  induction fs with
  | nil => exact fun s n h _ => ⟨n, h⟩
  | cons f rest ih =>
    intro s n h hb
    have hb2 : n + step_ids_handed_out f s md cc thr mt +
        ids_handed_out_from
          (object_tracker_f32 f s (fun _ => 0) md cc thr mt max_age min_hits).1
          md cc thr mt max_age min_hits rest ≤ 127 := by
      have : ids_handed_out_from s md cc thr mt max_age min_hits (f :: rest) =
          step_ids_handed_out f s md cc thr mt +
            ids_handed_out_from
              (object_tracker_f32 f s (fun _ => 0) md cc thr mt max_age min_hits).1
              md cc thr mt max_age min_hits rest := rfl
      omega
    exact ih _ _
      (object_tracker_f32_ids_ok n f s _ md cc thr mt max_age min_hits hmt h (by omega)) hb2

/-- C9, on the code: a track that stays matched while 127 further ids are handed out meets a
new track with its own id. With max_tracks = 3, max_age = 1 and threshold 0.3, after the 127
frames of `churn_frames` the slots 0 and 1 are both active and both carry track id 1. -/
theorem active_ids_collide :
    ((tracker_run zero_tracker_state churn_frames 2 5 (3 / 10) 3 1 1).tracks 0).active = true ∧
    ((tracker_run zero_tracker_state churn_frames 2 5 (3 / 10) 3 1 1).tracks 1).active = true ∧
    ((tracker_run zero_tracker_state churn_frames 2 5 (3 / 10) 3 1 1).tracks 0).track_id = 1 ∧
    ((tracker_run zero_tracker_state churn_frames 2 5 (3 / 10) 3 1 1).tracks 1).track_id = 1 ∧
    ((tracker_run zero_tracker_state churn_frames 2 5 (3 / 10) 3 1 1).tracks 0).hits = 127 ∧
    ((tracker_run zero_tracker_state churn_frames 2 5 (3 / 10) 3 1 1).tracks 1).hits = 1 := by
  decide!

/-- C9 as amended: from the state left by `object_tracker_init_f32`, after any sequence of
steps of `object_tracker_f32` with fixed parameters and `max_tracks ≤ 50` in which at most
127 track ids have been handed out in total, two different active slots carry different
track ids. -/
theorem active_ids_distinct (s0 : ObjectTrackerState) (frames : List (Nat → ℚ))
    (md cc : Nat) (thr : ℚ) (mt : Nat) (max_age min_hits : Int) (hmt : mt ≤ 50)
    (hids : tracker_run_ids s0 frames md cc thr mt max_age min_hits ≤ 127)
    (t t2 : Nat) (ht : t < mt) (ht2 : t2 < mt) (hne : t ≠ t2)
    (hact : ((tracker_run s0 frames md cc thr mt max_age min_hits).tracks t).active = true)
    (hact2 : ((tracker_run s0 frames md cc thr mt max_age min_hits).tracks t2).active = true) :
    ((tracker_run s0 frames md cc thr mt max_age min_hits).tracks t).track_id ≠
      ((tracker_run s0 frames md cc thr mt max_age min_hits).tracks t2).track_id := by
  obtain ⟨n2, hn2⟩ := ids_ok_run md cc thr mt max_age min_hits hmt frames
    (object_tracker_init_f32 s0) 0 (ids_ok_init s0) (by unfold tracker_run_ids at hids; omega)
  exact fun hid => hne
    (hn2.2.2.2 t t2 (Nat.lt_of_lt_of_le ht hmt) (Nat.lt_of_lt_of_le ht2 hmt) hact hact2 hid)

/-- Witness of C1, seed scenario 1: after frame 1 the only active track is in slot 0 with
track id 1; frame 2 holds one detection of its class with IoU 2/3 > 0.3; the step keeps it
in slot 0 with track id 1, and both outputs hold exactly one column, with track id 1, the
second with tracking confidence 2/3, the IoU of the two boxes. -/
theorem tracker_match_keeps_identity_witness :
    (∀ t, t < 50 → t ≠ 0 → (seed1_step1.1.tracks t).active = false) ∧
    seed1_step1.1.tracks 0 =
      { x := 1/2, y := 1/2, w := 1/10, h := 1/10, confidence := 9/10, class_id := 0,
        track_id := 1, age := 1, hits := 1, active := true, tracking_confidence := 9/10 } ∧
    (extract_detections seed1_frame2 4 6 unwritten_rows).2 = 1 ∧
    calculate_iou (13/25) (1/2) (1/10) (1/10) (1/2) (1/2) (1/10) (1/10) = 2/3 ∧
    seed1_step2.1.tracks 0 =
      { x := 13/25, y := 1/2, w := 1/10, h := 1/10, confidence := 9/10, class_id := 0,
        track_id := 1, age := 0, hits := 2, active := true, tracking_confidence := 2/3 } ∧
    (∀ t, t ≠ 0 → seed1_step2.1.tracks t = seed1_step1.1.tracks t) ∧
    seed1_step2.1.next_track_id = seed1_step1.1.next_track_id ∧
    (List.range 32).map seed1_step1.2 =
      [1/2, 0, 0, 0, 1/2, 0, 0, 0, 1/10, 0, 0, 0, 1/10, 0, 0, 0, 9/10, 0, 0, 0, 0, 0, 0, 0,
        1, 0, 0, 0, 9/10, 0, 0, 0] ∧
    (List.range 32).map seed1_step2.2 =
      [13/25, 0, 0, 0, 1/2, 0, 0, 0, 1/10, 0, 0, 0, 1/10, 0, 0, 0, 9/10, 0, 0, 0, 0, 0, 0, 0,
        1, 0, 0, 0, 2/3, 0, 0, 0] := by
  have h := tracker_match_keeps_identity seed1_frame2 seed1_step1.1 (fun _ => 0) 4 6 (3 / 10)
    50 5 1 (extract_detections seed1_frame2 4 6 unwritten_rows).1 0 (by decide) (by decide!)
    (by decide!) (Prod.ext rfl (by decide!)) (by decide!) (by decide!) (by decide!)
  exact ⟨by decide!, by decide!, by decide!, by decide!, h.1.trans (by decide!), h.2.1, h.2.2,
    by decide!, by decide!⟩

/-- Witness of C2, seed scenario 2: after the class-0 frame the only active track has class 0;
the class-1 detection with the same box (IoU 1) is not matched, the track of slot 0 is left
as it was, the detection is installed in slot 1 with track id 2, and the output of the second
step holds two columns with the track ids 1 and 2. -/
theorem class_exclusion_witness :
    calculate_iou (1/2) (1/2) (1/10) (1/10) (1/2) (1/2) (1/10) (1/10) = 1 ∧
    (seed1_step1.1.tracks 0).class_id = 0 ∧
    float_to_int ((extract_detections seed2_frame2 4 6 unwritten_rows).1 0).class_id = 1 ∧
    (perform_tracking_association seed1_step1.1
      (extract_detections seed2_frame2 4 6 unwritten_rows).1 1 50 (3 / 10) (fun _ => false)
      (fun _ => false)).state = seed1_step1.1 ∧
    (perform_tracking_association seed1_step1.1
      (extract_detections seed2_frame2 4 6 unwritten_rows).1 1 50 (3 / 10) (fun _ => false)
      (fun _ => false)).detection_matched 0 = false ∧
    (create_new_tracks
      (perform_tracking_association seed1_step1.1
        (extract_detections seed2_frame2 4 6 unwritten_rows).1 1 50 (3 / 10) (fun _ => false)
        (fun _ => false)).state
      (extract_detections seed2_frame2 4 6 unwritten_rows).1 1 50
      (perform_tracking_association seed1_step1.1
        (extract_detections seed2_frame2 4 6 unwritten_rows).1 1 50 (3 / 10) (fun _ => false)
        (fun _ => false)).detection_matched).tracks 1 =
      { x := 1/2, y := 1/2, w := 1/10, h := 1/10, confidence := 9/10, class_id := 1,
        track_id := 2, age := 0, hits := 1, active := true, tracking_confidence := 1 } ∧
    (seed2_step2.1.tracks 0).track_id = 1 ∧ (seed2_step2.1.tracks 1).track_id = 2 ∧
    (List.range 32).map seed2_step2.2 =
      [1/2, 1/2, 0, 0, 1/2, 1/2, 0, 0, 1/10, 1/10, 0, 0, 1/10, 1/10, 0, 0, 9/10, 0, 0, 0,
        0, 9/10, 0, 0, 1, 2, 0, 0, 81/100, 9/10, 0, 0] := by
  have h := class_exclusion seed1_step1.1 (extract_detections seed2_frame2 4 6 unwritten_rows).1
    50 (3 / 10) (by decide!)
  exact ⟨by decide!, by decide!, by decide!, h.2.1, h.2.2.1,
    (h.2.2.2 1 (by decide!)).trans (by decide!), by decide!, by decide!, by decide!⟩

/-- A column that holds a track holds its confidence in the class row `4 + class_id`, when
that is one of the class rows. -/
theorem column_holds_class_row {α : Type} (enc : ℚ → α) (enc_id : Int → α) (md cc : Nat)
    (o : Nat → α) (j : Nat) (T : ObjectTrack) (h : column_holds enc enc_id md cc o j T)
    (c : Nat) (hc : T.class_id = (c : Int)) (hlt : 4 + c < cc) :
    o ((4 + c) * md + j) = enc T.confidence := by
  rw [h.2.2.2.2.1 (4 + c) (by omega) hlt, if_pos]
  rw [hc]
  push_cast
  omega

/-- C3: with at least the four box rows (confidence_count ≥ 4), let E be the slots below
`max_tracks`, in slot order, that are active with `hits ≥ min_hits`. After
`generate_tracking_output`, a column `j < max_detections` with `j < |E|` holds the x, y, w, h
of the track of slot `E[j]` in rows 0..3, in every class row r the confidence when
`r - 4 = class_id` and 0 otherwise (so the confidence is in row `4 + class_id` when that is a
class row), the track id in row `confidence_count` and the tracking confidence in row
`confidence_count + 1`; a column `j < max_detections` with `j ≥ |E|` holds 0.0 in all
`confidence_count + 2` rows. After `generate_tracking_output_i8` the same holds with every
value stored through `float_to_int8`, the track id as `float_to_int8 (track_id / 127)`, and
the byte -128 in the empty columns. -/
theorem tracker_emission_layout (s : ObjectTrackerState) (md cc mt : Nat) (min_hits : Int)
    (hcc : 4 ≤ cc) (j : Nat) (hj : j < md) :
    (∀ output : Nat → ℚ,
      (∀ t, (emitted_slots s mt min_hits)[j]? = some t →
        column_holds (fun v => v) (fun i => (i : ℚ)) md cc
          (generate_tracking_output s output md cc mt min_hits) j (s.tracks t) ∧
        ∀ c : Nat, (s.tracks t).class_id = (c : Int) → 4 + c < cc →
          generate_tracking_output s output md cc mt min_hits ((4 + c) * md + j) =
            (s.tracks t).confidence) ∧
      ((emitted_slots s mt min_hits).length ≤ j → ∀ r, r < cc + 2 →
        generate_tracking_output s output md cc mt min_hits (r * md + j) = 0)) ∧
    (∀ output : Nat → Int,
      (∀ t, (emitted_slots s mt min_hits)[j]? = some t →
        column_holds float_to_int8 (fun i => float_to_int8 ((i : ℚ) / (MAX_TRACK_ID : ℚ))) md cc
          (generate_tracking_output_i8 s output md cc mt min_hits) j (s.tracks t) ∧
        ∀ c : Nat, (s.tracks t).class_id = (c : Int) → 4 + c < cc →
          generate_tracking_output_i8 s output md cc mt min_hits ((4 + c) * md + j) =
            float_to_int8 (s.tracks t).confidence) ∧
      ((emitted_slots s mt min_hits).length ≤ j → ∀ r, r < cc + 2 →
        generate_tracking_output_i8 s output md cc mt min_hits (r * md + j) = -128)) := by
  constructor
  · intro output
    obtain ⟨_, h2, h3⟩ := emit_tracks_layout (fun v => v) (fun i => (i : ℚ)) 0 s output md cc mt
      min_hits hcc
    exact ⟨fun t ht => ⟨h2 j t hj ht, fun c hc hlt =>
      column_holds_class_row _ _ md cc _ j _ (h2 j t hj ht) c hc hlt⟩,
      fun hl r hr => h3 j hj hl r hr⟩
  · intro output
    obtain ⟨_, h2, h3⟩ := emit_tracks_layout float_to_int8
      (fun i => float_to_int8 ((i : ℚ) / (MAX_TRACK_ID : ℚ))) (-128) s output md cc mt min_hits hcc
    exact ⟨fun t ht => ⟨h2 j t hj ht, fun c hc hlt =>
      column_holds_class_row _ _ md cc _ j _ (h2 j t hj ht) c hc hlt⟩,
      fun hl r hr => h3 j hj hl r hr⟩

/-- Witness of C3 on the state after the second step of seed scenario 2 (tracks in slots 0
and 1), 4 columns and 6 input rows: column 1 holds the track of slot 1, of class 1, with its
confidence in row 5, and column 2 is empty, in both numeric variants. -/
theorem tracker_emission_layout_witness :
    emitted_slots seed2_step2.1 50 1 = [0, 1] ∧
    column_holds (fun v => v) (fun i => (i : ℚ)) 4 6
      (generate_tracking_output seed2_step2.1 (fun _ => 7) 4 6 50 1) 1 (seed2_step2.1.tracks 1) ∧
    generate_tracking_output seed2_step2.1 (fun _ => 7) 4 6 50 1 ((4 + 1) * 4 + 1) =
      (seed2_step2.1.tracks 1).confidence ∧
    (∀ r, r < 6 + 2 → generate_tracking_output seed2_step2.1 (fun _ => 7) 4 6 50 1 (r * 4 + 2) = 0) ∧
    column_holds float_to_int8 (fun i => float_to_int8 ((i : ℚ) / (MAX_TRACK_ID : ℚ))) 4 6
      (generate_tracking_output_i8 seed2_step2.1 (fun _ => 7) 4 6 50 1) 1
      (seed2_step2.1.tracks 1) ∧
    (∀ r, r < 6 + 2 →
      generate_tracking_output_i8 seed2_step2.1 (fun _ => 7) 4 6 50 1 (r * 4 + 2) = -128) ∧
    (List.range 32).map (generate_tracking_output seed2_step2.1 (fun _ => 7) 4 6 50 1) =
      [1/2, 1/2, 0, 0, 1/2, 1/2, 0, 0, 1/10, 1/10, 0, 0, 1/10, 1/10, 0, 0, 9/10, 0, 0, 0,
        0, 9/10, 0, 0, 1, 2, 0, 0, 81/100, 9/10, 0, 0] ∧
    (List.range 32).map (generate_tracking_output_i8 seed2_step2.1 (fun _ => 7) 4 6 50 1) =
      [0, 0, -128, -128, 0, 0, -128, -128, -102, -102, -128, -128, -102, -102, -128, -128,
        101, -128, -128, -128, -128, 101, -128, -128, -125, -123, -128, -128, 78, 101, -128,
        -128] :=
  ⟨by decide!,
    (((tracker_emission_layout seed2_step2.1 4 6 50 1 (by decide) 1 (by decide)).1
      (fun _ => 7)).1 1 (by decide!)).1,
    (((tracker_emission_layout seed2_step2.1 4 6 50 1 (by decide) 1 (by decide)).1
      (fun _ => 7)).1 1 (by decide!)).2 1 (by decide!) (by decide),
    ((tracker_emission_layout seed2_step2.1 4 6 50 1 (by decide) 2 (by decide)).1 (fun _ => 7)).2
      (by decide!),
    (((tracker_emission_layout seed2_step2.1 4 6 50 1 (by decide) 1 (by decide)).2
      (fun _ => 7)).1 1 (by decide!)).1,
    ((tracker_emission_layout seed2_step2.1 4 6 50 1 (by decide) 2 (by decide)).2 (fun _ => 7)).2
      (by decide!),
    by decide!, by decide!⟩

/-- Witness of C8 on the two frames of `churn_frames_2` with max_tracks = 3 and max_age = 1:
slot 0 is active after the run, with track id 1, class 0, 2 hits and age 0. -/
theorem active_track_invariant_witness :
    (tracker_run zero_tracker_state churn_frames_2 2 5 (3 / 10) 3 1 1).tracks 0 =
      { x := 1/2, y := 1/2, w := 1/10, h := 1/10, confidence := 9/10, class_id := 0,
        track_id := 1, age := 0, hits := 2, active := true, tracking_confidence := 1 } ∧
    (1 ≤ ((tracker_run zero_tracker_state churn_frames_2 2 5 (3 / 10) 3 1 1).tracks 0).track_id ∧
    ((tracker_run zero_tracker_state churn_frames_2 2 5 (3 / 10) 3 1 1).tracks 0).track_id ≤ 127 ∧
    0 ≤ ((tracker_run zero_tracker_state churn_frames_2 2 5 (3 / 10) 3 1 1).tracks 0).class_id ∧
    1 ≤ ((tracker_run zero_tracker_state churn_frames_2 2 5 (3 / 10) 3 1 1).tracks 0).hits ∧
    0 ≤ ((tracker_run zero_tracker_state churn_frames_2 2 5 (3 / 10) 3 1 1).tracks 0).age ∧
    ((tracker_run zero_tracker_state churn_frames_2 2 5 (3 / 10) 3 1 1).tracks 0).age ≤ 1) :=
  ⟨by decide!,
    active_track_invariant zero_tracker_state churn_frames_2 2 5 (3 / 10) 3 1 1 (by decide)
      (by decide) 0 (by decide) (by decide!)⟩

/-- Witness of the amended C9 on the two frames of `churn_frames_2`: 3 track ids have been
handed out, the slots 0 and 2 are active and carry the ids 1 and 3. -/
theorem active_ids_distinct_witness :
    tracker_run_ids zero_tracker_state churn_frames_2 2 5 (3 / 10) 3 1 1 = 3 ∧
    ((tracker_run zero_tracker_state churn_frames_2 2 5 (3 / 10) 3 1 1).tracks 0).track_id = 1 ∧
    ((tracker_run zero_tracker_state churn_frames_2 2 5 (3 / 10) 3 1 1).tracks 2).track_id = 3 ∧
    ((tracker_run zero_tracker_state churn_frames_2 2 5 (3 / 10) 3 1 1).tracks 0).track_id ≠
      ((tracker_run zero_tracker_state churn_frames_2 2 5 (3 / 10) 3 1 1).tracks 2).track_id :=
  ⟨by decide!, by decide!, by decide!,
    active_ids_distinct zero_tracker_state churn_frames_2 2 5 (3 / 10) 3 1 1 (by decide)
      (by decide!) 0 2 (by decide) (by decide) (by decide) (by decide!) (by decide!)⟩

/-- The shift loop of `odc_add_position` moves the entries 1..n of both histories one index
down. -/
theorem shift_loop (n : Nat) (a b : Nat → ℚ) :
    forLoop n (fun i (hist : (Nat → ℚ) × (Nat → ℚ)) =>
      (setAt hist.1 i (hist.1 (i + 1)), setAt hist.2 i (hist.2 (i + 1)))) (a, b) =
    (fun j => if j < n then a (j + 1) else a j, fun j => if j < n then b (j + 1) else b j) := by
  induction n with
  | zero => simp
  | succ m ih =>
    rw [forLoop_succ, ih]
    refine Prod.ext (funext fun j => ?_) (funext fun j => ?_)
    · simp only [setAt]
      by_cases hjm : j = m
      · subst hjm
        simp
      · by_cases hlt : j < m
        · simp [hjm, hlt, Nat.lt_succ_of_lt hlt]
        · have hn : ¬ j < m + 1 := by omega
          simp [hjm, hlt, hn]
    · simp only [setAt]
      by_cases hjm : j = m
      · subst hjm
        simp
      · by_cases hlt : j < m
        · simp [hjm, hlt, Nat.lt_succ_of_lt hlt]
        · have hn : ¬ j < m + 1 := by omega
          simp [hjm, hlt, hn]

/-- `odc_add_position` keeps the track id, the active flag and the region state, and stamps
the tracker with the frame counter. -/
theorem odc_add_position_fields (s : ObjectDetectionCounterState) (tr : ObjectTracker)
    (x y : ℚ) :
    (odc_add_position s tr x y).track_id = tr.track_id ∧
    (odc_add_position s tr x y).is_active = tr.is_active ∧
    (odc_add_position s tr x y).region_state = tr.region_state ∧
    (odc_add_position s tr x y).last_seen_frame = s.global_frame_counter := by
  unfold odc_add_position
  dsimp only
  split <;> exact ⟨rfl, rfl, rfl, rfl⟩

/-- `odc_add_position` on a tracker without history: the point is stored at index 0. -/
theorem odc_add_position_first (s : ObjectDetectionCounterState) (tr : ObjectTracker)
    (x y : ℚ) (hc : tr.history_count = 0) :
    (odc_add_position s tr x y).history_count = 1 ∧
    (odc_add_position s tr x y).x_history 0 = x ∧
    (odc_add_position s tr x y).y_history 0 = y := by
  unfold odc_add_position POSITION_HISTORY_SIZE
  dsimp only
  rw [if_pos (by rw [hc]; decide)]
  simp [hc]

/-- `odc_add_position` on a tracker with 1..10 points: afterwards there are 2..10 points,
the new point is the last one and the former last point is the one before it. -/
theorem odc_add_position_last (s : ObjectDetectionCounterState) (tr : ObjectTracker)
    (x y : ℚ) (h1 : 1 ≤ tr.history_count) (h10 : tr.history_count ≤ 10) :
    2 ≤ (odc_add_position s tr x y).history_count ∧
    (odc_add_position s tr x y).history_count ≤ 10 ∧
    (odc_add_position s tr x y).x_history ((odc_add_position s tr x y).history_count - 1).toNat
      = x ∧
    (odc_add_position s tr x y).y_history ((odc_add_position s tr x y).history_count - 1).toNat
      = y ∧
    (odc_add_position s tr x y).x_history ((odc_add_position s tr x y).history_count - 2).toNat
      = tr.x_history (tr.history_count - 1).toNat ∧
    (odc_add_position s tr x y).y_history ((odc_add_position s tr x y).history_count - 2).toNat
      = tr.y_history (tr.history_count - 1).toNat := by
  unfold odc_add_position POSITION_HISTORY_SIZE
  dsimp only
  by_cases hlt : tr.history_count < ((10 : Nat) : Int)
  · rw [if_pos hlt]
    dsimp only
    have hlt2 : tr.history_count < 10 := by exact_mod_cast hlt
    have e1 : (tr.history_count + 1 - 1).toNat = tr.history_count.toNat := by
      congr 1; omega
    have e2 : (tr.history_count + 1 - 2).toNat ≠ tr.history_count.toNat := by omega
    have e3 : (tr.history_count + 1 - 2).toNat = (tr.history_count - 1).toNat := by
      congr 1; omega
    refine ⟨by omega, by omega, ?_, ?_, ?_, ?_⟩
    · rw [e1, setAt_same]
    · rw [e1, setAt_same]
    · rw [setAt_ne _ _ e2, e3]
    · rw [setAt_ne _ _ e2, e3]
  · rw [if_neg hlt]
    dsimp only
    have heq : tr.history_count = 10 := by
      have : ¬ tr.history_count < 10 := by exact_mod_cast hlt
      omega
    rw [shift_loop, heq]
    refine ⟨by omega, by omega, ?_, ?_, ?_, ?_⟩
    · show setAt _ 9 x 9 = x
      rw [setAt_same]
    · show setAt _ 9 y 9 = y
      rw [setAt_same]
    · show setAt _ 9 x 8 = tr.x_history 9
      rw [setAt_ne _ _ (by decide)]
      simp
    · show setAt _ 9 y 8 = tr.y_history 9
      rw [setAt_ne _ _ (by decide)]
      simp

/-- `odc_detect_crossing` changes nothing of a tracker but its region state. -/
theorem odc_detect_crossing_fields (tr : ObjectTracker) (region : CountingRegion) :
    (odc_detect_crossing tr region).2.track_id = tr.track_id ∧
    (odc_detect_crossing tr region).2.is_active = tr.is_active ∧
    (odc_detect_crossing tr region).2.last_seen_frame = tr.last_seen_frame ∧
    (odc_detect_crossing tr region).2.history_count = tr.history_count ∧
    (odc_detect_crossing tr region).2.x_history = tr.x_history ∧
    (odc_detect_crossing tr region).2.y_history = tr.y_history := by
  unfold odc_detect_crossing
  dsimp only
  split
  · exact ⟨rfl, rfl, rfl, rfl, rfl, rfl⟩
  · split
    · split
      · split <;> exact ⟨rfl, rfl, rfl, rfl, rfl, rfl⟩
      · exact ⟨rfl, rfl, rfl, rfl, rfl, rfl⟩
    · split <;> exact ⟨rfl, rfl, rfl, rfl, rfl, rfl⟩

/-- `odc_detect_crossing` with fewer than two points: no crossing, the tracker is left as it
is. -/
theorem odc_detect_crossing_short (tr : ObjectTracker) (region : CountingRegion)
    (h : tr.history_count < 2) : odc_detect_crossing tr region = (CROSSING_NONE, tr) := by
  unfold odc_detect_crossing
  rw [if_pos h]

/-- `odc_detect_crossing` when the previous point is outside the region and the current one
inside: no crossing, the region state records the side nearest to the previous point. -/
theorem odc_detect_crossing_enter (tr : ObjectTracker) (region : CountingRegion)
    (px py qx qy : ℚ) (hc : 2 ≤ tr.history_count)
    (hpx : tr.x_history (tr.history_count - 2).toNat = px)
    (hpy : tr.y_history (tr.history_count - 2).toNat = py)
    (hqx : tr.x_history (tr.history_count - 1).toNat = qx)
    (hqy : tr.y_history (tr.history_count - 1).toNat = qy)
    (hp : odc_point_in_rectangle px py region = false)
    (hq : odc_point_in_rectangle qx qy region = true) :
    (odc_detect_crossing tr region).1 = CROSSING_NONE ∧
    (odc_detect_crossing tr region).2.region_state = odc_get_entry_side px py region := by
  unfold odc_detect_crossing
  rw [if_neg (by omega), hpx, hpy, hqx, hqy]
  simp [hp, hq]

/-- `odc_detect_crossing` when the previous point is inside the region and the current one
outside: the region state becomes OUTSIDE, and a crossing is returned exactly when the
tracker had recorded an entry side and the side nearest to the current point is opposite to
it; the crossing is IN or OUT by `odc_is_in_direction` of the entry side. -/
theorem odc_detect_crossing_exit (tr : ObjectTracker) (region : CountingRegion)
    (px py qx qy : ℚ) (hc : 2 ≤ tr.history_count)
    (hpx : tr.x_history (tr.history_count - 2).toNat = px)
    (hpy : tr.y_history (tr.history_count - 2).toNat = py)
    (hqx : tr.x_history (tr.history_count - 1).toNat = qx)
    (hqy : tr.y_history (tr.history_count - 1).toNat = qy)
    (hp : odc_point_in_rectangle px py region = true)
    (hq : odc_point_in_rectangle qx qy region = false) :
    (odc_detect_crossing tr region).1 =
      (if tr.region_state.toInt ≥ 2 ∧
          odc_is_valid_traversal tr.region_state (odc_get_entry_side qx qy region) = true then
        (if odc_is_in_direction tr.region_state region.in_direction = true then CROSSING_IN
          else CROSSING_OUT)
      else CROSSING_NONE) ∧
    (odc_detect_crossing tr region).2.region_state = REGION_STATE_OUTSIDE := by
  unfold odc_detect_crossing
  rw [if_neg (by omega), hpx, hpy, hqx, hqy]
  simp only [hp, hq, Bool.not_false, Bool.and_self, if_true]
  have h2 : REGION_STATE_ENTERED_FROM_LEFT.toInt = 2 := rfl
  rw [h2]
  by_cases ha : tr.region_state.toInt ≥ 2
  · by_cases hb : odc_is_valid_traversal tr.region_state (odc_get_entry_side qx qy region) = true
    · rw [if_pos ha, if_pos hb, if_pos (And.intro ha hb)]
      by_cases hd : odc_is_in_direction tr.region_state region.in_direction = true
      · rw [if_pos hd]
        exact ⟨rfl, rfl⟩
      · rw [if_neg hd]
        exact ⟨rfl, rfl⟩
    · rw [if_pos ha, if_neg hb, if_neg (fun h => hb h.2)]
      exact ⟨rfl, rfl⟩
  · rw [if_neg ha, if_neg (fun h => ha h.1)]
    exact ⟨rfl, rfl⟩

/-- Writing a cell with its own content changes nothing. -/
theorem setAt_self {α : Type} (a : Nat → α) (i : Nat) : setAt a i (a i) = a := by
  funext j
  unfold setAt
  split
  · rename_i h
    rw [h]
  · rfl

/-- After `odc_cleanup_trackers` a slot of the table is deactivated when it was active and
not seen for more than 30 frames, and is as before otherwise. -/
theorem odc_cleanup_trackers_slot (s : ObjectDetectionCounterState) (j : Nat) :
    (odc_cleanup_trackers s).tracked_objects j =
      if j < MAX_TRACKED_OBJECTS ∧ (s.tracked_objects j).is_active = true ∧
          s.global_frame_counter - (s.tracked_objects j).last_seen_frame > TRACKER_EXPIRY_FRAMES
      then { s.tracked_objects j with is_active := false }
      else s.tracked_objects j := by
  have hbody : (fun i (o : Nat → ObjectTracker) =>
      if (o i).is_active = true ∧
          s.global_frame_counter - (o i).last_seen_frame > TRACKER_EXPIRY_FRAMES
      then setAt o i { o i with is_active := false }
      else o) =
      (fun i o => setAt o i
        (if (o i).is_active = true ∧
            s.global_frame_counter - (o i).last_seen_frame > TRACKER_EXPIRY_FRAMES
        then { o i with is_active := false } else o i)) := by
    funext i o
    split
    · rfl
    · rw [setAt_self]
  have hloop := forLoop_setAt_self MAX_TRACKED_OBJECTS
    (fun _ (T : ObjectTracker) =>
      if T.is_active = true ∧ s.global_frame_counter - T.last_seen_frame > TRACKER_EXPIRY_FRAMES
      then { T with is_active := false } else T)
    s.tracked_objects j
  unfold odc_cleanup_trackers
  dsimp only
  rw [hbody]
  refine hloop.trans ?_
  by_cases hj : j < MAX_TRACKED_OBJECTS
  · rw [if_pos hj]
    by_cases hc : (s.tracked_objects j).is_active = true ∧
        s.global_frame_counter - (s.tracked_objects j).last_seen_frame > TRACKER_EXPIRY_FRAMES
    · rw [if_pos hc, if_pos ⟨hj, hc⟩]
    · rw [if_neg hc, if_neg (fun h => hc h.2)]
  · rw [if_neg hj, if_neg (fun h => hj h.1)]

/-- The end of a step: the outputs are the counts of the state, which the cleanup leaves as
they are together with the frame counter; a slot of the table is as before or deactivated,
and it is as before when it was seen in the last 30 frames. -/
theorem odc_finish_facts (s : ObjectDetectionCounterState) :
    (odc_finish s).in_count = s.global_in_count ∧
    (odc_finish s).out_count = s.global_out_count ∧
    (odc_finish s).state.global_in_count = s.global_in_count ∧
    (odc_finish s).state.global_out_count = s.global_out_count ∧
    (odc_finish s).state.global_frame_counter = s.global_frame_counter ∧
    (∀ j, (odc_finish s).state.tracked_objects j = s.tracked_objects j ∨
      ((odc_finish s).state.tracked_objects j).is_active = false) ∧
    (∀ j, s.global_frame_counter - (s.tracked_objects j).last_seen_frame ≤ TRACKER_EXPIRY_FRAMES →
      (odc_finish s).state.tracked_objects j = s.tracked_objects j) := by
  unfold odc_finish
  dsimp only
  split
  · refine ⟨rfl, rfl, rfl, rfl, rfl, fun j => ?_, fun j hj => ?_⟩
    · rw [odc_cleanup_trackers_slot]
      split
      · exact Or.inr rfl
      · exact Or.inl rfl
    · rw [odc_cleanup_trackers_slot, if_neg (fun h => absurd h.2.2 (not_lt.mpr hj))]
  · exact ⟨rfl, rfl, rfl, rfl, rfl, fun j => Or.inl rfl, fun j _ => rfl⟩

/-- A step of `object_detection_counter_f32` with the reset disabled on a frame that reports
one track only is the processing of that one column, after the frame counter has advanced. -/
theorem counter_step_single (det : Nat → ℚ) (s : ObjectDetectionCounterState) (md cc : Nat)
    (x1 y1 x2 y2 : ℚ) (dir : Int) (now : Int) (lt : Option Int) (i0 : Nat) (id : Int)
    (x y : ℚ) (hrep : reports_only det md cc i0 id x y) :
    object_detection_counter_f32 det s md cc x1 y1 x2 y2 dir (-1) now lt =
      odc_finish (odc_count_detection (odc_init_region x1 y1 x2 y2 dir) x y
        (odc_get_detection_value det md cc 2 i0) (odc_get_detection_value det md cc 3 i0) id
        { s with global_frame_counter := s.global_frame_counter + 1 }) := by
  obtain ⟨hi, hx, hy, hw, hh, hid, hothers⟩ := hrep
  unfold object_detection_counter_f32 odc_check_daily_reset
  rw [if_pos rfl]
  dsimp only
  rw [forLoop_single md _ _ i0 hi]
  · rw [hx, hy, hid]
  · intro k hk hne st
    unfold odc_count_detection
    rcases hothers k hk hne with h | h | h
    · rw [if_pos (Or.inl h)]
    · rw [if_pos (Or.inr h)]
    · by_cases hwh : odc_get_detection_value det md cc 2 k ≤ 0 ∨
          odc_get_detection_value det md cc 3 k ≤ 0
      · rw [if_pos hwh]
      · rw [if_neg hwh, if_pos h]

/-- What `odc_find_tracker` returns: the first slot of the table that is active with the
track id. -/
theorem odc_find_tracker_some (s : ObjectDetectionCounterState) (id : Int) (k : Nat) :
    odc_find_tracker s id = some k ↔
      k < MAX_TRACKED_OBJECTS ∧
      ((s.tracked_objects k).is_active = true ∧ (s.tracked_objects k).track_id = id) ∧
      ∀ j, j < k →
        ¬ ((s.tracked_objects j).is_active = true ∧ (s.tracked_objects j).track_id = id) := by
  unfold odc_find_tracker
  rw [List.find?_range_eq_some]
  simp only [List.mem_range, Bool.and_eq_true, beq_iff_eq, Bool.not_eq_true', Bool.and_eq_false_imp,
    not_and]
  constructor
  · rintro ⟨a, b, c⟩
    refine ⟨b, a, fun j hj hact hid => ?_⟩
    have := c j hj hact
    simp [hid] at this
  · rintro ⟨a, b, c⟩
    refine ⟨b, a, fun j hj hact => ?_⟩
    have := c j hj hact
    simpa using this

/-- The processing of a column of positive width and height whose track id has a tracker in
slot `k`: the point is pushed on that tracker, the crossing is detected and counted. -/
theorem odc_count_detection_existing (region : CountingRegion) (x y w h : ℚ) (id : Int)
    (s : ObjectDetectionCounterState) (k : Nat) (hw : 0 < w) (hh : 0 < h) (hid : 1 ≤ id)
    (hfind : odc_find_tracker s id = some k) :
    (odc_count_detection region x y w h id s).tracked_objects =
      setAt s.tracked_objects k
        (odc_detect_crossing (odc_add_position s (s.tracked_objects k) x y) region).2 ∧
    (odc_count_detection region x y w h id s).global_in_count =
      s.global_in_count +
        (if (odc_detect_crossing (odc_add_position s (s.tracked_objects k) x y) region).1 =
          CROSSING_IN then 1 else 0) ∧
    (odc_count_detection region x y w h id s).global_out_count =
      s.global_out_count +
        (if (odc_detect_crossing (odc_add_position s (s.tracked_objects k) x y) region).1 =
          CROSSING_OUT then 1 else 0) ∧
    (odc_count_detection region x y w h id s).global_frame_counter = s.global_frame_counter := by
  unfold odc_count_detection
  rw [if_neg (by rintro (h1 | h1) <;> linarith), if_neg (by omega)]
  unfold odc_get_tracker
  rw [hfind]
  dsimp only
  cases hc : (odc_detect_crossing (odc_add_position s (s.tracked_objects k) x y) region).1 with
  | CROSSING_NONE => simp
  | CROSSING_IN => simp
  | CROSSING_OUT => simp

/-- The end of a step keeps the tracker of a track id in its slot when it was seen in this
frame: it is still the first active slot with that id and its content is unchanged. -/
theorem odc_finish_keeps_tracker (s : ObjectDetectionCounterState) (id : Int) (k : Nat)
    (hk : k < MAX_TRACKED_OBJECTS)
    (hact : (s.tracked_objects k).is_active = true ∧ (s.tracked_objects k).track_id = id)
    (hseen : (s.tracked_objects k).last_seen_frame = s.global_frame_counter)
    (hbefore : ∀ j, j < k →
      ¬ ((s.tracked_objects j).is_active = true ∧ (s.tracked_objects j).track_id = id)) :
    (odc_finish s).state.tracked_objects k = s.tracked_objects k ∧
    odc_find_tracker (odc_finish s).state id = some k := by
  obtain ⟨_, _, _, _, _, hslots, hkeep⟩ := odc_finish_facts s
  have hsame : (odc_finish s).state.tracked_objects k = s.tracked_objects k := by
    apply hkeep
    rw [hseen]
    unfold TRACKER_EXPIRY_FRAMES
    omega
  refine ⟨hsame, (odc_find_tracker_some _ id k).mpr ⟨hk, by rw [hsame]; exact hact, ?_⟩⟩
  intro j hj hc
  rcases hslots j with h | h
  · rw [h] at hc
    exact hbefore j hj hc
  · rw [h] at hc
    exact absurd hc.1 (by simp)

/-- A step of `object_detection_counter_f32` with the reset disabled on a frame that reports
one track only, when that track has a tracker in slot `k`: the point is pushed on it, the
crossing it detects is counted and the tracker stays the tracker of the track. -/
theorem counter_step_existing (det : Nat → ℚ) (s : ObjectDetectionCounterState) (md cc : Nat)
    (x1 y1 x2 y2 : ℚ) (dir : Int) (now : Int) (lt : Option Int) (i0 : Nat) (id : Int)
    (x y : ℚ) (k : Nat) (hrep : reports_only det md cc i0 id x y) (hid : 1 ≤ id)
    (hfind : odc_find_tracker s id = some k) :
    (object_detection_counter_f32 det s md cc x1 y1 x2 y2 dir (-1) now lt).state.tracked_objects k
      = (odc_detect_crossing
          (odc_add_position { s with global_frame_counter := s.global_frame_counter + 1 }
            (s.tracked_objects k) x y)
          (odc_init_region x1 y1 x2 y2 dir)).2 ∧
    (object_detection_counter_f32 det s md cc x1 y1 x2 y2 dir (-1) now lt).in_count =
      s.global_in_count +
        (if (odc_detect_crossing
            (odc_add_position { s with global_frame_counter := s.global_frame_counter + 1 }
              (s.tracked_objects k) x y)
            (odc_init_region x1 y1 x2 y2 dir)).1 = CROSSING_IN then 1 else 0) ∧
    (object_detection_counter_f32 det s md cc x1 y1 x2 y2 dir (-1) now lt).out_count =
      s.global_out_count +
        (if (odc_detect_crossing
            (odc_add_position { s with global_frame_counter := s.global_frame_counter + 1 }
              (s.tracked_objects k) x y)
            (odc_init_region x1 y1 x2 y2 dir)).1 = CROSSING_OUT then 1 else 0) ∧
    (object_detection_counter_f32 det s md cc x1 y1 x2 y2 dir (-1) now lt).state.global_in_count =
      (object_detection_counter_f32 det s md cc x1 y1 x2 y2 dir (-1) now lt).in_count ∧
    (object_detection_counter_f32 det s md cc x1 y1 x2 y2 dir (-1) now lt).state.global_out_count =
      (object_detection_counter_f32 det s md cc x1 y1 x2 y2 dir (-1) now lt).out_count ∧
    odc_find_tracker
      (object_detection_counter_f32 det s md cc x1 y1 x2 y2 dir (-1) now lt).state id = some k := by
  rw [counter_step_single det s md cc x1 y1 x2 y2 dir now lt i0 id x y hrep]
  obtain ⟨_, _, _, hw, hh, _, _⟩ := hrep
  have hfind2 : odc_find_tracker { s with global_frame_counter := s.global_frame_counter + 1 } id
      = some k := hfind
  obtain ⟨e1, e2, e3, e4⟩ := odc_count_detection_existing (odc_init_region x1 y1 x2 y2 dir) x y
    (odc_get_detection_value det md cc 2 i0) (odc_get_detection_value det md cc 3 i0) id
    { s with global_frame_counter := s.global_frame_counter + 1 } k hw hh hid hfind2
  obtain ⟨hk, hact, hbefore⟩ := (odc_find_tracker_some s id k).mp hfind
  obtain ⟨f1, f2, f3, f4, _, _, _⟩ := odc_finish_facts
    (odc_count_detection (odc_init_region x1 y1 x2 y2 dir) x y
      (odc_get_detection_value det md cc 2 i0) (odc_get_detection_value det md cc 3 i0) id
      { s with global_frame_counter := s.global_frame_counter + 1 })
  obtain ⟨a1, a2, a3, a4⟩ := odc_add_position_fields
    { s with global_frame_counter := s.global_frame_counter + 1 } (s.tracked_objects k) x y
  obtain ⟨c1, c2, c3, _⟩ := odc_detect_crossing_fields
    (odc_add_position { s with global_frame_counter := s.global_frame_counter + 1 }
      (s.tracked_objects k) x y) (odc_init_region x1 y1 x2 y2 dir)
  have hslotk : (odc_count_detection (odc_init_region x1 y1 x2 y2 dir) x y
      (odc_get_detection_value det md cc 2 i0) (odc_get_detection_value det md cc 3 i0) id
      { s with global_frame_counter := s.global_frame_counter + 1 }).tracked_objects k =
      (odc_detect_crossing
        (odc_add_position { s with global_frame_counter := s.global_frame_counter + 1 }
          (s.tracked_objects k) x y) (odc_init_region x1 y1 x2 y2 dir)).2 := by
    rw [e1, setAt_same]
  obtain ⟨g1, g2⟩ := odc_finish_keeps_tracker
    (odc_count_detection (odc_init_region x1 y1 x2 y2 dir) x y
      (odc_get_detection_value det md cc 2 i0) (odc_get_detection_value det md cc 3 i0) id
      { s with global_frame_counter := s.global_frame_counter + 1 }) id k hk
    (by rw [hslotk, c1, c2, a1, a2]; exact hact)
    (by rw [hslotk, c3, a4, e4])
    (by
      intro j hj
      rw [e1, setAt_ne _ _ (Nat.ne_of_lt hj)]
      exact hbefore j hj)
  exact ⟨g1.trans hslotk, f1.trans e2, f2.trans e3, f3.trans f1.symm, f4.trans f2.symm, g2⟩

/-- A step that moves a tracked object from a point outside the region to a point inside:
nothing is counted and the tracker records the side nearest to the point it came from. -/
theorem counter_step_enter (det : Nat → ℚ) (s : ObjectDetectionCounterState) (md cc : Nat)
    (x1 y1 x2 y2 : ℚ) (dir : Int) (now : Int) (lt : Option Int) (i0 : Nat) (id : Int)
    (x y px py : ℚ) (k : Nat) (e : RegionState) (hrep : reports_only det md cc i0 id x y)
    (hid : 1 ≤ id) (hlive : live_tracker s id k px py e)
    (hp : odc_point_in_rectangle px py (odc_init_region x1 y1 x2 y2 dir) = false)
    (hq : odc_point_in_rectangle x y (odc_init_region x1 y1 x2 y2 dir) = true) :
    (object_detection_counter_f32 det s md cc x1 y1 x2 y2 dir (-1) now lt).in_count =
      s.global_in_count ∧
    (object_detection_counter_f32 det s md cc x1 y1 x2 y2 dir (-1) now lt).out_count =
      s.global_out_count ∧
    (object_detection_counter_f32 det s md cc x1 y1 x2 y2 dir (-1) now lt).state.global_in_count =
      s.global_in_count ∧
    (object_detection_counter_f32 det s md cc x1 y1 x2 y2 dir (-1) now lt).state.global_out_count =
      s.global_out_count ∧
    live_tracker (object_detection_counter_f32 det s md cc x1 y1 x2 y2 dir (-1) now lt).state
      id k x y (odc_get_entry_side px py (odc_init_region x1 y1 x2 y2 dir)) := by
  obtain ⟨hfind, h1, h10, hx, hy, _⟩ := hlive
  obtain ⟨r1, r2, r3, r4, r5, r6⟩ := counter_step_existing det s md cc x1 y1 x2 y2 dir now lt i0
    id x y k hrep hid hfind
  obtain ⟨b1, b2, b3, b4, b5, b6⟩ := odc_add_position_last
    { s with global_frame_counter := s.global_frame_counter + 1 } (s.tracked_objects k) x y h1 h10
  obtain ⟨_, _, _, c4, c5, c6⟩ := odc_detect_crossing_fields
    (odc_add_position { s with global_frame_counter := s.global_frame_counter + 1 }
      (s.tracked_objects k) x y) (odc_init_region x1 y1 x2 y2 dir)
  obtain ⟨d1, d2⟩ := odc_detect_crossing_enter
    (odc_add_position { s with global_frame_counter := s.global_frame_counter + 1 }
      (s.tracked_objects k) x y) (odc_init_region x1 y1 x2 y2 dir) px py x y b1
    (b5.trans hx) (b6.trans hy) b3 b4 hp hq
  rw [d1] at r2 r3
  simp only [reduceCtorEq, if_false, add_zero] at r2 r3
  refine ⟨r2, r3, r4.trans r2, r5.trans r3, r6, ?_, ?_, ?_, ?_, ?_⟩
  · rw [r1, c4]; omega
  · rw [r1, c4]; exact b2
  · rw [r1, c4, c5]; exact b3
  · rw [r1, c4, c6]; exact b4
  · rw [r1]; exact d2

/-- A step that moves a tracked object from a point inside the region to a point outside:
the region state becomes OUTSIDE, and the traversal is counted exactly when the tracker had
recorded an entry side `e` and the side nearest to the new point is opposite to it, as IN
or OUT by `odc_is_in_direction`. -/
theorem counter_step_exit (det : Nat → ℚ) (s : ObjectDetectionCounterState) (md cc : Nat)
    (x1 y1 x2 y2 : ℚ) (dir : Int) (now : Int) (lt : Option Int) (i0 : Nat) (id : Int)
    (x y px py : ℚ) (k : Nat) (e : RegionState) (hrep : reports_only det md cc i0 id x y)
    (hid : 1 ≤ id) (hlive : live_tracker s id k px py e)
    (hp : odc_point_in_rectangle px py (odc_init_region x1 y1 x2 y2 dir) = true)
    (hq : odc_point_in_rectangle x y (odc_init_region x1 y1 x2 y2 dir) = false) :
    (object_detection_counter_f32 det s md cc x1 y1 x2 y2 dir (-1) now lt).in_count =
      s.global_in_count +
        (if (e.toInt ≥ 2 ∧ odc_is_valid_traversal e
            (odc_get_entry_side x y (odc_init_region x1 y1 x2 y2 dir)) = true) ∧
          odc_is_in_direction e dir = true then 1 else 0) ∧
    (object_detection_counter_f32 det s md cc x1 y1 x2 y2 dir (-1) now lt).out_count =
      s.global_out_count +
        (if (e.toInt ≥ 2 ∧ odc_is_valid_traversal e
            (odc_get_entry_side x y (odc_init_region x1 y1 x2 y2 dir)) = true) ∧
          ¬ odc_is_in_direction e dir = true then 1 else 0) ∧
    live_tracker (object_detection_counter_f32 det s md cc x1 y1 x2 y2 dir (-1) now lt).state
      id k x y REGION_STATE_OUTSIDE := by
  obtain ⟨hfind, h1, h10, hx, hy, he⟩ := hlive
  obtain ⟨r1, r2, r3, r4, r5, r6⟩ := counter_step_existing det s md cc x1 y1 x2 y2 dir now lt i0
    id x y k hrep hid hfind
  obtain ⟨b1, b2, b3, b4, b5, b6⟩ := odc_add_position_last
    { s with global_frame_counter := s.global_frame_counter + 1 } (s.tracked_objects k) x y h1 h10
  obtain ⟨_, _, a3, _⟩ := odc_add_position_fields
    { s with global_frame_counter := s.global_frame_counter + 1 } (s.tracked_objects k) x y
  obtain ⟨_, _, _, c4, c5, c6⟩ := odc_detect_crossing_fields
    (odc_add_position { s with global_frame_counter := s.global_frame_counter + 1 }
      (s.tracked_objects k) x y) (odc_init_region x1 y1 x2 y2 dir)
  obtain ⟨d1, d2⟩ := odc_detect_crossing_exit
    (odc_add_position { s with global_frame_counter := s.global_frame_counter + 1 }
      (s.tracked_objects k) x y) (odc_init_region x1 y1 x2 y2 dir) px py x y b1
    (b5.trans hx) (b6.trans hy) b3 b4 hp hq
  rw [a3, he] at d1
  have hdir : (odc_init_region x1 y1 x2 y2 dir).in_direction = dir := rfl
  rw [hdir] at d1
  rw [d1] at r2 r3
  refine ⟨?_, ?_, r6, ?_, ?_, ?_, ?_, ?_⟩
  · rw [r2]
    congr 1
    by_cases hv : e.toInt ≥ 2 ∧ odc_is_valid_traversal e
        (odc_get_entry_side x y (odc_init_region x1 y1 x2 y2 dir)) = true
    · by_cases hd : odc_is_in_direction e dir = true
      · simp [hv, hd]
      · simp [hv, hd]
    · simp [hv]
  · rw [r3]
    congr 1
    by_cases hv : e.toInt ≥ 2 ∧ odc_is_valid_traversal e
        (odc_get_entry_side x y (odc_init_region x1 y1 x2 y2 dir)) = true
    · by_cases hd : odc_is_in_direction e dir = true
      · simp [hv, hd]
      · simp [hv, hd]
    · simp [hv]
  · rw [r1, c4]; omega
  · rw [r1, c4]; exact b2
  · rw [r1, c4, c5]; exact b3
  · rw [r1, c4, c6]; exact b4
  · rw [r1]; exact d2

/-- The side returned by `odc_get_entry_side` is one of the four ENTERED_FROM values. -/
theorem odc_get_entry_side_entered (x y : ℚ) (region : CountingRegion) :
    (odc_get_entry_side x y region).toInt ≥ 2 := by
  unfold odc_get_entry_side
  dsimp only
  split
  · decide
  · split
    · decide
    · split <;> decide

/-- After `object_detection_counter_init_f32` every slot of the table is zeroed. -/
theorem object_detection_counter_init_f32_slot (s0 : ObjectDetectionCounterState) (j : Nat)
    (hj : j < MAX_TRACKED_OBJECTS) :
    (object_detection_counter_init_f32 s0).tracked_objects j = zeroed_tracker := by
  have h := forLoop_setAt_self MAX_TRACKED_OBJECTS (fun _ (_ : ObjectTracker) => zeroed_tracker)
    s0.tracked_objects j
  rw [if_pos hj] at h
  exact h

/-- The processing of a column of positive width and height whose track id has no tracker,
when slot `k` is the first inactive slot: a tracker is created there with the point as its
only point, and nothing is counted. -/
theorem odc_count_detection_new (region : CountingRegion) (x y w h : ℚ) (id : Int)
    (s : ObjectDetectionCounterState) (k : Nat) (hw : 0 < w) (hh : 0 < h) (hid : 1 ≤ id)
    (hnone : odc_find_tracker s id = none)
    (hslot : (List.range MAX_TRACKED_OBJECTS).find?
      (fun i => !(s.tracked_objects i).is_active) = some k) :
    (odc_count_detection region x y w h id s).tracked_objects =
      setAt s.tracked_objects k
        (odc_add_position s { zeroed_tracker with track_id := id, is_active := true } x y) ∧
    (odc_count_detection region x y w h id s).global_in_count = s.global_in_count ∧
    (odc_count_detection region x y w h id s).global_out_count = s.global_out_count ∧
    (odc_count_detection region x y w h id s).global_frame_counter = s.global_frame_counter := by
  have hfirst := odc_add_position_first s
    { zeroed_tracker with track_id := id, is_active := true } x y rfl
  have hshort := odc_detect_crossing_short
    (odc_add_position s { zeroed_tracker with track_id := id, is_active := true } x y) region
    (by rw [hfirst.1]; decide)
  unfold odc_count_detection
  rw [if_neg (by rintro (h1 | h1) <;> linarith), if_neg (by omega)]
  unfold odc_get_tracker
  rw [hnone]
  simp only [hslot, setAt_same]
  have hadd : odc_add_position
      { s with
        tracked_objects := setAt s.tracked_objects k
          { zeroed_tracker with track_id := id, is_active := true } }
      { zeroed_tracker with track_id := id, is_active := true } x y =
      odc_add_position s { zeroed_tracker with track_id := id, is_active := true } x y := rfl
  rw [hadd, hshort]
  simp only [reduceCtorEq, if_false]
  refine ⟨?_, by first | rfl | trivial, by first | rfl | trivial, by first | rfl | trivial⟩
  funext j
  by_cases hjk : j = k
  · subst hjk
    simp only [setAt_same]
  · simp only [setAt_ne _ _ hjk]

/-- A step of `object_detection_counter_f32` with the reset disabled on a frame that reports
one track only, when that track has no tracker and slot `k` is the first inactive slot: a
tracker is created in slot `k` with the point as its only point and region state OUTSIDE,
and nothing is counted. -/
theorem counter_step_new (det : Nat → ℚ) (s : ObjectDetectionCounterState) (md cc : Nat)
    (x1 y1 x2 y2 : ℚ) (dir : Int) (now : Int) (lt : Option Int) (i0 : Nat) (id : Int)
    (x y : ℚ) (k : Nat) (hrep : reports_only det md cc i0 id x y) (hid : 1 ≤ id)
    (hnone : odc_find_tracker s id = none)
    (hslot : (List.range MAX_TRACKED_OBJECTS).find?
      (fun i => !(s.tracked_objects i).is_active) = some k) :
    (object_detection_counter_f32 det s md cc x1 y1 x2 y2 dir (-1) now lt).state.global_in_count =
      s.global_in_count ∧
    (object_detection_counter_f32 det s md cc x1 y1 x2 y2 dir (-1) now lt).state.global_out_count =
      s.global_out_count ∧
    live_tracker (object_detection_counter_f32 det s md cc x1 y1 x2 y2 dir (-1) now lt).state
      id k x y REGION_STATE_OUTSIDE := by
  rw [counter_step_single det s md cc x1 y1 x2 y2 dir now lt i0 id x y hrep]
  obtain ⟨_, _, _, hw, hh, _, _⟩ := hrep
  obtain ⟨e1, e2, e3, e4⟩ := odc_count_detection_new (odc_init_region x1 y1 x2 y2 dir) x y
    (odc_get_detection_value det md cc 2 i0) (odc_get_detection_value det md cc 3 i0) id
    { s with global_frame_counter := s.global_frame_counter + 1 } k hw hh hid hnone hslot
  obtain ⟨_, _, f3, f4, _, _, _⟩ := odc_finish_facts
    (odc_count_detection (odc_init_region x1 y1 x2 y2 dir) x y
      (odc_get_detection_value det md cc 2 i0) (odc_get_detection_value det md cc 3 i0) id
      { s with global_frame_counter := s.global_frame_counter + 1 })
  obtain ⟨a1, a2, a3, a4⟩ := odc_add_position_fields
    { s with global_frame_counter := s.global_frame_counter + 1 }
    { zeroed_tracker with track_id := id, is_active := true } x y
  obtain ⟨b1, b2, b3⟩ := odc_add_position_first
    { s with global_frame_counter := s.global_frame_counter + 1 }
    { zeroed_tracker with track_id := id, is_active := true } x y rfl
  have hk : k < MAX_TRACKED_OBJECTS := by
    have := List.mem_of_find?_eq_some hslot
    exact List.mem_range.mp this
  have hnone2 : ∀ j, j < MAX_TRACKED_OBJECTS →
      ¬ ((s.tracked_objects j).is_active = true ∧ (s.tracked_objects j).track_id = id) := by
    intro j hj hc
    unfold odc_find_tracker at hnone
    rw [List.find?_range_eq_none] at hnone
    have := hnone j hj
    simp [hc.1, hc.2] at this
  have hslotk : (odc_count_detection (odc_init_region x1 y1 x2 y2 dir) x y
      (odc_get_detection_value det md cc 2 i0) (odc_get_detection_value det md cc 3 i0) id
      { s with global_frame_counter := s.global_frame_counter + 1 }).tracked_objects k =
      odc_add_position { s with global_frame_counter := s.global_frame_counter + 1 }
        { zeroed_tracker with track_id := id, is_active := true } x y := by
    rw [e1, setAt_same]
  obtain ⟨g1, g2⟩ := odc_finish_keeps_tracker
    (odc_count_detection (odc_init_region x1 y1 x2 y2 dir) x y
      (odc_get_detection_value det md cc 2 i0) (odc_get_detection_value det md cc 3 i0) id
      { s with global_frame_counter := s.global_frame_counter + 1 }) id k hk
    (by rw [hslotk, a1, a2]; exact ⟨rfl, rfl⟩)
    (by rw [hslotk, a4, e4])
    (by
      intro j hj
      rw [e1, setAt_ne _ _ (Nat.ne_of_lt hj)]
      exact hnone2 j (Nat.lt_trans hj hk))
  refine ⟨f3.trans e2, f4.trans e3, g2, ?_, ?_, ?_, ?_, ?_⟩
  · rw [g1, hslotk, b1]
  · rw [g1, hslotk, b1]; decide
  · rw [g1, hslotk, b1]; exact b2
  · rw [g1, hslotk, b1]; exact b3
  · rw [g1, hslotk, a3]; rfl

/-- C4: from the state left by `object_detection_counter_init_f32`, with the reset disabled,
when three successive frames report one track only, with the same id ≥ 1 and positive width
and height, at a point outside the region, then at a point inside, then at a point outside,
and the sides nearest to the first and to the third point are opposite, then nothing is
counted by the first two steps and after the third step in_count + out_count = 1, with
in_count = 1 exactly when the side nearest to the first point is an IN side of
`in_direction`. -/
theorem traversal_counted_once (s0 : ObjectDetectionCounterState) (det0 det1 det2 : Nat → ℚ)
    (md cc : Nat) (x1 y1 x2 y2 : ℚ) (dir : Int) (now0 now1 now2 : Int)
    (lt0 lt1 lt2 : Option Int) (i0 i1 i2 : Nat) (id : Int) (p0x p0y p1x p1y p2x p2y : ℚ)
    (r1 r2 r3 : CounterOutput) (hid : 1 ≤ id)
    (hr1 : r1 = object_detection_counter_f32 det0 (object_detection_counter_init_f32 s0) md cc
      x1 y1 x2 y2 dir (-1) now0 lt0)
    (hr2 : r2 = object_detection_counter_f32 det1 r1.state md cc x1 y1 x2 y2 dir (-1) now1 lt1)
    (hr3 : r3 = object_detection_counter_f32 det2 r2.state md cc x1 y1 x2 y2 dir (-1) now2 lt2)
    (h0 : reports_only det0 md cc i0 id p0x p0y)
    (h1 : reports_only det1 md cc i1 id p1x p1y)
    (h2 : reports_only det2 md cc i2 id p2x p2y)
    (hout0 : odc_point_in_rectangle p0x p0y (odc_init_region x1 y1 x2 y2 dir) = false)
    (hin1 : odc_point_in_rectangle p1x p1y (odc_init_region x1 y1 x2 y2 dir) = true)
    (hout2 : odc_point_in_rectangle p2x p2y (odc_init_region x1 y1 x2 y2 dir) = false)
    (hopp : odc_is_valid_traversal
      (odc_get_entry_side p0x p0y (odc_init_region x1 y1 x2 y2 dir))
      (odc_get_entry_side p2x p2y (odc_init_region x1 y1 x2 y2 dir)) = true) :
    r1.in_count + r1.out_count = 0 ∧ r2.in_count + r2.out_count = 0 ∧
    r3.in_count + r3.out_count = 1 ∧
    (r3.in_count = 1 ↔
      odc_is_in_direction (odc_get_entry_side p0x p0y (odc_init_region x1 y1 x2 y2 dir)) dir
        = true) := by
  have hnone : odc_find_tracker (object_detection_counter_init_f32 s0) id = none := by
    unfold odc_find_tracker
    rw [List.find?_range_eq_none]
    intro j hj
    rw [object_detection_counter_init_f32_slot s0 j hj]
    rfl
  have hslot : (List.range MAX_TRACKED_OBJECTS).find?
      (fun i => !((object_detection_counter_init_f32 s0).tracked_objects i).is_active) = some 0 := by
    rw [List.find?_range_eq_some]
    refine ⟨?_, by decide, fun j hj => absurd hj (Nat.not_lt_zero j)⟩
    rw [object_detection_counter_init_f32_slot s0 0 (by decide)]
    rfl
  obtain ⟨a1, a2, a3⟩ := counter_step_new det0 (object_detection_counter_init_f32 s0) md cc
    x1 y1 x2 y2 dir now0 lt0 i0 id p0x p0y 0 h0 hid hnone hslot
  rw [← hr1] at a1 a2 a3
  obtain ⟨b1, b2, b3, b4, b5⟩ := counter_step_enter det1 r1.state md cc x1 y1 x2 y2 dir now1 lt1
    i1 id p1x p1y p0x p0y 0 _ h1 hid a3 hout0 hin1
  rw [← hr2] at b1 b2 b3 b4 b5
  obtain ⟨c1, c2, _⟩ := counter_step_exit det2 r2.state md cc x1 y1 x2 y2 dir now2 lt2
    i2 id p2x p2y p1x p1y 0 _ h2 hid b5 hin1 hout2
  rw [← hr3] at c1 c2
  have hin0 : r1.state.global_in_count = 0 := a1.trans rfl
  have hout0 : r1.state.global_out_count = 0 := a2.trans rfl
  have hr1in : r1.in_count = r1.state.global_in_count := by rw [hr1]; rfl
  have hr1out : r1.out_count = r1.state.global_out_count := by rw [hr1]; rfl
  have hvalid : (odc_get_entry_side p0x p0y (odc_init_region x1 y1 x2 y2 dir)).toInt ≥ 2 ∧
      odc_is_valid_traversal (odc_get_entry_side p0x p0y (odc_init_region x1 y1 x2 y2 dir))
        (odc_get_entry_side p2x p2y (odc_init_region x1 y1 x2 y2 dir)) = true :=
    ⟨odc_get_entry_side_entered _ _ _, hopp⟩
  rw [b3, hin0] at c1
  rw [b4, hout0] at c2
  refine ⟨by omega, by omega, ?_, ?_⟩
  · rw [c1, c2]
    by_cases hd : odc_is_in_direction
        (odc_get_entry_side p0x p0y (odc_init_region x1 y1 x2 y2 dir)) dir = true
    · rw [if_pos ⟨hvalid, hd⟩, if_neg (fun h => h.2 hd)]
      rfl
    · rw [if_neg (fun h => hd h.2), if_pos ⟨hvalid, hd⟩]
      rfl
  · rw [c1]
    by_cases hd : odc_is_in_direction
        (odc_get_entry_side p0x p0y (odc_init_region x1 y1 x2 y2 dir)) dir = true
    · rw [if_pos ⟨hvalid, hd⟩]
      exact ⟨fun _ => hd, fun _ => rfl⟩
    · rw [if_neg (fun h => hd h.2)]
      exact ⟨fun h => absurd h (by decide), fun h => absurd h hd⟩

/-- C5: when the counter-tracker of a track has a point outside the region as its last
point, a step that reports the track at a point inside the region followed by a step that
reports it at a point outside, on a side that is not opposite to the side nearest to the
first point, counts nothing: the second of the two steps changes neither in_count nor
out_count and leaves the region state of the tracker OUTSIDE. -/
theorem incomplete_traversal_not_counted (s : ObjectDetectionCounterState)
    (det1 det2 : Nat → ℚ) (md cc : Nat) (x1 y1 x2 y2 : ℚ) (dir : Int) (now1 now2 : Int)
    (lt1 lt2 : Option Int) (i1 i2 : Nat) (id : Int) (k : Nat) (e0 : RegionState)
    (p0x p0y p1x p1y p2x p2y : ℚ) (r1 r2 : CounterOutput) (hid : 1 ≤ id)
    (hr1 : r1 = object_detection_counter_f32 det1 s md cc x1 y1 x2 y2 dir (-1) now1 lt1)
    (hr2 : r2 = object_detection_counter_f32 det2 r1.state md cc x1 y1 x2 y2 dir (-1) now2 lt2)
    (hlive : live_tracker s id k p0x p0y e0)
    (h1 : reports_only det1 md cc i1 id p1x p1y)
    (h2 : reports_only det2 md cc i2 id p2x p2y)
    (hout0 : odc_point_in_rectangle p0x p0y (odc_init_region x1 y1 x2 y2 dir) = false)
    (hin1 : odc_point_in_rectangle p1x p1y (odc_init_region x1 y1 x2 y2 dir) = true)
    (hout2 : odc_point_in_rectangle p2x p2y (odc_init_region x1 y1 x2 y2 dir) = false)
    (hnot : odc_is_valid_traversal
      (odc_get_entry_side p0x p0y (odc_init_region x1 y1 x2 y2 dir))
      (odc_get_entry_side p2x p2y (odc_init_region x1 y1 x2 y2 dir)) = false) :
    r2.in_count = r1.in_count ∧ r2.out_count = r1.out_count ∧
    (r1.state.tracked_objects k).region_state =
      odc_get_entry_side p0x p0y (odc_init_region x1 y1 x2 y2 dir) ∧
    (r2.state.tracked_objects k).region_state = REGION_STATE_OUTSIDE := by
  obtain ⟨b1, b2, b3, b4, b5⟩ := counter_step_enter det1 s md cc x1 y1 x2 y2 dir now1 lt1
    i1 id p1x p1y p0x p0y k e0 h1 hid hlive hout0 hin1
  rw [← hr1] at b1 b2 b3 b4 b5
  obtain ⟨c1, c2, c3⟩ := counter_step_exit det2 r1.state md cc x1 y1 x2 y2 dir now2 lt2
    i2 id p2x p2y p1x p1y k _ h2 hid b5 hin1 hout2
  rw [← hr2] at c1 c2 c3
  have hno : ¬ ((odc_get_entry_side p0x p0y (odc_init_region x1 y1 x2 y2 dir)).toInt ≥ 2 ∧
      odc_is_valid_traversal (odc_get_entry_side p0x p0y (odc_init_region x1 y1 x2 y2 dir))
        (odc_get_entry_side p2x p2y (odc_init_region x1 y1 x2 y2 dir)) = true) := by
    rw [hnot]
    exact fun h => absurd h.2 (by decide)
  rw [if_neg (fun h => hno h.1), add_zero, b3, ← b1] at c1
  rw [if_neg (fun h => hno h.1), add_zero, b4, ← b2] at c2
  exact ⟨c1, c2, b5.2.2.2.2.2, c3.2.2.2.2.2⟩

/-- C4, the seed scenarios fail on the values the code receives. As float32 values,
0.4f - 0.2f = 0.20000000298 is above 0.5 - 0.3f = 0.19999998808, so the side nearest to
(0.2f, 0.5) is TOP, not LEFT, while the side nearest to (0.8f, 0.5) is RIGHT; TOP and RIGHT
are not opposite, and the positions (0.2, 0.5), (0.5, 0.5), (0.8, 0.5) of seed scenario 3
leave in_count = 0 and out_count = 0, as does the reversed sequence of seed scenario 4. -/
theorem seed_traversal_not_counted :
    1/2 - f32_round (3/10) < f32_round (2/5) - f32_round (1/5) ∧
    odc_get_entry_side (f32_round (1/5)) (1/2) seed_region_f32 =
      REGION_STATE_ENTERED_FROM_TOP ∧
    odc_get_entry_side (f32_round (4/5)) (1/2) seed_region_f32 =
      REGION_STATE_ENTERED_FROM_RIGHT ∧
    odc_is_valid_traversal REGION_STATE_ENTERED_FROM_TOP REGION_STATE_ENTERED_FROM_RIGHT
      = false ∧
    (seed_run_f32 (1/5) (1/2) (1/2) (1/2) (4/5) (1/2)).in_count = 0 ∧
    (seed_run_f32 (1/5) (1/2) (1/2) (1/2) (4/5) (1/2)).out_count = 0 ∧
    (seed_run_f32 (4/5) (1/2) (1/2) (1/2) (1/5) (1/2)).in_count = 0 ∧
    (seed_run_f32 (4/5) (1/2) (1/2) (1/2) (1/5) (1/2)).out_count = 0 := by
  decide!

/-- Witness of C4 on the float32 values that the code receives: with region
(0.4, 0.3, 0.6, 0.7) and in_direction TOP_LEFT, track 1 at (0.3, 0.5), (0.5, 0.5),
(0.7, 0.5) is nearest to LEFT, then inside, then nearest to RIGHT, and gives in_count = 1 and
out_count = 0; the reversed sequence gives in_count = 0 and out_count = 1. -/
theorem traversal_counted_once_witness :
    odc_get_entry_side (f32_round (3/10)) (1/2) seed_region_f32 =
      REGION_STATE_ENTERED_FROM_LEFT ∧
    odc_get_entry_side (f32_round (7/10)) (1/2) seed_region_f32 =
      REGION_STATE_ENTERED_FROM_RIGHT ∧
    (seed_run_f32 (3/10) (1/2) (1/2) (1/2) (7/10) (1/2)).in_count = 1 ∧
    (seed_run_f32 (3/10) (1/2) (1/2) (1/2) (7/10) (1/2)).out_count = 0 ∧
    (seed_run_f32 (7/10) (1/2) (1/2) (1/2) (3/10) (1/2)).in_count = 0 ∧
    (seed_run_f32 (7/10) (1/2) (1/2) (1/2) (3/10) (1/2)).out_count = 1 ∧
    ((seed_run_f32 (3/10) (1/2) (1/2) (1/2) (7/10) (1/2)).in_count +
      (seed_run_f32 (3/10) (1/2) (1/2) (1/2) (7/10) (1/2)).out_count = 1) :=
  ⟨by decide!, by decide!, by decide!, by decide!, by decide!, by decide!,
    (traversal_counted_once zero_counter_state (counter_frame_f32 (3/10) (1/2))
      (counter_frame_f32 (1/2) (1/2)) (counter_frame_f32 (7/10) (1/2)) 4 8 (f32_round (2/5))
      (f32_round (3/10)) (f32_round (3/5)) (f32_round (7/10))
      DIRECTION_FROM_TOP_LEFT 0 0 0 none none none 0 0 0 1 (f32_round (3/10)) (1/2) (1/2) (1/2)
      (f32_round (7/10)) (1/2)
      _ _ _ (by decide) rfl rfl rfl
      (by unfold reports_only; decide!) (by unfold reports_only; decide!)
      (by unfold reports_only; decide!) (by decide!) (by decide!) (by decide!)
      (by decide!)).2.2.1⟩

/-- Witness of C5, seed scenario 5: track 1 at (0.2, 0.5), (0.5, 0.5), (0.2, 0.5) enters and
leaves through the left edge; both counts stay 0 and the tracker ends OUTSIDE. -/
theorem incomplete_traversal_not_counted_witness :
    (seed_counter_step (seed_counter_step (seed_counter_step
      (object_detection_counter_init_f32 zero_counter_state) (1/5) (1/2)).state
        (1/2) (1/2)).state (1/5) (1/2)).in_count = 0 ∧
    (seed_counter_step (seed_counter_step (seed_counter_step
      (object_detection_counter_init_f32 zero_counter_state) (1/5) (1/2)).state
        (1/2) (1/2)).state (1/5) (1/2)).out_count = 0 ∧
    ((seed_counter_step (seed_counter_step (seed_counter_step
      (object_detection_counter_init_f32 zero_counter_state) (1/5) (1/2)).state
        (1/2) (1/2)).state (1/5) (1/2)).state.tracked_objects 0).region_state =
      REGION_STATE_OUTSIDE :=
  have h := incomplete_traversal_not_counted
    (seed_counter_step (object_detection_counter_init_f32 zero_counter_state) (1/5) (1/2)).state
    (counter_frame (1/2) (1/2)) (counter_frame (1/5) (1/2)) 4 8 (2/5) (3/10) (3/5) (7/10)
    DIRECTION_FROM_TOP_LEFT 0 0 none none 0 0 1 0 REGION_STATE_OUTSIDE
    (1/5) (1/2) (1/2) (1/2) (1/5) (1/2) _ _ (by decide) rfl rfl
    (by unfold live_tracker; decide!)
    (by unfold reports_only; decide!) (by unfold reports_only; decide!)
    (by decide!) (by decide!) (by decide!) (by decide!)
  ⟨h.1.trans (by decide!), h.2.1.trans (by decide!), h.2.2.2⟩

/-- The IoU is 0 when the intersection of the two boxes is empty or degenerate, and is the
intersection area over the union area otherwise; in that case both boxes have positive
width and height, the intersection area is positive and at most the area of each box. -/
theorem calculate_iou_cases (x1 y1 w1 h1 x2 y2 w2 h2 : ℚ) :
    (calculate_iou x1 y1 w1 h1 x2 y2 w2 h2 = 0 ∧
      (min (x1 + w1 * (1 / 2)) (x2 + w2 * (1 / 2)) ≤ max (x1 - w1 * (1 / 2)) (x2 - w2 * (1 / 2)) ∨
        min (y1 + h1 * (1 / 2)) (y2 + h2 * (1 / 2)) ≤
          max (y1 - h1 * (1 / 2)) (y2 - h2 * (1 / 2)))) ∨
    (0 < calculate_iou x1 y1 w1 h1 x2 y2 w2 h2 ∧ calculate_iou x1 y1 w1 h1 x2 y2 w2 h2 ≤ 1 ∧
      0 < w1 ∧ 0 < h1 ∧ 0 < w2 ∧ 0 < h2) := by
  unfold calculate_iou
  dsimp only
  split
  · rename_i hc
    exact Or.inl ⟨rfl, hc⟩
  · rename_i hc
    right
    rw [not_or, not_le, not_le] at hc
    obtain ⟨hx, hy⟩ := hc
    have a1 := le_max_left (x1 - w1 * (1 / 2)) (x2 - w2 * (1 / 2))
    have a2 := le_max_right (x1 - w1 * (1 / 2)) (x2 - w2 * (1 / 2))
    have a3 := min_le_left (x1 + w1 * (1 / 2)) (x2 + w2 * (1 / 2))
    have a4 := min_le_right (x1 + w1 * (1 / 2)) (x2 + w2 * (1 / 2))
    have b1 := le_max_left (y1 - h1 * (1 / 2)) (y2 - h2 * (1 / 2))
    have b2 := le_max_right (y1 - h1 * (1 / 2)) (y2 - h2 * (1 / 2))
    have b3 := min_le_left (y1 + h1 * (1 / 2)) (y2 + h2 * (1 / 2))
    have b4 := min_le_right (y1 + h1 * (1 / 2)) (y2 + h2 * (1 / 2))
    generalize max (x1 - w1 * (1 / 2)) (x2 - w2 * (1 / 2)) = il at *
    generalize min (x1 + w1 * (1 / 2)) (x2 + w2 * (1 / 2)) = ir at *
    generalize max (y1 - h1 * (1 / 2)) (y2 - h2 * (1 / 2)) = it at *
    generalize min (y1 + h1 * (1 / 2)) (y2 + h2 * (1 / 2)) = ib at *
    have hw : 0 < ir - il := by linarith
    have hh : 0 < ib - it := by linarith
    have hw1 : ir - il ≤ w1 := by linarith
    have hw2 : ir - il ≤ w2 := by linarith
    have hh1 : ib - it ≤ h1 := by linarith
    have hh2 : ib - it ≤ h2 := by linarith
    have hi : 0 < (ir - il) * (ib - it) := mul_pos hw hh
    have hi1 : (ir - il) * (ib - it) ≤ w1 * h1 :=
      mul_le_mul hw1 hh1 (le_of_lt hh) (by linarith)
    have hi2 : (ir - il) * (ib - it) ≤ w2 * h2 :=
      mul_le_mul hw2 hh2 (le_of_lt hh) (by linarith)
    have hu : 0 < w1 * h1 + w2 * h2 - (ir - il) * (ib - it) := by linarith
    rw [if_pos hu]
    refine ⟨div_pos hi hu, ?_, by linarith, by linarith, by linarith, by linarith⟩
    rw [div_le_one hu]
    linarith

/-- C19: for all boxes in center form, with any rational x, y, w, h, the IoU computed by
`calculate_iou` lies in [0, 1]; it is 0 when the boxes are disjoint or merely touch (in x or
in y) and when a width or a height is not positive. -/
theorem calculate_iou_range (x1 y1 w1 h1 x2 y2 w2 h2 : ℚ) :
    0 ≤ calculate_iou x1 y1 w1 h1 x2 y2 w2 h2 ∧ calculate_iou x1 y1 w1 h1 x2 y2 w2 h2 ≤ 1 ∧
    ((x1 + w1 * (1 / 2) ≤ x2 - w2 * (1 / 2) ∨ x2 + w2 * (1 / 2) ≤ x1 - w1 * (1 / 2) ∨
        y1 + h1 * (1 / 2) ≤ y2 - h2 * (1 / 2) ∨ y2 + h2 * (1 / 2) ≤ y1 - h1 * (1 / 2) ∨
        w1 ≤ 0 ∨ h1 ≤ 0 ∨ w2 ≤ 0 ∨ h2 ≤ 0) →
      calculate_iou x1 y1 w1 h1 x2 y2 w2 h2 = 0) := by
  rcases calculate_iou_cases x1 y1 w1 h1 x2 y2 w2 h2 with ⟨h0, _⟩ | ⟨hpos, hle, p1, p2, p3, p4⟩
  · rw [h0]
    exact ⟨le_refl _, zero_le_one, fun _ => rfl⟩
  · refine ⟨le_of_lt hpos, hle, fun hd => ?_⟩
    exfalso
    have hne : calculate_iou x1 y1 w1 h1 x2 y2 w2 h2 ≠ 0 := ne_of_gt hpos
    apply hne
    unfold calculate_iou
    dsimp only
    rw [if_pos]
    have a1 := le_max_left (x1 - w1 * (1 / 2)) (x2 - w2 * (1 / 2))
    have a2 := le_max_right (x1 - w1 * (1 / 2)) (x2 - w2 * (1 / 2))
    have a3 := min_le_left (x1 + w1 * (1 / 2)) (x2 + w2 * (1 / 2))
    have a4 := min_le_right (x1 + w1 * (1 / 2)) (x2 + w2 * (1 / 2))
    have b1 := le_max_left (y1 - h1 * (1 / 2)) (y2 - h2 * (1 / 2))
    have b2 := le_max_right (y1 - h1 * (1 / 2)) (y2 - h2 * (1 / 2))
    have b3 := min_le_left (y1 + h1 * (1 / 2)) (y2 + h2 * (1 / 2))
    have b4 := min_le_right (y1 + h1 * (1 / 2)) (y2 + h2 * (1 / 2))
    rcases hd with h | h | h | h | h | h | h | h
    · left; linarith
    · left; linarith
    · right; linarith
    · right; linarith
    · left; linarith
    · right; linarith
    · left; linarith
    · right; linarith

/-- Witness of C19: the unit boxes at (0, 0) and (1, 0) touch along an edge and have IoU 0;
the boxes of seed scenario 1 overlap with IoU 2/3. -/
theorem calculate_iou_range_witness :
    calculate_iou 0 0 1 1 1 0 1 1 = 0 ∧
    calculate_iou (13/25) (1/2) (1/10) (1/10) (1/2) (1/2) (1/10) (1/10) = 2/3 ∧
    (0 ≤ calculate_iou (13/25) (1/2) (1/10) (1/10) (1/2) (1/2) (1/10) (1/10) ∧
      calculate_iou (13/25) (1/2) (1/10) (1/10) (1/2) (1/2) (1/10) (1/10) ≤ 1) :=
  ⟨(calculate_iou_range 0 0 1 1 1 0 1 1).2.2 (Or.inl (by norm_num)), by decide!,
    (calculate_iou_range (13/25) (1/2) (1/10) (1/10) (1/2) (1/2) (1/10) (1/10)).1,
    (calculate_iou_range (13/25) (1/2) (1/10) (1/10) (1/2) (1/2) (1/10) (1/10)).2.1⟩

/-- C20: the IoU of a box of positive width and height with itself is 1. -/
theorem calculate_iou_self (x y w h : ℚ) (hw : 0 < w) (hh : 0 < h) :
    calculate_iou x y w h x y w h = 1 := by
  unfold calculate_iou
  dsimp only
  rw [max_self, max_self, min_self, min_self, if_neg]
  · have e1 : x + w * (1 / 2) - (x - w * (1 / 2)) = w := by ring
    have e2 : y + h * (1 / 2) - (y - h * (1 / 2)) = h := by ring
    rw [e1, e2]
    have hp : 0 < w * h := mul_pos hw hh
    have e3 : w * h + w * h - w * h = w * h := by ring
    rw [e3, if_pos hp, div_self (ne_of_gt hp)]
  · rw [not_or, not_le, not_le]
    constructor <;> linarith

/-- Witness of C20 on the box of seed scenario 1. -/
theorem calculate_iou_self_witness :
    calculate_iou (1/2) (1/2) (1/10) (1/10) (1/2) (1/2) (1/10) (1/10) = 1 :=
  calculate_iou_self (1/2) (1/2) (1/10) (1/10) (by norm_num) (by norm_num)

/-- The table after `object_tracker_init_f32`: the slots below 50 have the four fields
written by the loop and keep the others, the slots beyond are as they were. -/
theorem object_tracker_init_f32_tracks (s0 : ObjectTrackerState) (t : Nat) :
    (object_tracker_init_f32 s0).tracks t =
      if t < TRACKS_ARRAY_SIZE then
        { s0.tracks t with active := false, track_id := -1, age := 0, hits := 0 }
      else s0.tracks t :=
  forLoop_setAt_self TRACKS_ARRAY_SIZE
    (fun _ (T : ObjectTrack) => { T with active := false, track_id := -1, age := 0, hits := 0 })
    s0.tracks t

/-- The i8 initialisation of the tracker is the f32 one. -/
theorem object_tracker_init_i8_eq (s0 : ObjectTrackerState) :
    object_tracker_init_i8 s0 = object_tracker_init_f32 s0 := rfl

/-- The i8 initialisation of the counter is the f32 one. -/
theorem object_detection_counter_init_i8_eq (s0 : ObjectDetectionCounterState) :
    object_detection_counter_init_i8 s0 = object_detection_counter_init_f32 s0 := rfl

/-- The table after `object_detection_counter_init_f32`. -/
theorem object_detection_counter_init_f32_tracked (s0 : ObjectDetectionCounterState) (j : Nat) :
    (object_detection_counter_init_f32 s0).tracked_objects j =
      if j < MAX_TRACKED_OBJECTS then zeroed_tracker else s0.tracked_objects j :=
  forLoop_setAt_self MAX_TRACKED_OBJECTS (fun _ (_ : ObjectTracker) => zeroed_tracker)
    s0.tracked_objects j

/-- Initialising an initialised tracker state changes nothing. -/
theorem object_tracker_init_f32_twice (s : ObjectTrackerState) :
    object_tracker_init_f32 (object_tracker_init_f32 s) = object_tracker_init_f32 s := by
  have ht : (object_tracker_init_f32 (object_tracker_init_f32 s)).tracks =
      (object_tracker_init_f32 s).tracks := by
    funext t
    rw [object_tracker_init_f32_tracks (object_tracker_init_f32 s) t,
      object_tracker_init_f32_tracks s t]
    by_cases h : t < TRACKS_ARRAY_SIZE
    · simp only [if_pos h]
    · simp only [if_neg h]
  show ObjectTrackerState.mk _ 1 1 = ObjectTrackerState.mk _ 1 1
  exact congrArg (fun tr => ObjectTrackerState.mk tr 1 1) ht

/-- Initialising an initialised counter state changes nothing. -/
theorem object_detection_counter_init_f32_twice (c : ObjectDetectionCounterState) :
    object_detection_counter_init_f32 (object_detection_counter_init_f32 c) =
      object_detection_counter_init_f32 c := by
  have ht : (object_detection_counter_init_f32 (object_detection_counter_init_f32 c)).tracked_objects =
      (object_detection_counter_init_f32 c).tracked_objects := by
    funext j
    rw [object_detection_counter_init_f32_tracked (object_detection_counter_init_f32 c) j,
      object_detection_counter_init_f32_tracked c j]
    by_cases h : j < MAX_TRACKED_OBJECTS
    · rw [if_pos h, if_pos h]
    · rw [if_neg h, if_neg h]
  show ObjectDetectionCounterState.mk _ 0 0 0 1 (-1) 0 = ObjectDetectionCounterState.mk _ 0 0 0 1 (-1) 0
  exact congrArg (fun tr => ObjectDetectionCounterState.mk tr 0 0 0 1 (-1) 0) ht

/-- C18: init is idempotent. For every buffer content, initialising twice gives the state of
initialising once, for the tracker and for the counter, in the f32 and in the i8 variant. -/
theorem init_idempotent (s : ObjectTrackerState) (c : ObjectDetectionCounterState) :
    object_tracker_init_f32 (object_tracker_init_f32 s) = object_tracker_init_f32 s ∧
    object_tracker_init_i8 (object_tracker_init_i8 s) = object_tracker_init_i8 s ∧
    object_detection_counter_init_f32 (object_detection_counter_init_f32 c) =
      object_detection_counter_init_f32 c ∧
    object_detection_counter_init_i8 (object_detection_counter_init_i8 c) =
      object_detection_counter_init_i8 c :=
  ⟨object_tracker_init_f32_twice s, object_tracker_init_f32_twice s,
    object_detection_counter_init_f32_twice c, object_detection_counter_init_f32_twice c⟩

/-- No slot is found when every slot below `max_tracks` is active. -/
theorem find_empty_slot_full (tracks : Nat → ObjectTrack) (mt : Nat)
    (hfull : ∀ t, t < mt → (tracks t).active = true) : find_empty_slot tracks mt = none := by
  unfold find_empty_slot
  rw [List.find?_eq_none]
  intro t ht
  rw [hfull t (List.mem_range.mp ht)]
  decide

/-- C15: tracker table full. If every slot below `max_tracks` is active when the spawn phase
runs, `create_new_tracks` returns the state it was given: every track, `next_track_id` and
`tracker_initialized` are unchanged, whatever the detections and the matching flags are. -/
theorem full_table_spawns_nothing (s : ObjectTrackerState) (detection_data : Nat → Detection)
    (valid_detections max_tracks : Nat) (detection_matched : Nat → Bool)
    (hfull : ∀ t, t < max_tracks → (s.tracks t).active = true) :
    create_new_tracks s detection_data valid_detections max_tracks detection_matched = s := by
  unfold create_new_tracks
  apply forLoop_id
  intro d _
  unfold create_track
  split
  · rfl
  · rw [find_empty_slot_full s.tracks max_tracks hfull]

/-- Witness of C15: the table of `used_tracker_state` restricted to 3 slots is full; two
unmatched detections are discarded and the next track id stays 8. -/
theorem full_table_spawns_nothing_witness :
    (∀ t, t < 3 → (used_tracker_state.tracks t).active = true) ∧
    create_new_tracks used_tracker_state unwritten_rows 2 3 (fun _ => false) =
      used_tracker_state ∧
    (create_new_tracks used_tracker_state unwritten_rows 2 3 (fun _ => false)).next_track_id = 8 :=
  ⟨fun _ _ => rfl,
    full_table_spawns_nothing used_tracker_state unwritten_rows 2 3 (fun _ => false)
      (fun _ _ => rfl),
    by decide!⟩

/-- What an expiry of `update_track_lifecycle` leaves in the slot. -/
theorem update_track_lifecycle_expired (s : ObjectTrackerState) (t mt : Nat) (max_age : Int)
    (tm : Nat → Bool) (htm : t < mt) (hact : (s.tracks t).active = true)
    (hexp : ((update_track_lifecycle s mt max_age tm).tracks t).active = false) :
    (update_track_lifecycle s mt max_age tm).tracks t = expired_track := by
  have e := (update_track_lifecycle_tracks s mt max_age tm).2 t
  rw [if_pos htm] at e
  rw [e] at hexp ⊢
  unfold age_track at hexp ⊢
  have h1 : ¬ ((!(s.tracks t).active) = true) := by rw [hact]; decide
  rw [if_neg h1] at hexp ⊢
  by_cases hm : (!tm t) = true
  · rw [if_pos hm] at hexp ⊢
    dsimp only at hexp ⊢
    by_cases hage : (s.tracks t).age + 1 > max_age
    · rw [if_pos hage]
      simp only [setAt_same]
      rfl
    · rw [if_neg hage] at hexp
      simp only [setAt_same] at hexp
      rw [hact] at hexp
      exact absurd hexp (by decide)
  · rw [if_neg hm] at hexp
    rw [hact] at hexp
    exact absurd hexp (by decide)

/-- C17, the claim as written fails: on a buffer that was in use, `object_tracker_init_f32`
leaves slot 0 with track id -1 and with the box, confidence, class and tracking confidence
of the buffer; a slot that expires gets track id -1 and class -1. -/
theorem tracker_init_not_zeroed :
    (object_tracker_init_f32 used_tracker_state).tracks 0 =
      { x := 1/2, y := 1/2, w := 1/10, h := 1/10, confidence := 9/10, class_id := 2,
        track_id := -1, age := 0, hits := 0, active := false, tracking_confidence := 2/3 } ∧
    ((object_tracker_init_i8 used_tracker_state).tracks 0).track_id = -1 ∧
    ((update_track_lifecycle used_tracker_state 1 0 (fun _ => false)).tracks 0).track_id = -1 ∧
    ((update_track_lifecycle used_tracker_state 1 0 (fun _ => false)).tracks 0).class_id = -1 := by
  decide!

/-- C17, amended: after `object_tracker_init_f32` and `object_tracker_init_i8`, for every
prior buffer content, each slot t < 50 is inactive with track id -1, age 0 and hits 0, and
keeps the box, confidence, class and tracking confidence of the buffer; `next_track_id` is 1.
A slot that a lifecycle pass expires (active before, inactive after) is inactive with track
id -1, class -1 and every other field 0. -/
theorem tracker_init_and_expiry (s0 s : ObjectTrackerState) (t mt : Nat) (max_age : Int)
    (tm : Nat → Bool) (ht : t < TRACKS_ARRAY_SIZE) (htm : t < mt)
    (hact : (s.tracks t).active = true)
    (hexp : ((update_track_lifecycle s mt max_age tm).tracks t).active = false) :
    (object_tracker_init_f32 s0).tracks t =
      { s0.tracks t with active := false, track_id := -1, age := 0, hits := 0 } ∧
    (object_tracker_init_f32 s0).next_track_id = 1 ∧
    (object_tracker_init_i8 s0).tracks t =
      { s0.tracks t with active := false, track_id := -1, age := 0, hits := 0 } ∧
    (object_tracker_init_i8 s0).next_track_id = 1 ∧
    (update_track_lifecycle s mt max_age tm).tracks t =
      { x := 0, y := 0, w := 0, h := 0, confidence := 0, class_id := -1, track_id := -1,
        age := 0, hits := 0, active := false, tracking_confidence := 0 } := by
  have hi := object_tracker_init_f32_tracks s0 t
  rw [if_pos ht] at hi
  exact ⟨hi, rfl, hi, rfl, update_track_lifecycle_expired s t mt max_age tm htm hact hexp⟩

/-- Witness of C17 (amended) on the used buffer: slot 0 after init, and slot 0 after a
lifecycle pass with max_age = 0 in which the track is not matched. -/
theorem tracker_init_and_expiry_witness :
    (used_tracker_state.tracks 0).active = true ∧
    ((update_track_lifecycle used_tracker_state 1 0 (fun _ => false)).tracks 0).active = false ∧
    ((object_tracker_init_f32 used_tracker_state).tracks 0).track_id = -1 ∧
    ((object_tracker_init_f32 used_tracker_state).tracks 0).x = 1/2 ∧
    (update_track_lifecycle used_tracker_state 1 0 (fun _ => false)).tracks 0 = expired_track :=
  ⟨rfl, by decide!,
    congrArg ObjectTrack.track_id
      (tracker_init_and_expiry used_tracker_state used_tracker_state 0 1 0 (fun _ => false)
        (by decide) (by decide) rfl (by decide!)).1,
    congrArg ObjectTrack.x
      (tracker_init_and_expiry used_tracker_state used_tracker_state 0 1 0 (fun _ => false)
        (by decide) (by decide) rfl (by decide!)).1,
    (tracker_init_and_expiry used_tracker_state used_tracker_state 0 1 0 (fun _ => false)
      (by decide) (by decide) rfl (by decide!)).2.2.2.2⟩

/-- The f32 supervisor with the reset disabled returns the state. -/
theorem odc_check_daily_reset_disabled (s : ObjectDetectionCounterState) (now : Int)
    (lt : Option Int) : odc_check_daily_reset s (-1) now lt = s := by
  unfold odc_check_daily_reset
  rw [if_pos rfl]

/-- The i8 supervisor with a reset hour outside 0..23 returns the state. -/
theorem odc_check_daily_reset_i8_out_of_range (s : ObjectDetectionCounterState)
    (reset_hour now : Int) (lt : Option Int) (h : reset_hour < 0 ∨ reset_hour > 23) :
    odc_check_daily_reset_i8 s reset_hour now lt = s := by
  unfold odc_check_daily_reset_i8
  rw [if_pos h]

/-- The two supervisors agree when the reset hour is in 0..23. -/
theorem odc_check_daily_reset_in_range (s : ObjectDetectionCounterState)
    (reset_hour now : Int) (lt : Option Int) (h0 : 0 ≤ reset_hour) (h23 : reset_hour ≤ 23) :
    odc_check_daily_reset s reset_hour now lt = odc_daily_reset s reset_hour now lt ∧
    odc_check_daily_reset_i8 s reset_hour now lt = odc_daily_reset s reset_hour now lt := by
  unfold odc_check_daily_reset odc_check_daily_reset_i8
  rw [if_neg (by omega), if_neg (by omega)]
  exact ⟨rfl, rfl⟩

/-- The shared text of the supervisors when the check is due and the clock answers. -/
theorem odc_daily_reset_due (s : ObjectDetectionCounterState) (reset_hour now h : Int)
    (hdue : 60 ≤ now - s.last_reset_check) :
    (odc_daily_reset s reset_hour now (some h)).last_reset_hour = h ∧
    (odc_daily_reset s reset_hour now (some h)).last_reset_check = now ∧
    (odc_daily_reset s reset_hour now (some h)).global_frame_counter = s.global_frame_counter ∧
    ((h = reset_hour ∧ s.last_reset_hour ≠ reset_hour) →
      (odc_daily_reset s reset_hour now (some h)).global_in_count = 0 ∧
      (odc_daily_reset s reset_hour now (some h)).global_out_count = 0 ∧
      ∀ i, (odc_daily_reset s reset_hour now (some h)).tracked_objects i =
        if i < MAX_TRACKED_OBJECTS then { s.tracked_objects i with is_active := false }
        else s.tracked_objects i) ∧
    (¬ (h = reset_hour ∧ s.last_reset_hour ≠ reset_hour) →
      (odc_daily_reset s reset_hour now (some h)).global_in_count = s.global_in_count ∧
      (odc_daily_reset s reset_hour now (some h)).global_out_count = s.global_out_count ∧
      (odc_daily_reset s reset_hour now (some h)).tracked_objects = s.tracked_objects) := by
  unfold odc_daily_reset
  rw [if_neg (by omega)]
  dsimp only
  refine ⟨rfl, ?_, ?_, ?_, ?_⟩
  · split <;> rfl
  · split <;> rfl
  · intro hc
    rw [if_pos hc]
    exact ⟨rfl, rfl, fun i =>
      forLoop_setAt_self MAX_TRACKED_OBJECTS
        (fun _ (T : ObjectTracker) => { T with is_active := false }) s.tracked_objects i⟩
  · intro hc
    rw [if_neg hc]
    exact ⟨rfl, rfl, rfl⟩

/-- A check at a local hour that is the recorded `last_reset_hour` does not fire: counts and
trackers are as before, whether the check is due or not. -/
theorem odc_daily_reset_same_hour (s : ObjectDetectionCounterState) (reset_hour now h : Int)
    (hl : s.last_reset_hour = h) :
    (odc_daily_reset s reset_hour now (some h)).global_in_count = s.global_in_count ∧
    (odc_daily_reset s reset_hour now (some h)).global_out_count = s.global_out_count ∧
    (odc_daily_reset s reset_hour now (some h)).tracked_objects = s.tracked_objects := by
  unfold odc_daily_reset
  split
  · exact ⟨rfl, rfl, rfl⟩
  · dsimp only
    have hc : ¬ (h = reset_hour ∧ s.last_reset_hour ≠ reset_hour) := by
      rintro ⟨h1, h2⟩
      exact h2 (hl.trans h1)
    rw [if_neg hc]
    exact ⟨rfl, rfl, rfl⟩

/-- C12: daily reset firing rule. With reset_hour in 0..23, at least 60 s since the last
check and a local-time query that answers hour h, both supervisors do the same: they zero
both counts and mark each of the 200 counter-trackers inactive when h = reset_hour and
last_reset_hour ≠ reset_hour, they leave counts and trackers as they are otherwise, and in
either case they set last_reset_hour = h and last_reset_check = now. A later check in the
same hour h, at any time now2, leaves counts and trackers as the first check left them. -/
theorem daily_reset_fires_once (s : ObjectDetectionCounterState) (reset_hour now h now2 : Int)
    (h0 : 0 ≤ reset_hour) (h23 : reset_hour ≤ 23) (hdue : 60 ≤ now - s.last_reset_check) :
    odc_check_daily_reset_i8 s reset_hour now (some h) =
      odc_check_daily_reset s reset_hour now (some h) ∧
    (odc_check_daily_reset s reset_hour now (some h)).last_reset_hour = h ∧
    (odc_check_daily_reset s reset_hour now (some h)).last_reset_check = now ∧
    ((h = reset_hour ∧ s.last_reset_hour ≠ reset_hour) →
      (odc_check_daily_reset s reset_hour now (some h)).global_in_count = 0 ∧
      (odc_check_daily_reset s reset_hour now (some h)).global_out_count = 0 ∧
      ∀ i, (odc_check_daily_reset s reset_hour now (some h)).tracked_objects i =
        if i < MAX_TRACKED_OBJECTS then { s.tracked_objects i with is_active := false }
        else s.tracked_objects i) ∧
    (¬ (h = reset_hour ∧ s.last_reset_hour ≠ reset_hour) →
      (odc_check_daily_reset s reset_hour now (some h)).global_in_count = s.global_in_count ∧
      (odc_check_daily_reset s reset_hour now (some h)).global_out_count = s.global_out_count ∧
      (odc_check_daily_reset s reset_hour now (some h)).tracked_objects = s.tracked_objects) ∧
    (odc_check_daily_reset (odc_check_daily_reset s reset_hour now (some h)) reset_hour now2
        (some h)).global_in_count =
      (odc_check_daily_reset s reset_hour now (some h)).global_in_count ∧
    (odc_check_daily_reset (odc_check_daily_reset s reset_hour now (some h)) reset_hour now2
        (some h)).global_out_count =
      (odc_check_daily_reset s reset_hour now (some h)).global_out_count ∧
    (odc_check_daily_reset (odc_check_daily_reset s reset_hour now (some h)) reset_hour now2
        (some h)).tracked_objects =
      (odc_check_daily_reset s reset_hour now (some h)).tracked_objects := by
  have hr := odc_check_daily_reset_in_range s reset_hour now (some h) h0 h23
  have hr2 := odc_check_daily_reset_in_range (odc_daily_reset s reset_hour now (some h))
    reset_hour now2 (some h) h0 h23
  obtain ⟨d1, d2, _, d4, d5⟩ := odc_daily_reset_due s reset_hour now h hdue
  have hs := odc_daily_reset_same_hour (odc_daily_reset s reset_hour now (some h)) reset_hour
    now2 h d1
  rw [hr.2, hr.1, hr2.1]
  exact ⟨rfl, d1, d2, d4, d5, hs.1, hs.2.1, hs.2.2⟩

/-- Witness of C12, seed scenario 6: reset_hour = 3 and the state checked at 02:59 holds
last_reset_hour = 2, 4 IN, 2 OUT and an active tracker in slot 0. The check of 03:00
(10800 s) zeroes the counts and clears slot 0; the check of 03:01 changes no count. -/
theorem daily_reset_fires_once_witness :
    seed6_at_0259.last_reset_hour = 2 ∧ seed6_at_0259.global_in_count = 4 ∧
    seed6_at_0259.global_out_count = 2 ∧ (seed6_at_0259.tracked_objects 0).is_active = true ∧
    (60 : Int) ≤ 10800 - seed6_at_0259.last_reset_check ∧
    (odc_check_daily_reset seed6_at_0259 3 10800 (some 3)).global_in_count = 0 ∧
    (odc_check_daily_reset seed6_at_0259 3 10800 (some 3)).global_out_count = 0 ∧
    ((odc_check_daily_reset seed6_at_0259 3 10800 (some 3)).tracked_objects 0).is_active = false ∧
    (odc_check_daily_reset seed6_at_0259 3 10800 (some 3)).last_reset_hour = 3 ∧
    (odc_check_daily_reset (odc_check_daily_reset seed6_at_0259 3 10800 (some 3)) 3 10860
        (some 3)).global_in_count =
      (odc_check_daily_reset seed6_at_0259 3 10800 (some 3)).global_in_count :=
  ⟨by decide!, by decide!, by decide!, by decide!, by decide!,
    ((daily_reset_fires_once seed6_at_0259 3 10800 3 10860 (by decide) (by decide)
      (by decide!)).2.2.2.1 ⟨rfl, by decide!⟩).1,
    ((daily_reset_fires_once seed6_at_0259 3 10800 3 10860 (by decide) (by decide)
      (by decide!)).2.2.2.1 ⟨rfl, by decide!⟩).2.1,
    by decide!,
    (daily_reset_fires_once seed6_at_0259 3 10800 3 10860 (by decide) (by decide)
      (by decide!)).2.1,
    (daily_reset_fires_once seed6_at_0259 3 10800 3 10860 (by decide) (by decide)
      (by decide!)).2.2.2.2.2.1⟩

/-- C13, the f32 supervisor does not return immediately for reset_hour = 24 or -2: on the
initial state, with the check due (60 s) and local hour 5, `odc_check_daily_reset` sets
last_reset_check to 60 and last_reset_hour to 5, where `odc_check_daily_reset_i8` leaves
them at 0 and -1. -/
theorem reset_hour_out_of_range_f32 :
    (object_detection_counter_init_f32 zero_counter_state).last_reset_check = 0 ∧
    (object_detection_counter_init_f32 zero_counter_state).last_reset_hour = -1 ∧
    (odc_check_daily_reset (object_detection_counter_init_f32 zero_counter_state) 24 60
      (some 5)).last_reset_check = 60 ∧
    (odc_check_daily_reset (object_detection_counter_init_f32 zero_counter_state) 24 60
      (some 5)).last_reset_hour = 5 ∧
    (odc_check_daily_reset (object_detection_counter_init_f32 zero_counter_state) (-2) 60
      (some 5)).last_reset_hour = 5 ∧
    (odc_check_daily_reset_i8 (object_detection_counter_init_f32 zero_counter_state) 24 60
      (some 5)).last_reset_check = 0 ∧
    (odc_check_daily_reset_i8 (object_detection_counter_init_f32 zero_counter_state) 24 60
      (some 5)).last_reset_hour = -1 := by
  decide!

/-- C14, the claim as written fails: on the initial state with reset_hour = 3 and the check
due, a local-time query without result leaves last_reset_check at the current time 60
instead of 0, in both variants. -/
theorem clock_failure_moves_last_check :
    (object_detection_counter_init_f32 zero_counter_state).last_reset_check = 0 ∧
    (odc_check_daily_reset (object_detection_counter_init_f32 zero_counter_state) 3 60
      none).last_reset_check = 60 ∧
    (odc_check_daily_reset_i8 (object_detection_counter_init_f32 zero_counter_state) 3 60
      none).last_reset_check = 60 := by
  decide!

/-- C14, amended: when the local-time query returns no result and reset_hour is in 0..23,
both supervisors change at most `last_reset_check`: counts, trackers, frame counter and
last_reset_hour are unchanged, and last_reset_check becomes the current time when at least
60 s have passed since the last check. With reset_hour = -1 in both variants, and with any
reset_hour outside 0..23 in the i8 variant, the whole state is unchanged. -/
theorem clock_failure_keeps_counts (s : ObjectDetectionCounterState) (reset_hour now r : Int)
    (h0 : 0 ≤ reset_hour) (h23 : reset_hour ≤ 23) (hr : r < 0 ∨ 23 < r) :
    odc_check_daily_reset s reset_hour now none =
      { s with last_reset_check :=
          if 60 ≤ now - s.last_reset_check then now else s.last_reset_check } ∧
    odc_check_daily_reset_i8 s reset_hour now none =
      { s with last_reset_check :=
          if 60 ≤ now - s.last_reset_check then now else s.last_reset_check } ∧
    odc_check_daily_reset s (-1) now none = s ∧
    odc_check_daily_reset_i8 s r now none = s := by
  unfold odc_check_daily_reset odc_check_daily_reset_i8 odc_daily_reset
  refine ⟨?_, ?_, ?_, ?_⟩
  · rw [if_neg (by omega)]
    by_cases h2 : now - s.last_reset_check < 60
    · rw [if_pos h2, if_neg (by omega)]
    · rw [if_neg h2, if_pos (by omega)]
  · rw [if_neg (by omega)]
    by_cases h2 : now - s.last_reset_check < 60
    · rw [if_pos h2, if_neg (by omega)]
    · rw [if_neg h2, if_pos (by omega)]
  · rw [if_pos rfl]
  · rw [if_pos (by omega)]

/-- Witness of C14: on the initial state with reset_hour = 3 and the check due at time 60,
a local-time query without result moves last_reset_check to 60 and nothing else; with
reset_hour = -1, or 24 in the i8 variant, nothing moves. -/
theorem clock_failure_keeps_counts_witness :
    ((0 : Int) ≤ 3 ∧ (3 : Int) ≤ 23 ∧ ((24 : Int) < 0 ∨ (23 : Int) < 24)) ∧
    odc_check_daily_reset (object_detection_counter_init_f32 zero_counter_state) 3 60 none =
      { object_detection_counter_init_f32 zero_counter_state with last_reset_check :=
          if 60 ≤ 60 - (object_detection_counter_init_f32 zero_counter_state).last_reset_check
          then 60 else (object_detection_counter_init_f32 zero_counter_state).last_reset_check } ∧
    odc_check_daily_reset_i8 (object_detection_counter_init_f32 zero_counter_state) 3 60 none =
      { object_detection_counter_init_f32 zero_counter_state with last_reset_check :=
          if 60 ≤ 60 - (object_detection_counter_init_f32 zero_counter_state).last_reset_check
          then 60 else (object_detection_counter_init_f32 zero_counter_state).last_reset_check } ∧
    odc_check_daily_reset (object_detection_counter_init_f32 zero_counter_state) (-1) 60 none =
      object_detection_counter_init_f32 zero_counter_state ∧
    odc_check_daily_reset_i8 (object_detection_counter_init_f32 zero_counter_state) 24 60 none =
      object_detection_counter_init_f32 zero_counter_state :=
  ⟨⟨by decide, by decide, Or.inr (by decide)⟩,
    clock_failure_keeps_counts (object_detection_counter_init_f32 zero_counter_state) 3 60 24
      (by decide) (by decide) (Or.inr (by decide))⟩

/-- `odc_get_tracker` leaves both counts as they are. -/
theorem odc_get_tracker_counts (s : ObjectDetectionCounterState) (id : Int) :
    (odc_get_tracker s id).1.global_in_count = s.global_in_count ∧
    (odc_get_tracker s id).1.global_out_count = s.global_out_count := by
  unfold odc_get_tracker
  split
  · exact ⟨rfl, rfl⟩
  · split <;> exact ⟨rfl, rfl⟩

/-- The processing of one column leaves each count as it is or adds 1 to it. -/
theorem odc_count_detection_mono (region : CountingRegion) (x y w h : ℚ) (id : Int)
    (s : ObjectDetectionCounterState) :
    s.global_in_count ≤ (odc_count_detection region x y w h id s).global_in_count ∧
    s.global_out_count ≤ (odc_count_detection region x y w h id s).global_out_count := by
  unfold odc_count_detection
  split
  · exact ⟨le_refl _, le_refl _⟩
  · split
    · exact ⟨le_refl _, le_refl _⟩
    · have hc := odc_get_tracker_counts s id
      split
      · exact ⟨le_refl _, le_refl _⟩
      · rename_i found k heq
        rw [heq] at hc
        dsimp only at hc ⊢
        obtain ⟨hc1, hc2⟩ := hc
        split
        · dsimp only
          constructor <;> omega
        · split
          · dsimp only
            constructor <;> omega
          · dsimp only
            constructor <;> omega

/-- A detection loop whose every iteration is the processing of one column does not
decrease the counts. -/
theorem count_loop_mono (region : CountingRegion) (cx cy cw ch : Nat → ℚ) (cid : Nat → Int)
    (n : Nat) (s : ObjectDetectionCounterState) :
    s.global_in_count ≤
      (forLoop n (fun i st => odc_count_detection region (cx i) (cy i) (cw i) (ch i) (cid i) st)
        s).global_in_count ∧
    s.global_out_count ≤
      (forLoop n (fun i st => odc_count_detection region (cx i) (cy i) (cw i) (ch i) (cid i) st)
        s).global_out_count := by
  refine forLoop_inv
    (fun _ (st : ObjectDetectionCounterState) =>
      s.global_in_count ≤ st.global_in_count ∧ s.global_out_count ≤ st.global_out_count)
    n _ s ⟨le_refl _, le_refl _⟩ ?_
  intro k _ st ⟨h1, h2⟩
  have hm := odc_count_detection_mono region (cx k) (cy k) (cw k) (ch k) (cid k) st
  exact ⟨le_trans h1 hm.1, le_trans h2 hm.2⟩

/-- One f32 step with reset_hour = -1: the counts it writes are the counts of the state it
leaves and are not below the counts of the state it was given. -/
theorem counter_step_mono (det : Nat → ℚ) (s : ObjectDetectionCounterState) (md cc : Nat)
    (x1 y1 x2 y2 : ℚ) (dir now : Int) (lt : Option Int) :
    s.global_in_count ≤
      (object_detection_counter_f32 det s md cc x1 y1 x2 y2 dir (-1) now lt).in_count ∧
    s.global_out_count ≤
      (object_detection_counter_f32 det s md cc x1 y1 x2 y2 dir (-1) now lt).out_count ∧
    (object_detection_counter_f32 det s md cc x1 y1 x2 y2 dir (-1) now lt).state.global_in_count =
      (object_detection_counter_f32 det s md cc x1 y1 x2 y2 dir (-1) now lt).in_count ∧
    (object_detection_counter_f32 det s md cc x1 y1 x2 y2 dir (-1) now lt).state.global_out_count =
      (object_detection_counter_f32 det s md cc x1 y1 x2 y2 dir (-1) now lt).out_count := by
  unfold object_detection_counter_f32
  rw [odc_check_daily_reset_disabled]
  dsimp only
  have hl := count_loop_mono (odc_init_region x1 y1 x2 y2 dir)
    (fun i => odc_get_detection_value det md cc 0 i)
    (fun i => odc_get_detection_value det md cc 1 i)
    (fun i => odc_get_detection_value det md cc 2 i)
    (fun i => odc_get_detection_value det md cc 3 i)
    (fun i => float_to_int (odc_get_detection_value det md cc (cc - 2) i)) md
    { s with global_frame_counter := s.global_frame_counter + 1 }
  dsimp only at hl
  obtain ⟨f1, f2, f3, f4, _⟩ := odc_finish_facts
    (forLoop md (fun i st => odc_count_detection (odc_init_region x1 y1 x2 y2 dir)
      (odc_get_detection_value det md cc 0 i) (odc_get_detection_value det md cc 1 i)
      (odc_get_detection_value det md cc 2 i) (odc_get_detection_value det md cc 3 i)
      (float_to_int (odc_get_detection_value det md cc (cc - 2) i)) st)
      { s with global_frame_counter := s.global_frame_counter + 1 })
  rw [f1, f2, f3, f4]
  exact ⟨hl.1, hl.2, rfl, rfl⟩

/-- One i8 step with reset_hour = -1: the counts it writes are the counts of the state it
leaves and are not below the counts of the state it was given. -/
theorem counter_step_mono_i8 (det : Nat → Int) (s : ObjectDetectionCounterState) (md cc : Nat)
    (x1 y1 x2 y2 : ℚ) (dir now : Int) (lt : Option Int) :
    s.global_in_count ≤
      (object_detection_counter_i8 det s md cc x1 y1 x2 y2 dir (-1) now lt).in_count ∧
    s.global_out_count ≤
      (object_detection_counter_i8 det s md cc x1 y1 x2 y2 dir (-1) now lt).out_count ∧
    (object_detection_counter_i8 det s md cc x1 y1 x2 y2 dir (-1) now lt).state.global_in_count =
      (object_detection_counter_i8 det s md cc x1 y1 x2 y2 dir (-1) now lt).in_count ∧
    (object_detection_counter_i8 det s md cc x1 y1 x2 y2 dir (-1) now lt).state.global_out_count =
      (object_detection_counter_i8 det s md cc x1 y1 x2 y2 dir (-1) now lt).out_count := by
  unfold object_detection_counter_i8
  rw [odc_check_daily_reset_i8_out_of_range s (-1) now lt (Or.inl (by decide))]
  dsimp only
  have hl := count_loop_mono (odc_init_region x1 y1 x2 y2 dir)
    (fun i => odc_get_detection_value_i8 det md cc 0 i)
    (fun i => odc_get_detection_value_i8 det md cc 1 i)
    (fun i => odc_get_detection_value_i8 det md cc 2 i)
    (fun i => odc_get_detection_value_i8 det md cc 3 i)
    (fun i => float_to_int (odc_get_detection_value_i8 det md cc (cc - 2) i * 127)) md
    { s with global_frame_counter := s.global_frame_counter + 1 }
  dsimp only at hl
  obtain ⟨f1, f2, f3, f4, _⟩ := odc_finish_facts
    (forLoop md (fun i st => odc_count_detection (odc_init_region x1 y1 x2 y2 dir)
      (odc_get_detection_value_i8 det md cc 0 i) (odc_get_detection_value_i8 det md cc 1 i)
      (odc_get_detection_value_i8 det md cc 2 i) (odc_get_detection_value_i8 det md cc 3 i)
      (float_to_int (odc_get_detection_value_i8 det md cc (cc - 2) i * 127)) st)
      { s with global_frame_counter := s.global_frame_counter + 1 })
  rw [f1, f2, f3, f4]
  exact ⟨hl.1, hl.2, rfl, rfl⟩

/-- The counts after a sequence of f32 steps with reset_hour = -1 are not below the counts
before it. -/
theorem counter_run_mono (calls : List (CounterCall ℚ)) (s : ObjectDetectionCounterState) :
    s.global_in_count ≤ (counter_run s calls).global_in_count ∧
    s.global_out_count ≤ (counter_run s calls).global_out_count := by
  induction calls generalizing s with
  | nil => exact ⟨le_refl _, le_refl _⟩
  | cons c rest ih =>
    have hs := counter_step_mono c.tracked_detections s c.max_detections c.confidence_count
      c.region_x1 c.region_y1 c.region_x2 c.region_y2 c.in_direction c.current_time c.local_time
    have hr := ih (object_detection_counter_f32 c.tracked_detections s c.max_detections
      c.confidence_count c.region_x1 c.region_y1 c.region_x2 c.region_y2 c.in_direction (-1)
      c.current_time c.local_time).state
    rw [hs.2.2.1, hs.2.2.2] at hr
    exact ⟨le_trans hs.1 hr.1, le_trans hs.2.1 hr.2⟩

/-- The counts after a sequence of i8 steps with reset_hour = -1 are not below the counts
before it. -/
theorem counter_run_i8_mono (calls : List (CounterCall Int)) (s : ObjectDetectionCounterState) :
    s.global_in_count ≤ (counter_run_i8 s calls).global_in_count ∧
    s.global_out_count ≤ (counter_run_i8 s calls).global_out_count := by
  induction calls generalizing s with
  | nil => exact ⟨le_refl _, le_refl _⟩
  | cons c rest ih =>
    have hs := counter_step_mono_i8 c.tracked_detections s c.max_detections c.confidence_count
      c.region_x1 c.region_y1 c.region_x2 c.region_y2 c.in_direction c.current_time c.local_time
    have hr := ih (object_detection_counter_i8 c.tracked_detections s c.max_detections
      c.confidence_count c.region_x1 c.region_y1 c.region_x2 c.region_y2 c.in_direction (-1)
      c.current_time c.local_time).state
    rw [hs.2.2.1, hs.2.2.2] at hr
    exact ⟨le_trans hs.1 hr.1, le_trans hs.2.1 hr.2⟩

/-- C11: reset-hour quiescence. For every counter state, input tensor and region, a counter
step with reset_hour = -1, f32 or i8, writes an in_count and an out_count that are not below
the counts of the state it was given; hence over any sequence of such steps, whatever the
tensors, regions and clock readings, both counts of the state are non-decreasing. Counts
are unbounded integers in the model. -/
theorem counts_monotone_without_reset (s : ObjectDetectionCounterState) (det : Nat → ℚ)
    (det8 : Nat → Int) (md cc : Nat) (x1 y1 x2 y2 : ℚ) (dir now : Int) (lt : Option Int)
    (calls : List (CounterCall ℚ)) (calls8 : List (CounterCall Int)) :
    s.global_in_count ≤
      (object_detection_counter_f32 det s md cc x1 y1 x2 y2 dir (-1) now lt).in_count ∧
    s.global_out_count ≤
      (object_detection_counter_f32 det s md cc x1 y1 x2 y2 dir (-1) now lt).out_count ∧
    s.global_in_count ≤
      (object_detection_counter_i8 det8 s md cc x1 y1 x2 y2 dir (-1) now lt).in_count ∧
    s.global_out_count ≤
      (object_detection_counter_i8 det8 s md cc x1 y1 x2 y2 dir (-1) now lt).out_count ∧
    s.global_in_count ≤ (counter_run s calls).global_in_count ∧
    s.global_out_count ≤ (counter_run s calls).global_out_count ∧
    s.global_in_count ≤ (counter_run_i8 s calls8).global_in_count ∧
    s.global_out_count ≤ (counter_run_i8 s calls8).global_out_count :=
  ⟨(counter_step_mono det s md cc x1 y1 x2 y2 dir now lt).1,
    (counter_step_mono det s md cc x1 y1 x2 y2 dir now lt).2.1,
    (counter_step_mono_i8 det8 s md cc x1 y1 x2 y2 dir now lt).1,
    (counter_step_mono_i8 det8 s md cc x1 y1 x2 y2 dir now lt).2.1,
    (counter_run_mono calls s).1, (counter_run_mono calls s).2,
    (counter_run_i8_mono calls8 s).1, (counter_run_i8_mono calls8 s).2⟩

/-- The id that `object_detection_counter_i8` decodes from a byte is in 0..127. -/
theorem decoded_id_range (b : Int) (hb1 : -128 ≤ b) (hb2 : b ≤ 127) :
    0 ≤ float_to_int (odc_i8_to_float b * 127) ∧ float_to_int (odc_i8_to_float b * 127) ≤ 127 := by
  have h1 : (0 : ℚ) ≤ (b : ℚ) + 128 := by
    have : ((-128 : Int) : ℚ) ≤ (b : ℚ) := by exact_mod_cast hb1
    push_cast at this
    linarith
  have h2 : (b : ℚ) + 128 ≤ 255 := by
    have : (b : ℚ) ≤ ((127 : Int) : ℚ) := by exact_mod_cast hb2
    push_cast at this
    linarith
  have hlo : ((0 : Int) : ℚ) ≤ odc_i8_to_float b * 127 := by
    unfold odc_i8_to_float
    push_cast
    positivity
  have hhi : odc_i8_to_float b * 127 ≤ ((127 : Int) : ℚ) := by
    unfold odc_i8_to_float
    push_cast
    have : ((b : ℚ) + 128) / 255 ≤ 1 := by
      rw [div_le_one (by norm_num)]
      exact h2
    linarith
  have hb := float_to_int_bounds (odc_i8_to_float b * 127) 0 127 hlo hhi (le_refl 0) (by decide)
  exact ⟨hb.1, hb.2.1⟩

/-- C16, the claim as written fails for the f32 counter: a track reported with track id 128
that moves from (0.3, 0.5) through (0.5, 0.5) to (0.7, 0.5) gets a counter-tracker with
track id 128 in slot 0 at its first report and is counted IN when it leaves the region. -/
theorem wide_track_id_counted :
    (((wide_id_step (object_detection_counter_init_f32 zero_counter_state) (3/10)).state
      ).tracked_objects 0).is_active = true ∧
    (((wide_id_step (object_detection_counter_init_f32 zero_counter_state) (3/10)).state
      ).tracked_objects 0).track_id = 128 ∧
    (wide_id_step (wide_id_step (wide_id_step
      (object_detection_counter_init_f32 zero_counter_state) (3/10)).state (1/2)).state
      (7/10)).in_count = 1 := by
  decide!

/-- C16, amended: a detection column whose decoded track id is 0 or negative is dropped: its
processing returns the counter state it was given, so no counter-tracker is created or
updated and neither count changes. In the i8 variant the id decoded from a byte of
-128..127 is always in 0..127. -/
theorem nonpositive_id_dropped (region : CountingRegion) (x y w h : ℚ) (id b : Int)
    (s : ObjectDetectionCounterState) (hid : id ≤ 0) (hb1 : -128 ≤ b) (hb2 : b ≤ 127) :
    odc_count_detection region x y w h id s = s ∧
    0 ≤ float_to_int (odc_i8_to_float b * 127) ∧
    float_to_int (odc_i8_to_float b * 127) ≤ 127 := by
  refine ⟨?_, decoded_id_range b hb1 hb2⟩
  unfold odc_count_detection
  by_cases hw : w ≤ 0 ∨ h ≤ 0
  · rw [if_pos hw]
  · rw [if_neg hw, if_pos hid]

/-- Witness of C16 (amended): a box of 0.1 by 0.1 at (0.5, 0.5) reported with track id 0
leaves the state of seed scenario 6 as it is, and the byte 127 decodes to the id 127. -/
theorem nonpositive_id_dropped_witness :
    odc_count_detection (odc_init_region (2/5) (3/10) (3/5) (7/10) DIRECTION_FROM_TOP_LEFT)
      (1/2) (1/2) (1/10) (1/10) 0 seed6_state = seed6_state ∧
    float_to_int (odc_i8_to_float 127 * 127) = 127 :=
  ⟨(nonpositive_id_dropped
      (odc_init_region (2/5) (3/10) (3/5) (7/10) DIRECTION_FROM_TOP_LEFT)
      (1/2) (1/2) (1/10) (1/10) 0 127 seed6_state (by decide) (by decide) (by decide)).1,
    by decide!⟩

/-- `odc_is_valid_traversal` holds exactly when the exit side is opposite to the entry
side. -/
theorem odc_is_valid_traversal_iff (entry_side exit_side : RegionState) :
    odc_is_valid_traversal entry_side exit_side = true ↔
      opposite_side entry_side = some exit_side := by
  cases entry_side <;> cases exit_side <;> decide

/-- `odc_is_in_direction` is membership in the direction table. -/
theorem odc_is_in_direction_iff (entry_side : RegionState) (in_direction : Int) :
    odc_is_in_direction entry_side in_direction = true ↔
      entry_side ∈ direction_sides in_direction := by
  unfold odc_is_in_direction direction_sides DIRECTION_FROM_TOP_LEFT DIRECTION_FROM_TOP_RIGHT
    DIRECTION_FROM_BOTTOM_LEFT DIRECTION_FROM_BOTTOM_RIGHT
  by_cases h0 : in_direction = 0
  · rw [if_pos h0, if_pos h0]
    cases entry_side <;> decide
  · rw [if_neg h0, if_neg h0]
    by_cases h1 : in_direction = 1
    · rw [if_pos h1, if_pos h1]
      cases entry_side <;> decide
    · rw [if_neg h1, if_neg h1]
      by_cases h2 : in_direction = 2
      · rw [if_pos h2, if_pos h2]
        cases entry_side <;> decide
      · rw [if_neg h2, if_neg h2]
        by_cases h3 : in_direction = 3
        · rw [if_pos h3, if_pos h3]
          cases entry_side <;> decide
        · rw [if_neg h3, if_neg h3]
          simp

/-- A value of `RegionState` is at least ENTERED_FROM_LEFT exactly when it has an opposite
side. -/
theorem entered_iff_opposite (r : RegionState) :
    r.toInt ≥ 2 ↔ (opposite_side r).isSome = true := by
  cases r <;> decide

/-- `odc_detect_crossing` on leaving: only the region state of the tracker changes, to
OUTSIDE. -/
theorem odc_detect_crossing_exit_tracker (tr : ObjectTracker) (region : CountingRegion)
    (hc : 2 ≤ tr.history_count)
    (hp : odc_point_in_rectangle (tr.x_history (tr.history_count - 2).toNat)
      (tr.y_history (tr.history_count - 2).toNat) region = true)
    (hq : odc_point_in_rectangle (tr.x_history (tr.history_count - 1).toNat)
      (tr.y_history (tr.history_count - 1).toNat) region = false) :
    (odc_detect_crossing tr region).2 = { tr with region_state := REGION_STATE_OUTSIDE } := by
  unfold odc_detect_crossing
  rw [if_neg (by omega)]
  simp only [hp, hq, Bool.not_false, Bool.and_self, if_true]
  split
  · split <;> rfl
  · rfl

/-- C27: crossing state machine on leaving. For a counter-tracker `tr` with at least two
points whose previous point is inside the region and whose current point is outside,
`odc_detect_crossing` leaves the tracker with region state OUTSIDE and nothing else changed,
and returns a crossing exactly when the region state was an ENTERED_FROM side and the side
nearest to the current point is the opposite side; that crossing is IN when the entry side
is in the table of `in_direction` and OUT otherwise. For a tracker `tr0` with fewer than two
points it returns NONE and the tracker as it was. -/
theorem leaving_crossing (tr tr0 : ObjectTracker) (region : CountingRegion)
    (hc : 2 ≤ tr.history_count)
    (hp : odc_point_in_rectangle (tr.x_history (tr.history_count - 2).toNat)
      (tr.y_history (tr.history_count - 2).toNat) region = true)
    (hq : odc_point_in_rectangle (tr.x_history (tr.history_count - 1).toNat)
      (tr.y_history (tr.history_count - 1).toNat) region = false)
    (h0 : tr0.history_count < 2) :
    (odc_detect_crossing tr region).2 = { tr with region_state := REGION_STATE_OUTSIDE } ∧
    (odc_detect_crossing tr region).1 =
      (if opposite_side tr.region_state =
          some (odc_get_entry_side (tr.x_history (tr.history_count - 1).toNat)
            (tr.y_history (tr.history_count - 1).toNat) region) then
        (if tr.region_state ∈ direction_sides region.in_direction then CROSSING_IN
          else CROSSING_OUT)
      else CROSSING_NONE) ∧
    odc_detect_crossing tr0 region = (CROSSING_NONE, tr0) := by
  refine ⟨odc_detect_crossing_exit_tracker tr region hc hp hq, ?_,
    odc_detect_crossing_short tr0 region h0⟩
  rw [(odc_detect_crossing_exit tr region _ _ _ _ hc rfl rfl rfl rfl hp hq).1]
  by_cases hv : opposite_side tr.region_state =
      some (odc_get_entry_side (tr.x_history (tr.history_count - 1).toNat)
        (tr.y_history (tr.history_count - 1).toNat) region)
  · have he : tr.region_state.toInt ≥ 2 := by
      rw [entered_iff_opposite, hv]
      rfl
    rw [if_pos hv, if_pos ⟨he, (odc_is_valid_traversal_iff _ _).mpr hv⟩]
    by_cases hd : tr.region_state ∈ direction_sides region.in_direction
    · rw [if_pos hd, if_pos ((odc_is_in_direction_iff _ _).mpr hd)]
    · rw [if_neg hd, if_neg (fun h => hd ((odc_is_in_direction_iff _ _).mp h))]
  · rw [if_neg hv, if_neg (fun h => hv ((odc_is_valid_traversal_iff _ _).mp h.2))]

/-- Witness of C27: the tracker that entered from the left and leaves at (0.7, 0.5), nearest
to the right edge of the region (0.4, 0.3, 0.6, 0.7): with in_direction TOP_LEFT the
crossing is IN, with TOP_RIGHT it is OUT, and the region state becomes OUTSIDE. -/
theorem leaving_crossing_witness :
    (odc_detect_crossing leaving_tracker
      (odc_init_region (2/5) (3/10) (3/5) (7/10) DIRECTION_FROM_TOP_LEFT)).1 = CROSSING_IN ∧
    (odc_detect_crossing leaving_tracker
      (odc_init_region (2/5) (3/10) (3/5) (7/10) DIRECTION_FROM_TOP_RIGHT)).1 = CROSSING_OUT ∧
    (odc_detect_crossing leaving_tracker
      (odc_init_region (2/5) (3/10) (3/5) (7/10) DIRECTION_FROM_TOP_LEFT)).2 =
        { leaving_tracker with region_state := REGION_STATE_OUTSIDE } :=
  ⟨by decide!, by decide!,
    (leaving_crossing leaving_tracker zeroed_tracker
      (odc_init_region (2/5) (3/10) (3/5) (7/10) DIRECTION_FROM_TOP_LEFT)
      (by decide) (by decide!) (by decide!) (by decide)).1⟩

/-- The side that `odc_get_entry_side` returns, in terms of the four computed distances
(`fabsf` of the differences rounded to float32): LEFT when the LEFT distance is minimal,
RIGHT when the RIGHT one is minimal and below the LEFT one, TOP when the TOP one is minimal
and below the LEFT and RIGHT ones, BOTTOM when the BOTTOM one is below the three others. -/
theorem odc_get_entry_side_cases (x y : ℚ) (region : CountingRegion) :
    (odc_get_entry_side x y region = REGION_STATE_ENTERED_FROM_LEFT ∧
      |f32_round (x - region.min_x)| ≤ |f32_round (x - region.max_x)| ∧
      |f32_round (x - region.min_x)| ≤ |f32_round (y - region.min_y)| ∧
      |f32_round (x - region.min_x)| ≤ |f32_round (y - region.max_y)|) ∨
    (odc_get_entry_side x y region = REGION_STATE_ENTERED_FROM_RIGHT ∧
      |f32_round (x - region.max_x)| < |f32_round (x - region.min_x)| ∧
      |f32_round (x - region.max_x)| ≤ |f32_round (y - region.min_y)| ∧
      |f32_round (x - region.max_x)| ≤ |f32_round (y - region.max_y)|) ∨
    (odc_get_entry_side x y region = REGION_STATE_ENTERED_FROM_TOP ∧
      |f32_round (y - region.min_y)| < |f32_round (x - region.min_x)| ∧
      |f32_round (y - region.min_y)| < |f32_round (x - region.max_x)| ∧
      |f32_round (y - region.min_y)| ≤ |f32_round (y - region.max_y)|) ∨
    (odc_get_entry_side x y region = REGION_STATE_ENTERED_FROM_BOTTOM ∧
      |f32_round (y - region.max_y)| < |f32_round (x - region.min_x)| ∧
      |f32_round (y - region.max_y)| < |f32_round (x - region.max_x)| ∧
      |f32_round (y - region.max_y)| < |f32_round (y - region.min_y)|) := by
  unfold odc_get_entry_side
  dsimp only
  generalize |f32_round (x - region.min_x)| = dl
  generalize |f32_round (x - region.max_x)| = dr
  generalize |f32_round (y - region.min_y)| = dt
  generalize |f32_round (y - region.max_y)| = db
  have m1 : min (min dl dr) (min dt db) ≤ dl := le_trans (min_le_left _ _) (min_le_left _ _)
  have m2 : min (min dl dr) (min dt db) ≤ dr := le_trans (min_le_left _ _) (min_le_right _ _)
  have m3 : min (min dl dr) (min dt db) ≤ dt := le_trans (min_le_right _ _) (min_le_left _ _)
  have m4 : min (min dl dr) (min dt db) ≤ db := le_trans (min_le_right _ _) (min_le_right _ _)
  have hm : min (min dl dr) (min dt db) = dl ∨ min (min dl dr) (min dt db) = dr ∨
      min (min dl dr) (min dt db) = dt ∨ min (min dl dr) (min dt db) = db := by
    rcases min_choice (min dl dr) (min dt db) with h | h
    · rcases min_choice dl dr with g | g
      · exact Or.inl (h.trans g)
      · exact Or.inr (Or.inl (h.trans g))
    · rcases min_choice dt db with g | g
      · exact Or.inr (Or.inr (Or.inl (h.trans g)))
      · exact Or.inr (Or.inr (Or.inr (h.trans g)))
  generalize min (min dl dr) (min dt db) = m at *
  by_cases h1 : m = dl
  · rw [if_pos h1]
    subst h1
    exact Or.inl ⟨rfl, m2, m3, m4⟩
  · rw [if_neg h1]
    have l1 : m < dl := lt_of_le_of_ne m1 h1
    by_cases h2 : m = dr
    · rw [if_pos h2]
      subst h2
      exact Or.inr (Or.inl ⟨rfl, l1, m3, m4⟩)
    · rw [if_neg h2]
      have l2 : m < dr := lt_of_le_of_ne m2 h2
      by_cases h3 : m = dt
      · rw [if_pos h3]
        subst h3
        exact Or.inr (Or.inr (Or.inl ⟨rfl, l1, l2, m4⟩))
      · rw [if_neg h3]
        have l3 : m < dt := lt_of_le_of_ne m3 h3
        have h4 : m = db := by
          rcases hm with h | h | h | h
          · exact absurd h h1
          · exact absurd h h2
          · exact absurd h h3
          · exact h
        subst h4
        exact Or.inr (Or.inr (Or.inr ⟨rfl, l1, l2, l3⟩))


/-- C28, the claim as written fails: for the region (0.2f, 0.2f, 0.4f, 0.4f) and the point
(0.55f, 0.05f) the TOP distance |y - min_y| = 0.1500000022 is below the RIGHT distance
|x - max_x| = 0.15000000596, but the float32 subtraction rounds it up to that value, the
two computed distances are equal and `odc_get_entry_side` returns RIGHT, a side whose
distance is not minimal. -/
theorem nearest_edge_not_minimal :
    odc_get_entry_side (f32_round (11/20)) (f32_round (1/20))
      (odc_init_region (f32_round (1/5)) (f32_round (1/5)) (f32_round (2/5)) (f32_round (2/5))
        0) = REGION_STATE_ENTERED_FROM_RIGHT ∧
    |f32_round (1/20) -
        (odc_init_region (f32_round (1/5)) (f32_round (1/5)) (f32_round (2/5)) (f32_round (2/5))
          0).min_y| <
      |f32_round (11/20) -
        (odc_init_region (f32_round (1/5)) (f32_round (1/5)) (f32_round (2/5)) (f32_round (2/5))
          0).max_x| ∧
    |f32_round (f32_round (1/20) -
        (odc_init_region (f32_round (1/5)) (f32_round (1/5)) (f32_round (2/5)) (f32_round (2/5))
          0).min_y)| =
      |f32_round (f32_round (11/20) -
        (odc_init_region (f32_round (1/5)) (f32_round (1/5)) (f32_round (2/5)) (f32_round (2/5))
          0).max_x)| := by
  decide!

/-- C28, amended: nearest-edge classification on the computed distances. With dl, dr, dt, db
the float32 results of fabsf(x - min_x), fabsf(x - max_x), fabsf(y - min_y),
fabsf(y - max_y), that is the absolute values of the differences rounded to float32,
`odc_get_entry_side` returns LEFT when dl is minimal, RIGHT when dr is minimal and below dl,
TOP when dt is minimal and below dl and dr, BOTTOM when db is below the three others: a
side of minimal computed distance, the first one in the order LEFT, RIGHT, TOP, BOTTOM when
several are minimal. When the four differences are float32 values, so that no subtraction
rounds, the same holds of the exact distances |x - min_x|, |x - max_x|, |y - min_y|,
|y - max_y|. -/
theorem nearest_edge_first_minimal (x y : ℚ) (region : CountingRegion) :
    ((odc_get_entry_side x y region = REGION_STATE_ENTERED_FROM_LEFT ∧
        |f32_round (x - region.min_x)| ≤ |f32_round (x - region.max_x)| ∧
        |f32_round (x - region.min_x)| ≤ |f32_round (y - region.min_y)| ∧
        |f32_round (x - region.min_x)| ≤ |f32_round (y - region.max_y)|) ∨
      (odc_get_entry_side x y region = REGION_STATE_ENTERED_FROM_RIGHT ∧
        |f32_round (x - region.max_x)| < |f32_round (x - region.min_x)| ∧
        |f32_round (x - region.max_x)| ≤ |f32_round (y - region.min_y)| ∧
        |f32_round (x - region.max_x)| ≤ |f32_round (y - region.max_y)|) ∨
      (odc_get_entry_side x y region = REGION_STATE_ENTERED_FROM_TOP ∧
        |f32_round (y - region.min_y)| < |f32_round (x - region.min_x)| ∧
        |f32_round (y - region.min_y)| < |f32_round (x - region.max_x)| ∧
        |f32_round (y - region.min_y)| ≤ |f32_round (y - region.max_y)|) ∨
      (odc_get_entry_side x y region = REGION_STATE_ENTERED_FROM_BOTTOM ∧
        |f32_round (y - region.max_y)| < |f32_round (x - region.min_x)| ∧
        |f32_round (y - region.max_y)| < |f32_round (x - region.max_x)| ∧
        |f32_round (y - region.max_y)| < |f32_round (y - region.min_y)|)) ∧
    (f32_round (x - region.min_x) = x - region.min_x →
      f32_round (x - region.max_x) = x - region.max_x →
      f32_round (y - region.min_y) = y - region.min_y →
      f32_round (y - region.max_y) = y - region.max_y →
      ((odc_get_entry_side x y region = REGION_STATE_ENTERED_FROM_LEFT ∧
          |x - region.min_x| ≤ |x - region.max_x| ∧ |x - region.min_x| ≤ |y - region.min_y| ∧
          |x - region.min_x| ≤ |y - region.max_y|) ∨
        (odc_get_entry_side x y region = REGION_STATE_ENTERED_FROM_RIGHT ∧
          |x - region.max_x| < |x - region.min_x| ∧ |x - region.max_x| ≤ |y - region.min_y| ∧
          |x - region.max_x| ≤ |y - region.max_y|) ∨
        (odc_get_entry_side x y region = REGION_STATE_ENTERED_FROM_TOP ∧
          |y - region.min_y| < |x - region.min_x| ∧ |y - region.min_y| < |x - region.max_x| ∧
          |y - region.min_y| ≤ |y - region.max_y|) ∨
        (odc_get_entry_side x y region = REGION_STATE_ENTERED_FROM_BOTTOM ∧
          |y - region.max_y| < |x - region.min_x| ∧ |y - region.max_y| < |x - region.max_x| ∧
          |y - region.max_y| < |y - region.min_y|))) := by
  refine ⟨odc_get_entry_side_cases x y region, fun h1 h2 h3 h4 => ?_⟩
  have h := odc_get_entry_side_cases x y region
  rw [h1, h2, h3, h4] at h
  exact h

/-- Witness of C28: the point (0.25, 0.5) and the region (0.5, 0.25, 0.75, 0.75) have
differences -0.25, -0.5, 0.25, -0.25 that are float32 values; LEFT, TOP and BOTTOM tie at
0.25 and LEFT is returned. -/
theorem nearest_edge_first_minimal_witness :
    (f32_round ((1/4 : ℚ) - (odc_init_region (1/2) (1/4) (3/4) (3/4) 0).min_x) =
        1/4 - (odc_init_region (1/2) (1/4) (3/4) (3/4) 0).min_x ∧
      f32_round ((1/4 : ℚ) - (odc_init_region (1/2) (1/4) (3/4) (3/4) 0).max_x) =
        1/4 - (odc_init_region (1/2) (1/4) (3/4) (3/4) 0).max_x ∧
      f32_round ((1/2 : ℚ) - (odc_init_region (1/2) (1/4) (3/4) (3/4) 0).min_y) =
        1/2 - (odc_init_region (1/2) (1/4) (3/4) (3/4) 0).min_y ∧
      f32_round ((1/2 : ℚ) - (odc_init_region (1/2) (1/4) (3/4) (3/4) 0).max_y) =
        1/2 - (odc_init_region (1/2) (1/4) (3/4) (3/4) 0).max_y) ∧
    odc_get_entry_side (1/4) (1/2) (odc_init_region (1/2) (1/4) (3/4) (3/4) 0) =
      REGION_STATE_ENTERED_FROM_LEFT ∧
    ((odc_get_entry_side (1/4) (1/2) (odc_init_region (1/2) (1/4) (3/4) (3/4) 0) =
          REGION_STATE_ENTERED_FROM_LEFT ∧
        |(1/4 : ℚ) - (odc_init_region (1/2) (1/4) (3/4) (3/4) 0).min_x| ≤
          |(1/4 : ℚ) - (odc_init_region (1/2) (1/4) (3/4) (3/4) 0).max_x| ∧
        |(1/4 : ℚ) - (odc_init_region (1/2) (1/4) (3/4) (3/4) 0).min_x| ≤
          |(1/2 : ℚ) - (odc_init_region (1/2) (1/4) (3/4) (3/4) 0).min_y| ∧
        |(1/4 : ℚ) - (odc_init_region (1/2) (1/4) (3/4) (3/4) 0).min_x| ≤
          |(1/2 : ℚ) - (odc_init_region (1/2) (1/4) (3/4) (3/4) 0).max_y|) ∨
      (odc_get_entry_side (1/4) (1/2) (odc_init_region (1/2) (1/4) (3/4) (3/4) 0) =
          REGION_STATE_ENTERED_FROM_RIGHT ∧
        |(1/4 : ℚ) - (odc_init_region (1/2) (1/4) (3/4) (3/4) 0).max_x| <
          |(1/4 : ℚ) - (odc_init_region (1/2) (1/4) (3/4) (3/4) 0).min_x| ∧
        |(1/4 : ℚ) - (odc_init_region (1/2) (1/4) (3/4) (3/4) 0).max_x| ≤
          |(1/2 : ℚ) - (odc_init_region (1/2) (1/4) (3/4) (3/4) 0).min_y| ∧
        |(1/4 : ℚ) - (odc_init_region (1/2) (1/4) (3/4) (3/4) 0).max_x| ≤
          |(1/2 : ℚ) - (odc_init_region (1/2) (1/4) (3/4) (3/4) 0).max_y|) ∨
      (odc_get_entry_side (1/4) (1/2) (odc_init_region (1/2) (1/4) (3/4) (3/4) 0) =
          REGION_STATE_ENTERED_FROM_TOP ∧
        |(1/2 : ℚ) - (odc_init_region (1/2) (1/4) (3/4) (3/4) 0).min_y| <
          |(1/4 : ℚ) - (odc_init_region (1/2) (1/4) (3/4) (3/4) 0).min_x| ∧
        |(1/2 : ℚ) - (odc_init_region (1/2) (1/4) (3/4) (3/4) 0).min_y| <
          |(1/4 : ℚ) - (odc_init_region (1/2) (1/4) (3/4) (3/4) 0).max_x| ∧
        |(1/2 : ℚ) - (odc_init_region (1/2) (1/4) (3/4) (3/4) 0).min_y| ≤
          |(1/2 : ℚ) - (odc_init_region (1/2) (1/4) (3/4) (3/4) 0).max_y|) ∨
      (odc_get_entry_side (1/4) (1/2) (odc_init_region (1/2) (1/4) (3/4) (3/4) 0) =
          REGION_STATE_ENTERED_FROM_BOTTOM ∧
        |(1/2 : ℚ) - (odc_init_region (1/2) (1/4) (3/4) (3/4) 0).max_y| <
          |(1/4 : ℚ) - (odc_init_region (1/2) (1/4) (3/4) (3/4) 0).min_x| ∧
        |(1/2 : ℚ) - (odc_init_region (1/2) (1/4) (3/4) (3/4) 0).max_y| <
          |(1/4 : ℚ) - (odc_init_region (1/2) (1/4) (3/4) (3/4) 0).max_x| ∧
        |(1/2 : ℚ) - (odc_init_region (1/2) (1/4) (3/4) (3/4) 0).max_y| <
          |(1/2 : ℚ) - (odc_init_region (1/2) (1/4) (3/4) (3/4) 0).min_y|)) :=
  ⟨⟨by decide!, by decide!, by decide!, by decide!⟩, by decide!,
    (nearest_edge_first_minimal (1/4) (1/2) (odc_init_region (1/2) (1/4) (3/4) (3/4) 0)).2
      (by decide!) (by decide!) (by decide!) (by decide!)⟩

/-- C29: point-in-region is inclusive and independent of the order of the corners. For the
region built by `odc_init_region` from (x1, y1, x2, y2), `odc_point_in_rectangle` holds
exactly when min(x1, x2) ≤ x ≤ max(x1, x2) and min(y1, y2) ≤ y ≤ max(y1, y2); the four
corners are inside; the region built from the swapped corners gives the same answer. -/
theorem point_in_region_inclusive (x1 y1 x2 y2 : ℚ) (in_direction : Int) (x y : ℚ) :
    (odc_point_in_rectangle x y (odc_init_region x1 y1 x2 y2 in_direction) = true ↔
      (min x1 x2 ≤ x ∧ x ≤ max x1 x2 ∧ min y1 y2 ≤ y ∧ y ≤ max y1 y2)) ∧
    odc_point_in_rectangle x1 y1 (odc_init_region x1 y1 x2 y2 in_direction) = true ∧
    odc_point_in_rectangle x1 y2 (odc_init_region x1 y1 x2 y2 in_direction) = true ∧
    odc_point_in_rectangle x2 y1 (odc_init_region x1 y1 x2 y2 in_direction) = true ∧
    odc_point_in_rectangle x2 y2 (odc_init_region x1 y1 x2 y2 in_direction) = true ∧
    odc_point_in_rectangle x y (odc_init_region x2 y2 x1 y1 in_direction) =
      odc_point_in_rectangle x y (odc_init_region x1 y1 x2 y2 in_direction) := by
  have key : ∀ (a b c d p q : ℚ),
      odc_point_in_rectangle p q (odc_init_region a b c d in_direction) = true ↔
        (min a c ≤ p ∧ p ≤ max a c ∧ min b d ≤ q ∧ q ≤ max b d) := by
    intro a b c d p q
    unfold odc_point_in_rectangle odc_init_region
    simp only [decide_eq_true_eq, ge_iff_le]
  refine ⟨key x1 y1 x2 y2 x y, ?_, ?_, ?_, ?_, ?_⟩
  · exact (key _ _ _ _ _ _).mpr ⟨min_le_left _ _, le_max_left _ _, min_le_left _ _, le_max_left _ _⟩
  · exact (key _ _ _ _ _ _).mpr ⟨min_le_left _ _, le_max_left _ _, min_le_right _ _, le_max_right _ _⟩
  · exact (key _ _ _ _ _ _).mpr ⟨min_le_right _ _, le_max_right _ _, min_le_left _ _, le_max_left _ _⟩
  · exact (key _ _ _ _ _ _).mpr ⟨min_le_right _ _, le_max_right _ _, min_le_right _ _, le_max_right _ _⟩
  · rw [Bool.eq_iff_iff, key, key, min_comm x2 x1, max_comm x2 x1, min_comm y2 y1, max_comm y2 y1]

/-- What the class-row loop returns: (0, -1) when no class row of the column is above 0,
and otherwise the greatest class value with the first class that attains it. -/
theorem best_class_cases (det : Nat → ℚ) (md cc i : Nat) :
    (best_class det md cc i = (0, -1) ∧
      ∀ k, k < cc - 4 → get_detection_value det md cc (k + 4) i ≤ 0) ∨
    (∃ k0, k0 < cc - 4 ∧
      best_class det md cc i = (get_detection_value det md cc (k0 + 4) i, (k0 : Int)) ∧
      0 < get_detection_value det md cc (k0 + 4) i ∧
      (∀ k, k < cc - 4 →
        get_detection_value det md cc (k + 4) i ≤ get_detection_value det md cc (k0 + 4) i) ∧
      (∀ k, k < k0 →
        get_detection_value det md cc (k + 4) i < get_detection_value det md cc (k0 + 4) i)) := by
  unfold best_class
  refine forLoop_inv
    (fun n (acc : ℚ × Int) =>
      (acc = (0, -1) ∧ ∀ k, k < n → get_detection_value det md cc (k + 4) i ≤ 0) ∨
      (∃ k0, k0 < n ∧ acc = (get_detection_value det md cc (k0 + 4) i, (k0 : Int)) ∧
        0 < get_detection_value det md cc (k0 + 4) i ∧
        (∀ k, k < n →
          get_detection_value det md cc (k + 4) i ≤ get_detection_value det md cc (k0 + 4) i) ∧
        (∀ k, k < k0 →
          get_detection_value det md cc (k + 4) i < get_detection_value det md cc (k0 + 4) i)))
    _ _ _ (Or.inl ⟨rfl, fun k hk => absurd hk (Nat.not_lt_zero k)⟩) ?_
  intro n _ acc hacc
  dsimp only
  have hcast : (((n + 4 : Nat) : Int) - 4) = (n : Int) := by push_cast; ring
  rw [hcast]
  rcases hacc with ⟨rfl, hall⟩ | ⟨k0, hk0, rfl, hpos, hmax, hfirst⟩
  · by_cases hgt : get_detection_value det md cc (n + 4) i > 0
    · rw [if_pos hgt]
      refine Or.inr ⟨n, Nat.lt_succ_self n, rfl, hgt, fun k hk => ?_, fun k hk => ?_⟩
      · rcases Nat.lt_succ_iff_lt_or_eq.mp hk with h | h
        · exact le_of_lt (lt_of_le_of_lt (hall k h) hgt)
        · rw [h]
      · exact lt_of_le_of_lt (hall k hk) hgt
    · rw [if_neg hgt]
      refine Or.inl ⟨rfl, fun k hk => ?_⟩
      rcases Nat.lt_succ_iff_lt_or_eq.mp hk with h | h
      · exact hall k h
      · rw [h]; exact not_lt.mp hgt
  · by_cases hgt : get_detection_value det md cc (n + 4) i > get_detection_value det md cc (k0 + 4) i
    · rw [if_pos hgt]
      refine Or.inr ⟨n, Nat.lt_succ_self n, rfl, lt_trans hpos hgt, fun k hk => ?_, fun k hk => ?_⟩
      · rcases Nat.lt_succ_iff_lt_or_eq.mp hk with h | h
        · exact le_of_lt (lt_of_le_of_lt (hmax k h) hgt)
        · rw [h]
      · exact lt_of_le_of_lt (hmax k hk) hgt
    · rw [if_neg hgt]
      refine Or.inr ⟨k0, Nat.lt_succ_of_lt hk0, rfl, hpos, fun k hk => ?_, hfirst⟩
      rcases Nat.lt_succ_iff_lt_or_eq.mp hk with h | h
      · exact hmax k h
      · rw [h]; exact not_lt.mp hgt

/-- The test of `extract_detections` on a column holds exactly when a class row of the
column is above 0. -/
theorem keep_column_iff (det : Nat → ℚ) (md cc i : Nat) :
    ((best_class det md cc i).1 > 0 ∨ (best_class det md cc i).2 ≥ 0) ↔
      (List.range (cc - 4)).any (fun k =>
        decide (get_detection_value det md cc (k + 4) i > 0)) = true := by
  rw [List.any_eq_true]
  rcases best_class_cases det md cc i with ⟨hbc, hall⟩ | ⟨k0, hk0, hbc, hpos, _, _⟩
  · rw [hbc]
    constructor
    · rintro (h | h)
      · exact absurd h (lt_irrefl _)
      · exact absurd h (by decide)
    · rintro ⟨k, hk, hv⟩
      have := hall k (List.mem_range.mp hk)
      have hv2 := of_decide_eq_true hv
      exact absurd hv2 (not_lt.mpr this)
  · rw [hbc]
    constructor
    · intro _
      exact ⟨k0, List.mem_range.mpr hk0, decide_eq_true hpos⟩
    · intro _
      exact Or.inl hpos

/-- The columns kept below `n + 1` are those below `n`, followed by `n` when it is kept. -/
theorem emitted_columns_succ (det : Nat → ℚ) (md cc n : Nat) :
    emitted_columns det md cc (n + 1) =
      emitted_columns det md cc n ++
        (if (best_class det md cc n).1 > 0 ∨ (best_class det md cc n).2 ≥ 0 then [n] else []) := by
  unfold emitted_columns
  rw [List.range_succ, List.filter_append]
  congr 1
  by_cases h : (best_class det md cc n).1 > 0 ∨ (best_class det md cc n).2 ≥ 0
  · rw [if_pos h]
    simp only [List.filter_cons, List.filter_nil]
    rw [if_pos ((keep_column_iff det md cc n).mp h)]
  · rw [if_neg h]
    simp only [List.filter_cons, List.filter_nil]
    rw [if_neg (fun hc => h ((keep_column_iff det md cc n).mpr hc))]

/-- The rows filled by `extract_detections`: row `d` is the record of the `d`-th kept column,
and the count is the number of kept columns. -/
theorem extract_detections_rows (det : Nat → ℚ) (md cc : Nat) (rows : Nat → Detection) :
    (extract_detections det md cc rows).2 = (emitted_columns det md cc md).length ∧
    ∀ d i, (emitted_columns det md cc md)[d]? = some i →
      (extract_detections det md cc rows).1 d =
        { x := get_detection_value det md cc 0 i
          y := get_detection_value det md cc 1 i
          w := get_detection_value det md cc 2 i
          h := get_detection_value det md cc 3 i
          confidence := (best_class det md cc i).1
          class_id := ((best_class det md cc i).2 : ℚ) } := by
  unfold extract_detections
  refine forLoop_inv
    (fun n (acc : (Nat → Detection) × Nat) =>
      acc.2 = (emitted_columns det md cc n).length ∧
      ∀ d i, (emitted_columns det md cc n)[d]? = some i →
        acc.1 d =
          { x := get_detection_value det md cc 0 i
            y := get_detection_value det md cc 1 i
            w := get_detection_value det md cc 2 i
            h := get_detection_value det md cc 3 i
            confidence := (best_class det md cc i).1
            class_id := ((best_class det md cc i).2 : ℚ) })
    _ _ _ ⟨rfl, fun d i h => by simp [emitted_columns] at h⟩ ?_
  intro n _ acc ⟨h1, h2⟩
  dsimp only
  rw [emitted_columns_succ]
  by_cases hk : (best_class det md cc n).1 > 0 ∨ (best_class det md cc n).2 ≥ 0
  · rw [if_pos hk, if_pos hk]
    refine ⟨by rw [List.length_append, h1]; rfl, fun d i hd => ?_⟩
    dsimp only
    by_cases hlt : d < (emitted_columns det md cc n).length
    · rw [List.getElem?_append_left hlt] at hd
      rw [setAt_ne _ _ (by omega)]
      exact h2 d i hd
    · rw [List.getElem?_append_right (not_lt.mp hlt)] at hd
      have hd0 : d - (emitted_columns det md cc n).length = 0 := by
        by_contra hne
        rw [List.getElem?_eq_none (by simp; omega)] at hd
        exact absurd hd (by simp)
      rw [hd0] at hd
      have hi : n = i := by simpa using hd
      have hdeq : d = acc.2 := by omega
      subst hi
      rw [hdeq, setAt_same]
  · rw [if_neg hk, if_neg hk, List.append_nil]
    exact ⟨h1, h2⟩

/-- `extract_detections_i8` is `extract_detections` on the decoded tensor. -/
theorem extract_detections_i8_eq (det : Nat → Int) (md cc : Nat) (rows : Nat → Detection) :
    extract_detections_i8 det md cc rows = extract_detections (decoded_tensor det) md cc rows :=
  rfl

/-- C26: extraction. `extract_detections` emits a record for column i exactly when a class
row 4 .. confidence_count - 1 of the column holds a value above 0: the count it returns is
the number of such columns and row d is the record of the d-th such column in index order.
The record carries rows 0..3 as x, y, w, h, the greatest class value as confidence and, as
class_id, the first class row that attains it, minus 4. `extract_detections_i8` is the same
function on the tensor decoded cell by cell. -/
theorem extraction_rule (det : Nat → ℚ) (det8 : Nat → Int) (md cc : Nat)
    (rows : Nat → Detection) (d i : Nat) :
    (extract_detections det md cc rows).2 = (emitted_columns det md cc md).length ∧
    ((emitted_columns det md cc md)[d]? = some i →
      ((extract_detections det md cc rows).1 d).x = get_detection_value det md cc 0 i ∧
      ((extract_detections det md cc rows).1 d).y = get_detection_value det md cc 1 i ∧
      ((extract_detections det md cc rows).1 d).w = get_detection_value det md cc 2 i ∧
      ((extract_detections det md cc rows).1 d).h = get_detection_value det md cc 3 i ∧
      ∃ k0, k0 < cc - 4 ∧
        ((extract_detections det md cc rows).1 d).class_id = (k0 : ℚ) ∧
        ((extract_detections det md cc rows).1 d).confidence =
          get_detection_value det md cc (k0 + 4) i ∧
        0 < get_detection_value det md cc (k0 + 4) i ∧
        (∀ k, k < cc - 4 →
          get_detection_value det md cc (k + 4) i ≤ get_detection_value det md cc (k0 + 4) i) ∧
        (∀ k, k < k0 →
          get_detection_value det md cc (k + 4) i < get_detection_value det md cc (k0 + 4) i)) ∧
    extract_detections_i8 det8 md cc rows =
      extract_detections (decoded_tensor det8) md cc rows := by
  obtain ⟨h1, h2⟩ := extract_detections_rows det md cc rows
  refine ⟨h1, fun hd => ?_, rfl⟩
  rw [h2 d i hd]
  refine ⟨rfl, rfl, rfl, rfl, ?_⟩
  have hmem : i ∈ emitted_columns det md cc md := List.mem_iff_getElem?.mpr ⟨d, hd⟩
  have hkeep := (List.mem_filter.mp hmem).2
  rcases best_class_cases det md cc i with ⟨_, hall⟩ | ⟨k0, hk0, hbc, hpos, hmax, hfirst⟩
  · rw [List.any_eq_true] at hkeep
    obtain ⟨k, hk, hv⟩ := hkeep
    exact absurd (of_decide_eq_true hv) (not_lt.mpr (hall k (List.mem_range.mp hk)))
  · refine ⟨k0, hk0, ?_, ?_, hpos, hmax, hfirst⟩
    · show (((best_class det md cc i).2 : Int) : ℚ) = (k0 : ℚ)
      rw [hbc]
      push_cast
      rfl
    · show (best_class det md cc i).1 = _
      rw [hbc]

/-- Witness of C26 on frame 1 of seed scenario 1 (4 columns, 6 rows): only column 0 has a
positive class value, one record is emitted, with class 0 and confidence 0.9. -/
theorem extraction_rule_witness :
    (emitted_columns seed1_frame1 4 6 4)[0]? = some 0 ∧
    (extract_detections seed1_frame1 4 6 unwritten_rows).2 = 1 ∧
    ((extract_detections seed1_frame1 4 6 unwritten_rows).1 0).x = 1/2 ∧
    ((extract_detections seed1_frame1 4 6 unwritten_rows).1 0).confidence = 9/10 ∧
    ((extract_detections seed1_frame1 4 6 unwritten_rows).1 0).class_id = 0 :=
  ⟨by decide!,
    ((extraction_rule seed1_frame1 (fun _ => 0) 4 6 unwritten_rows 0 0).1).trans (by decide!),
    (((extraction_rule seed1_frame1 (fun _ => 0) 4 6 unwritten_rows 0 0).2.1 (by decide!)).1).trans
      (by decide!),
    by decide!, by decide!⟩

/-- What the scan of one detection returns: nothing when no eligible track has an IoU above
the threshold and above 0, and otherwise the first eligible track among those of greatest
IoU, with that IoU. -/
theorem find_best_track_cases (tracks : Nat → ObjectTrack) (tm : Nat → Bool) (D : Detection)
    (mt : Nat) (thr : ℚ) :
    (find_best_track tracks tm D mt thr = (0, none) ∧
      ∀ t, track_eligible tracks tm D mt t →
        ¬ (track_iou tracks D t > thr ∧ track_iou tracks D t > 0)) ∨
    (∃ t, find_best_track tracks tm D mt thr = (track_iou tracks D t, some t) ∧
      track_eligible tracks tm D mt t ∧ track_iou tracks D t > thr ∧ track_iou tracks D t > 0 ∧
      ∀ t2, track_eligible tracks tm D mt t2 →
        track_iou tracks D t2 ≤ track_iou tracks D t ∧
        (t2 < t → track_iou tracks D t2 < track_iou tracks D t)) := by
  unfold find_best_track
  refine forLoop_inv
    (fun n (acc : ℚ × Option Nat) =>
      (acc = (0, none) ∧
        ∀ t, track_eligible tracks tm D n t →
          ¬ (track_iou tracks D t > thr ∧ track_iou tracks D t > 0)) ∨
      (∃ t, acc = (track_iou tracks D t, some t) ∧
        track_eligible tracks tm D n t ∧ track_iou tracks D t > thr ∧ track_iou tracks D t > 0 ∧
        ∀ t2, track_eligible tracks tm D n t2 →
          track_iou tracks D t2 ≤ track_iou tracks D t ∧
          (t2 < t → track_iou tracks D t2 < track_iou tracks D t)))
    _ _ _ (Or.inl ⟨rfl, fun t ht => absurd ht.1 (Nat.not_lt_zero t)⟩) ?_
  intro n _ acc hacc
  dsimp only
  have hwiden : ∀ t, track_eligible tracks tm D n t → track_eligible tracks tm D (n + 1) t :=
    fun t ht => ⟨Nat.lt_succ_of_lt ht.1, ht.2⟩
  by_cases hel : track_eligible tracks tm D (n + 1) n
  · obtain ⟨_, ha, hm, hc⟩ := hel
    have hc1 : ¬ ((!(tracks n).active || tm n) = true) := by rw [ha, hm]; decide
    rw [if_neg hc1, if_neg (not_not.mpr hc)]
    have hiou : calculate_iou D.x D.y D.w D.h (tracks n).x (tracks n).y (tracks n).w (tracks n).h =
        track_iou tracks D n := rfl
    rw [hiou]
    have hnarrow : ∀ t, track_eligible tracks tm D (n + 1) t → t ≠ n →
        track_eligible tracks tm D n t := fun t ht hne =>
      ⟨lt_of_le_of_ne (Nat.lt_succ_iff.mp ht.1) hne, ht.2⟩
    rcases hacc with ⟨rfl, hnone⟩ | ⟨t, rfl, helt, hthr, hpos, hmax⟩
    · by_cases hgt : track_iou tracks D n > 0 ∧ track_iou tracks D n > thr
      · rw [if_pos hgt]
        refine Or.inr ⟨n, rfl, ⟨Nat.lt_succ_self n, ha, hm, hc⟩, hgt.2, hgt.1, fun t2 ht2 => ?_⟩
        by_cases hne : t2 = n
        · rw [hne]
          exact ⟨le_refl _, fun h => absurd h (Nat.lt_irrefl n)⟩
        · have hno := hnone t2 (hnarrow t2 ht2 hne)
          have hlt : track_iou tracks D t2 < track_iou tracks D n := by
            by_contra hge
            push_neg at hge
            exact hno ⟨lt_of_lt_of_le hgt.2 hge, lt_of_lt_of_le hgt.1 hge⟩
          exact ⟨le_of_lt hlt, fun _ => hlt⟩
      · rw [if_neg hgt]
        refine Or.inl ⟨rfl, fun t ht => ?_⟩
        by_cases hne : t = n
        · rw [hne]
          exact fun h => hgt ⟨h.2, h.1⟩
        · exact hnone t (hnarrow t ht hne)
    · dsimp only
      by_cases hgt : track_iou tracks D n > track_iou tracks D t ∧ track_iou tracks D n > thr
      · rw [if_pos hgt]
        refine Or.inr ⟨n, rfl, ⟨Nat.lt_succ_self n, ha, hm, hc⟩, hgt.2, lt_trans hpos hgt.1,
          fun t2 ht2 => ?_⟩
        by_cases hne : t2 = n
        · rw [hne]
          exact ⟨le_refl _, fun h => absurd h (Nat.lt_irrefl n)⟩
        · have hlt := lt_of_le_of_lt (hmax t2 (hnarrow t2 ht2 hne)).1 hgt.1
          exact ⟨le_of_lt hlt, fun _ => hlt⟩
      · rw [if_neg hgt]
        refine Or.inr ⟨t, rfl, hwiden t helt, hthr, hpos, fun t2 ht2 => ?_⟩
        by_cases hne : t2 = n
        · rw [hne]
          have hle : track_iou tracks D n ≤ track_iou tracks D t := by
            by_contra hlt
            push_neg at hlt
            exact hgt ⟨hlt, lt_trans hthr hlt⟩
          exact ⟨hle, fun h => absurd helt.1 (by omega)⟩
        · exact hmax t2 (hnarrow t2 ht2 hne)
  · have hskip : ∀ (a : ℚ × Option Nat),
        (if (!(tracks n).active || tm n) = true then a
          else if (tracks n).class_id ≠ float_to_int D.class_id then a
          else if calculate_iou D.x D.y D.w D.h (tracks n).x (tracks n).y (tracks n).w
              (tracks n).h > a.1 ∧
            calculate_iou D.x D.y D.w D.h (tracks n).x (tracks n).y (tracks n).w
              (tracks n).h > thr
          then (calculate_iou D.x D.y D.w D.h (tracks n).x (tracks n).y (tracks n).w
              (tracks n).h, some n)
          else a) = a := by
      intro a
      by_cases hc1 : (!(tracks n).active || tm n) = true
      · rw [if_pos hc1]
      · rw [if_neg hc1]
        by_cases hc2 : (tracks n).class_id ≠ float_to_int D.class_id
        · rw [if_pos hc2]
        · exfalso
          apply hel
          simp only [Bool.or_eq_true, Bool.not_eq_true', not_or, Bool.not_eq_false] at hc1
          exact ⟨Nat.lt_succ_self n, hc1.1, by simpa using hc1.2, not_not.mp hc2⟩
    rw [hskip acc]
    have hnarrow : ∀ t, track_eligible tracks tm D (n + 1) t → track_eligible tracks tm D n t := by
      intro t ht
      have hne : t ≠ n := fun h => hel (h ▸ ht)
      exact ⟨lt_of_le_of_ne (Nat.lt_succ_iff.mp ht.1) hne, ht.2⟩
    rcases hacc with ⟨rfl, hnone⟩ | ⟨t, rfl, helt, hthr, hpos, hmax⟩
    · exact Or.inl ⟨rfl, fun t ht => hnone t (hnarrow t ht)⟩
    · exact Or.inr ⟨t, rfl, hwiden t helt, hthr, hpos, fun t2 ht2 => hmax t2 (hnarrow t2 ht2)⟩

/-- One iteration of the detection loop, spelled out by what the scan returns. -/
theorem associate_detection_cases (data : Nat → Detection) (mt : Nat) (thr : ℚ) (d : Nat)
    (a : Association) :
    (associate_detection data mt thr d a = a ∧
      (a.detection_matched d = true ∨
        (find_best_track a.state.tracks a.track_matched (data d) mt thr).2 = none)) ∨
    (∃ t, a.detection_matched d = false ∧
      (find_best_track a.state.tracks a.track_matched (data d) mt thr).2 = some t ∧
      (associate_detection data mt thr d a).track_matched = setAt a.track_matched t true ∧
      (associate_detection data mt thr d a).detection_matched =
        setAt a.detection_matched d true) := by
  unfold associate_detection
  by_cases hm : a.detection_matched d = true
  · rw [if_pos hm]
    exact Or.inl ⟨rfl, Or.inl hm⟩
  · rw [if_neg hm]
    rcases hfb : find_best_track a.state.tracks a.track_matched (data d) mt thr with
      ⟨iou, _ | bt⟩
    · exact Or.inl ⟨rfl, Or.inr rfl⟩
    · exact Or.inr ⟨bt, by simpa using hm, rfl, rfl, rfl⟩

/-- A track that is marked matched stays marked through an iteration of the detection loop,
and a detection other than the one of the iteration keeps its mark. -/
theorem associate_detection_marks (data : Nat → Detection) (mt : Nat) (thr : ℚ) (d : Nat)
    (a : Association) :
    (∀ t, a.track_matched t = true →
      (associate_detection data mt thr d a).track_matched t = true) ∧
    (∀ j, j ≠ d →
      (associate_detection data mt thr d a).detection_matched j = a.detection_matched j) := by
  rcases associate_detection_cases data mt thr d a with ⟨heq, _⟩ | ⟨t0, _, _, htm, hdm⟩
  · rw [heq]
    exact ⟨fun _ h => h, fun _ _ => rfl⟩
  · rw [htm, hdm]
    refine ⟨fun t h => ?_, fun j hj => setAt_ne _ _ hj⟩
    by_cases ht : t = t0
    · rw [ht, setAt_same]
    · rw [setAt_ne _ _ ht]
      exact h

/-- The marks of the tracks only grow along the detection loop. -/
theorem association_before_mono (s : ObjectTrackerState) (data : Nat → Detection)
    (valid mt : Nat) (thr : ℚ) (dm tm : Nat → Bool) (d d2 t : Nat) (hle : d ≤ d2)
    (h : (association_before s data valid mt thr dm tm d).track_matched t = true) :
    (association_before s data valid mt thr dm tm d2).track_matched t = true := by
  induction d2 with
  | zero =>
    have : d = 0 := by omega
    rw [this] at h
    exact h
  | succ n ih =>
    rcases Nat.lt_succ_iff_lt_or_eq.mp (Nat.lt_succ_of_le hle) with hlt | heq
    · exact (associate_detection_marks data mt thr n _).1 t (ih (Nat.lt_succ_iff.mp hlt))
    · rw [← heq]
      exact h

/-- When the detection loop reaches a detection below `valid_detections`, the detection is
not marked matched: the test `if (detection_matched[d]) continue` never skips. -/
theorem association_before_unmarked (s : ObjectTrackerState) (data : Nat → Detection)
    (valid mt : Nat) (thr : ℚ) (dm tm : Nat → Bool) (n j : Nat) (hnj : n ≤ j) (hj : j < valid) :
    (association_before s data valid mt thr dm tm n).detection_matched j = false := by
  induction n with
  | zero =>
    have h := forLoop_setAt_self valid (fun _ (_ : Bool) => false) dm j
    rw [if_pos hj] at h
    exact h
  | succ m ih =>
    have hstep := (associate_detection_marks data mt thr m
      (association_before s data valid mt thr dm tm m)).2 j (by omega)
    exact hstep.trans (ih (by omega))

/-- No track is matched to two detections of a frame. -/
theorem matched_track_inj (s : ObjectTrackerState) (data : Nat → Detection)
    (valid mt : Nat) (thr : ℚ) (dm tm : Nat → Bool) (d d2 t : Nat) (hlt : d < d2)
    (h1 : matched_track s data valid mt thr dm tm d = some t)
    (h2 : matched_track s data valid mt thr dm tm d2 = some t) : False := by
  unfold matched_track at h1 h2
  by_cases hm1 : (association_before s data valid mt thr dm tm d).detection_matched d = true
  · rw [if_pos hm1] at h1
    exact absurd h1 (by simp)
  · rw [if_neg hm1] at h1
    by_cases hm2 : (association_before s data valid mt thr dm tm d2).detection_matched d2 = true
    · rw [if_pos hm2] at h2
      exact absurd h2 (by simp)
    · rw [if_neg hm2] at h2
      have hfree := (find_best_track_some _ _ _ _ _ _ h2).2.2.1
      have hmarked : (association_before s data valid mt thr dm tm (d + 1)).track_matched t
          = true := by
        show (associate_detection data mt thr d
          (association_before s data valid mt thr dm tm d)).track_matched t = true
        rcases associate_detection_cases data mt thr d
            (association_before s data valid mt thr dm tm d) with
          ⟨_, hc | hc⟩ | ⟨t0, _, hfb, htm, _⟩
        · exact absurd hc hm1
        · rw [hc] at h1
          exact absurd h1 (by simp)
        · rw [htm]
          rw [hfb] at h1
          have : t0 = t := by simpa using h1
          rw [this, setAt_same]
      have := association_before_mono s data valid mt thr dm tm (d + 1) d2 t (by omega) hmarked
      rw [this] at hfree
      exact absurd hfree (by decide)

/-- C23: greedy association rule. The detections are processed in index order (the state of
the association phase is the state reached after `valid_detections` iterations). When the
loop reaches detection d < valid_detections, d carries no mark and, among the tracks below
max_tracks that are active, not matched earlier in this frame and of the class of d, the
loop matches to d the lowest-index track of greatest IoU with d, provided that IoU is above
tracking_threshold and above 0; otherwise it matches none. No track is matched to two
detections d and d2, and a detection is matched to at most one track. -/
theorem greedy_association (s : ObjectTrackerState) (data : Nat → Detection)
    (valid mt : Nat) (thr : ℚ) (dm tm : Nat → Bool) (d d2 t : Nat) (hd : d < valid) :
    perform_tracking_association s data valid mt thr dm tm =
      association_before s data valid mt thr dm tm valid ∧
    association_before s data valid mt thr dm tm (d + 1) =
      associate_detection data mt thr d (association_before s data valid mt thr dm tm d) ∧
    ((matched_track s data valid mt thr dm tm d = none ∧
        ∀ t2, track_eligible
            (association_before s data valid mt thr dm tm d).state.tracks
            (association_before s data valid mt thr dm tm d).track_matched (data d) mt t2 →
          ¬ (track_iou (association_before s data valid mt thr dm tm d).state.tracks
                (data d) t2 > thr ∧
              track_iou (association_before s data valid mt thr dm tm d).state.tracks
                (data d) t2 > 0)) ∨
      (∃ t0, matched_track s data valid mt thr dm tm d = some t0 ∧
        track_eligible
          (association_before s data valid mt thr dm tm d).state.tracks
          (association_before s data valid mt thr dm tm d).track_matched (data d) mt t0 ∧
        track_iou (association_before s data valid mt thr dm tm d).state.tracks (data d) t0
          > thr ∧
        track_iou (association_before s data valid mt thr dm tm d).state.tracks (data d) t0
          > 0 ∧
        ∀ t2, track_eligible
            (association_before s data valid mt thr dm tm d).state.tracks
            (association_before s data valid mt thr dm tm d).track_matched (data d) mt t2 →
          track_iou (association_before s data valid mt thr dm tm d).state.tracks (data d) t2 ≤
            track_iou (association_before s data valid mt thr dm tm d).state.tracks
              (data d) t0 ∧
          (t2 < t0 →
            track_iou (association_before s data valid mt thr dm tm d).state.tracks
                (data d) t2 <
              track_iou (association_before s data valid mt thr dm tm d).state.tracks
                (data d) t0))) ∧
    (matched_track s data valid mt thr dm tm d = some t →
      matched_track s data valid mt thr dm tm d2 = some t → d = d2) := by
  refine ⟨rfl, rfl, ?_, fun h1 h2 => ?_⟩
  · have hflag := association_before_unmarked s data valid mt thr dm tm d d (le_refl d) hd
    have hmt : matched_track s data valid mt thr dm tm d =
        (find_best_track (association_before s data valid mt thr dm tm d).state.tracks
          (association_before s data valid mt thr dm tm d).track_matched (data d) mt thr).2 := by
      unfold matched_track
      rw [if_neg (by rw [hflag]; decide)]
    rw [hmt]
    rcases find_best_track_cases (association_before s data valid mt thr dm tm d).state.tracks
        (association_before s data valid mt thr dm tm d).track_matched (data d) mt thr with
      ⟨hfb, hnone⟩ | ⟨t0, hfb, hrest⟩
    · rw [hfb]
      exact Or.inl ⟨rfl, hnone⟩
    · rw [hfb]
      exact Or.inr ⟨t0, rfl, hrest⟩
  · rcases Nat.lt_trichotomy d d2 with hlt | heq | hgt
    · exact (matched_track_inj s data valid mt thr dm tm d d2 t hlt h1 h2).elim
    · exact heq
    · exact (matched_track_inj s data valid mt thr dm tm d2 d t hgt h2 h1).elim

/-- Witness of C23, seed scenario 1: in the second frame the detection (index 0) is matched
to the track of slot 0, and the step updates that slot. -/
theorem greedy_association_witness :
    matched_track seed1_step1.1 (extract_detections seed1_frame2 4 6 unwritten_rows).1 1 50
      (3/10) (fun _ => false) (fun _ => false) 0 = some 0 ∧
    perform_tracking_association seed1_step1.1
        (extract_detections seed1_frame2 4 6 unwritten_rows).1 1 50 (3/10) (fun _ => false)
        (fun _ => false) =
      association_before seed1_step1.1 (extract_detections seed1_frame2 4 6 unwritten_rows).1
        1 50 (3/10) (fun _ => false) (fun _ => false) 1 :=
  ⟨by decide!,
    (greedy_association seed1_step1.1 (extract_detections seed1_frame2 4 6 unwritten_rows).1
      1 50 (3/10) (fun _ => false) (fun _ => false) 0 0 0 (by decide)).1⟩

/-- The slot found by the slot search is the lowest-index slot below `max_tracks` that is
not active. -/
theorem find_empty_slot_first (tracks : Nat → ObjectTrack) (mt e : Nat)
    (h : find_empty_slot tracks mt = some e) :
    e < mt ∧ (tracks e).active = false ∧ ∀ j, j < e → (tracks j).active = true := by
  unfold find_empty_slot at h
  rw [List.find?_range_eq_some] at h
  obtain ⟨h1, h2, h3⟩ := h
  refine ⟨List.mem_range.mp h2, by simpa using h1, fun j hj => ?_⟩
  have := h3 j hj
  simpa using this

/-- The allocator after one iteration of the spawn loop, when it held the id of rank `n`
(ids are handed out in the order 1, 2, ..., 127, 1, 2, ...): it holds the id of rank
`n + 1` after a spawn and is unchanged otherwise. -/
theorem create_track_alloc (data : Nat → Detection) (mt : Nat) (dm : Nat → Bool) (d : Nat)
    (s : ObjectTrackerState) (n : Nat) (hn : s.next_track_id = ((n % 127 : Nat) : Int) + 1) :
    (create_track data mt dm d s).next_track_id =
      (((n + (if dm d = false ∧ (find_empty_slot s.tracks mt).isSome then 1 else 0)) % 127 : Nat)
        : Int) + 1 := by
  rcases create_track_cases data mt dm d s with ⟨heq, hwhy⟩ | ⟨e, hdm, he, hnext, _, _⟩
  · rw [heq, if_neg, Nat.add_zero]
    · exact hn
    · rintro ⟨h1, h2⟩
      rcases hwhy with hw | hw
      · rw [hw] at h1
        exact absurd h1 (by decide)
      · rw [hw] at h2
        exact absurd h2 (by decide)
  · have hc : dm d = false ∧ (find_empty_slot s.tracks mt).isSome = true :=
      ⟨hdm, by rw [he]; rfl⟩
    rw [if_pos hc, hnext, hn]
    unfold MAX_TRACK_ID
    split <;> omega

/-- The allocator after the spawn loop over `v` detections holds the id whose rank is the
rank before the loop plus the number of ids handed out by the loop. -/
theorem create_new_tracks_alloc (s : ObjectTrackerState) (data : Nat → Detection)
    (v mt : Nat) (dm : Nat → Bool) (n : Nat)
    (hn : s.next_track_id = ((n % 127 : Nat) : Int) + 1) :
    (create_new_tracks s data v mt dm).next_track_id =
      (((n + ids_handed_out s data v mt dm) % 127 : Nat) : Int) + 1 := by
  induction v with
  | zero => exact hn
  | succ m ih =>
    rw [ids_handed_out_succ, ← Nat.add_assoc]
    exact create_track_alloc data mt dm m (create_new_tracks s data m mt dm) _ ih

/-- One step of `object_tracker_f32` moves the allocator by the number of ids the step hands
out. -/
theorem object_tracker_f32_alloc (detections : Nat → ℚ) (s : ObjectTrackerState)
    (output : Nat → ℚ) (md cc : Nat) (thr : ℚ) (mt : Nat) (max_age min_hits : Int) (n : Nat)
    (hn : s.next_track_id = ((n % 127 : Nat) : Int) + 1) :
    (object_tracker_f32 detections s output md cc thr mt max_age min_hits).1.next_track_id =
      (((n + step_ids_handed_out detections s md cc thr mt) % 127 : Nat) : Int) + 1 := by
  unfold object_tracker_f32 step_ids_handed_out
  dsimp only
  rw [(update_track_lifecycle_tracks _ _ _ _).1]
  apply create_new_tracks_alloc
  rw [(perform_tracking_association_kept s _ _ mt thr _ _).1]
  exact hn

/-- Along a sequence of steps the allocator holds the id whose rank is the number of ids
handed out so far. -/
theorem run_alloc (md cc : Nat) (thr : ℚ) (mt : Nat) (max_age min_hits : Int)
    (frames : List (Nat → ℚ)) (s : ObjectTrackerState) (n : Nat)
    (hn : s.next_track_id = ((n % 127 : Nat) : Int) + 1) :
    (frames.foldl
      (fun s detections =>
        (object_tracker_f32 detections s (fun _ => 0) md cc thr mt max_age min_hits).1)
      s).next_track_id =
      (((n + ids_handed_out_from s md cc thr mt max_age min_hits frames) % 127 : Nat) : Int)
        + 1 := by
  induction frames generalizing s n with
  | nil => exact hn
  | cons f rest ih =>
    have hstep := object_tracker_f32_alloc f s (fun _ => 0) md cc thr mt max_age min_hits n hn
    have := ih _ _ hstep
    have hunf : ids_handed_out_from s md cc thr mt max_age min_hits (f :: rest) =
        step_ids_handed_out f s md cc thr mt +
          ids_handed_out_from
            (object_tracker_f32 f s (fun _ => 0) md cc thr mt max_age min_hits).1
            md cc thr mt max_age min_hits rest := rfl
    rw [List.foldl_cons, this, hunf, Nat.add_assoc]

/-- C25: id allocator. A spawn (detection d2 unmatched, slot e found by the slot search)
installs the new track in slot e, the lowest-index inactive slot below max_tracks, gives it
the value next_track_id held before, and sets next_track_id to that value + 1, or to 1 when
that would exceed 127; no other slot changes. After any run from the initial state,
next_track_id is (N mod 127) + 1 where N is the number of ids handed out since init, so it
stays in 1..127 and the ids are handed out in the order 1, 2, ..., 127, 1, 2, ...; the same
holds inside the spawn loop of the next step after any number d of detections. -/
theorem id_allocator (s0 : ObjectTrackerState) (frames : List (Nat → ℚ)) (md cc : Nat) (thr : ℚ)
    (mt : Nat) (max_age min_hits : Int) (detections : Nat → ℚ) (d : Nat)
    (s : ObjectTrackerState) (data : Nat → Detection) (dm : Nat → Bool) (d2 e : Nat)
    (hdm : dm d2 = false) (he : find_empty_slot s.tracks mt = some e) :
    ((create_track data mt dm d2 s).tracks e).track_id = s.next_track_id ∧
    ((create_track data mt dm d2 s).tracks e).active = true ∧
    (create_track data mt dm d2 s).next_track_id =
      (if s.next_track_id + 1 > 127 then 1 else s.next_track_id + 1) ∧
    e < mt ∧ (s.tracks e).active = false ∧ (∀ j, j < e → (s.tracks j).active = true) ∧
    (∀ t, t ≠ e → (create_track data mt dm d2 s).tracks t = s.tracks t) ∧
    (tracker_run s0 frames md cc thr mt max_age min_hits).next_track_id =
      (((tracker_run_ids s0 frames md cc thr mt max_age min_hits) % 127 : Nat) : Int) + 1 ∧
    1 ≤ (tracker_run s0 frames md cc thr mt max_age min_hits).next_track_id ∧
    (tracker_run s0 frames md cc thr mt max_age min_hits).next_track_id ≤ 127 ∧
    (create_new_tracks
      (perform_tracking_association (tracker_run s0 frames md cc thr mt max_age min_hits)
        (extract_detections detections md cc unwritten_rows).1
        (extract_detections detections md cc unwritten_rows).2 mt thr (fun _ => false)
        (fun _ => false)).state
      (extract_detections detections md cc unwritten_rows).1 d mt
      (perform_tracking_association (tracker_run s0 frames md cc thr mt max_age min_hits)
        (extract_detections detections md cc unwritten_rows).1
        (extract_detections detections md cc unwritten_rows).2 mt thr (fun _ => false)
        (fun _ => false)).detection_matched).next_track_id =
      (((tracker_run_ids s0 frames md cc thr mt max_age min_hits +
        ids_handed_out
          (perform_tracking_association (tracker_run s0 frames md cc thr mt max_age min_hits)
            (extract_detections detections md cc unwritten_rows).1
            (extract_detections detections md cc unwritten_rows).2 mt thr (fun _ => false)
            (fun _ => false)).state
          (extract_detections detections md cc unwritten_rows).1 d mt
          (perform_tracking_association (tracker_run s0 frames md cc thr mt max_age min_hits)
            (extract_detections detections md cc unwritten_rows).1
            (extract_detections detections md cc unwritten_rows).2 mt thr (fun _ => false)
            (fun _ => false)).detection_matched) % 127 : Nat) : Int) + 1 := by
  have hrun : (tracker_run s0 frames md cc thr mt max_age min_hits).next_track_id =
      (((tracker_run_ids s0 frames md cc thr mt max_age min_hits) % 127 : Nat) : Int) + 1 := by
    have h := run_alloc md cc thr mt max_age min_hits frames (object_tracker_init_f32 s0) 0 rfl
    rw [Nat.zero_add] at h
    exact h
  obtain ⟨f1, f2, f3⟩ := find_empty_slot_first s.tracks mt e he
  rcases create_track_cases data mt dm d2 s with ⟨_, hwhy⟩ | ⟨e2, _, he2, hnext, hnew, hother⟩
  · rcases hwhy with hw | hw
    · rw [hw] at hdm
      exact absurd hdm (by decide)
    · rw [hw] at he
      exact absurd he (by simp)
  · have hee : e2 = e := by
      rw [he] at he2
      exact (Option.some.inj he2).symm
    subst hee
    refine ⟨by rw [hnew], by rw [hnew], hnext, f1, f2, f3, hother, hrun, ?_, ?_, ?_⟩
    · rw [hrun]; omega
    · rw [hrun]; omega
    · apply create_new_tracks_alloc
      rw [(perform_tracking_association_kept _ _ _ mt thr _ _).1]
      exact hrun

/-- Witness of C25: in seed scenario 2 the class-1 detection of the second frame is
unmatched and slot 1 is the first empty slot; the spawn gives it track id 2 and moves the
allocator to 3. -/
theorem id_allocator_witness :
    find_empty_slot seed1_step1.1.tracks 3 = some 1 ∧
    seed1_step1.1.next_track_id = 2 ∧
    ((create_track (extract_detections seed2_frame2 4 6 unwritten_rows).1 3 (fun _ => false) 0
      seed1_step1.1).tracks 1).track_id = 2 ∧
    (create_track (extract_detections seed2_frame2 4 6 unwritten_rows).1 3 (fun _ => false) 0
      seed1_step1.1).next_track_id = 3 ∧
    (tracker_run zero_tracker_state churn_frames_2 2 5 (3/10) 3 1 1).next_track_id =
      (((tracker_run_ids zero_tracker_state churn_frames_2 2 5 (3/10) 3 1 1) % 127 : Nat) : Int)
        + 1 :=
  ⟨by decide!, by decide!,
    ((id_allocator zero_tracker_state churn_frames_2 2 5 (3/10) 3 1 1 churn_frame_a 0
      seed1_step1.1 (extract_detections seed2_frame2 4 6 unwritten_rows).1 (fun _ => false) 0 1
      rfl (by decide!)).1).trans (show seed1_step1.1.next_track_id = 2 by decide!),
    by decide!,
    (id_allocator zero_tracker_state churn_frames_2 2 5 (3/10) 3 1 1 churn_frame_a 0
      seed1_step1.1 (extract_detections seed2_frame2 4 6 unwritten_rows).1 (fun _ => false) 0 1
      rfl (by decide!)).2.2.2.2.2.2.2.1⟩

/-- What the lifecycle pass does to an active slot below `max_tracks`. -/
theorem update_track_lifecycle_slot (s : ObjectTrackerState) (mt : Nat) (max_age : Int)
    (tm : Nat → Bool) (t : Nat) (ht : t < mt) (hact : (s.tracks t).active = true) :
    (update_track_lifecycle s mt max_age tm).tracks t =
      if tm t = true then s.tracks t
      else if (s.tracks t).age + 1 > max_age then expired_track
      else aged_track (s.tracks t) 1 := by
  rw [(update_track_lifecycle_tracks s mt max_age tm).2 t, if_pos ht]
  unfold age_track
  have h1 : ¬ ((!(s.tracks t).active) = true) := by rw [hact]; decide
  rw [if_neg h1]
  by_cases hm : tm t = true
  · rw [if_pos hm, if_neg (by rw [hm]; decide)]
  · rw [if_neg hm, if_pos (by simpa using hm)]
    dsimp only
    by_cases hage : (s.tracks t).age + 1 > max_age
    · rw [if_pos hage, if_pos hage]
      simp only [setAt_same]
      rfl
    · rw [if_neg hage, if_neg hage]
      simp only [setAt_same]
      unfold aged_track
      simp

/-- A track that an iteration of the detection loop leaves unmarked was unmarked before and
is not changed by the iteration. -/
theorem associate_detection_unmatched (data : Nat → Detection) (mt : Nat) (thr : ℚ) (d : Nat)
    (a : Association) (t : Nat)
    (h : (associate_detection data mt thr d a).track_matched t = false) :
    a.track_matched t = false ∧
    (associate_detection data mt thr d a).state.tracks t = a.state.tracks t := by
  unfold associate_detection at h ⊢
  by_cases hm : a.detection_matched d = true
  · rw [if_pos hm] at h ⊢
    exact ⟨h, rfl⟩
  · rw [if_neg hm] at h ⊢
    rcases hfb : find_best_track a.state.tracks a.track_matched (data d) mt thr with
      ⟨iou, _ | bt⟩
    · rw [hfb] at h
      exact ⟨h, rfl⟩
    · rw [hfb] at h
      dsimp only at h ⊢
      have hne : t ≠ bt := by
        intro he
        rw [he, setAt_same] at h
        exact absurd h (by decide)
      rw [setAt_ne _ _ hne] at h
      exact ⟨h, setAt_ne _ _ hne⟩

/-- A track that an iteration of the detection loop marks, or that was marked and active,
is active after it. -/
theorem associate_detection_matched_active (data : Nat → Detection) (mt : Nat) (thr : ℚ)
    (d : Nat) (a : Association) (t : Nat)
    (hprev : a.track_matched t = true → (a.state.tracks t).active = true)
    (h : (associate_detection data mt thr d a).track_matched t = true) :
    ((associate_detection data mt thr d a).state.tracks t).active = true := by
  have hkept := (associate_detection_kept data mt thr d a).2 t
  rw [hkept.1]
  by_cases hb : a.track_matched t = true
  · exact hprev hb
  · unfold associate_detection at h
    by_cases hm : a.detection_matched d = true
    · rw [if_pos hm] at h
      exact absurd h hb
    · rw [if_neg hm] at h
      rcases hfb : find_best_track a.state.tracks a.track_matched (data d) mt thr with
        ⟨iou, _ | bt⟩
      · rw [hfb] at h
        exact absurd h hb
      · rw [hfb] at h
        dsimp only at h
        by_cases hne : t = bt
        · have := find_best_track_some a.state.tracks a.track_matched (data d) mt thr bt
            (by rw [hfb])
          rw [hne]
          exact this.2.1
        · rw [setAt_ne _ _ hne] at h
          exact absurd h hb

/-- After the association phase, a track below `max_tracks` that is not marked matched is as
it was before the phase, and a track that is marked matched is active. -/
theorem perform_tracking_association_slot (s : ObjectTrackerState) (data : Nat → Detection)
    (valid mt : Nat) (thr : ℚ) (dm tm : Nat → Bool) (t : Nat) (ht : t < mt) :
    ((perform_tracking_association s data valid mt thr dm tm).track_matched t = false →
      (perform_tracking_association s data valid mt thr dm tm).state.tracks t = s.tracks t) ∧
    ((perform_tracking_association s data valid mt thr dm tm).track_matched t = true →
      ((perform_tracking_association s data valid mt thr dm tm).state.tracks t).active = true) := by
  unfold perform_tracking_association
  refine forLoop_inv
    (fun _ (a : Association) =>
      (a.track_matched t = false → a.state.tracks t = s.tracks t) ∧
      (a.track_matched t = true → (a.state.tracks t).active = true))
    _ _ _ ⟨fun _ => rfl, fun h => ?_⟩ ?_
  · have hc := forLoop_setAt_self mt (fun _ (_ : Bool) => false) tm t
    rw [if_pos ht] at hc
    dsimp only at h
    rw [hc] at h
    exact absurd h (by decide)
  · intro k _ a ⟨h1, h2⟩
    refine ⟨fun h => ?_, fun h => associate_detection_matched_active data mt thr k a t h2 h⟩
    obtain ⟨g1, g2⟩ := associate_detection_unmatched data mt thr k a t h
    rw [g2]
    exact h1 g1

/-- The spawn phase does not touch a slot that is active. -/
theorem create_new_tracks_active_slot (s : ObjectTrackerState) (data : Nat → Detection)
    (valid mt : Nat) (dm : Nat → Bool) (t : Nat) (hact : (s.tracks t).active = true) :
    (create_new_tracks s data valid mt dm).tracks t = s.tracks t := by
  unfold create_new_tracks
  refine forLoop_inv (fun _ (st : ObjectTrackerState) => st.tracks t = s.tracks t) _ _ _ rfl ?_
  intro k _ st hst
  rcases create_track_cases data mt dm k st with ⟨heq, _⟩ | ⟨e, _, he, _, _, hother⟩
  · rw [heq]
    exact hst
  · have hne : t ≠ e := by
      intro h
      have := (find_empty_slot_some st.tracks mt e he).2
      rw [← h, hst, hact] at this
      exact absurd this (by decide)
    rw [hother t hne]
    exact hst

/-- One step of `object_tracker_f32` on an active track below `max_tracks`: when the track
is not matched it is aged by one frame, or expired when its age would exceed `max_age`; when
it is matched the lifecycle phase leaves it as the association phase made it. -/
theorem object_tracker_f32_slot (detections : Nat → ℚ) (s : ObjectTrackerState)
    (output : Nat → ℚ) (md cc : Nat) (thr : ℚ) (mt : Nat) (max_age min_hits : Int) (t : Nat)
    (ht : t < mt) (hact : (s.tracks t).active = true) :
    (object_tracker_f32 detections s output md cc thr mt max_age min_hits).1.tracks t =
      if unmatched_in_step detections s md cc thr mt t = true then
        (if (s.tracks t).age + 1 > max_age then expired_track else aged_track (s.tracks t) 1)
      else
        (perform_tracking_association s (extract_detections detections md cc unwritten_rows).1
          (extract_detections detections md cc unwritten_rows).2 mt thr (fun _ => false)
          (fun _ => false)).state.tracks t := by
  unfold object_tracker_f32 unmatched_in_step
  dsimp only
  obtain ⟨p1, p2⟩ := perform_tracking_association_slot s
    (extract_detections detections md cc unwritten_rows).1
    (extract_detections detections md cc unwritten_rows).2 mt thr (fun _ => false)
    (fun _ => false) t ht
  generalize perform_tracking_association s
    (extract_detections detections md cc unwritten_rows).1
    (extract_detections detections md cc unwritten_rows).2 mt thr (fun _ => false)
    (fun _ => false) = a at p1 p2 ⊢
  have hact2 : (a.state.tracks t).active = true := by
    by_cases hm : a.track_matched t = true
    · exact p2 hm
    · rw [p1 (by simpa using hm)]
      exact hact
  have hc := create_new_tracks_active_slot a.state
    (extract_detections detections md cc unwritten_rows).1
    (extract_detections detections md cc unwritten_rows).2 mt a.detection_matched t hact2
  rw [update_track_lifecycle_slot _ mt max_age a.track_matched t ht (by rw [hc]; exact hact2), hc]
  by_cases hm : a.track_matched t = true
  · rw [if_pos hm, if_neg (by rw [hm]; decide)]
  · have hm2 : a.track_matched t = false := by simpa using hm
    have hm3 : (!a.track_matched t) = true := by rw [hm2]; rfl
    rw [if_neg hm, p1 hm2, if_pos hm3]

/-- Ageing `k` frames and then one frame is ageing `k + 1` frames. -/
theorem aged_track_succ (T : ObjectTrack) (k : Nat) :
    aged_track (aged_track T 1) k = aged_track T (k + 1) := by
  unfold aged_track
  simp only [ObjectTrack.mk.injEq, true_and, and_true]
  constructor
  · push_cast; ring
  · rw [pow_succ]; ring

/-- A run of steps in which the track of slot `t` is never matched: the track is aged by the
number of frames as long as that does not exceed `max_age`, and is expired by the frame that
exceeds it. -/
theorem never_matched_run (md cc : Nat) (thr : ℚ) (mt : Nat) (max_age min_hits : Int) (t : Nat)
    (ht : t < mt) (frames : List (Nat → ℚ)) (s : ObjectTrackerState)
    (hact : (s.tracks t).active = true) (hage : (s.tracks t).age ≤ max_age)
    (hnever : never_matched md cc thr mt max_age min_hits t s frames = true) :
    ((s.tracks t).age + (frames.length : Int) ≤ max_age →
      (tracker_run_from s frames md cc thr mt max_age min_hits).tracks t =
        aged_track (s.tracks t) frames.length) ∧
    ((s.tracks t).age + (frames.length : Int) = max_age + 1 →
      (tracker_run_from s frames md cc thr mt max_age min_hits).tracks t = expired_track) := by
  induction frames generalizing s with
  | nil =>
    refine ⟨fun _ => ?_, fun h => ?_⟩
    · show s.tracks t = aged_track (s.tracks t) 0
      unfold aged_track
      simp
    · have hz : (s.tracks t).age = max_age + 1 := by simpa using h
      omega
  | cons f rest ih =>
    have hsplit : unmatched_in_step f s md cc thr mt t = true ∧
        never_matched md cc thr mt max_age min_hits t
          (object_tracker_f32 f s (fun _ => 0) md cc thr mt max_age min_hits).1 rest = true := by
      have h := hnever
      unfold never_matched at h
      simpa using h
    have hslot := object_tracker_f32_slot f s (fun _ => 0) md cc thr mt max_age min_hits t ht hact
    rw [if_pos hsplit.1] at hslot
    have hrun : tracker_run_from s (f :: rest) md cc thr mt max_age min_hits =
        tracker_run_from (object_tracker_f32 f s (fun _ => 0) md cc thr mt max_age min_hits).1
          rest md cc thr mt max_age min_hits := rfl
    have hlen : ((f :: rest).length : Int) = (rest.length : Int) + 1 := by
      rw [List.length_cons]; push_cast; rfl
    rw [hrun, hlen]
    by_cases hexp : (s.tracks t).age + 1 > max_age
    · rw [if_pos hexp] at hslot
      refine ⟨fun h => ?_, fun h => ?_⟩
      · omega
      · have hr : rest = [] := by
          apply List.eq_nil_of_length_eq_zero
          omega
        rw [hr]
        exact hslot
    · rw [if_neg hexp] at hslot
      have hact2 : ((object_tracker_f32 f s (fun _ => 0) md cc thr mt max_age min_hits).1.tracks
          t).active = true := by
        rw [hslot]
        exact hact
      have hage2 : ((object_tracker_f32 f s (fun _ => 0) md cc thr mt max_age min_hits).1.tracks
          t).age ≤ max_age := by
        rw [hslot]
        show (s.tracks t).age + ((1 : Nat) : Int) ≤ max_age
        push_cast
        omega
      obtain ⟨i1, i2⟩ := ih _ hact2 hage2 hsplit.2
      rw [hslot] at i1 i2
      have hag : (aged_track (s.tracks t) 1).age = (s.tracks t).age + 1 := by
        show (s.tracks t).age + ((1 : Nat) : Int) = _
        push_cast
        rfl
      rw [hag, aged_track_succ] at i1
      rw [hag] at i2
      exact ⟨fun h => i1 (by omega), fun h => i2 (by omega)⟩

/-- C24: age and expire. For an active track in a slot t < max_tracks, a lifecycle pass in
which the track is not matched leaves it active with age + 1 and the tracking confidence
multiplied by 0.9 when age + 1 ≤ max_age, and makes the slot inactive when
age + 1 > max_age; a matched track is not aged. Consequently, over steps of the tracker in
which the track (of age at most max_age, 0 for a track just matched) is never matched, it is
still active after k frames when age + k ≤ max_age, with age + k, and the slot is inactive
after the frame in which age + k = max_age + 1. -/
theorem age_and_expire (s : ObjectTrackerState) (md cc : Nat) (thr : ℚ) (mt : Nat)
    (max_age min_hits : Int) (tm : Nat → Bool) (t : Nat) (frames : List (Nat → ℚ))
    (ht : t < mt) (hact : (s.tracks t).active = true) (hage : (s.tracks t).age ≤ max_age)
    (hnever : never_matched md cc thr mt max_age min_hits t s frames = true) :
    (tm t = false → (s.tracks t).age + 1 ≤ max_age →
      (update_track_lifecycle s mt max_age tm).tracks t =
        { s.tracks t with age := (s.tracks t).age + 1
                          tracking_confidence := (s.tracks t).tracking_confidence * (9/10) }) ∧
    (tm t = false → (s.tracks t).age + 1 > max_age →
      ((update_track_lifecycle s mt max_age tm).tracks t).active = false) ∧
    (tm t = true → (update_track_lifecycle s mt max_age tm).tracks t = s.tracks t) ∧
    ((s.tracks t).age + (frames.length : Int) ≤ max_age →
      (tracker_run_from s frames md cc thr mt max_age min_hits).tracks t =
        { s.tracks t with
          age := (s.tracks t).age + (frames.length : Int)
          tracking_confidence := (s.tracks t).tracking_confidence * (9/10) ^ frames.length } ∧
      ((tracker_run_from s frames md cc thr mt max_age min_hits).tracks t).active = true) ∧
    ((s.tracks t).age + (frames.length : Int) = max_age + 1 →
      ((tracker_run_from s frames md cc thr mt max_age min_hits).tracks t).active = false) := by
  have hslot := update_track_lifecycle_slot s mt max_age tm t ht hact
  obtain ⟨r1, r2⟩ := never_matched_run md cc thr mt max_age min_hits t ht frames s hact hage hnever
  refine ⟨fun h1 h2 => ?_, fun h1 h2 => ?_, fun h1 => ?_, fun h => ?_, fun h => ?_⟩
  · rw [hslot, if_neg (by rw [h1]; decide), if_neg (by omega)]
    unfold aged_track TRACKING_CONFIDENCE_DECAY
    simp
  · rw [hslot, if_neg (by rw [h1]; decide), if_pos h2]
    rfl
  · rw [hslot, if_pos h1]
  · rw [r1 h]
    exact ⟨rfl, hact⟩
  · rw [r2 h]
    rfl

/-- Witness of C24: the track of slot 0 of seed scenario 1 after its match in frame 2 (age
0), followed by frames without detection with max_age = 2: after 2 frames it is active with
age 2, after 3 frames the slot is inactive. -/
theorem age_and_expire_witness :
    (seed1_step2.1.tracks 0).active = true ∧ (seed1_step2.1.tracks 0).age = 0 ∧
    never_matched 4 6 (3/10) 50 2 1 0 seed1_step2.1 [empty_frame, empty_frame] = true ∧
    ((tracker_run_from seed1_step2.1 [empty_frame, empty_frame] 4 6 (3/10) 50 2 1).tracks
      0).active = true ∧
    ((tracker_run_from seed1_step2.1 [empty_frame, empty_frame] 4 6 (3/10) 50 2 1).tracks
      0).age = 2 ∧
    ((tracker_run_from seed1_step2.1 [empty_frame, empty_frame, empty_frame] 4 6 (3/10) 50 2
      1).tracks 0).active = false :=
  ⟨by decide!, by decide!, by decide!,
    ((age_and_expire seed1_step2.1 4 6 (3/10) 50 2 1 (fun _ => false) 0
      [empty_frame, empty_frame] (by decide) (by decide!) (by decide!) (by decide!)).2.2.2.1
      (by decide!)).2,
    by decide!,
    (age_and_expire seed1_step2.1 4 6 (3/10) 50 2 1 (fun _ => false) 0
      [empty_frame, empty_frame, empty_frame] (by decide) (by decide!) (by decide!)
      (by decide!)).2.2.2.2 (by decide!)⟩

/-- Two loops that run in step keep a relation between their states that each pair of
iterations keeps. -/
theorem forLoop_rel {σ τ : Type} (R : σ → τ → Prop) (n : Nat) (f : Nat → σ → σ)
    (g : Nat → τ → τ) (a : σ) (b : τ) (h0 : R a b)
    (hstep : ∀ k, k < n → ∀ x y, R x y → R (f k x) (g k y)) :
    R (forLoop n f a) (forLoop n g b) := by
  induction n with
  | zero => exact h0
  | succ m ih =>
    rw [forLoop_succ, forLoop_succ]
    exact hstep m (Nat.lt_succ_self m) _ _ (ih (fun k hk => hstep k (Nat.lt_succ_of_lt hk)))

/-- A cell of column `c` that lies in row `cc` of the tensor is the cell (cc, c). -/
theorem row_of_cell {md cc r c : Nat} (hc : c < md) (h1 : cc * md ≤ r * md + c)
    (h2 : r * md + c < (cc + 1) * md) : r = cc := by
  by_contra hne
  rcases Nat.lt_or_gt_of_ne hne with hlt | hgt
  · have h := Nat.mul_le_mul_right md (Nat.succ_le_of_lt hlt)
    rw [Nat.succ_mul] at h
    omega
  · have h := Nat.mul_le_mul_right md (Nat.succ_le_of_lt hgt)
    rw [Nat.succ_mul] at h
    rw [Nat.add_mul, Nat.one_mul] at h2
    omega

/-- The byte of the f32 zero fill is the i8 fill. -/
theorem float_to_int8_zero : float_to_int8 0 = -128 := by decide!

/-- One emission of the i8 tracker writes the encoding of what the emission of the f32
tracker writes, and both advance the column count alike. -/
theorem emit_track_encoded (s : ObjectTrackerState) (md cc : Nat) (min_hits : Int) (t N : Nat)
    (o8 : Nat → Int) (of : Nat → ℚ) (c : Nat)
    (h : ∀ p, p < N → o8 p = encoded_cell md cc p (of p)) :
    (emit_track float_to_int8 (fun i => float_to_int8 ((i : ℚ) / (MAX_TRACK_ID : ℚ))) s md cc
      min_hits t (o8, c)).2 =
      (emit_track (fun v => v) (fun i => (i : ℚ)) s md cc min_hits t (of, c)).2 ∧
    ∀ p, p < N →
      (emit_track float_to_int8 (fun i => float_to_int8 ((i : ℚ) / (MAX_TRACK_ID : ℚ))) s md cc
        min_hits t (o8, c)).1 p =
      encoded_cell md cc p
        ((emit_track (fun v => v) (fun i => (i : ℚ)) s md cc min_hits t (of, c)).1 p) := by
  unfold emit_track
  by_cases hc : ¬ c < md
  · rw [if_pos hc, if_pos hc]
    exact ⟨rfl, h⟩
  · rw [if_neg hc, if_neg hc]
    have hcm : c < md := not_not.mp hc
    by_cases hskip : (!(s.tracks t).active || decide ((s.tracks t).hits < min_hits)) = true
    · rw [if_pos hskip, if_pos hskip]
      exact ⟨rfl, h⟩
    · rw [if_neg hskip, if_neg hskip]
      refine ⟨rfl, ?_⟩
      have W : ∀ (a : Nat → Int) (b : Nat → ℚ),
          (∀ p, p < N → p ≠ cc * md + c → a p = encoded_cell md cc p (b p)) →
          ∀ (r : Nat) (v : ℚ), ∀ p, p < N → p ≠ cc * md + c →
            setAt a (r * md + c) (float_to_int8 v) p =
              encoded_cell md cc p (setAt b (r * md + c) v p) := by
        intro a b hab r v p hp hne
        by_cases hpj : p = r * md + c
        · rw [hpj, setAt_same, setAt_same]
          unfold encoded_cell
          rw [if_neg]
          rintro ⟨g1, g2⟩
          have := row_of_cell hcm g1 g2
          rw [this] at hpj
          exact hne hpj
        · rw [setAt_ne _ _ hpj, setAt_ne _ _ hpj]
          exact hab p hp hne
      have s0 := W o8 of (fun p hp _ => h p hp) 0 (s.tracks t).x
      have s1 := W _ _ s0 1 (s.tracks t).y
      have s2 := W _ _ s1 2 (s.tracks t).w
      have s3 := W _ _ s2 3 (s.tracks t).h
      have s4 := forLoop_rel
        (fun (a : Nat → Int) (b : Nat → ℚ) =>
          ∀ p, p < N → p ≠ cc * md + c → a p = encoded_cell md cc p (b p))
        (cc - 4)
        (fun k o => setAt o ((k + 4) * md + c)
          (float_to_int8
            (if ((k + 4 : Nat) : Int) - 4 = (s.tracks t).class_id then (s.tracks t).confidence
              else 0)))
        (fun k o => setAt o ((k + 4) * md + c)
          (if ((k + 4 : Nat) : Int) - 4 = (s.tracks t).class_id then (s.tracks t).confidence
            else 0))
        _ _ s3 (fun k _ x y hxy => W x y hxy (k + 4) _)
      intro p hp
      dsimp only
      by_cases hp6 : p = (cc + 1) * md + c
      · rw [hp6, setAt_same, setAt_same]
        unfold encoded_cell
        rw [if_neg]
        rintro ⟨_, g2⟩
        omega
      · rw [setAt_ne _ _ hp6, setAt_ne _ _ hp6]
        by_cases hp5 : p = cc * md + c
        · rw [hp5, setAt_same, setAt_same]
          unfold encoded_cell MAX_TRACK_ID
          rw [if_pos]
          · push_cast
            rfl
          · rw [Nat.add_mul, Nat.one_mul]
            omega
        · rw [setAt_ne _ _ hp5, setAt_ne _ _ hp5]
          exact s4 p hp hp5

/-- The i8 emission loop writes the encoding of what the f32 emission loop writes. -/
theorem emit_tracks_encoded (s : ObjectTrackerState) (out8 : Nat → Int) (outf : Nat → ℚ)
    (md cc mt : Nat) (min_hits : Int) (p : Nat) (hp : p < md * (cc + 2)) :
    (emit_tracks float_to_int8 (fun i => float_to_int8 ((i : ℚ) / (MAX_TRACK_ID : ℚ))) (-128) s
      out8 md cc mt min_hits).1 p =
    encoded_cell md cc p
      ((emit_tracks (fun v => v) (fun i => (i : ℚ)) 0 s outf md cc mt min_hits).1 p) := by
  unfold emit_tracks
  have hrel := forLoop_rel
    (fun (a : (Nat → Int) × Nat) (b : (Nat → ℚ) × Nat) =>
      a.2 = b.2 ∧ ∀ q, q < md * (cc + 2) → a.1 q = encoded_cell md cc q (b.1 q))
    mt
    (emit_track float_to_int8 (fun i => float_to_int8 ((i : ℚ) / (MAX_TRACK_ID : ℚ))) s md cc
      min_hits)
    (emit_track (fun v => v) (fun i => (i : ℚ)) s md cc min_hits)
    (forLoop (md * (cc + 2)) (fun i o => setAt o i (-128)) out8, 0)
    (forLoop (md * (cc + 2)) (fun i o => setAt o i 0) outf, 0)
    ⟨rfl, fun q hq => by
      show forLoop (md * (cc + 2)) (fun i o => setAt o i (-128)) out8 q =
        encoded_cell md cc q (forLoop (md * (cc + 2)) (fun i o => setAt o i 0) outf q)
      rw [fill_loop _ _ _ _ hq, fill_loop _ _ _ _ hq]
      unfold encoded_cell
      split
      · rw [zero_div, float_to_int8_zero]
      · rw [float_to_int8_zero]⟩
    (fun k _ x y hxy => by
      obtain ⟨x1, x2⟩ := x
      obtain ⟨y1, y2⟩ := y
      obtain ⟨h1, h2⟩ := hxy
      dsimp only at h1 h2
      subst h1
      exact emit_track_encoded s md cc min_hits k (md * (cc + 2)) x1 y1 x2 h2)
  exact hrel.2 p hp

/-- C21: the quantized tracker refines the float tracker through the codec. For every i8
detection tensor, tracker state and parameters, `object_tracker_i8` leaves the state that
`object_tracker_f32` leaves on the tensor decoded cell by cell by (b + 128) / 255, and every
cell of its output (the max_detections * (confidence_count + 2) cells of the tensor) is the
`float_to_int8` encoding of the same cell of the f32 output, the cells of the track-id row
being divided by 127 first; the f32 fill 0 corresponds to the byte -128. -/
theorem quantized_tracker_refines (det8 : Nat → Int) (s : ObjectTrackerState)
    (out8 : Nat → Int) (outf : Nat → ℚ) (md cc : Nat) (thr : ℚ) (mt : Nat)
    (max_age min_hits : Int) (p : Nat) :
    (object_tracker_i8 det8 s out8 md cc thr mt max_age min_hits).1 =
      (object_tracker_f32 (decoded_tensor det8) s outf md cc thr mt max_age min_hits).1 ∧
    (p < md * (cc + 2) →
      (object_tracker_i8 det8 s out8 md cc thr mt max_age min_hits).2 p =
        encoded_output
          (object_tracker_f32 (decoded_tensor det8) s outf md cc thr mt max_age min_hits).2
          md cc p) ∧
    float_to_int8 0 = -128 := by
  refine ⟨rfl, fun hp => ?_, float_to_int8_zero⟩
  exact emit_tracks_encoded _ out8 outf md cc mt min_hits p hp

/-- Witness of C21 on the quantized first frame of seed scenario 1: the i8 step creates the
track with id 1 in slot 0, and writes the byte 0 for its x (0.5 decoded from byte 0 is
128/255) and the byte -125 for its track id (1/127 * 255 - 128 truncated). -/
theorem quantized_tracker_refines_witness :
    ((object_tracker_i8 seed1_frame1_i8 (object_tracker_init_i8 zero_tracker_state)
      (fun _ => 0) 4 6 (3/10) 50 5 1).1.tracks 0).track_id = 1 ∧
    (object_tracker_i8 seed1_frame1_i8 (object_tracker_init_i8 zero_tracker_state)
      (fun _ => 0) 4 6 (3/10) 50 5 1).2 0 = 0 ∧
    (object_tracker_i8 seed1_frame1_i8 (object_tracker_init_i8 zero_tracker_state)
      (fun _ => 0) 4 6 (3/10) 50 5 1).2 24 = -125 ∧
    (object_tracker_i8 seed1_frame1_i8 (object_tracker_init_i8 zero_tracker_state)
      (fun _ => 0) 4 6 (3/10) 50 5 1).2 24 =
      encoded_output
        (object_tracker_f32 (decoded_tensor seed1_frame1_i8)
          (object_tracker_init_i8 zero_tracker_state) (fun _ => 0) 4 6 (3/10) 50 5 1).2
        4 6 24 :=
  ⟨by decide!, by decide!, by decide!,
    (quantized_tracker_refines seed1_frame1_i8 (object_tracker_init_i8 zero_tracker_state)
      (fun _ => 0) (fun _ => 0) 4 6 (3/10) 50 5 1 24).2.1 (by decide)⟩

/-- `draw_thick_line` never divides by 0, whatever `sqrtf` returns: a length below 0.001,
0 included, is drawn as a thick point before the division. -/
theorem draw_thick_line_guarded (sqrtf : ℚ → ℚ) (x1 y1 x2 y2 thickness : Int) :
    (draw_thick_line sqrtf x1 y1 x2 y2 thickness).isSome = true := by
  unfold draw_thick_line
  by_cases ht : thickness ≤ 1
  · rw [if_pos ht]
    rfl
  · rw [if_neg ht]
    dsimp only
    by_cases hl : sqrtf (((x2 - x1) * (x2 - x1) + (y2 - y1) * (y2 - y1) : Int) : ℚ) < 1 / 1000
    · rw [if_pos hl]
      rfl
    · rw [if_neg hl]
      have hne : sqrtf (((x2 - x1) * (x2 - x1) + (y2 - y1) * (y2 - y1) : Int) : ℚ) ≠ 0 := by
        intro h0
        rw [h0] at hl
        exact hl (by norm_num)
      unfold float_div
      rw [if_neg hne, if_neg hne]
      rfl

/-- `draw_thick_line` on a segment of length 0 with thickness above 1 draws a thick point,
without dividing. -/
theorem draw_thick_line_zero_length (sqrtf : ℚ → ℚ) (x y thickness : Int)
    (h0 : sqrtf 0 = 0) (ht : 1 < thickness) :
    draw_thick_line sqrtf x y x y thickness =
      some (ThickLine.point
        ((List.range thickness.toNat).flatMap (fun i =>
          (List.range thickness.toNat).map (fun j =>
            (x + Int.tdiv (-thickness) 2 + (i : Int), y + Int.tdiv (-thickness) 2 + (j : Int)))))) := by
  unfold draw_thick_line
  rw [if_neg (by omega)]
  dsimp only
  have hz : (((x - x) * (x - x) + (y - y) * (y - y) : Int) : ℚ) = 0 := by
    simp
  rw [hz, h0, if_pos (by norm_num)]

/-- `draw_unit_thick_line` on a segment of length 0 with thickness above 1 divides by 0. -/
theorem draw_unit_thick_line_zero_length (sqrtf : ℚ → ℚ) (x y thickness : Int)
    (h0 : sqrtf 0 = 0) (ht : 1 < thickness) :
    draw_unit_thick_line sqrtf x y x y thickness = none := by
  unfold draw_unit_thick_line
  rw [if_neg (by omega)]
  dsimp only
  have hz : (((x - x) * (x - x) + (y - y) * (y - y) : Int) : ℚ) = 0 := by
    simp
  rw [hz, h0]
  unfold float_div
  rw [if_pos rfl]

/-- C22, the thick-line division is guarded in `draw_thick_line` of display_object_tracker
but not in `draw_unit_thick_line` of draw_line: with `sqrtf 0 = 0`, for every thickness
above 1 and every point (x, y), `draw_thick_line` draws the zero-length segment from (x, y)
to (x, y) as a thick point without dividing, and `draw_unit_thick_line` divides by the
length 0. For every input `draw_thick_line` divides only by a length of at least 0.001. -/
theorem thick_line_zero_length (sqrtf : ℚ → ℚ) (x y x1 y1 x2 y2 thickness t2 : Int)
    (h0 : sqrtf 0 = 0) (ht : 1 < thickness) :
    draw_unit_thick_line sqrtf x y x y thickness = none ∧
    (∃ pixels, draw_thick_line sqrtf x y x y thickness = some (ThickLine.point pixels)) ∧
    (draw_thick_line sqrtf x1 y1 x2 y2 t2).isSome = true :=
  ⟨draw_unit_thick_line_zero_length sqrtf x y thickness h0 ht,
    ⟨_, draw_thick_line_zero_length sqrtf x y thickness h0 ht⟩,
    draw_thick_line_guarded sqrtf x1 y1 x2 y2 t2⟩

/-- Witness of C22: the segment from (5, 5) to (5, 5) with thickness 2. -/
theorem thick_line_zero_length_witness :
    sqrtf_floor 0 = 0 ∧
    draw_unit_thick_line sqrtf_floor 5 5 5 5 2 = none ∧
    draw_thick_line sqrtf_floor 5 5 5 5 2 =
      some (ThickLine.point [(4, 4), (4, 5), (5, 4), (5, 5)]) ∧
    draw_unit_thick_line sqrtf_floor 0 0 3 4 2 =
      some (ThickLine.segments [⟨0, 0, 3, 4⟩, ⟨0, 0, 3, 4⟩, ⟨0, 0, 3, 4⟩]) :=
  ⟨by decide!,
    (thick_line_zero_length sqrtf_floor 5 5 0 0 3 4 2 2 (by decide!) (by decide)).1,
    by decide!, by decide!⟩

/-- The region state that `odc_detect_crossing` leaves on a tracker with two points or more. -/
theorem odc_detect_crossing_state (tr : ObjectTracker) (region : CountingRegion)
    (hc : 2 ≤ tr.history_count) :
    (odc_detect_crossing tr region).2.region_state =
      if odc_point_in_rectangle (tr.x_history (tr.history_count - 2).toNat)
            (tr.y_history (tr.history_count - 2).toNat) region = true ∧
          odc_point_in_rectangle (tr.x_history (tr.history_count - 1).toNat)
            (tr.y_history (tr.history_count - 1).toNat) region = false then
        REGION_STATE_OUTSIDE
      else if odc_point_in_rectangle (tr.x_history (tr.history_count - 2).toNat)
            (tr.y_history (tr.history_count - 2).toNat) region = false ∧
          odc_point_in_rectangle (tr.x_history (tr.history_count - 1).toNat)
            (tr.y_history (tr.history_count - 1).toNat) region = true then
        odc_get_entry_side (tr.x_history (tr.history_count - 2).toNat)
          (tr.y_history (tr.history_count - 2).toNat) region
      else tr.region_state := by
  cases hp : odc_point_in_rectangle (tr.x_history (tr.history_count - 2).toNat)
      (tr.y_history (tr.history_count - 2).toNat) region <;>
    cases hq : odc_point_in_rectangle (tr.x_history (tr.history_count - 1).toNat)
      (tr.y_history (tr.history_count - 1).toNat) region
  · unfold odc_detect_crossing
    rw [if_neg (by omega)]
    dsimp only
    rw [hp, hq]
    rfl
  · rw [(odc_detect_crossing_enter tr region _ _ _ _ hc rfl rfl rfl rfl hp hq).2]
    simp
  · rw [(odc_detect_crossing_exit tr region _ _ _ _ hc rfl rfl rfl rfl hp hq).2]
    simp
  · unfold odc_detect_crossing
    rw [if_neg (by omega)]
    dsimp only
    rw [hp, hq]
    rfl

/-- Pushing a point on a tracker that satisfies the invariant and detecting the crossing:
the tracker satisfies the invariant afterwards, its region state is kept, or was OUTSIDE,
or becomes OUTSIDE, and the branch of `odc_detect_crossing` that records an entry side is
taken only when the region state is OUTSIDE. -/
theorem push_point_settled (region : CountingRegion) (st : ObjectDetectionCounterState)
    (T : ObjectTracker) (x y : ℚ) (hT : slot_settled region T) :
    slot_settled region (odc_detect_crossing (odc_add_position st T x y) region).2 ∧
    transition_ok T.region_state
      (odc_detect_crossing (odc_add_position st T x y) region).2.region_state ∧
    (2 ≤ (odc_add_position st T x y).history_count →
      odc_point_in_rectangle
        ((odc_add_position st T x y).x_history
          ((odc_add_position st T x y).history_count - 2).toNat)
        ((odc_add_position st T x y).y_history
          ((odc_add_position st T x y).history_count - 2).toNat) region = false →
      (odc_add_position st T x y).region_state = REGION_STATE_OUTSIDE) ∧
    (T.history_count = 0 →
      (odc_detect_crossing (odc_add_position st T x y) region).2.region_state =
        T.region_state) := by
  obtain ⟨h0, h10, hin⟩ := hT
  have hf := odc_add_position_fields st T x y
  have hd := odc_detect_crossing_fields (odc_add_position st T x y) region
  by_cases hz : T.history_count = 0
  · have hfirst := odc_add_position_first st T x y hz
    have hshort := odc_detect_crossing_short (odc_add_position st T x y) region
      (by rw [hfirst.1]; decide)
    have hout : T.region_state = REGION_STATE_OUTSIDE := by
      by_contra hne
      have := (hin hne).1
      omega
    rw [hshort]
    refine ⟨⟨by rw [hfirst.1]; decide, by rw [hfirst.1]; decide, fun hne => ?_⟩, ?_, fun h2 => ?_,
      fun _ => hf.2.2.1⟩
    · rw [hf.2.2.1] at hne
      exact absurd hout hne
    · exact Or.inl hf.2.2.1
    · rw [hfirst.1] at h2
      exact absurd h2 (by decide)
  · have h1 : 1 ≤ T.history_count := by omega
    obtain ⟨a1, a2, a3, a4, a5, a6⟩ := odc_add_position_last st T x y h1 h10
    have hstate := odc_detect_crossing_state (odc_add_position st T x y) region a1
    rw [a3, a4, a5, a6] at hstate
    have hprev : T.region_state ≠ REGION_STATE_OUTSIDE →
        odc_point_in_rectangle (T.x_history (T.history_count - 1).toNat)
          (T.y_history (T.history_count - 1).toNat) region = true := fun hne => (hin hne).2
    refine ⟨⟨by rw [hd.2.2.2.1]; omega, by rw [hd.2.2.2.1]; exact a2, fun hne => ?_⟩, ?_,
      fun _ hpo => ?_, fun h => absurd h hz⟩
    · rw [hd.2.2.2.1, hd.2.2.2.2.1, hd.2.2.2.2.2, a3, a4]
      refine ⟨by omega, ?_⟩
      rw [hstate] at hne
      by_cases c1 : odc_point_in_rectangle (T.x_history (T.history_count - 1).toNat)
            (T.y_history (T.history_count - 1).toNat) region = true ∧
          odc_point_in_rectangle x y region = false
      · rw [if_pos c1] at hne
        exact absurd rfl hne
      · rw [if_neg c1] at hne
        by_cases c2 : odc_point_in_rectangle (T.x_history (T.history_count - 1).toNat)
              (T.y_history (T.history_count - 1).toNat) region = false ∧
            odc_point_in_rectangle x y region = true
        · exact c2.2
        · rw [if_neg c2, hf.2.2.1] at hne
          have hp := hprev hne
          by_contra hq
          exact c1 ⟨hp, by simpa using hq⟩
    · rw [hstate]
      by_cases c1 : odc_point_in_rectangle (T.x_history (T.history_count - 1).toNat)
            (T.y_history (T.history_count - 1).toNat) region = true ∧
          odc_point_in_rectangle x y region = false
      · rw [if_pos c1]
        exact Or.inr (Or.inr rfl)
      · rw [if_neg c1]
        by_cases c2 : odc_point_in_rectangle (T.x_history (T.history_count - 1).toNat)
              (T.y_history (T.history_count - 1).toNat) region = false ∧
            odc_point_in_rectangle x y region = true
        · rw [if_pos c2]
          right; left
          by_contra hne
          have := hprev hne
          rw [c2.1] at this
          exact absurd this (by decide)
        · rw [if_neg c2]
          exact Or.inl hf.2.2.1
    · rw [a5, a6] at hpo
      rw [hf.2.2.1]
      by_contra hne
      have := hprev hne
      rw [hpo] at this
      exact absurd this (by decide)

/-- A counter step is its start, its detection loop over all columns and its end. -/
theorem region_step_eq (x1 y1 x2 y2 : ℚ) (dir : Int) (s : ObjectDetectionCounterState)
    (c : RegionCall) :
    region_step x1 y1 x2 y2 dir s c =
      (odc_finish (step_columns x1 y1 x2 y2 dir s c c.max_detections)).state := by
  obtain ⟨q, det, det8, md, cc, rh, now, lt⟩ := c
  cases q <;> rfl

/-- A tracker with the points and the region state of a tracker that satisfies the
invariant satisfies it. -/
theorem slot_settled_of_same (region : CountingRegion) (T T2 : ObjectTracker)
    (h : same_track T T2) (hT : slot_settled region T) : slot_settled region T2 := by
  obtain ⟨e1, e2, e3, e4⟩ := h
  unfold slot_settled
  rw [e1, e2, e3, e4]
  exact hT

/-- The reset supervisor changes neither the points nor the region state of a tracker. -/
theorem odc_daily_reset_same (s : ObjectDetectionCounterState) (rh now : Int)
    (lt : Option Int) (k : Nat) :
    same_track (s.tracked_objects k) ((odc_daily_reset s rh now lt).tracked_objects k) := by
  unfold odc_daily_reset
  split
  · exact ⟨rfl, rfl, rfl, rfl⟩
  · cases lt with
    | none => exact ⟨rfl, rfl, rfl, rfl⟩
    | some h =>
      dsimp only
      split
      · have hl := forLoop_setAt_self MAX_TRACKED_OBJECTS
          (fun _ (T : ObjectTracker) => { T with is_active := false }) s.tracked_objects k
        have hsame : same_track (s.tracked_objects k)
            (if k < MAX_TRACKED_OBJECTS then { s.tracked_objects k with is_active := false }
              else s.tracked_objects k) := by
          split <;> exact ⟨rfl, rfl, rfl, rfl⟩
        exact (congrArg (same_track (s.tracked_objects k)) hl).mpr hsame
      · exact ⟨rfl, rfl, rfl, rfl⟩

/-- The start of a counter step changes neither the points nor the region state of a
tracker. -/
theorem step_start_same (s : ObjectDetectionCounterState) (c : RegionCall) (k : Nat) :
    same_track (s.tracked_objects k) ((step_start s c).tracked_objects k) := by
  unfold step_start odc_check_daily_reset_i8 odc_check_daily_reset
  split
  · dsimp only
    split
    · exact ⟨rfl, rfl, rfl, rfl⟩
    · exact odc_daily_reset_same s _ _ _ k
  · dsimp only
    split
    · exact ⟨rfl, rfl, rfl, rfl⟩
    · exact odc_daily_reset_same s _ _ _ k

/-- The end of a counter step changes neither the points nor the region state of a
tracker. -/
theorem odc_finish_same (s : ObjectDetectionCounterState) (k : Nat) :
    same_track (s.tracked_objects k) ((odc_finish s).state.tracked_objects k) := by
  unfold odc_finish
  dsimp only
  split
  · rw [odc_cleanup_trackers_slot]
    split <;> exact ⟨rfl, rfl, rfl, rfl⟩
  · exact ⟨rfl, rfl, rfl, rfl⟩

/-- The tracker that `odc_get_tracker` returns is in a slot below 200 and is the tracker
that was in that slot, or a fresh one; the other slots are as before. -/
theorem odc_get_tracker_slot (s found : ObjectDetectionCounterState) (id : Int) (j : Nat)
    (h : odc_get_tracker s id = (found, some j)) :
    j < MAX_TRACKED_OBJECTS ∧
    (found.tracked_objects j = s.tracked_objects j ∨
      found.tracked_objects j = { zeroed_tracker with track_id := id, is_active := true }) ∧
    ∀ k, k ≠ j → found.tracked_objects k = s.tracked_objects k := by
  unfold odc_get_tracker at h
  cases hf : odc_find_tracker s id with
  | some e =>
    rw [hf] at h
    simp only [Prod.mk.injEq, Option.some.injEq] at h
    obtain ⟨h1, h2⟩ := h
    subst h1
    subst h2
    exact ⟨((odc_find_tracker_some s id e).mp hf).1, Or.inl rfl, fun _ _ => rfl⟩
  | none =>
    rw [hf] at h
    cases hs : (List.range MAX_TRACKED_OBJECTS).find?
        (fun i => !(s.tracked_objects i).is_active) with
    | none =>
      rw [hs] at h
      simp at h
    | some e =>
      rw [hs] at h
      simp only [Prod.mk.injEq, Option.some.injEq] at h
      obtain ⟨h1, h2⟩ := h
      subst h1
      subst h2
      refine ⟨List.mem_range.mp (List.mem_of_find?_eq_some hs), Or.inr ?_, fun k hk => ?_⟩
      · simp only [setAt_same]
      · simp only [setAt_ne _ _ hk]

/-- The processing of one column leaves the table as it is, or replaces one tracker by what
pushing the point on it and detecting the crossing gives. -/
theorem odc_count_detection_cases (region : CountingRegion) (x y w h : ℚ) (id : Int)
    (s : ObjectDetectionCounterState) :
    (odc_count_detection region x y w h id s).tracked_objects = s.tracked_objects ∨
    ∃ found j, odc_get_tracker s id = (found, some j) ∧
      (odc_count_detection region x y w h id s).tracked_objects =
        setAt found.tracked_objects j
          (odc_detect_crossing (odc_add_position found (found.tracked_objects j) x y) region).2 := by
  unfold odc_count_detection
  split
  · exact Or.inl rfl
  · split
    · exact Or.inl rfl
    · rcases hg : odc_get_tracker s id with ⟨found, _ | j⟩
      · exact Or.inl rfl
      · refine Or.inr ⟨found, j, rfl, ?_⟩
        dsimp only
        split
        · rfl
        · split <;> rfl

/-- The processing of one column keeps the invariant of the trackers, and changes the
region state of no tracker from a state other than OUTSIDE to another state other than
OUTSIDE. -/
theorem odc_count_detection_settled (region : CountingRegion) (x y w h : ℚ) (id : Int)
    (s : ObjectDetectionCounterState)
    (hs : ∀ k, k < MAX_TRACKED_OBJECTS → slot_settled region (s.tracked_objects k)) :
    (∀ k, k < MAX_TRACKED_OBJECTS →
      slot_settled region ((odc_count_detection region x y w h id s).tracked_objects k)) ∧
    ∀ k, transition_ok (s.tracked_objects k).region_state
      ((odc_count_detection region x y w h id s).tracked_objects k).region_state := by
  rcases odc_count_detection_cases region x y w h id s with heq | ⟨found, j, hg, heq⟩
  · rw [heq]
    exact ⟨hs, fun k => Or.inl rfl⟩
  · obtain ⟨hj, hslot, hother⟩ := odc_get_tracker_slot s found id j hg
    rw [heq]
    have hT : slot_settled region (found.tracked_objects j) := by
      rcases hslot with e | e
      · rw [e]; exact hs j hj
      · rw [e]
        exact ⟨le_refl (0 : Int), (by decide : (0 : Int) ≤ 10), fun hne => absurd rfl hne⟩
    obtain ⟨p1, p2, _, p4⟩ := push_point_settled region found (found.tracked_objects j) x y hT
    refine ⟨fun k hk => ?_, fun k => ?_⟩
    · by_cases hkj : k = j
      · rw [hkj, setAt_same]
        exact p1
      · rw [setAt_ne _ _ hkj, hother k hkj]
        exact hs k hk
    · by_cases hkj : k = j
      · rw [hkj, setAt_same]
        rcases hslot with e | e
        · rw [← e]
          exact p2
        · right; right
          rw [p4 (by rw [e]; rfl), e]
          rfl
      · rw [setAt_ne _ _ hkj, hother k hkj]
        exact Or.inl rfl

/-- Every state of the detection loop of a step from a state that satisfies the invariant
of the trackers satisfies it. -/
theorem step_columns_settled (x1 y1 x2 y2 : ℚ) (dir : Int) (s : ObjectDetectionCounterState)
    (c : RegionCall) (n : Nat)
    (hs : ∀ k, k < MAX_TRACKED_OBJECTS →
      slot_settled (odc_init_region x1 y1 x2 y2 dir) (s.tracked_objects k)) :
    ∀ k, k < MAX_TRACKED_OBJECTS →
      slot_settled (odc_init_region x1 y1 x2 y2 dir)
        ((step_columns x1 y1 x2 y2 dir s c n).tracked_objects k) := by
  unfold step_columns
  refine forLoop_inv
    (fun _ (st : ObjectDetectionCounterState) => ∀ k, k < MAX_TRACKED_OBJECTS →
      slot_settled (odc_init_region x1 y1 x2 y2 dir) (st.tracked_objects k))
    n _ _ (fun k hk => slot_settled_of_same _ _ _ (step_start_same s c k) (hs k hk)) ?_
  intro i _ st hst
  unfold step_column
  split
  · exact (odc_count_detection_settled _ _ _ _ _ _ st hst).1
  · exact (odc_count_detection_settled _ _ _ _ _ _ st hst).1

/-- Every state of a run of counter steps on one region satisfies the invariant of the
trackers. -/
theorem region_run_settled (x1 y1 x2 y2 : ℚ) (dir : Int) (s0 : ObjectDetectionCounterState)
    (calls : List RegionCall) :
    ∀ k, k < MAX_TRACKED_OBJECTS →
      slot_settled (odc_init_region x1 y1 x2 y2 dir)
        ((region_run x1 y1 x2 y2 dir s0 calls).tracked_objects k) := by
  unfold region_run
  have hgen : ∀ (cs : List RegionCall) (s : ObjectDetectionCounterState),
      (∀ k, k < MAX_TRACKED_OBJECTS →
        slot_settled (odc_init_region x1 y1 x2 y2 dir) (s.tracked_objects k)) →
      ∀ k, k < MAX_TRACKED_OBJECTS →
        slot_settled (odc_init_region x1 y1 x2 y2 dir)
          ((cs.foldl (region_step x1 y1 x2 y2 dir) s).tracked_objects k) := by
    intro cs
    induction cs with
    | nil => exact fun s hs => hs
    | cons c rest ih =>
      intro s hs
      apply ih
      intro k hk
      rw [region_step_eq]
      exact slot_settled_of_same _ _ _ (odc_finish_same _ k)
        (step_columns_settled x1 y1 x2 y2 dir s c c.max_detections hs k hk)
  apply hgen
  intro k hk
  rw [object_detection_counter_init_f32_slot s0 k hk]
  exact ⟨le_refl (0 : Int), (by decide : (0 : Int) ≤ 10), fun hne => absurd rfl hne⟩

/-- The tracker that `odc_get_tracker` returns from a state that satisfies the invariant of
the trackers satisfies it. -/
theorem odc_get_tracker_settled (region : CountingRegion) (s found : ObjectDetectionCounterState)
    (id : Int) (j : Nat)
    (hs : ∀ k, k < MAX_TRACKED_OBJECTS → slot_settled region (s.tracked_objects k))
    (h : odc_get_tracker s id = (found, some j)) :
    slot_settled region (found.tracked_objects j) := by
  obtain ⟨hj, hslot, _⟩ := odc_get_tracker_slot s found id j h
  rcases hslot with e | e
  · rw [e]; exact hs j hj
  · rw [e]
    exact ⟨le_refl (0 : Int), (by decide : (0 : Int) ≤ 10), fun hne => absurd rfl hne⟩

/-- C30: region-state transition invariant. Let S be the state after any sequence of counter
steps (f32 or i8, any tensors, reset hours and clock readings) from the init state, all on
the region (x1, y1, x2, y2) with in_direction. In a further step on that region, the region
state of tracker slot k is not changed by the start of the step (reset supervisor, frame
counter) nor by its end (cleanup); each column of the detection loop keeps it, or finds it
OUTSIDE, or leaves it OUTSIDE, so it never goes from one ENTERED_FROM value to another; and
whenever a column takes the entering branch of `odc_detect_crossing` (two points, the
previous one outside the region), which is the only assignment of an ENTERED_FROM value,
the region state of the tracker is OUTSIDE. -/
theorem region_state_never_jumps (x1 y1 x2 y2 : ℚ) (dir : Int)
    (s0 : ObjectDetectionCounterState) (calls : List RegionCall) (c : RegionCall) (n k : Nat)
    (x y : ℚ) (id : Int) (j : Nat) :
    ((step_columns x1 y1 x2 y2 dir (region_run x1 y1 x2 y2 dir s0 calls) c 0).tracked_objects
        k).region_state =
      ((region_run x1 y1 x2 y2 dir s0 calls).tracked_objects k).region_state ∧
    transition_ok
      ((step_columns x1 y1 x2 y2 dir (region_run x1 y1 x2 y2 dir s0 calls) c n).tracked_objects
        k).region_state
      ((step_columns x1 y1 x2 y2 dir (region_run x1 y1 x2 y2 dir s0 calls) c
        (n + 1)).tracked_objects k).region_state ∧
    ((region_step x1 y1 x2 y2 dir (region_run x1 y1 x2 y2 dir s0 calls) c).tracked_objects
        k).region_state =
      ((step_columns x1 y1 x2 y2 dir (region_run x1 y1 x2 y2 dir s0 calls) c
        c.max_detections).tracked_objects k).region_state ∧
    ((odc_get_tracker (step_columns x1 y1 x2 y2 dir (region_run x1 y1 x2 y2 dir s0 calls) c n)
        id).2 = some j →
      2 ≤ (pushed_tracker
        (step_columns x1 y1 x2 y2 dir (region_run x1 y1 x2 y2 dir s0 calls) c n)
        id j x y).history_count →
      odc_point_in_rectangle
        ((pushed_tracker
          (step_columns x1 y1 x2 y2 dir (region_run x1 y1 x2 y2 dir s0 calls) c n)
          id j x y).x_history
          ((pushed_tracker
            (step_columns x1 y1 x2 y2 dir (region_run x1 y1 x2 y2 dir s0 calls) c n)
            id j x y).history_count - 2).toNat)
        ((pushed_tracker
          (step_columns x1 y1 x2 y2 dir (region_run x1 y1 x2 y2 dir s0 calls) c n)
          id j x y).y_history
          ((pushed_tracker
            (step_columns x1 y1 x2 y2 dir (region_run x1 y1 x2 y2 dir s0 calls) c n)
            id j x y).history_count - 2).toNat)
        (odc_init_region x1 y1 x2 y2 dir) = false →
      (pushed_tracker
        (step_columns x1 y1 x2 y2 dir (region_run x1 y1 x2 y2 dir s0 calls) c n)
        id j x y).region_state = REGION_STATE_OUTSIDE) := by
  have hS := region_run_settled x1 y1 x2 y2 dir s0 calls
  have hcol := step_columns_settled x1 y1 x2 y2 dir (region_run x1 y1 x2 y2 dir s0 calls) c n hS
  refine ⟨(step_start_same _ c k).2.2.2, ?_, ?_, fun hg h2 hpo => ?_⟩
  · have hsucc : step_columns x1 y1 x2 y2 dir (region_run x1 y1 x2 y2 dir s0 calls) c (n + 1) =
        step_column (odc_init_region x1 y1 x2 y2 dir) c n
          (step_columns x1 y1 x2 y2 dir (region_run x1 y1 x2 y2 dir s0 calls) c n) := rfl
    rw [hsucc]
    unfold step_column
    split
    · exact (odc_count_detection_settled _ _ _ _ _ _ _ hcol).2 k
    · exact (odc_count_detection_settled _ _ _ _ _ _ _ hcol).2 k
  · rw [region_step_eq]
    exact (odc_finish_same _ k).2.2.2
  · have hT := odc_get_tracker_settled _ _ _ id j hcol (Prod.ext rfl hg)
    exact (push_point_settled _ _ _ x y hT).2.2.1 h2 hpo

/-- Witness of C30 on the region (0.4, 0.3, 0.6, 0.7): after a step that reports track 1 at
(0.3, 0.5), outside, a step reports it at (0.5, 0.5), inside. The column takes the entering
branch with the region state OUTSIDE (slot 0), and leaves it ENTERED_FROM_LEFT. -/
theorem region_state_never_jumps_witness :
    (pushed_tracker
      (step_columns (2/5) (3/10) (3/5) (7/10) 0
        (region_run (2/5) (3/10) (3/5) (7/10) 0 zero_counter_state
          [seed_region_call (3/10) (1/2)])
        (seed_region_call (1/2) (1/2)) 0)
      1 0 (1/2) (1/2)).region_state = REGION_STATE_OUTSIDE ∧
    ((step_columns (2/5) (3/10) (3/5) (7/10) 0
      (region_run (2/5) (3/10) (3/5) (7/10) 0 zero_counter_state
        [seed_region_call (3/10) (1/2)])
      (seed_region_call (1/2) (1/2)) 1).tracked_objects 0).region_state =
      REGION_STATE_ENTERED_FROM_LEFT :=
  ⟨(region_state_never_jumps (2/5) (3/10) (3/5) (7/10) 0 zero_counter_state
      [seed_region_call (3/10) (1/2)] (seed_region_call (1/2) (1/2)) 0 0 (1/2) (1/2) 1 0).2.2.2
      (by decide!) (by decide!) (by decide!),
    by decide!⟩

/-- `odc_add_position` on a tracker with fewer than 10 points. -/
theorem odc_add_position_append (s : ObjectDetectionCounterState) (T : ObjectTracker) (x y : ℚ)
    (h : T.history_count < 10) :
    (odc_add_position s T x y).history_count = T.history_count + 1 ∧
    (odc_add_position s T x y).x_history = setAt T.x_history T.history_count.toNat x ∧
    (odc_add_position s T x y).y_history = setAt T.y_history T.history_count.toNat y := by
  unfold odc_add_position POSITION_HISTORY_SIZE
  dsimp only
  rw [if_pos (by exact_mod_cast h)]
  exact ⟨rfl, rfl, rfl⟩

/-- `odc_add_position` on a tracker with 10 points (or more): the entries 1..9 move to
0..8 and the point is stored at index 9. -/
theorem odc_add_position_shift (s : ObjectDetectionCounterState) (T : ObjectTracker) (x y : ℚ)
    (h : 10 ≤ T.history_count) :
    (odc_add_position s T x y).history_count = T.history_count ∧
    (∀ i, i < 9 → (odc_add_position s T x y).x_history i = T.x_history (i + 1) ∧
      (odc_add_position s T x y).y_history i = T.y_history (i + 1)) ∧
    (odc_add_position s T x y).x_history 9 = x ∧
    (odc_add_position s T x y).y_history 9 = y ∧
    (∀ i, 9 < i → (odc_add_position s T x y).x_history i = T.x_history i ∧
      (odc_add_position s T x y).y_history i = T.y_history i) := by
  unfold odc_add_position POSITION_HISTORY_SIZE
  dsimp only
  have hn : ¬ T.history_count < ((10 : Nat) : Int) := by
    intro hc
    have : T.history_count < 10 := by exact_mod_cast hc
    omega
  rw [if_neg hn]
  dsimp only
  rw [shift_loop]
  dsimp only
  refine ⟨rfl, fun i hi => ?_, ?_, ?_, fun i hi => ?_⟩
  · have hne : i ≠ 10 - 1 := by omega
    have hlt : i < 10 - 1 := by omega
    rw [setAt_ne _ _ hne, setAt_ne _ _ hne, if_pos hlt, if_pos hlt]
    exact ⟨rfl, rfl⟩
  · exact setAt_same _ _ _
  · exact setAt_same _ _ _
  · have hne : i ≠ 10 - 1 := by omega
    have hge : ¬ i < 10 - 1 := by omega
    rw [setAt_ne _ _ hne, setAt_ne _ _ hne, if_neg hge, if_neg hge]
    exact ⟨rfl, rfl⟩

/-- C31: the position history is a FIFO of capacity 10. For a counter-tracker with
0 ≤ history_count ≤ 10, `odc_add_position` stores (x, y) at index history_count and
increments history_count when it is below 10; when it is 10 it drops the entry of index 0,
moves the entries 1..9 to 0..8 in order and stores (x, y) at index 9. Afterwards
1 ≤ history_count ≤ 10, the newest point is at index history_count - 1, last_seen_frame is
the global frame counter, and track id, activity and region state are unchanged. -/
theorem position_history_fifo (s : ObjectDetectionCounterState) (T : ObjectTracker) (x y : ℚ)
    (h0 : 0 ≤ T.history_count) (h10 : T.history_count ≤ 10) :
    (T.history_count < 10 →
      (odc_add_position s T x y).history_count = T.history_count + 1 ∧
      (odc_add_position s T x y).x_history = setAt T.x_history T.history_count.toNat x ∧
      (odc_add_position s T x y).y_history = setAt T.y_history T.history_count.toNat y) ∧
    (T.history_count = 10 →
      (odc_add_position s T x y).history_count = 10 ∧
      (∀ i, i < 9 → (odc_add_position s T x y).x_history i = T.x_history (i + 1) ∧
        (odc_add_position s T x y).y_history i = T.y_history (i + 1)) ∧
      (odc_add_position s T x y).x_history 9 = x ∧
      (odc_add_position s T x y).y_history 9 = y) ∧
    1 ≤ (odc_add_position s T x y).history_count ∧
    (odc_add_position s T x y).history_count ≤ 10 ∧
    (odc_add_position s T x y).x_history ((odc_add_position s T x y).history_count - 1).toNat
      = x ∧
    (odc_add_position s T x y).y_history ((odc_add_position s T x y).history_count - 1).toNat
      = y ∧
    (odc_add_position s T x y).last_seen_frame = s.global_frame_counter ∧
    (odc_add_position s T x y).track_id = T.track_id ∧
    (odc_add_position s T x y).is_active = T.is_active ∧
    (odc_add_position s T x y).region_state = T.region_state := by
  obtain ⟨f1, f2, f3, f4⟩ := odc_add_position_fields s T x y
  refine ⟨fun h => odc_add_position_append s T x y h, fun h => ?_, ?_, ?_, ?_, ?_, f4, f1, f2, f3⟩
  · obtain ⟨a1, a2, a3, a4, _⟩ := odc_add_position_shift s T x y (by omega)
    exact ⟨a1.trans h, a2, a3, a4⟩
  all_goals
    by_cases hlt : T.history_count < 10
    · obtain ⟨a1, a2, a3⟩ := odc_add_position_append s T x y hlt
      first
        | (rw [a1]; omega)
        | (rw [a1, a2]
           have e : (T.history_count + 1 - 1).toNat = T.history_count.toNat := by congr 1; omega
           rw [e, setAt_same])
        | (rw [a1, a3]
           have e : (T.history_count + 1 - 1).toNat = T.history_count.toNat := by congr 1; omega
           rw [e, setAt_same])
    · obtain ⟨a1, _, a3, a4, _⟩ := odc_add_position_shift s T x y (by omega)
      have h10eq : T.history_count = 10 := by omega
      first
        | (rw [a1]; omega)
        | (rw [a1, h10eq]; exact a3)
        | (rw [a1, h10eq]; exact a4)

/-- Witness of C31: pushing (1, 0.5) on the full history 0, 0.1, ..., 0.9 drops 0, moves
0.1 to index 0 and stores 1 at index 9; pushing on a tracker without history stores the
point at index 0. -/
theorem position_history_fifo_witness :
    (odc_add_position zero_counter_state full_history_tracker 1 (1/2)).history_count = 10 ∧
    (odc_add_position zero_counter_state full_history_tracker 1 (1/2)).x_history 0 = 1/10 ∧
    (odc_add_position zero_counter_state full_history_tracker 1 (1/2)).x_history 8 = 9/10 ∧
    (odc_add_position zero_counter_state full_history_tracker 1 (1/2)).x_history 9 = 1 ∧
    (odc_add_position zero_counter_state zeroed_tracker 1 (1/2)).history_count = 1 :=
  ⟨((position_history_fifo zero_counter_state full_history_tracker 1 (1/2) (by decide)
      (by decide)).2.1 rfl).1,
    by decide!, by decide!,
    ((position_history_fifo zero_counter_state full_history_tracker 1 (1/2) (by decide)
      (by decide)).2.1 rfl).2.2.1,
    by decide!⟩

/-- C32: rate limiter. With the clock as an input, for every counter state and every reset
hour (in 0..23 or not), if now - last_reset_check < 60, which includes every now earlier
than last_reset_check, both reset supervisors return the state unchanged, whatever the local
hour and last_reset_hour are. -/
theorem reset_rate_limited (s : ObjectDetectionCounterState) (reset_hour now : Int)
    (local_time : Option Int) (h : now - s.last_reset_check < 60) :
    odc_check_daily_reset s reset_hour now local_time = s ∧
    odc_check_daily_reset_i8 s reset_hour now local_time = s := by
  unfold odc_check_daily_reset odc_check_daily_reset_i8 odc_daily_reset
  rw [if_pos h]
  constructor <;> split <;> rfl

/-- Witness of C32 on seed scenario 6: after the check of 02:59:00 (10740 s) with
last_reset_hour = 2 and reset_hour = 3, a check at 03:00 sharp would fire, but a check 50 s
after the last one (local hour 3) and a check after a clock jump back to 0 s change
nothing: 4 IN stay counted. -/
theorem reset_rate_limited_witness :
    seed6_at_0259.last_reset_check = 10740 ∧ seed6_at_0259.last_reset_hour = 2 ∧
    odc_check_daily_reset seed6_at_0259 3 10790 (some 3) = seed6_at_0259 ∧
    odc_check_daily_reset_i8 seed6_at_0259 3 0 (some 3) = seed6_at_0259 ∧
    (odc_check_daily_reset seed6_at_0259 3 10790 (some 3)).global_in_count = 4 :=
  ⟨by decide!, by decide!,
    (reset_rate_limited seed6_at_0259 3 10790 (some 3) (by decide!)).1,
    (reset_rate_limited seed6_at_0259 3 0 (some 3) (by decide!)).2,
    by decide!⟩

/-- The one-hot loop writes 1 at the class and 0 at the other indices below `num_classes`. -/
theorem one_hot_loop (n : Nat) (c : Int) (o : Nat → ℚ) (i : Nat) (hi : i < n) :
    forLoop n (fun i o => setAt o i (if (i : Int) = c then 1 else 0)) o i =
      if (i : Int) = c then 1 else 0 := by
  have h := forLoop_setAt_self n (fun i (_ : ℚ) => if (i : Int) = c then (1 : ℚ) else 0) o i
  rw [if_pos hi] at h
  exact h

/-- The cells along a run of calls that all have the top class `c` (a class of 0..127 other
than the default class) with a confidence that reaches the threshold, the first call
finding another class in `last_detected_class`: after k calls, 1 ≤ k ≤ 127, `detect_count`
is k and `last_detected_class` is c. -/
theorem consecutive_calls_count (input_of : Nat → Nat → ℚ) (thr : ℚ) (mn dflt : Int)
    (num : Nat) (st : ConsecutiveState) (c : Int) (hc0 : 0 ≤ c) (hc : c ≤ 127)
    (hd : c ≠ dflt) (hnew : c ≠ st.last_detected_class)
    (htop : ∀ n, (max_confidence_scan (input_of n) num).1 = c ∧
      ¬ (max_confidence_scan (input_of n) num).2 < thr)
    (k : Nat) (hk1 : 1 ≤ k) (hk : k ≤ 127) :
    (consecutive_calls input_of thr mn dflt num st k).detect_count = (k : Int) ∧
    (consecutive_calls input_of thr mn dflt num st k).last_detected_class = c := by
  have hwrap : wrap_int8 c = c := by unfold wrap_int8; omega
  induction k with
  | zero => omega
  | succ m ih =>
    show (consecutive_detection (input_of m) (fun _ => 0) thr
      (consecutive_calls input_of thr mn dflt num st m) mn dflt num).2.detect_count = _ ∧
      (consecutive_detection (input_of m) (fun _ => 0) thr
      (consecutive_calls input_of thr mn dflt num st m) mn dflt num).2.last_detected_class = c
    unfold consecutive_detection
    dsimp only
    rw [if_neg (htop m).2, (htop m).1, hwrap]
    refine ⟨?_, rfl⟩
    by_cases hm : m = 0
    · subst hm
      show (if c ≠ st.last_detected_class then (1 : Int) else _) = _
      rw [if_pos hnew]
      rfl
    · obtain ⟨i1, i2⟩ := ih (by omega) (by omega)
      rw [i2, if_neg (by simp), i1]
      unfold wrap_int8
      push_cast
      omega

/-- The claim of C40 holds up to the 127th call of a run: for min_consecutive_count ≤ n ≤ 127
the output of the n-th call is one-hot at c. -/
theorem consecutive_output_below_128 (input_of : Nat → Nat → ℚ) (thr : ℚ) (mn dflt : Int)
    (num : Nat) (st : ConsecutiveState) (c : Int) (hc0 : 0 ≤ c) (hc : c ≤ 127)
    (hd : c ≠ dflt) (hnew : c ≠ st.last_detected_class)
    (htop : ∀ n, (max_confidence_scan (input_of n) num).1 = c ∧
      ¬ (max_confidence_scan (input_of n) num).2 < thr)
    (n : Nat) (hn1 : 1 ≤ n) (hmin : mn ≤ (n : Int)) (hn : n ≤ 127) (i : Nat) (hi : i < num) :
    consecutive_output input_of thr mn dflt num st n i = if (i : Int) = c then 1 else 0 := by
  have hcount := (consecutive_calls_count input_of thr mn dflt num st c hc0 hc hd hnew htop n
    hn1 hn).1
  obtain ⟨m, rfl⟩ : ∃ m, n = m + 1 := ⟨n - 1, by omega⟩
  have hcount2 : (consecutive_detection (input_of m) (fun _ => 0) thr
      (consecutive_calls input_of thr mn dflt num st m) mn dflt num).2.detect_count =
      ((m + 1 : Nat) : Int) := hcount
  unfold consecutive_output
  rw [Nat.add_sub_cancel]
  unfold consecutive_detection at hcount2 ⊢
  dsimp only at hcount2 ⊢
  rw [if_neg (htop m).2, (htop m).1] at hcount2 ⊢
  rw [hcount2, if_pos ⟨hmin, hd⟩]
  exact one_hot_loop num c _ i hi

/-- C40, the confirmation does not persist past the 127th call: with two classes, default
class 0, threshold 0.5 and min_consecutive_count = 3, a run of calls that all read the input
(0.1, 0.9), started with `last_detected_class` = 0, gives the one-hot output at class 1 at
the calls 3 and 127, but at call 128 `detect_count` wraps from 127 to -128 and the output is
one-hot at the default class 0; it stays so until the count is back at 3, at call 259. -/
theorem consecutive_detection_wraps :
    consecutive_output (fun _ => class1_input) (1/2) 3 0 2 ⟨0, 0⟩ 3 1 = 1 ∧
    consecutive_output (fun _ => class1_input) (1/2) 3 0 2 ⟨0, 0⟩ 127 1 = 1 ∧
    (consecutive_calls (fun _ => class1_input) (1/2) 3 0 2 ⟨0, 0⟩ 127).detect_count = 127 ∧
    (consecutive_calls (fun _ => class1_input) (1/2) 3 0 2 ⟨0, 0⟩ 128).detect_count = -128 ∧
    consecutive_output (fun _ => class1_input) (1/2) 3 0 2 ⟨0, 0⟩ 128 1 = 0 ∧
    consecutive_output (fun _ => class1_input) (1/2) 3 0 2 ⟨0, 0⟩ 128 0 = 1 ∧
    consecutive_output (fun _ => class1_input) (1/2) 3 0 2 ⟨0, 0⟩ 258 1 = 0 ∧
    consecutive_output (fun _ => class1_input) (1/2) 3 0 2 ⟨0, 0⟩ 259 1 = 1 := by
  decide!

/-- An iteration of the detection loop leaves the slots from `max_tracks` on as they are. -/
theorem associate_detection_beyond (data : Nat → Detection) (mt : Nat) (thr : ℚ) (d : Nat)
    (a : Association) (t : Nat) (ht : mt ≤ t) :
    (associate_detection data mt thr d a).state.tracks t = a.state.tracks t := by
  unfold associate_detection
  by_cases hm : a.detection_matched d = true
  · rw [if_pos hm]
  · rw [if_neg hm]
    rcases hfb : find_best_track a.state.tracks a.track_matched (data d) mt thr with
      ⟨iou, _ | bt⟩
    · rfl
    · have hlt := (find_best_track_some a.state.tracks a.track_matched (data d) mt thr bt
        (by rw [hfb])).1
      dsimp only
      exact setAt_ne _ _ (by omega)

/-- One step of `object_tracker_f32` leaves the slots from `max_tracks` on as they are. -/
theorem object_tracker_f32_beyond (detections : Nat → ℚ) (s : ObjectTrackerState)
    (output : Nat → ℚ) (md cc : Nat) (thr : ℚ) (mt : Nat) (max_age min_hits : Int) (t : Nat)
    (ht : mt ≤ t) :
    (object_tracker_f32 detections s output md cc thr mt max_age min_hits).1.tracks t =
      s.tracks t := by
  unfold object_tracker_f32
  dsimp only
  rw [(update_track_lifecycle_tracks _ _ _ _).2 t, if_neg (by omega)]
  have hassoc : (perform_tracking_association s
      (extract_detections detections md cc unwritten_rows).1
      (extract_detections detections md cc unwritten_rows).2 mt thr (fun _ => false)
      (fun _ => false)).state.tracks t = s.tracks t := by
    unfold perform_tracking_association
    refine forLoop_inv (fun _ (a : Association) => a.state.tracks t = s.tracks t) _ _ _ rfl ?_
    intro k _ a ha
    rw [associate_detection_beyond _ mt thr k a t ht]
    exact ha
  rw [← hassoc]
  unfold create_new_tracks
  refine forLoop_inv
    (fun _ (st : ObjectTrackerState) => st.tracks t =
      (perform_tracking_association s (extract_detections detections md cc unwritten_rows).1
        (extract_detections detections md cc unwritten_rows).2 mt thr (fun _ => false)
        (fun _ => false)).state.tracks t) _ _ _ rfl ?_
  intro k _ st hst
  rcases create_track_cases (extract_detections detections md cc unwritten_rows).1 mt
      (perform_tracking_association s (extract_detections detections md cc unwritten_rows).1
        (extract_detections detections md cc unwritten_rows).2 mt thr (fun _ => false)
        (fun _ => false)).detection_matched k st with ⟨heq, _⟩ | ⟨e, _, he, _, _, hother⟩
  · rw [heq]
    exact hst
  · have hlt := (find_empty_slot_some st.tracks mt e he).1
    rw [hother t (by omega)]
    exact hst

/-- C35: identity stability and frame. For every tracker step, a slot t < max_tracks that is
active before and after the step holds the same track_id and class_id after it as before
(a slot is never expired and refilled within one step: the spawn phase runs before the
lifecycle phase), and every slot of index at least max_tracks is left unchanged. The i8
step leaves the state of the f32 step on the decoded tensor. -/
theorem identity_stable (detections : Nat → ℚ) (det8 : Nat → Int) (s : ObjectTrackerState)
    (output : Nat → ℚ) (out8 : Nat → Int) (md cc : Nat) (thr : ℚ) (mt : Nat)
    (max_age min_hits : Int) (t : Nat) :
    (t < mt → (s.tracks t).active = true →
      ((object_tracker_f32 detections s output md cc thr mt max_age min_hits).1.tracks t).active
        = true →
      ((object_tracker_f32 detections s output md cc thr mt max_age min_hits).1.tracks
        t).track_id = (s.tracks t).track_id ∧
      ((object_tracker_f32 detections s output md cc thr mt max_age min_hits).1.tracks
        t).class_id = (s.tracks t).class_id) ∧
    (mt ≤ t →
      (object_tracker_f32 detections s output md cc thr mt max_age min_hits).1.tracks t =
        s.tracks t) ∧
    (object_tracker_i8 det8 s out8 md cc thr mt max_age min_hits).1 =
      (object_tracker_f32 (decoded_tensor det8) s output md cc thr mt max_age min_hits).1 := by
  refine ⟨fun ht hact hafter => ?_,
    object_tracker_f32_beyond detections s output md cc thr mt max_age min_hits t, rfl⟩
  have hslot := object_tracker_f32_slot detections s output md cc thr mt max_age min_hits t ht hact
  rw [hslot] at hafter ⊢
  by_cases hu : unmatched_in_step detections s md cc thr mt t = true
  · rw [if_pos hu] at hafter ⊢
    by_cases hexp : (s.tracks t).age + 1 > max_age
    · rw [if_pos hexp] at hafter
      exact absurd hafter (by decide)
    · rw [if_neg hexp]
      exact ⟨rfl, rfl⟩
  · rw [if_neg hu]
    have hk := (perform_tracking_association_kept s
      (extract_detections detections md cc unwritten_rows).1
      (extract_detections detections md cc unwritten_rows).2 mt thr (fun _ => false)
      (fun _ => false)).2 t
    exact ⟨hk.2.1, hk.2.2.1⟩

/-- Witness of C35 on the second step of seed scenario 1: slot 0 is active before and after
and keeps track id 1 and class 0. -/
theorem identity_stable_witness :
    (seed1_step1.1.tracks 0).active = true ∧ (seed1_step2.1.tracks 0).active = true ∧
    (seed1_step1.1.tracks 0).track_id = 1 ∧
    (seed1_step2.1.tracks 0).track_id = (seed1_step1.1.tracks 0).track_id ∧
    (seed1_step2.1.tracks 0).class_id = (seed1_step1.1.tracks 0).class_id :=
  ⟨by decide!, by decide!, by decide!,
    ((identity_stable seed1_frame2 (fun _ => 0) seed1_step1.1 (fun _ => 0) (fun _ => 0) 4 6
      (3/10) 50 5 1 0).1 (by decide) (by decide!) (by decide!)).1,
    ((identity_stable seed1_frame2 (fun _ => 0) seed1_step1.1 (fun _ => 0) (fun _ => 0) 4 6
      (3/10) 50 5 1 0).1 (by decide) (by decide!) (by decide!)).2⟩

/-- A slot that is active at some point of the spawn loop is not written later in the loop. -/
theorem create_new_tracks_later (s : ObjectTrackerState) (data : Nat → Detection)
    (mt : Nat) (dm : Nat → Bool) (t m n : Nat) (hmn : m ≤ n)
    (hact : ((create_new_tracks s data m mt dm).tracks t).active = true) :
    (create_new_tracks s data n mt dm).tracks t = (create_new_tracks s data m mt dm).tracks t := by
  induction n with
  | zero =>
    have : m = 0 := by omega
    rw [this]
  | succ k ih =>
    rcases Nat.lt_succ_iff_lt_or_eq.mp (Nat.lt_succ_of_le hmn) with hlt | heq
    · have ihk := ih (Nat.lt_succ_iff.mp hlt)
      have hunf : create_new_tracks s data (k + 1) mt dm =
          create_track data mt dm k (create_new_tracks s data k mt dm) := rfl
      rw [hunf]
      rcases create_track_cases data mt dm k (create_new_tracks s data k mt dm) with
        ⟨heq, _⟩ | ⟨e, _, he, _, _, hother⟩
      · rw [heq]
        exact ihk
      · have hne : t ≠ e := by
          intro h
          have := (find_empty_slot_some _ mt e he).2
          rw [← h, ihk, hact] at this
          exact absurd this (by decide)
        rw [hother t hne]
        exact ihk
    · rw [heq]

/-- The slot of a track created by the spawn phase, at the end of the step: the lifecycle
phase finds it unmatched, so it is aged once, or expired when `max_age` is below 1. -/
theorem spawned_slot_after_step (detections : Nat → ℚ) (s : ObjectTrackerState)
    (output : Nat → ℚ) (md cc : Nat) (thr : ℚ) (mt : Nat) (max_age min_hits : Int) (d e : Nat)
    (hd : d < (extract_detections detections md cc unwritten_rows).2)
    (hdm : (perform_tracking_association s (extract_detections detections md cc unwritten_rows).1
      (extract_detections detections md cc unwritten_rows).2 mt thr (fun _ => false)
      (fun _ => false)).detection_matched d = false)
    (he : find_empty_slot
      (create_new_tracks
        (perform_tracking_association s (extract_detections detections md cc unwritten_rows).1
          (extract_detections detections md cc unwritten_rows).2 mt thr (fun _ => false)
          (fun _ => false)).state
        (extract_detections detections md cc unwritten_rows).1 d mt
        (perform_tracking_association s (extract_detections detections md cc unwritten_rows).1
          (extract_detections detections md cc unwritten_rows).2 mt thr (fun _ => false)
          (fun _ => false)).detection_matched).tracks mt = some e) :
    (object_tracker_f32 detections s output md cc thr mt max_age min_hits).1.tracks e =
      if (0 : Int) + 1 > max_age then expired_track
      else
        { x := ((extract_detections detections md cc unwritten_rows).1 d).x
          y := ((extract_detections detections md cc unwritten_rows).1 d).y
          w := ((extract_detections detections md cc unwritten_rows).1 d).w
          h := ((extract_detections detections md cc unwritten_rows).1 d).h
          confidence := ((extract_detections detections md cc unwritten_rows).1 d).confidence
          class_id := float_to_int ((extract_detections detections md cc unwritten_rows).1 d).class_id
          track_id :=
            (create_new_tracks
              (perform_tracking_association s
                (extract_detections detections md cc unwritten_rows).1
                (extract_detections detections md cc unwritten_rows).2 mt thr (fun _ => false)
                (fun _ => false)).state
              (extract_detections detections md cc unwritten_rows).1 d mt
              (perform_tracking_association s
                (extract_detections detections md cc unwritten_rows).1
                (extract_detections detections md cc unwritten_rows).2 mt thr (fun _ => false)
                (fun _ => false)).detection_matched).next_track_id
          age := 1
          hits := 1
          active := true
          tracking_confidence := 9 / 10 } := by
  unfold object_tracker_f32
  dsimp only
  generalize (extract_detections detections md cc unwritten_rows).1 = data at hdm he ⊢
  generalize (extract_detections detections md cc unwritten_rows).2 = valid at hd hdm he ⊢
  obtain ⟨_, p2⟩ := perform_tracking_association_slot s data valid mt thr (fun _ => false)
    (fun _ => false) e (find_empty_slot_some _ mt e he).1
  generalize perform_tracking_association s data valid mt thr (fun _ => false)
    (fun _ => false) = a at hdm he p2 ⊢
  have helt := (find_empty_slot_some _ mt e he).1
  have hinact := (find_empty_slot_some _ mt e he).2
  have hnew : (create_new_tracks a.state data (d + 1) mt a.detection_matched).tracks e =
      { x := (data d).x, y := (data d).y, w := (data d).w, h := (data d).h,
        confidence := (data d).confidence, class_id := float_to_int (data d).class_id,
        track_id := (create_new_tracks a.state data d mt a.detection_matched).next_track_id,
        age := 0, hits := 1, active := true, tracking_confidence := NEW_TRACK_CONFIDENCE } := by
    have hunf : create_new_tracks a.state data (d + 1) mt a.detection_matched =
        create_track data mt a.detection_matched d
          (create_new_tracks a.state data d mt a.detection_matched) := rfl
    rw [hunf]
    rcases create_track_cases data mt a.detection_matched d
        (create_new_tracks a.state data d mt a.detection_matched) with
      ⟨_, hw | hw⟩ | ⟨e2, _, he2, _, hnw, _⟩
    · rw [hw] at hdm
      exact absurd hdm (by decide)
    · rw [hw] at he
      exact absurd he (by simp)
    · rw [he] at he2
      have hee : e = e2 := Option.some.inj he2
      rw [hee]
      exact hnw
  have hfinal := create_new_tracks_later a.state data mt a.detection_matched e (d + 1) valid
    (by omega) (by rw [hnew])
  rw [hnew] at hfinal
  have hunm : a.track_matched e = false := by
    by_contra hm
    have hm2 : a.track_matched e = true := by simpa using hm
    have hact := p2 hm2
    have := create_new_tracks_active_slot a.state data d mt a.detection_matched e hact
    rw [this, hact] at hinact
    exact absurd hinact (by decide)
  rw [update_track_lifecycle_slot _ mt max_age a.track_matched e helt (by rw [hfinal]),
    if_neg (by rw [hunm]; decide), hfinal]
  by_cases hexp : (0 : Int) + 1 > max_age
  · rw [if_pos hexp, if_pos hexp]
  · rw [if_neg hexp, if_neg hexp]
    unfold aged_track NEW_TRACK_CONFIDENCE TRACKING_CONFIDENCE_DECAY
    simp

/-- C33: a track is aged in the step that spawns it. For a tracker step with max_age ≥ 1,
when the spawn phase reaches an unmatched detection d < valid_detections and the slot search
returns slot e, the step ends with slot e active with the box, confidence and class of the
detection, hits = 1, age = 1 and tracking_confidence = 0.9: the lifecycle phase treats the
new track as unmatched. When that track is emitted in column j of the output of the same
step (at least 4 rows per detection), the tracking-confidence row of the column holds 0.9. -/
theorem spawned_track_is_aged (detections : Nat → ℚ) (s : ObjectTrackerState)
    (output : Nat → ℚ) (md cc : Nat) (thr : ℚ) (mt : Nat) (max_age min_hits : Int)
    (d e j : Nat) (hmax : 1 ≤ max_age)
    (hd : d < (extract_detections detections md cc unwritten_rows).2)
    (hdm : (perform_tracking_association s (extract_detections detections md cc unwritten_rows).1
      (extract_detections detections md cc unwritten_rows).2 mt thr (fun _ => false)
      (fun _ => false)).detection_matched d = false)
    (he : find_empty_slot
      (create_new_tracks
        (perform_tracking_association s (extract_detections detections md cc unwritten_rows).1
          (extract_detections detections md cc unwritten_rows).2 mt thr (fun _ => false)
          (fun _ => false)).state
        (extract_detections detections md cc unwritten_rows).1 d mt
        (perform_tracking_association s (extract_detections detections md cc unwritten_rows).1
          (extract_detections detections md cc unwritten_rows).2 mt thr (fun _ => false)
          (fun _ => false)).detection_matched).tracks mt = some e) :
    ((object_tracker_f32 detections s output md cc thr mt max_age min_hits).1.tracks e).active
      = true ∧
    ((object_tracker_f32 detections s output md cc thr mt max_age min_hits).1.tracks e).hits
      = 1 ∧
    ((object_tracker_f32 detections s output md cc thr mt max_age min_hits).1.tracks e).age
      = 1 ∧
    ((object_tracker_f32 detections s output md cc thr mt max_age min_hits).1.tracks
      e).tracking_confidence = 9 / 10 ∧
    ((object_tracker_f32 detections s output md cc thr mt max_age min_hits).1.tracks e).x =
      ((extract_detections detections md cc unwritten_rows).1 d).x ∧
    ((object_tracker_f32 detections s output md cc thr mt max_age min_hits).1.tracks e).y =
      ((extract_detections detections md cc unwritten_rows).1 d).y ∧
    ((object_tracker_f32 detections s output md cc thr mt max_age min_hits).1.tracks e).w =
      ((extract_detections detections md cc unwritten_rows).1 d).w ∧
    ((object_tracker_f32 detections s output md cc thr mt max_age min_hits).1.tracks e).h =
      ((extract_detections detections md cc unwritten_rows).1 d).h ∧
    ((object_tracker_f32 detections s output md cc thr mt max_age min_hits).1.tracks
      e).confidence = ((extract_detections detections md cc unwritten_rows).1 d).confidence ∧
    ((object_tracker_f32 detections s output md cc thr mt max_age min_hits).1.tracks
      e).class_id =
      float_to_int ((extract_detections detections md cc unwritten_rows).1 d).class_id ∧
    (4 ≤ cc → j < md →
      (emitted_slots (object_tracker_f32 detections s output md cc thr mt max_age min_hits).1
        mt min_hits)[j]? = some e →
      (object_tracker_f32 detections s output md cc thr mt max_age min_hits).2
        ((cc + 1) * md + j) = 9 / 10) := by
  have hslot := spawned_slot_after_step detections s output md cc thr mt max_age min_hits d e
    hd hdm he
  rw [if_neg (by omega)] at hslot
  refine ⟨by rw [hslot], by rw [hslot], by rw [hslot], by rw [hslot], by rw [hslot],
    by rw [hslot], by rw [hslot], by rw [hslot], by rw [hslot], by rw [hslot],
    fun hcc hj hem => ?_⟩
  have hlay := (emit_tracks_layout (fun v => v) (fun i => (i : ℚ)) 0
    (object_tracker_f32 detections s output md cc thr mt max_age min_hits).1 output md cc mt
    min_hits hcc).2.1 j e hj hem
  have htc := hlay.2.2.2.2.2.2
  rw [hslot] at htc
  exact htc

/-- Witness of C33, seed scenario 1: the first step from the initial state spawns the track
of detection 0 in slot 0; it ends the step with age 1 and tracking confidence 0.9, and the
output reports 0.9 in row 7 of column 0. -/
theorem spawned_track_is_aged_witness :
    (seed1_step1.1.tracks 0).age = 1 ∧ (seed1_step1.1.tracks 0).hits = 1 ∧
    (seed1_step1.1.tracks 0).tracking_confidence = 9 / 10 ∧
    seed1_step1.2 (7 * 4 + 0) = 9 / 10 :=
  ⟨(spawned_track_is_aged seed1_frame1 (object_tracker_init_f32 zero_tracker_state)
      (fun _ => 0) 4 6 (3/10) 50 5 1 0 0 0 (by decide) (by decide!) (by decide!)
      (by decide!)).2.2.1,
    by decide!, by decide!,
    (spawned_track_is_aged seed1_frame1 (object_tracker_init_f32 zero_tracker_state)
      (fun _ => 0) 4 6 (3/10) 50 5 1 0 0 0 (by decide) (by decide!) (by decide!)
      (by decide!)).2.2.2.2.2.2.2.2.2.2 (by decide) (by decide) (by decide!)⟩

/-- With max_age = 0, a step from a state without active slot below `max_tracks` ends
without active slot below `max_tracks`. -/
theorem object_tracker_f32_max_age_zero (detections : Nat → ℚ) (s : ObjectTrackerState)
    (output : Nat → ℚ) (md cc : Nat) (thr : ℚ) (mt : Nat) (min_hits : Int)
    (hs : ∀ t, t < mt → (s.tracks t).active = false) :
    ∀ t, t < mt →
      ((object_tracker_f32 detections s output md cc thr mt 0 min_hits).1.tracks t).active
        = false := by
  intro t ht
  unfold object_tracker_f32
  dsimp only
  generalize (extract_detections detections md cc unwritten_rows).1 = data
  generalize (extract_detections detections md cc unwritten_rows).2 = valid
  obtain ⟨_, p2⟩ := perform_tracking_association_slot s data valid mt thr (fun _ => false)
    (fun _ => false) t ht
  have hkept := (perform_tracking_association_kept s data valid mt thr (fun _ => false)
    (fun _ => false)).2
  generalize perform_tracking_association s data valid mt thr (fun _ => false)
    (fun _ => false) = a at p2 hkept ⊢
  have hunm : a.track_matched t = false := by
    by_contra hm
    have hact := p2 (by simpa using hm)
    rw [(hkept t).1, hs t ht] at hact
    exact absurd hact (by decide)
  have hspawn : ((create_new_tracks a.state data valid mt a.detection_matched).tracks t).active
      = true →
      ((create_new_tracks a.state data valid mt a.detection_matched).tracks t).age = 0 := by
    unfold create_new_tracks
    refine forLoop_inv
      (fun _ (st : ObjectTrackerState) => (st.tracks t).active = true → (st.tracks t).age = 0)
      _ _ _ (fun h => ?_) ?_
    · rw [(hkept t).1, hs t ht] at h
      exact absurd h (by decide)
    · intro k _ st hst
      rcases create_track_cases data mt a.detection_matched k st with
        ⟨heq, _⟩ | ⟨e, _, _, _, hnew, hother⟩
      · rw [heq]
        exact hst
      · by_cases hte : t = e
        · rw [hte, hnew]
          exact fun _ => rfl
        · rw [hother t hte]
          exact hst
  by_cases hact : ((create_new_tracks a.state data valid mt a.detection_matched).tracks t).active
      = true
  · rw [update_track_lifecycle_slot _ mt 0 a.track_matched t ht hact,
      if_neg (by rw [hunm]; decide), hspawn hact, if_pos (by decide)]
    rfl
  · rw [(update_track_lifecycle_tracks _ mt 0 a.track_matched).2 t, if_pos ht]
    unfold age_track
    rw [if_pos (by simpa using hact)]
    simpa using hact

/-- The output of a step that ends without active slot below `max_tracks` is the fill. -/
theorem generate_tracking_output_empty (s : ObjectTrackerState) (output : Nat → ℚ)
    (md cc mt : Nat) (min_hits : Int) (hs : ∀ t, t < mt → (s.tracks t).active = false)
    (p : Nat) (hp : p < md * (cc + 2)) :
    generate_tracking_output s output md cc mt min_hits p = 0 := by
  unfold generate_tracking_output emit_tracks
  rw [forLoop_id mt _ _ (fun k hk => emit_track_skip _ _ s md cc min_hits k _
    (fun h => by rw [hs k hk] at h; exact absurd h.1 (by decide)))]
  exact fill_loop _ _ _ _ hp

/-- C34: with max_age = 0 the tracker never emits anything. From the state left by
`object_tracker_init_f32`, for every sequence of detection tensors, threshold, min_hits and
max_tracks ≤ 50, every step with max_age = 0 ends with all slots below max_tracks inactive
(so does the state after the run) and writes an output whose
max_detections * (confidence_count + 2) cells are all 0, while next_track_id moves on by the
number of ids handed out. -/
theorem max_age_zero_emits_nothing (s0 : ObjectTrackerState) (frames : List (Nat → ℚ))
    (detections output : Nat → ℚ) (md cc : Nat) (thr : ℚ) (mt : Nat) (min_hits : Int)
    (t p : Nat) (hmt : mt ≤ TRACKS_ARRAY_SIZE) :
    (t < mt → ((tracker_run s0 frames md cc thr mt 0 min_hits).tracks t).active = false) ∧
    (t < mt →
      ((object_tracker_f32 detections (tracker_run s0 frames md cc thr mt 0 min_hits) output
        md cc thr mt 0 min_hits).1.tracks t).active = false) ∧
    (p < md * (cc + 2) →
      (object_tracker_f32 detections (tracker_run s0 frames md cc thr mt 0 min_hits) output
        md cc thr mt 0 min_hits).2 p = 0) ∧
    (tracker_run s0 frames md cc thr mt 0 min_hits).next_track_id =
      (((tracker_run_ids s0 frames md cc thr mt 0 min_hits) % 127 : Nat) : Int) + 1 := by
  have hrun : ∀ t, t < mt →
      ((tracker_run s0 frames md cc thr mt 0 min_hits).tracks t).active = false := by
    unfold tracker_run
    have hgen : ∀ (fs : List (Nat → ℚ)) (s : ObjectTrackerState),
        (∀ t, t < mt → (s.tracks t).active = false) →
        ∀ t, t < mt → ((fs.foldl
          (fun s detections =>
            (object_tracker_f32 detections s (fun _ => 0) md cc thr mt 0 min_hits).1)
          s).tracks t).active = false := by
      intro fs
      induction fs with
      | nil => exact fun s hs => hs
      | cons f rest ih =>
        intro s hs
        exact ih _ (object_tracker_f32_max_age_zero f s _ md cc thr mt min_hits hs)
    exact hgen frames _ (fun t ht =>
      object_tracker_init_f32_inactive s0 t (Nat.lt_of_lt_of_le ht hmt))
  have hstep := object_tracker_f32_max_age_zero detections
    (tracker_run s0 frames md cc thr mt 0 min_hits) output md cc thr mt min_hits hrun
  refine ⟨hrun t, hstep t, fun hp => ?_, ?_⟩
  · exact generate_tracking_output_empty _ output md cc mt min_hits hstep p hp
  · have h := run_alloc md cc thr mt 0 min_hits frames (object_tracker_init_f32 s0) 0 rfl
    rw [Nat.zero_add] at h
    exact h

/-- Witness of C34 with max_tracks = 3: after two frames of two detections each, no slot is
active, the output of a third step is 0 in its cells, and next_track_id has moved to 5. -/
theorem max_age_zero_emits_nothing_witness :
    ((tracker_run zero_tracker_state churn_frames_2 2 5 (3/10) 3 0 1).tracks 0).active = false ∧
    (object_tracker_f32 churn_frame_a (tracker_run zero_tracker_state churn_frames_2 2 5 (3/10)
      3 0 1) (fun _ => 1) 2 5 (3/10) 3 0 1).2 0 = 0 ∧
    (tracker_run zero_tracker_state churn_frames_2 2 5 (3/10) 3 0 1).next_track_id = 5 :=
  ⟨(max_age_zero_emits_nothing zero_tracker_state churn_frames_2 churn_frame_a (fun _ => 1) 2 5
      (3/10) 3 1 0 0 (by decide)).1 (by decide),
    (max_age_zero_emits_nothing zero_tracker_state churn_frames_2 churn_frame_a (fun _ => 1) 2 5
      (3/10) 3 1 0 0 (by decide)).2.2.1 (by decide),
    by decide!⟩

/-- The region state that `odc_detect_crossing` leaves is OUTSIDE, a side, or the one it
found. -/
theorem odc_detect_crossing_not_inside (tr : ObjectTracker) (region : CountingRegion)
    (h : tr.region_state ≠ REGION_STATE_INSIDE) :
    (odc_detect_crossing tr region).2.region_state ≠ REGION_STATE_INSIDE := by
  by_cases hc : tr.history_count < 2
  · rw [odc_detect_crossing_short tr region hc]
    exact h
  · rw [odc_detect_crossing_state tr region (by omega)]
    split
    · decide
    · split
      · intro hin
        have := odc_get_entry_side_entered (tr.x_history (tr.history_count - 2).toNat)
          (tr.y_history (tr.history_count - 2).toNat) region
        rw [hin] at this
        exact absurd this (by decide)
      · exact h

/-- Pushing a point on a tracker with 0..10 points and detecting the crossing: the tracker
has 1..10 points afterwards, the frame of the push as last_seen_frame, the same track id and
activity, and a region state other than INSIDE when it had one. -/
theorem push_point_ok (region : CountingRegion) (st : ObjectDetectionCounterState)
    (T : ObjectTracker) (x y : ℚ) (h0 : 0 ≤ T.history_count) (h10 : T.history_count ≤ 10)
    (hr : T.region_state ≠ REGION_STATE_INSIDE) :
    (odc_detect_crossing (odc_add_position st T x y) region).2.region_state
      ≠ REGION_STATE_INSIDE ∧
    1 ≤ (odc_detect_crossing (odc_add_position st T x y) region).2.history_count ∧
    (odc_detect_crossing (odc_add_position st T x y) region).2.history_count ≤ 10 ∧
    (odc_detect_crossing (odc_add_position st T x y) region).2.track_id = T.track_id ∧
    (odc_detect_crossing (odc_add_position st T x y) region).2.is_active = T.is_active ∧
    (odc_detect_crossing (odc_add_position st T x y) region).2.last_seen_frame =
      st.global_frame_counter := by
  obtain ⟨f1, f2, f3, f4⟩ := odc_add_position_fields st T x y
  obtain ⟨d1, d2, d3, d4, _, _⟩ := odc_detect_crossing_fields (odc_add_position st T x y) region
  have hcount : 1 ≤ (odc_add_position st T x y).history_count ∧
      (odc_add_position st T x y).history_count ≤ 10 := by
    by_cases hlt : T.history_count < 10
    · rw [(odc_add_position_append st T x y hlt).1]
      omega
    · rw [(odc_add_position_shift st T x y (by omega)).1]
      omega
  refine ⟨odc_detect_crossing_not_inside _ region (by rw [f3]; exact hr), ?_, ?_,
    d1.trans f1, d2.trans f2, d3.trans f4⟩
  · rw [d4]; exact hcount.1
  · rw [d4]; exact hcount.2

/-- What `odc_get_tracker` returns when it returns a slot: the slot is below 200 and either
it held the active tracker of the track id, and nothing changes, or no active slot held
the track id, the slot was inactive and now holds a fresh tracker of the track id. -/
theorem odc_get_tracker_found (s found : ObjectDetectionCounterState) (id : Int) (j : Nat)
    (h : odc_get_tracker s id = (found, some j)) :
    j < MAX_TRACKED_OBJECTS ∧ found.global_frame_counter = s.global_frame_counter ∧
    ((found.tracked_objects = s.tracked_objects ∧ (s.tracked_objects j).is_active = true ∧
        (s.tracked_objects j).track_id = id) ∨
      (found.tracked_objects =
          setAt s.tracked_objects j { zeroed_tracker with track_id := id, is_active := true } ∧
        (s.tracked_objects j).is_active = false ∧
        ∀ k, k < MAX_TRACKED_OBJECTS → (s.tracked_objects k).is_active = true →
          (s.tracked_objects k).track_id ≠ id)) := by
  unfold odc_get_tracker at h
  cases hf : odc_find_tracker s id with
  | some e =>
    rw [hf] at h
    simp only [Prod.mk.injEq, Option.some.injEq] at h
    obtain ⟨h1, h2⟩ := h
    subst h1
    subst h2
    have := (odc_find_tracker_some s id e).mp hf
    exact ⟨this.1, rfl, Or.inl ⟨rfl, this.2.1.1, this.2.1.2⟩⟩
  | none =>
    rw [hf] at h
    cases hs : (List.range MAX_TRACKED_OBJECTS).find?
        (fun i => !(s.tracked_objects i).is_active) with
    | none =>
      rw [hs] at h
      simp at h
    | some e =>
      rw [hs] at h
      simp only [Prod.mk.injEq, Option.some.injEq] at h
      obtain ⟨h1, h2⟩ := h
      subst h1
      subst h2
      refine ⟨List.mem_range.mp (List.mem_of_find?_eq_some hs), rfl, Or.inr ⟨rfl, ?_, ?_⟩⟩
      · have := List.find?_some hs
        simpa using this
      · intro k hk hact hid
        unfold odc_find_tracker at hf
        rw [List.find?_eq_none] at hf
        have := hf k (List.mem_range.mpr hk)
        simp [hact, hid] at this

/-- The processing of one column leaves the table and the frame counter as they are, or,
for a track id of at least 1, replaces the tracker returned by `odc_get_tracker` by what
pushing the point on it and detecting the crossing gives. -/
theorem odc_count_detection_effect (region : CountingRegion) (x y w h : ℚ) (id : Int)
    (s : ObjectDetectionCounterState) :
    (odc_count_detection region x y w h id s).global_frame_counter = s.global_frame_counter ∧
    ((odc_count_detection region x y w h id s).tracked_objects = s.tracked_objects ∨
      ∃ found j, 1 ≤ id ∧ odc_get_tracker s id = (found, some j) ∧
        (odc_count_detection region x y w h id s).tracked_objects =
          setAt found.tracked_objects j
            (odc_detect_crossing (odc_add_position found (found.tracked_objects j) x y)
              region).2) := by
  unfold odc_count_detection
  by_cases hw : w ≤ 0 ∨ h ≤ 0
  · rw [if_pos hw]
    exact ⟨rfl, Or.inl rfl⟩
  · rw [if_neg hw]
    by_cases hid : id ≤ 0
    · rw [if_pos hid]
      exact ⟨rfl, Or.inl rfl⟩
    · rw [if_neg hid]
      rcases hg : odc_get_tracker s id with ⟨found, _ | j⟩
      · exact ⟨rfl, Or.inl rfl⟩
      · have hfc := (odc_get_tracker_found s found id j hg).2.1
        dsimp only
        refine ⟨?_, Or.inr ⟨found, j, by omega, rfl, ?_⟩⟩
        · split
          · exact hfc
          · split <;> exact hfc
        · split
          · rfl
          · split <;> rfl

/-- The processing of one column keeps the invariant of the counter state. -/
theorem odc_count_detection_ok (B : Int) (hB : 0 ≤ B) (region : CountingRegion)
    (x y w h : ℚ) (id : Int) (s : ObjectDetectionCounterState) (hs : counter_ok B s) :
    counter_ok B (odc_count_detection region x y w h id s) := by
  obtain ⟨hfc, hslots, huniq⟩ := hs
  obtain ⟨efc, etab⟩ := odc_count_detection_effect region x y w h id s
  rcases etab with heq | ⟨found, j, hid, hg, heq⟩
  · unfold counter_ok
    rw [efc, heq]
    exact ⟨hfc, hslots, huniq⟩
  · obtain ⟨hj, hffc, hcase⟩ := odc_get_tracker_found s found id j hg
    have hT : 0 ≤ (found.tracked_objects j).history_count ∧
        (found.tracked_objects j).history_count ≤ 10 ∧
        (found.tracked_objects j).region_state ≠ REGION_STATE_INSIDE ∧
        (found.tracked_objects j).track_id = id ∧
        (found.tracked_objects j).is_active = true := by
      rcases hcase with ⟨e, hact, htid⟩ | ⟨e, _, _⟩
      · rw [e]
        exact ⟨(hslots j hj).2.1, (hslots j hj).2.2.1, (hslots j hj).1, htid, hact⟩
      · rw [e, setAt_same]
        exact ⟨le_refl (0 : Int), (by decide : (0 : Int) ≤ 10),
          (by decide : REGION_STATE_OUTSIDE ≠ REGION_STATE_INSIDE), rfl, rfl⟩
    obtain ⟨p1, p2, p3, p4, p5, p6⟩ := push_point_ok region found (found.tracked_objects j) x y
      hT.1 hT.2.1 hT.2.2.1
    have hother : ∀ k, k ≠ j → found.tracked_objects k = s.tracked_objects k := by
      intro k hk
      rcases hcase with ⟨e, _, _⟩ | ⟨e, _, _⟩
      · rw [e]
      · rw [e, setAt_ne _ _ hk]
    have hidfree : ∀ k, k < MAX_TRACKED_OBJECTS → k ≠ j →
        (s.tracked_objects k).is_active = true → (s.tracked_objects k).track_id ≠ id := by
      intro k hk hkj hact htid
      rcases hcase with ⟨_, hactj, htidj⟩ | ⟨_, _, hfree⟩
      · exact hkj (huniq k j hk hj hact hactj (htid.trans htidj.symm))
      · exact hfree k hk hact htid
    unfold counter_ok
    rw [efc, heq]
    refine ⟨hfc, fun k hk => ?_, fun k k2 hk hk2 ha ha2 hid2 => ?_⟩
    · by_cases hkj : k = j
      · rw [hkj, setAt_same]
        refine ⟨p1, by omega, p3, fun _ => ⟨by rw [p4, hT.2.2.2.1]; exact hid, p2, ?_⟩⟩
        rw [p6, hffc]
        omega
      · rw [setAt_ne _ _ hkj, hother k hkj]
        exact hslots k hk
    · by_cases hkj : k = j
      · by_cases hk2j : k2 = j
        · rw [hkj, hk2j]
        · exfalso
          rw [hkj, setAt_same, p4, hT.2.2.2.1] at hid2
          rw [setAt_ne _ _ hk2j, hother k2 hk2j] at ha2 hid2
          exact hidfree k2 hk2 hk2j ha2 hid2.symm
      · by_cases hk2j : k2 = j
        · exfalso
          rw [hk2j, setAt_same, p4, hT.2.2.2.1] at hid2
          rw [setAt_ne _ _ hkj, hother k hkj] at ha hid2
          exact hidfree k hk hkj ha hid2
        · rw [setAt_ne _ _ hkj, hother k hkj] at ha hid2
          rw [setAt_ne _ _ hk2j, hother k2 hk2j] at ha2 hid2
          exact huniq k k2 hk hk2 ha ha2 hid2

/-- The reset supervisor leaves the frame counter as it is and each tracker as it is or
deactivated. -/
theorem odc_daily_reset_effect (s : ObjectDetectionCounterState) (rh now : Int)
    (lt : Option Int) :
    (odc_daily_reset s rh now lt).global_frame_counter = s.global_frame_counter ∧
    ∀ k, (odc_daily_reset s rh now lt).tracked_objects k = s.tracked_objects k ∨
      (odc_daily_reset s rh now lt).tracked_objects k =
        { s.tracked_objects k with is_active := false } := by
  unfold odc_daily_reset
  split
  · exact ⟨rfl, fun _ => Or.inl rfl⟩
  · cases lt with
    | none => exact ⟨rfl, fun _ => Or.inl rfl⟩
    | some h =>
      dsimp only
      split
      · refine ⟨rfl, fun k => ?_⟩
        have hl := forLoop_setAt_self MAX_TRACKED_OBJECTS
          (fun _ (T : ObjectTracker) => { T with is_active := false }) s.tracked_objects k
        by_cases hk : k < MAX_TRACKED_OBJECTS
        · rw [if_pos hk] at hl
          exact Or.inr hl
        · rw [if_neg hk] at hl
          exact Or.inl hl
      · exact ⟨rfl, fun _ => Or.inl rfl⟩

/-- The start of a counter step advances the frame counter by one and leaves each tracker
as it is or deactivated. -/
theorem step_start_effect (s : ObjectDetectionCounterState) (c : RegionCall) :
    (step_start s c).global_frame_counter = s.global_frame_counter + 1 ∧
    ∀ k, (step_start s c).tracked_objects k = s.tracked_objects k ∨
      (step_start s c).tracked_objects k = { s.tracked_objects k with is_active := false } := by
  unfold step_start odc_check_daily_reset_i8 odc_check_daily_reset
  split
  · dsimp only
    split
    · exact ⟨rfl, fun _ => Or.inl rfl⟩
    · exact ⟨by rw [(odc_daily_reset_effect s _ _ _).1], (odc_daily_reset_effect s _ _ _).2⟩
  · dsimp only
    split
    · exact ⟨rfl, fun _ => Or.inl rfl⟩
    · exact ⟨by rw [(odc_daily_reset_effect s _ _ _).1], (odc_daily_reset_effect s _ _ _).2⟩

/-- The invariant of the counter state passes to a state whose trackers are those of the
first or deactivated ones, with the staleness bound that its active trackers satisfy. -/
theorem counter_ok_deactivated (B B2 : Int) (s s2 : ObjectDetectionCounterState)
    (hs : counter_ok B s) (hF : 0 ≤ s2.global_frame_counter)
    (hslot : ∀ k, s2.tracked_objects k = s.tracked_objects k ∨
      s2.tracked_objects k = { s.tracked_objects k with is_active := false })
    (hb : ∀ k, k < MAX_TRACKED_OBJECTS → (s2.tracked_objects k).is_active = true →
      s2.global_frame_counter - (s2.tracked_objects k).last_seen_frame ≤ B2) :
    counter_ok B2 s2 := by
  obtain ⟨_, hslots, huniq⟩ := hs
  have hsame : ∀ k, (s2.tracked_objects k).is_active = true →
      s2.tracked_objects k = s.tracked_objects k := by
    intro k hact
    rcases hslot k with e | e
    · exact e
    · rw [e] at hact
      exact absurd hact Bool.false_ne_true
  refine ⟨hF, fun k hk => ?_, fun k k2 hk hk2 ha ha2 hid => ?_⟩
  · have h := hslots k hk
    rcases hslot k with e | e
    · rw [e]
      refine ⟨h.1, h.2.1, h.2.2.1, fun hact => ?_⟩
      have hb2 := hb k hk (by rw [e]; exact hact)
      rw [e] at hb2
      exact ⟨(h.2.2.2 hact).1, (h.2.2.2 hact).2.1, hb2⟩
    · rw [e]
      exact ⟨h.1, h.2.1, h.2.2.1, fun hact => absurd hact Bool.false_ne_true⟩
  · have e1 := hsame k ha
    have e2 := hsame k2 ha2
    rw [e1] at ha hid
    rw [e2] at ha2 hid
    exact huniq k k2 hk hk2 ha ha2 hid

/-- During the detection loop of a counter step the frame counter is one more than before
the step and the invariant of the counter state holds with the staleness bound
31 + (old frame counter mod 10). -/
theorem step_columns_ok (x1 y1 x2 y2 : ℚ) (dir : Int) (s : ObjectDetectionCounterState)
    (c : RegionCall) (n : Nat) (hs : counter_ok (30 + s.global_frame_counter % 10) s) :
    (step_columns x1 y1 x2 y2 dir s c n).global_frame_counter = s.global_frame_counter + 1 ∧
    counter_ok (31 + s.global_frame_counter % 10) (step_columns x1 y1 x2 y2 dir s c n) := by
  have hF := hs.1
  obtain ⟨st1, st2⟩ := step_start_effect s c
  have hstart : counter_ok (31 + s.global_frame_counter % 10) (step_start s c) := by
    refine counter_ok_deactivated _ _ s _ hs (by rw [st1]; omega) st2 (fun k hk hact => ?_)
    rcases st2 k with e | e
    · rw [e] at hact ⊢
      have := ((hs.2.1 k hk).2.2.2 hact).2.2
      rw [st1]
      omega
    · rw [e] at hact
      exact absurd hact Bool.false_ne_true
  unfold step_columns
  refine forLoop_inv
    (fun _ (st : ObjectDetectionCounterState) =>
      st.global_frame_counter = s.global_frame_counter + 1 ∧
      counter_ok (31 + s.global_frame_counter % 10) st)
    _ _ _ ⟨st1, hstart⟩ ?_
  intro i _ st ⟨h1, h2⟩
  unfold step_column
  split
  · exact ⟨((odc_count_detection_effect _ _ _ _ _ _ st).1).trans h1,
      odc_count_detection_ok _ (by omega) _ _ _ _ _ _ st h2⟩
  · exact ⟨((odc_count_detection_effect _ _ _ _ _ _ st).1).trans h1,
      odc_count_detection_ok _ (by omega) _ _ _ _ _ _ st h2⟩

/-- One counter step keeps the invariant of the counter state, with the staleness bound
30 + (frame counter mod 10). -/
theorem region_step_ok (x1 y1 x2 y2 : ℚ) (dir : Int) (s : ObjectDetectionCounterState)
    (c : RegionCall) (hs : counter_ok (30 + s.global_frame_counter % 10) s) :
    counter_ok (30 + (region_step x1 y1 x2 y2 dir s c).global_frame_counter % 10)
      (region_step x1 y1 x2 y2 dir s c) := by
  have hF := hs.1
  have hcols := step_columns_ok x1 y1 x2 y2 dir s c c.max_detections hs
  rw [region_step_eq]
  generalize step_columns x1 y1 x2 y2 dir s c c.max_detections = st at hcols ⊢
  obtain ⟨hfc, hok⟩ := hcols
  have hfin : (odc_finish st).state.global_frame_counter = st.global_frame_counter :=
    (odc_finish_facts st).2.2.2.2.1
  have hslot : ∀ k, (odc_finish st).state.tracked_objects k = st.tracked_objects k ∨
      (odc_finish st).state.tracked_objects k =
        { st.tracked_objects k with is_active := false } := by
    intro k
    unfold odc_finish
    dsimp only
    split
    · rw [odc_cleanup_trackers_slot]
      split
      · exact Or.inr rfl
      · exact Or.inl rfl
    · exact Or.inl rfl
  refine counter_ok_deactivated _ _ st _ hok (by rw [hfin, hfc]; omega) hslot
    (fun k hk hact => ?_)
  rw [hfin]
  by_cases hclean : Int.tmod st.global_frame_counter CLEANUP_INTERVAL_FRAMES = 0
  · have hm : st.global_frame_counter % 10 = 0 := by
      have := Int.tmod_eq_emod (a := st.global_frame_counter) (b := 10) (by omega) (by decide)
      unfold CLEANUP_INTERVAL_FRAMES at hclean
      omega
    have hval : (odc_finish st).state.tracked_objects k =
        if k < MAX_TRACKED_OBJECTS ∧ (st.tracked_objects k).is_active = true ∧
            st.global_frame_counter - (st.tracked_objects k).last_seen_frame
              > TRACKER_EXPIRY_FRAMES
        then { st.tracked_objects k with is_active := false }
        else st.tracked_objects k := by
      unfold odc_finish
      dsimp only
      rw [if_pos hclean, odc_cleanup_trackers_slot]
    rw [hval] at hact ⊢
    by_cases hcond : k < MAX_TRACKED_OBJECTS ∧ (st.tracked_objects k).is_active = true ∧
        st.global_frame_counter - (st.tracked_objects k).last_seen_frame > TRACKER_EXPIRY_FRAMES
    · rw [if_pos hcond] at hact
      exact absurd hact Bool.false_ne_true
    · rw [if_neg hcond] at hact ⊢
      have : ¬ st.global_frame_counter - (st.tracked_objects k).last_seen_frame
          > TRACKER_EXPIRY_FRAMES := fun h => hcond ⟨hk, hact, h⟩
      unfold TRACKER_EXPIRY_FRAMES at this
      omega
  · have hm : st.global_frame_counter % 10 ≠ 0 := by
      have := Int.tmod_eq_emod (a := st.global_frame_counter) (b := 10) (by omega) (by decide)
      unfold CLEANUP_INTERVAL_FRAMES at hclean
      omega
    have hval : (odc_finish st).state.tracked_objects k = st.tracked_objects k := by
      unfold odc_finish
      dsimp only
      rw [if_neg hclean]
    rw [hval] at hact ⊢
    have := ((hok.2.1 k hk).2.2.2 hact).2.2
    omega

/-- Every state of a run of counter steps from the init state satisfies the invariant of the
counter state, with the staleness bound 30 + (frame counter mod 10). -/
theorem counter_run_any_ok (s0 : ObjectDetectionCounterState) (calls : List AnyCall) :
    counter_ok (30 + (counter_run_any s0 calls).global_frame_counter % 10)
      (counter_run_any s0 calls) := by
  unfold counter_run_any
  have hgen : ∀ (cs : List AnyCall) (s : ObjectDetectionCounterState),
      counter_ok (30 + s.global_frame_counter % 10) s →
      counter_ok
        (30 + (cs.foldl (fun s a => region_step a.x1 a.y1 a.x2 a.y2 a.in_direction s a.call)
          s).global_frame_counter % 10)
        (cs.foldl (fun s a => region_step a.x1 a.y1 a.x2 a.y2 a.in_direction s a.call) s) := by
    intro cs
    induction cs with
    | nil => exact fun s hs => hs
    | cons a rest ih =>
      intro s hs
      exact ih _ (region_step_ok a.x1 a.y1 a.x2 a.y2 a.in_direction s a.call hs)
  apply hgen
  refine ⟨le_refl (0 : Int), fun k hk => ?_, fun k k2 hk hk2 ha _ _ => ?_⟩
  · rw [object_detection_counter_init_f32_slot s0 k hk]
    exact ⟨(by decide : REGION_STATE_OUTSIDE ≠ REGION_STATE_INSIDE), le_refl (0 : Int),
      (by decide : (0 : Int) ≤ 10), fun h => absurd h (by decide)⟩
  · rw [object_detection_counter_init_f32_slot s0 k hk] at ha
    exact absurd ha (by decide)

/-- A tracker in region state OUTSIDE whose last recorded position is inside the region:
pushing a further point gives no crossing and leaves the region state OUTSIDE, whether the
point is inside or outside; the tracker keeps 1..10 points and the point is its last one. -/
theorem first_inside_step (region : CountingRegion) (st : ObjectDetectionCounterState)
    (T : ObjectTracker) (x y : ℚ) (hT : T.region_state = REGION_STATE_OUTSIDE)
    (h1 : 1 ≤ T.history_count) (h10 : T.history_count ≤ 10)
    (hin : odc_point_in_rectangle (T.x_history (T.history_count - 1).toNat)
      (T.y_history (T.history_count - 1).toNat) region = true) :
    (odc_detect_crossing (odc_add_position st T x y) region).1 = CROSSING_NONE ∧
    (odc_detect_crossing (odc_add_position st T x y) region).2.region_state
      = REGION_STATE_OUTSIDE ∧
    1 ≤ (odc_detect_crossing (odc_add_position st T x y) region).2.history_count ∧
    (odc_detect_crossing (odc_add_position st T x y) region).2.history_count ≤ 10 ∧
    (odc_detect_crossing (odc_add_position st T x y) region).2.x_history
      ((odc_detect_crossing (odc_add_position st T x y) region).2.history_count - 1).toNat = x ∧
    (odc_detect_crossing (odc_add_position st T x y) region).2.y_history
      ((odc_detect_crossing (odc_add_position st T x y) region).2.history_count - 1).toNat
      = y := by
  obtain ⟨a2, a10, ax, ay, apx, apy⟩ := odc_add_position_last st T x y h1 h10
  obtain ⟨_, _, f3, _⟩ := odc_add_position_fields st T x y
  obtain ⟨_, _, _, d4, d5, d6⟩ := odc_detect_crossing_fields (odc_add_position st T x y) region
  rw [← apx, ← apy] at hin
  have hcross : (odc_detect_crossing (odc_add_position st T x y) region).1 = CROSSING_NONE ∧
      (odc_detect_crossing (odc_add_position st T x y) region).2.region_state
        = REGION_STATE_OUTSIDE := by
    cases hq : odc_point_in_rectangle x y region with
    | true =>
      have hst := odc_detect_crossing_state (odc_add_position st T x y) region a2
      rw [ax, ay, hin, hq] at hst
      refine ⟨?_, by rw [hst, f3, hT]; rfl⟩
      unfold odc_detect_crossing
      rw [if_neg (by omega)]
      dsimp only
      rw [ax, ay, hin, hq]
      rfl
    | false =>
      obtain ⟨e1, e2⟩ := odc_detect_crossing_exit (odc_add_position st T x y) region _ _ x y
        a2 rfl rfl ax ay hin hq
      refine ⟨?_, e2⟩
      rw [e1, f3, hT]
      rfl
  refine ⟨hcross.1, hcross.2, ?_, ?_, ?_, ?_⟩
  · rw [d4]; omega
  · rw [d4]; exact a10
  · rw [d4, d5]; exact ax
  · rw [d4, d6]; exact ay

/-- C36: in every state reached from the counter init state by counter steps, with
any detections, regions, reset hours and clock readings, an active counter-tracker has a
track id of at least 1 and 1 to 10 recorded points, and no other active counter-tracker
has its track id. -/
theorem counter_ids_unique (s0 : ObjectDetectionCounterState) (calls : List AnyCall)
    (k k2 : Nat) (hk : k < MAX_TRACKED_OBJECTS) (hk2 : k2 < MAX_TRACKED_OBJECTS)
    (ha : ((counter_run_any s0 calls).tracked_objects k).is_active = true) :
    1 ≤ ((counter_run_any s0 calls).tracked_objects k).track_id ∧
    1 ≤ ((counter_run_any s0 calls).tracked_objects k).history_count ∧
    ((counter_run_any s0 calls).tracked_objects k).history_count ≤ 10 ∧
    (((counter_run_any s0 calls).tracked_objects k2).is_active = true →
      ((counter_run_any s0 calls).tracked_objects k).track_id =
        ((counter_run_any s0 calls).tracked_objects k2).track_id → k = k2) := by
  obtain ⟨_, hslots, huniq⟩ := counter_run_any_ok s0 calls
  have h := hslots k hk
  exact ⟨(h.2.2.2 ha).1, (h.2.2.2 ha).2.1, h.2.2.1, fun ha2 hid => huniq k k2 hk hk2 ha ha2 hid⟩

/-- Witness of C36: after two calls that report track 1, slot 0 is the active tracker of
track 1 with two points. -/
theorem counter_ids_unique_witness :
    (0 < MAX_TRACKED_OBJECTS ∧
      ((counter_run_any zero_counter_state [stale_call true, stale_call true]).tracked_objects
        0).is_active = true) ∧
    1 ≤ ((counter_run_any zero_counter_state [stale_call true, stale_call true]).tracked_objects
      0).track_id ∧
    1 ≤ ((counter_run_any zero_counter_state [stale_call true, stale_call true]).tracked_objects
      0).history_count ∧
    ((counter_run_any zero_counter_state [stale_call true, stale_call true]).tracked_objects
      0).history_count ≤ 10 ∧
    (((counter_run_any zero_counter_state [stale_call true, stale_call true]).tracked_objects
        0).is_active = true →
      ((counter_run_any zero_counter_state [stale_call true, stale_call true]).tracked_objects
          0).track_id =
        ((counter_run_any zero_counter_state [stale_call true, stale_call true]).tracked_objects
          0).track_id → 0 = 0) :=
  ⟨⟨by decide, by decide!⟩,
    counter_ids_unique zero_counter_state [stale_call true, stale_call true] 0 0 (by decide)
      (by decide) (by decide!)⟩

/-- Counterexample of C37: track 1 is reported in frame 10, is absent in frames 11 to 49 and
is reported again in frame 50. After frame 49 its counter-tracker is still active with
frame counter - last_seen_frame = 39, and the step of frame 50, 40 frames after the last
sighting, resumes this tracker (it then has two points) instead of starting a fresh one. -/
theorem resumed_after_40_frames :
    (counter_run_any zero_counter_state (stale_calls 49)).global_frame_counter = 49 ∧
    ((counter_run_any zero_counter_state (stale_calls 49)).tracked_objects 0).is_active = true ∧
    ((counter_run_any zero_counter_state (stale_calls 49)).tracked_objects 0).track_id = 1 ∧
    ((counter_run_any zero_counter_state (stale_calls 49)).tracked_objects 0).last_seen_frame
      = 10 ∧
    ((counter_run_any zero_counter_state (stale_calls 49)).tracked_objects 0).history_count
      = 1 ∧
    (counter_run_any zero_counter_state (stale_calls 50)).global_frame_counter = 50 ∧
    ((counter_run_any zero_counter_state (stale_calls 50)).tracked_objects 0).is_active = true ∧
    ((counter_run_any zero_counter_state (stale_calls 50)).tracked_objects 0).track_id = 1 ∧
    ((counter_run_any zero_counter_state (stale_calls 50)).tracked_objects 0).last_seen_frame
      = 50 ∧
    ((counter_run_any zero_counter_state (stale_calls 50)).tracked_objects 0).history_count
      = 2 := by
  decide!

/-- C37, amended: in every state reached from the counter init state by counter steps
an active counter-tracker has frame counter - last_seen_frame at most 39, and at most 30
when the frame counter is a multiple of 10; during the detection loop of the next step,
where a reported track id is looked up, the difference is at most 40, so a tracker is
resumed at most 40 frames after its last sighting. -/
theorem counter_staleness_bound (s0 : ObjectDetectionCounterState) (calls : List AnyCall)
    (a : AnyCall) (n k : Nat) (hk : k < MAX_TRACKED_OBJECTS) :
    (((counter_run_any s0 calls).tracked_objects k).is_active = true →
      (counter_run_any s0 calls).global_frame_counter -
          ((counter_run_any s0 calls).tracked_objects k).last_seen_frame ≤ 39 ∧
      (Int.tmod (counter_run_any s0 calls).global_frame_counter CLEANUP_INTERVAL_FRAMES = 0 →
        (counter_run_any s0 calls).global_frame_counter -
          ((counter_run_any s0 calls).tracked_objects k).last_seen_frame
            ≤ TRACKER_EXPIRY_FRAMES)) ∧
    (((step_columns a.x1 a.y1 a.x2 a.y2 a.in_direction (counter_run_any s0 calls) a.call
        n).tracked_objects k).is_active = true →
      (step_columns a.x1 a.y1 a.x2 a.y2 a.in_direction (counter_run_any s0 calls) a.call
          n).global_frame_counter -
        ((step_columns a.x1 a.y1 a.x2 a.y2 a.in_direction (counter_run_any s0 calls) a.call
          n).tracked_objects k).last_seen_frame ≤ 40) := by
  have hok := counter_run_any_ok s0 calls
  have hF := hok.1
  refine ⟨fun ha => ?_, fun ha => ?_⟩
  · have hb := ((hok.2.1 k hk).2.2.2 ha).2.2
    refine ⟨by omega, fun hm => ?_⟩
    have := Int.tmod_eq_emod (a := (counter_run_any s0 calls).global_frame_counter) (b := 10)
      (by omega) (by decide)
    unfold CLEANUP_INTERVAL_FRAMES at hm
    unfold TRACKER_EXPIRY_FRAMES
    omega
  · obtain ⟨_, hc⟩ := step_columns_ok a.x1 a.y1 a.x2 a.y2 a.in_direction
      (counter_run_any s0 calls) a.call n hok
    have hb := ((hc.2.1 k hk).2.2.2 ha).2.2
    omega

/-- After 49 calls with track 1 reported in call 10 only, slot 0 is still active. -/
theorem stale_run_active :
    ((counter_run_any zero_counter_state (stale_calls 49)).tracked_objects 0).is_active
      = true := by
  decide!

/-- At the start of the detection loop of call 50, slot 0 is still active. -/
theorem stale_run_active_next :
    ((step_columns (stale_call true).x1 (stale_call true).y1 (stale_call true).x2
      (stale_call true).y2 (stale_call true).in_direction
      (counter_run_any zero_counter_state (stale_calls 49)) (stale_call true).call
      0).tracked_objects 0).is_active = true := by
  decide!

/-- Witness of C37: after 49 calls with track 1 reported in call 10 only, slot 0 is active
and 39 frames stale; in the detection loop of call 50 it is active and 40 frames stale
before the column of track 1 is processed (n = 0). -/
theorem counter_staleness_bound_witness :
    (0 < MAX_TRACKED_OBJECTS ∧
      ((counter_run_any zero_counter_state (stale_calls 49)).tracked_objects 0).is_active
        = true ∧
      ((step_columns (stale_call true).x1 (stale_call true).y1 (stale_call true).x2
        (stale_call true).y2 (stale_call true).in_direction
        (counter_run_any zero_counter_state (stale_calls 49)) (stale_call true).call
        0).tracked_objects 0).is_active = true) ∧
    (((counter_run_any zero_counter_state (stale_calls 49)).tracked_objects 0).is_active
        = true →
      (counter_run_any zero_counter_state (stale_calls 49)).global_frame_counter -
          ((counter_run_any zero_counter_state (stale_calls 49)).tracked_objects
            0).last_seen_frame ≤ 39 ∧
      (Int.tmod (counter_run_any zero_counter_state (stale_calls 49)).global_frame_counter
          CLEANUP_INTERVAL_FRAMES = 0 →
        (counter_run_any zero_counter_state (stale_calls 49)).global_frame_counter -
          ((counter_run_any zero_counter_state (stale_calls 49)).tracked_objects
            0).last_seen_frame ≤ TRACKER_EXPIRY_FRAMES)) ∧
    (((step_columns (stale_call true).x1 (stale_call true).y1 (stale_call true).x2
        (stale_call true).y2 (stale_call true).in_direction
        (counter_run_any zero_counter_state (stale_calls 49)) (stale_call true).call
        0).tracked_objects 0).is_active = true →
      (step_columns (stale_call true).x1 (stale_call true).y1 (stale_call true).x2
          (stale_call true).y2 (stale_call true).in_direction
          (counter_run_any zero_counter_state (stale_calls 49)) (stale_call true).call
          0).global_frame_counter -
        ((step_columns (stale_call true).x1 (stale_call true).y1 (stale_call true).x2
          (stale_call true).y2 (stale_call true).in_direction
          (counter_run_any zero_counter_state (stale_calls 49)) (stale_call true).call
          0).tracked_objects 0).last_seen_frame ≤ 40) :=
  ⟨⟨by decide, stale_run_active, stale_run_active_next⟩,
    counter_staleness_bound zero_counter_state (stale_calls 49) (stale_call true) 0 0
      (by decide)⟩

/-- C38: in every state reached from the counter init state by counter steps no
counter-tracker slot has the region state INSIDE; and a tracker in region state OUTSIDE
whose last recorded position is inside the region, as a fresh tracker whose first position
is inside, gets no crossing from the next point, inside or outside, and stays OUTSIDE, so
its stay inside and its exit are not counted. -/
theorem inside_state_unused (s0 : ObjectDetectionCounterState) (calls : List AnyCall) (k : Nat)
    (region : CountingRegion) (st : ObjectDetectionCounterState) (T : ObjectTracker) (x y : ℚ)
    (hk : k < MAX_TRACKED_OBJECTS) (hT : T.region_state = REGION_STATE_OUTSIDE)
    (h1 : 1 ≤ T.history_count) (h10 : T.history_count ≤ 10)
    (hin : odc_point_in_rectangle (T.x_history (T.history_count - 1).toNat)
      (T.y_history (T.history_count - 1).toNat) region = true) :
    ((counter_run_any s0 calls).tracked_objects k).region_state ≠ REGION_STATE_INSIDE ∧
    (odc_detect_crossing (odc_add_position st T x y) region).1 = CROSSING_NONE ∧
    (odc_detect_crossing (odc_add_position st T x y) region).2.region_state
      = REGION_STATE_OUTSIDE ∧
    1 ≤ (odc_detect_crossing (odc_add_position st T x y) region).2.history_count ∧
    (odc_detect_crossing (odc_add_position st T x y) region).2.history_count ≤ 10 ∧
    (odc_detect_crossing (odc_add_position st T x y) region).2.x_history
      ((odc_detect_crossing (odc_add_position st T x y) region).2.history_count - 1).toNat = x ∧
    (odc_detect_crossing (odc_add_position st T x y) region).2.y_history
      ((odc_detect_crossing (odc_add_position st T x y) region).2.history_count - 1).toNat
      = y :=
  ⟨((counter_run_any_ok s0 calls).2.1 k hk).1, first_inside_step region st T x y hT h1 h10 hin⟩

/-- Witness of C38: the fresh tracker whose first position (0.5, 0.5) is inside the region
(0.4, 0.3, 0.6, 0.7) moves out to (0.7, 0.5): no crossing, region state OUTSIDE. -/
theorem inside_state_unused_witness :
    (0 < MAX_TRACKED_OBJECTS ∧ first_inside_tracker.region_state = REGION_STATE_OUTSIDE ∧
      1 ≤ first_inside_tracker.history_count ∧ first_inside_tracker.history_count ≤ 10 ∧
      odc_point_in_rectangle
        (first_inside_tracker.x_history (first_inside_tracker.history_count - 1).toNat)
        (first_inside_tracker.y_history (first_inside_tracker.history_count - 1).toNat)
        (odc_init_region (2/5) (3/10) (3/5) (7/10) 0) = true) ∧
    ((counter_run_any zero_counter_state [stale_call true]).tracked_objects 0).region_state
      ≠ REGION_STATE_INSIDE ∧
    (odc_detect_crossing (odc_add_position zero_counter_state first_inside_tracker (7/10) (1/2))
      (odc_init_region (2/5) (3/10) (3/5) (7/10) 0)).1 = CROSSING_NONE ∧
    (odc_detect_crossing (odc_add_position zero_counter_state first_inside_tracker (7/10) (1/2))
      (odc_init_region (2/5) (3/10) (3/5) (7/10) 0)).2.region_state = REGION_STATE_OUTSIDE :=
  ⟨⟨by decide, by decide!, by decide!, by decide!, by decide!⟩,
    ((inside_state_unused zero_counter_state [stale_call true] 0
      (odc_init_region (2/5) (3/10) (3/5) (7/10) 0) zero_counter_state first_inside_tracker
      (7/10) (1/2) (by decide) (by decide!) (by decide!) (by decide!) (by decide!)).1),
    ((inside_state_unused zero_counter_state [stale_call true] 0
      (odc_init_region (2/5) (3/10) (3/5) (7/10) 0) zero_counter_state first_inside_tracker
      (7/10) (1/2) (by decide) (by decide!) (by decide!) (by decide!) (by decide!)).2.1),
    ((inside_state_unused zero_counter_state [stale_call true] 0
      (odc_init_region (2/5) (3/10) (3/5) (7/10) 0) zero_counter_state first_inside_tracker
      (7/10) (1/2) (by decide) (by decide!) (by decide!) (by decide!) (by decide!)).2.2.1)⟩

/-- Encoding undoes decoding: the byte `b` decodes to (b + 128) / 255, whose encoding is
`b`. -/
theorem float_to_int8_decoded (b : Int) (h1 : -128 ≤ b) (h2 : b ≤ 127) :
    float_to_int8 (((b : ℚ) + 128) / 255) = b := by
  unfold float_to_int8
  have hv : ((b : ℚ) + 128) / 255 * 255 - 128 = ((b : Int) : ℚ) := by
    field_simp
  rw [hv, float_to_int_intCast, wrap_int8_of_mem h1 h2]
  dsimp only
  rw [if_neg (by omega), if_neg (by omega)]

/-- The inner loop of `extract_detections_i8` is the one of `extract_detections` on the
decoded tensor. -/
theorem best_class_i8_eq (det : Nat → Int) (md cc i : Nat) :
    best_class_i8 det md cc i = best_class (decoded_tensor det) md cc i := rfl

/-- A track that is marked matched is left as it is by an iteration of the detection
loop. -/
theorem associate_detection_marked (data : Nat → Detection) (mt : Nat) (thr : ℚ) (d : Nat)
    (a : Association) (t : Nat) (h : a.track_matched t = true) :
    (associate_detection data mt thr d a).state.tracks t = a.state.tracks t := by
  unfold associate_detection
  by_cases hm : a.detection_matched d = true
  · rw [if_pos hm]
  · rw [if_neg hm]
    rcases hfb : find_best_track a.state.tracks a.track_matched (data d) mt thr with
      ⟨iou, _ | bt⟩
    · rfl
    · dsimp only
      have hbt := find_best_track_some a.state.tracks a.track_matched (data d) mt thr bt
        (by rw [hfb])
      have hne : t ≠ bt := by
        intro he
        rw [he, hbt.2.2.1] at h
        exact absurd h (by decide)
      exact setAt_ne _ _ hne

/-- The track that the detection loop matches to detection `d` holds, after the loop, the
box and the confidence of `d`, the class it had, and is marked matched. -/
theorem matched_slot_after_association (s : ObjectTrackerState) (data : Nat → Detection)
    (valid mt : Nat) (thr : ℚ) (dm tm : Nat → Bool) (d t : Nat) (hd : d < valid)
    (h : matched_track s data valid mt thr dm tm d = some t) :
    t < mt ∧
    (perform_tracking_association s data valid mt thr dm tm).track_matched t = true ∧
    ((perform_tracking_association s data valid mt thr dm tm).state.tracks t).x = (data d).x ∧
    ((perform_tracking_association s data valid mt thr dm tm).state.tracks t).y = (data d).y ∧
    ((perform_tracking_association s data valid mt thr dm tm).state.tracks t).w = (data d).w ∧
    ((perform_tracking_association s data valid mt thr dm tm).state.tracks t).h = (data d).h ∧
    ((perform_tracking_association s data valid mt thr dm tm).state.tracks t).confidence
      = (data d).confidence ∧
    ((perform_tracking_association s data valid mt thr dm tm).state.tracks t).class_id
      = float_to_int (data d).class_id ∧
    ((perform_tracking_association s data valid mt thr dm tm).state.tracks t).active = true := by
  have hwhole : perform_tracking_association s data valid mt thr dm tm =
      association_before s data valid mt thr dm tm valid := rfl
  have hstep : ∀ n, association_before s data valid mt thr dm tm (n + 1) =
      associate_detection data mt thr n (association_before s data valid mt thr dm tm n) :=
    fun n => rfl
  unfold matched_track at h
  by_cases hm : (association_before s data valid mt thr dm tm d).detection_matched d = true
  · rw [if_pos hm] at h
    exact absurd h (by simp)
  · rw [if_neg hm] at h
    have hbt := find_best_track_some _ _ _ _ _ t h
    have hfirst : (association_before s data valid mt thr dm tm (d + 1)).track_matched t = true ∧
        ((association_before s data valid mt thr dm tm (d + 1)).state.tracks t).x = (data d).x ∧
        ((association_before s data valid mt thr dm tm (d + 1)).state.tracks t).y = (data d).y ∧
        ((association_before s data valid mt thr dm tm (d + 1)).state.tracks t).w = (data d).w ∧
        ((association_before s data valid mt thr dm tm (d + 1)).state.tracks t).h = (data d).h ∧
        ((association_before s data valid mt thr dm tm (d + 1)).state.tracks t).confidence
          = (data d).confidence ∧
        ((association_before s data valid mt thr dm tm (d + 1)).state.tracks t).class_id
          = float_to_int (data d).class_id ∧
        ((association_before s data valid mt thr dm tm (d + 1)).state.tracks t).active
          = true := by
      rw [hstep]
      unfold associate_detection
      rw [if_neg hm]
      rcases hfb : find_best_track
          (association_before s data valid mt thr dm tm d).state.tracks
          (association_before s data valid mt thr dm tm d).track_matched (data d) mt thr with
        ⟨iou, o⟩
      rw [hfb] at h
      dsimp only at h
      subst h
      dsimp only
      rw [setAt_same, setAt_same]
      exact ⟨rfl, rfl, rfl, rfl, rfl, rfl, hbt.2.2.2, hbt.2.1⟩
    have hall : ∀ m, (association_before s data valid mt thr dm tm (d + 1 + m)).track_matched t
          = true ∧
        (association_before s data valid mt thr dm tm (d + 1 + m)).state.tracks t =
          (association_before s data valid mt thr dm tm (d + 1)).state.tracks t := by
      intro m
      induction m with
      | zero => exact ⟨hfirst.1, rfl⟩
      | succ m ih =>
        have e : d + 1 + (m + 1) = (d + 1 + m) + 1 := by omega
        rw [e, hstep]
        exact ⟨(associate_detection_marks data mt thr _ _).1 t ih.1,
          (associate_detection_marked data mt thr _ _ t ih.1).trans ih.2⟩
    have hv : d + 1 + (valid - (d + 1)) = valid := by omega
    have hend := hall (valid - (d + 1))
    rw [hv] at hend
    rw [hwhole, hend.2]
    exact ⟨hbt.1, hend.1, hfirst.2⟩

/-- The track matched to detection `d` holds the box and the confidence of `d` at the end of
the step. -/
theorem matched_slot_after_step (detections : Nat → ℚ) (s : ObjectTrackerState)
    (output : Nat → ℚ) (md cc : Nat) (thr : ℚ) (mt : Nat) (max_age min_hits : Int) (d t : Nat)
    (hd : d < (extract_detections detections md cc unwritten_rows).2)
    (h : matched_track s (extract_detections detections md cc unwritten_rows).1
      (extract_detections detections md cc unwritten_rows).2 mt thr (fun _ => false)
      (fun _ => false) d = some t) :
    ((object_tracker_f32 detections s output md cc thr mt max_age min_hits).1.tracks t).x =
      ((extract_detections detections md cc unwritten_rows).1 d).x ∧
    ((object_tracker_f32 detections s output md cc thr mt max_age min_hits).1.tracks t).y =
      ((extract_detections detections md cc unwritten_rows).1 d).y ∧
    ((object_tracker_f32 detections s output md cc thr mt max_age min_hits).1.tracks t).w =
      ((extract_detections detections md cc unwritten_rows).1 d).w ∧
    ((object_tracker_f32 detections s output md cc thr mt max_age min_hits).1.tracks t).h =
      ((extract_detections detections md cc unwritten_rows).1 d).h ∧
    ((object_tracker_f32 detections s output md cc thr mt max_age min_hits).1.tracks
      t).confidence = ((extract_detections detections md cc unwritten_rows).1 d).confidence ∧
    ((object_tracker_f32 detections s output md cc thr mt max_age min_hits).1.tracks
      t).class_id =
        float_to_int ((extract_detections detections md cc unwritten_rows).1 d).class_id := by
  obtain ⟨ht, hmk, hx, hy, hw, hh, hc, hcl, hact⟩ :=
    matched_slot_after_association s _ _ mt thr (fun _ => false) (fun _ => false) d t hd h
  have hfin : (object_tracker_f32 detections s output md cc thr mt max_age min_hits).1.tracks t =
      (perform_tracking_association s (extract_detections detections md cc unwritten_rows).1
        (extract_detections detections md cc unwritten_rows).2 mt thr (fun _ => false)
        (fun _ => false)).state.tracks t := by
    unfold object_tracker_f32
    dsimp only
    have hcr := create_new_tracks_active_slot
      (perform_tracking_association s (extract_detections detections md cc unwritten_rows).1
        (extract_detections detections md cc unwritten_rows).2 mt thr (fun _ => false)
        (fun _ => false)).state
      (extract_detections detections md cc unwritten_rows).1
      (extract_detections detections md cc unwritten_rows).2 mt
      (perform_tracking_association s (extract_detections detections md cc unwritten_rows).1
        (extract_detections detections md cc unwritten_rows).2 mt thr (fun _ => false)
        (fun _ => false)).detection_matched t hact
    rw [update_track_lifecycle_slot _ mt max_age _ t ht (by rw [hcr]; exact hact), if_pos hmk,
      hcr]
  rw [hfin]
  exact ⟨hx, hy, hw, hh, hc, hcl⟩

/-- C39: encoding undoes decoding on bytes, float_to_int8 ((b + 128) / 255) = b for
every byte b of -128 .. 127. Hence, in a step of the i8 tracker, let column i of the input
be the d-th detection kept by the extraction, with bytes in its cells, and let the track of
slot t be matched to detection d, or spawned from it, and emitted in column j of the output.
Then the four box bytes of column j are those of column i, the class of the detection has a
row, and in the class rows column j holds the confidence byte of column i in the row of
that class and the byte -128 elsewhere. -/
theorem encoding_undoes_decoding (b : Int) (det8 : Nat → Int) (s : ObjectTrackerState)
    (out8 : Nat → Int) (md cc : Nat) (thr : ℚ) (mt : Nat) (max_age min_hits : Int)
    (d i t j : Nat) (hb1 : -128 ≤ b) (hb2 : b ≤ 127) (hcc : 4 ≤ cc)
    (hbytes : ∀ r, r < cc → -128 ≤ det8 (r * md + i) ∧ det8 (r * md + i) ≤ 127)
    (hi : (emitted_columns (decoded_tensor det8) md cc md)[d]? = some i)
    (hfrom :
      matched_track s (extract_detections_i8 det8 md cc unwritten_rows).1
          (extract_detections_i8 det8 md cc unwritten_rows).2 mt thr (fun _ => false)
          (fun _ => false) d = some t ∨
      ((perform_tracking_association s (extract_detections_i8 det8 md cc unwritten_rows).1 (extract_detections_i8 det8 md cc unwritten_rows).2 mt thr
          (fun _ => false) (fun _ => false)).detection_matched d = false ∧
        find_empty_slot
          (create_new_tracks
            (perform_tracking_association s (extract_detections_i8 det8 md cc unwritten_rows).1 (extract_detections_i8 det8 md cc unwritten_rows).2 mt thr
          (fun _ => false) (fun _ => false)).state
            (extract_detections_i8 det8 md cc unwritten_rows).1 d mt
            (perform_tracking_association s (extract_detections_i8 det8 md cc unwritten_rows).1 (extract_detections_i8 det8 md cc unwritten_rows).2 mt thr
          (fun _ => false) (fun _ => false)).detection_matched).tracks mt = some t))
    (hj : j < md)
    (hemit : (emitted_slots (object_tracker_i8 det8 s out8 md cc thr mt max_age min_hits).1 mt min_hits)[j]? = some t) :
    float_to_int8 (((b : ℚ) + 128) / 255) = b ∧
    (∀ r, r < 4 → (object_tracker_i8 det8 s out8 md cc thr mt max_age min_hits).2 (r * md + j) = det8 (r * md + i)) ∧
    0 ≤ (best_class_i8 det8 md cc i).2 ∧ (best_class_i8 det8 md cc i).2 + 4 < (cc : Int) ∧
    (∀ r, 4 ≤ r → r < cc →
      (object_tracker_i8 det8 s out8 md cc thr mt max_age min_hits).2 (r * md + j) =
        if (r : Int) - 4 = (best_class_i8 det8 md cc i).2 then det8 (r * md + i) else -128) := by
  rw [extract_detections_i8_eq] at hfrom
  rw [best_class_i8_eq]
  obtain ⟨hlen, hrows⟩ := extract_detections_rows (decoded_tensor det8) md cc unwritten_rows
  have hrow := hrows d i hi
  have hd : d < (extract_detections (decoded_tensor det8) md cc unwritten_rows).2 := by
    rw [hlen]
    by_contra hge
    rw [List.getElem?_eq_none (by omega)] at hi
    exact absurd hi (by simp)
  have hstate : (object_tracker_i8 det8 s out8 md cc thr mt max_age min_hits).1 =
      (object_tracker_f32 (decoded_tensor det8) s (fun _ => 0) md cc thr mt max_age
        min_hits).1 := rfl
  have hout : (object_tracker_i8 det8 s out8 md cc thr mt max_age min_hits).2 =
      (emit_tracks float_to_int8 (fun n => float_to_int8 ((n : ℚ) / (MAX_TRACK_ID : ℚ))) (-128)
        (object_tracker_i8 det8 s out8 md cc thr mt max_age min_hits).1 out8 md cc mt
        min_hits).1 := rfl
  have hact : (((object_tracker_i8 det8 s out8 md cc thr mt max_age min_hits).1.tracks t).active = true) := by
    have hmem := List.mem_iff_getElem?.mpr ⟨j, hemit⟩
    unfold emitted_slots at hmem
    rw [List.mem_filter, Bool.and_eq_true] at hmem
    exact hmem.2.1
  obtain ⟨_, hcol, _⟩ := emit_tracks_layout float_to_int8
    (fun n => float_to_int8 ((n : ℚ) / (MAX_TRACK_ID : ℚ))) (-128)
    (object_tracker_i8 det8 s out8 md cc thr mt max_age min_hits).1 out8 md cc mt min_hits hcc
  obtain ⟨c0, c1, c2, c3, cr, _, _⟩ := hcol j t hj hemit
  rw [← hout] at c0 c1 c2 c3 cr
  rw [hstate] at hact c0 c1 c2 c3 cr
  have hT :
      ((object_tracker_f32 (decoded_tensor det8) s (fun _ => 0) md cc thr mt max_age
        min_hits).1.tracks t).x
        = ((extract_detections (decoded_tensor det8) md cc unwritten_rows).1 d).x ∧
      ((object_tracker_f32 (decoded_tensor det8) s (fun _ => 0) md cc thr mt max_age
        min_hits).1.tracks t).y
        = ((extract_detections (decoded_tensor det8) md cc unwritten_rows).1 d).y ∧
      ((object_tracker_f32 (decoded_tensor det8) s (fun _ => 0) md cc thr mt max_age
        min_hits).1.tracks t).w
        = ((extract_detections (decoded_tensor det8) md cc unwritten_rows).1 d).w ∧
      ((object_tracker_f32 (decoded_tensor det8) s (fun _ => 0) md cc thr mt max_age
        min_hits).1.tracks t).h
        = ((extract_detections (decoded_tensor det8) md cc unwritten_rows).1 d).h ∧
      ((object_tracker_f32 (decoded_tensor det8) s (fun _ => 0) md cc thr mt max_age
        min_hits).1.tracks t).confidence
        = ((extract_detections (decoded_tensor det8) md cc unwritten_rows).1 d).confidence ∧
      ((object_tracker_f32 (decoded_tensor det8) s (fun _ => 0) md cc thr mt max_age
        min_hits).1.tracks t).class_id
        = float_to_int
          ((extract_detections (decoded_tensor det8) md cc unwritten_rows).1 d).class_id := by
    rcases hfrom with hm | ⟨hdm, he⟩
    · exact matched_slot_after_step (decoded_tensor det8) s (fun _ => 0) md cc thr mt max_age
        min_hits d t hd hm
    · have hsp := spawned_slot_after_step (decoded_tensor det8) s (fun _ => 0) md cc thr mt
        max_age min_hits d t hd hdm he
      by_cases hexp : (0 : Int) + 1 > max_age
      · rw [if_pos hexp] at hsp
        rw [hsp] at hact
        exact absurd hact (by decide)
      · rw [if_neg hexp] at hsp
        rw [hsp]
        exact ⟨rfl, rfl, rfl, rfl, rfl, rfl⟩
  obtain ⟨tx, ty, tw, th, tc, tcl⟩ := hT
  rw [hrow] at tx ty tw th tc tcl
  dsimp only at tx ty tw th tc tcl
  rw [float_to_int_intCast] at tcl
  have hcell : ∀ r, r < cc →
      float_to_int8 (get_detection_value (decoded_tensor det8) md cc r i) =
        det8 (r * md + i) :=
    fun r hr => float_to_int8_decoded _ (hbytes r hr).1 (hbytes r hr).2
  have hkept : ∃ k, k < cc - 4 ∧
      0 < get_detection_value (decoded_tensor det8) md cc (k + 4) i := by
    have hmem := List.mem_iff_getElem?.mpr ⟨d, hi⟩
    unfold emitted_columns at hmem
    rw [List.mem_filter, List.any_eq_true] at hmem
    obtain ⟨k, hk, hpos⟩ := hmem.2
    exact ⟨k, List.mem_range.mp hk, by simpa using hpos⟩
  refine ⟨float_to_int8_decoded b hb1 hb2, ?_, ?_⟩
  · intro r hr
    interval_cases r
    · rw [c0, tx]
      exact hcell 0 (by omega)
    · rw [c1, ty]
      exact hcell 1 (by omega)
    · rw [c2, tw]
      exact hcell 2 (by omega)
    · rw [c3, th]
      exact hcell 3 (by omega)
  · rcases best_class_cases (decoded_tensor det8) md cc i with
      ⟨_, hall⟩ | ⟨k0, hk0, hbc, _, _, _⟩
    · obtain ⟨k, hk, hpos⟩ := hkept
      exact absurd (hall k hk) (not_le.mpr hpos)
    · rw [hbc] at tc tcl ⊢
      dsimp only at tc tcl ⊢
      refine ⟨by omega, by omega, fun r h4 hr => ?_⟩
      rw [cr r h4 hr, tcl, tc]
      by_cases hrk : (r : Int) - 4 = (k0 : Int)
      · rw [if_pos hrk, if_pos hrk]
        have hr2 : r = k0 + 4 := by omega
        rw [hr2]
        exact hcell (k0 + 4) (by omega)
      · rw [if_neg hrk, if_neg hrk]
        exact float_to_int8_zero

/-- Witness of C39 on the quantized first frame of seed scenario 1: the detection of column
0 (bytes 0, 0, -102, -102, class-0 confidence 102) is spawned in slot 0 and emitted in
column 0 with the same bytes. -/
theorem encoding_undoes_decoding_witness :
    ((-128 : Int) ≤ 102 ∧ (102 : Int) ≤ 127 ∧ 4 ≤ 6 ∧
      (∀ r, r < 6 → -128 ≤ seed1_frame1_i8 (r * 4 + 0) ∧ seed1_frame1_i8 (r * 4 + 0) ≤ 127) ∧
      (emitted_columns (decoded_tensor seed1_frame1_i8) 4 6 4)[0]? = some 0 ∧
      (perform_tracking_association (object_tracker_init_i8 zero_tracker_state)
          (extract_detections_i8 seed1_frame1_i8 4 6 unwritten_rows).1
          (extract_detections_i8 seed1_frame1_i8 4 6 unwritten_rows).2 50 (3/10)
          (fun _ => false) (fun _ => false)).detection_matched 0 = false ∧
      find_empty_slot
        (create_new_tracks
          (perform_tracking_association (object_tracker_init_i8 zero_tracker_state)
          (extract_detections_i8 seed1_frame1_i8 4 6 unwritten_rows).1
          (extract_detections_i8 seed1_frame1_i8 4 6 unwritten_rows).2 50 (3/10)
          (fun _ => false) (fun _ => false)).state
          (extract_detections_i8 seed1_frame1_i8 4 6 unwritten_rows).1 0 50
          (perform_tracking_association (object_tracker_init_i8 zero_tracker_state)
          (extract_detections_i8 seed1_frame1_i8 4 6 unwritten_rows).1
          (extract_detections_i8 seed1_frame1_i8 4 6 unwritten_rows).2 50 (3/10)
          (fun _ => false) (fun _ => false)).detection_matched).tracks 50 = some 0 ∧
      0 < 4 ∧
      (emitted_slots (object_tracker_i8 seed1_frame1_i8 (object_tracker_init_i8 zero_tracker_state)
        (fun _ => 0) 4 6 (3/10) 50 5 1).1 50 1)[0]? = some 0) ∧
    (float_to_int8 ((((102 : Int) : ℚ) + 128) / 255) = 102 ∧
      (∀ r, r < 4 →
        (object_tracker_i8 seed1_frame1_i8 (object_tracker_init_i8 zero_tracker_state)
        (fun _ => 0) 4 6 (3/10) 50 5 1).2 (r * 4 + 0) = seed1_frame1_i8 (r * 4 + 0)) ∧
      0 ≤ (best_class_i8 seed1_frame1_i8 4 6 0).2 ∧
      (best_class_i8 seed1_frame1_i8 4 6 0).2 + 4 < ((6 : Nat) : Int) ∧
      (∀ r, 4 ≤ r → r < 6 →
        (object_tracker_i8 seed1_frame1_i8 (object_tracker_init_i8 zero_tracker_state)
        (fun _ => 0) 4 6 (3/10) 50 5 1).2 (r * 4 + 0) =
          if (r : Int) - 4 = (best_class_i8 seed1_frame1_i8 4 6 0).2 then
            seed1_frame1_i8 (r * 4 + 0)
          else -128)) :=
  ⟨⟨by decide, by decide, by decide, by decide!, by decide!, by decide!, by decide!, by decide,
      by decide!⟩,
    encoding_undoes_decoding 102 seed1_frame1_i8 (object_tracker_init_i8 zero_tracker_state)
      (fun _ => 0) 4 6 (3/10) 50 5 1 0 0 0 0 (by decide) (by decide) (by decide) (by decide!)
      (by decide!) (Or.inr ⟨by decide!, by decide!⟩) (by decide) (by decide!)⟩

end Imaginet
